import Mathlib

/-! # ROKOR_Mesh_FLP: role negotiation and gateway membership

A shallow embedding of `src/ROKOR_Mesh_FLP.cpp` / `src/ROKOR_Mesh_FLP.h`.

* 8-bit and 32-bit machine integers are natural numbers; every place where the
  C++ arithmetic can wrap carries an explicit `% 256` or `% 4294967296`.
* The coordinator object is the record `Mesh`; a member function becomes a
  function `Mesh → ... → Mesh × List Effect`, where the list holds, in program
  order, what the function hands to its collaborators (packet transport, radio
  peer table, host callbacks).
* `_known_nodes` is the fixed array of `MAX_NODES_PER_GATEWAY` slots together
  with `_known_nodes_count`; loops over it are written as index loops.
* What the platform answers during one call into the coordinator is the argument
  `Env` (or `BeginEnv`); every `millis()` of that call returns `Env.millis`.
* Debug printing (`ROKOR_MESH_DEBUG_SERIAL`) has no effect on the state and is
  left out.
-/

namespace RokorMesh

/-! ## Constants -/

/-- Header constant `ROKOR_MESH_DEFAULT_GATEWAY_ID`. -/
abbrev ROKOR_MESH_DEFAULT_GATEWAY_ID : Nat := 1
/-- Header constant `ROKOR_MESH_MAX_NETWORK_NAME_LEN`. -/
abbrev ROKOR_MESH_MAX_NETWORK_NAME_LEN : Nat := 32
/-- Header constant `ROKOR_MESH_ESPNOW_PMK_LEN`. -/
abbrev ROKOR_MESH_ESPNOW_PMK_LEN : Nat := 16
/-- Header constant `ROKOR_MESH_MAX_PAYLOAD_SIZE`. -/
abbrev ROKOR_MESH_MAX_PAYLOAD_SIZE : Nat := 200
/-- Class constant `MAX_NODES_PER_GATEWAY`. -/
abbrev MAX_NODES_PER_GATEWAY : Nat := 30
/-- ESP-IDF constant `ESP_NOW_ETH_ALEN`, the length of a MAC address. -/
abbrev ESP_NOW_ETH_ALEN : Nat := 6

/-- Modelled from the spec: the PJON header that defines `PJON_NOT_ASSIGNED` is not
part of the repository. The spec reserves the 8-bit ids `0` and `255` and names a
distinguished `UNASSIGNED` sentinel; the code tests `id == 0` and
`id == PJON_NOT_ASSIGNED` side by side and accepts every id `1..254` as valid, so
the sentinel is the remaining 8-bit value `255`. -/
abbrev PJON_NOT_ASSIGNED : Nat := 255

/-- Modelled from the spec: `PJON_BROADCAST_ADDRESS` is declared outside the
repository; the spec gives `255` as the broadcast address of the packet transport. -/
abbrev PJON_BROADCAST_ADDRESS : Nat := 255

/-- Modelled from the spec: the transport error code `PJON_CONNECTION_LOST` is declared
outside the repository; only equality with it is ever tested, the value is PJON's. -/
abbrev PJON_CONNECTION_LOST : Nat := 101

/-- Modelled from the spec: the answers `PJON_ACK`, `PJON_BUSY` and `PJON_FAIL` of
`_pjon_bus.send` are declared outside the repository; the spec names the answers Ack,
Busy, Fail and Queued, only equality with the three constants is ever tested, the values
are PJON's. -/
abbrev PJON_ACK : Nat := 6
abbrev PJON_BUSY : Nat := 666
abbrev PJON_FAIL : Nat := 65535

/-- The timing constants at the head of the source file, in milliseconds. -/
abbrev DEFAULT_DISCOVERY_TIMEOUT_MS : Nat := 5000
abbrev DEFAULT_CONTENTION_WINDOW_MS : Nat := 1500
abbrev DEFAULT_GATEWAY_ANNOUNCE_INTERVAL_MS : Nat := 10000
abbrev DEFAULT_NODE_PING_INTERVAL_MS : Nat := 30000
abbrev DEFAULT_NODE_MAX_PING_ATTEMPTS : Nat := 3
abbrev GATEWAY_MIN_ANNOUNCE_INTERVAL_MS : Nat := 2000
abbrev NODE_ID_REQUEST_TIMEOUT_MS : Nat := 5000
/-- Source constant `(DEFAULT_NODE_PING_INTERVAL_MS * (DEFAULT_NODE_MAX_PING_ATTEMPTS + 2)) + 10000`:
the period of the inactivity sweep. -/
abbrev NODE_CLEANUP_INTERVAL_MS : Nat :=
  (DEFAULT_NODE_PING_INTERVAL_MS * (DEFAULT_NODE_MAX_PING_ATTEMPTS + 2)) + 10000
/-- Source constant `DEFAULT_NODE_PING_INTERVAL_MS * (DEFAULT_NODE_MAX_PING_ATTEMPTS + 1)`:
the silence after which a record is removed. -/
abbrev NODE_INACTIVITY_THRESHOLD_MS : Nat :=
  DEFAULT_NODE_PING_INTERVAL_MS * (DEFAULT_NODE_MAX_PING_ATTEMPTS + 1)

/-- Enumerators of `ROKOR_Mesh_Role`. The role is kept as its underlying integer because
`loadConfigFromNVS` casts a stored byte to the enumeration without a range check. -/
abbrev ROLE_UNINITIALIZED : Nat := 0
abbrev ROLE_DISCOVERING : Nat := 1
abbrev ROLE_NODE : Nat := 2
abbrev ROLE_GATEWAY : Nat := 3
abbrev ROLE_ERROR : Nat := 4

/-- Tags of `enum class MeshDiscoveryMessage`. -/
abbrev GATEWAY_ANNOUNCE : Nat := 0xD1
abbrev NODE_ID_REQUEST : Nat := 0xD2
abbrev NODE_ID_ASSIGN : Nat := 0xD3
abbrev NODE_ID_ACK : Nat := 0xD4
abbrev NODE_PING_GATEWAY : Nat := 0xD5
abbrev GATEWAY_PONG_NODE : Nat := 0xD6

/-! ## Data model -/

/-- The states of `enum class DiscoveryFSM`. -/
inductive DiscoveryFSM where
  | INIT_STATE
  | LOAD_NVS_CONFIG
  | CHECK_FORCED_ROLE
  | LISTEN_FOR_GATEWAY
  | GATEWAY_ELECTION_DELAY
  | ANNOUNCE_AS_GATEWAY
  | REQUEST_NODE_ID
  | OPERATIONAL_NODE
  | OPERATIONAL_GATEWAY
  | ERROR_STATE
  deriving DecidableEq, Repr

/-- A MAC address: the 6 bytes a `uint8_t[6]` holds or a `const uint8_t *` points at.
`memcmp(a, b, ESP_NOW_ETH_ALEN) == 0` is equality and `memcpy` is a copy of the value. -/
abbrev Mac := List Nat

/-- The all-zero MAC `_esp_now_null_mac`. -/
abbrev esp_now_null_mac : Mac := [0, 0, 0, 0, 0, 0]
/-- The broadcast MAC `_esp_now_broadcast_mac`. -/
abbrev esp_now_broadcast_mac : Mac := [255, 255, 255, 255, 255, 255]

/-- The record `struct NodeInfo` of the membership table. -/
structure NodeInfo where
  pjon_id : Nat
  mac_addr : Mac
  last_seen : Nat
  id_assigned_this_session : Bool
  deriving DecidableEq, Repr

/-- The content `initNodeManagement` gives every slot. -/
def NodeInfo.blank : NodeInfo :=
  { pjon_id := PJON_NOT_ASSIGNED, mac_addr := esp_now_null_mac, last_seen := 0,
    id_assigned_this_session := false }

instance : Inhabited NodeInfo := ⟨NodeInfo.blank⟩

/-- The part of `PJON_Packet_Info` the coordinator reads. -/
structure PJON_Packet_Info where
  sender_id : Nat
  sender_ethernet_address : Mac
  deriving DecidableEq, Repr

/-- The part of the `PJON<ESPNOW>` object the coordinator observes: the device id given
by `set_id`, the bus id given by `set_bus_id`, and what `is_listening()` answers. -/
structure PjonBus where
  device_id : Nat
  bus_id : List Nat
  listening : Bool
  deriving DecidableEq, Repr

/-- The persistent key/value namespace `rokor_mesh`: one optional value per key. -/
structure Nvs where
  net_name : Option (List Nat)
  role : Option Nat
  pjon_id : Option Nat
  bus_id : Option (List Nat)
  channel : Option Nat
  gw_pjonid : Option Nat
  gw_mac : Option (List Nat)
  deriving DecidableEq, Repr

/-- The store with every key erased. -/
def Nvs.empty : Nvs :=
  { net_name := none, role := none, pjon_id := none, bus_id := none, channel := none,
    gw_pjonid := none, gw_mac := none }

/-- What a member function hands to its collaborators. A `send` stands for
`set_receiver_mac`, `set_receiver_id` and `_pjon_bus.send` together. -/
inductive Effect where
  | pjon_send (receiver_mac : Mac) (receiver_id : Nat) (payload : List Nat)
  | add_peer (mac : Mac) (channel : Nat) (encrypt : Bool)
  | del_peer (mac : Mac)
  | node_status_cb (nodeId : Nat) (isConnected : Bool)
  | gateway_status_cb (connected : Bool)
  | receive_cb (senderId : Nat) (payload : List Nat)
  deriving DecidableEq, Repr

/-- What the platform answers during one call into the coordinator: the value of
`millis()`, whether `_pjon_bus.begin()` leaves the bus listening, whether `nvs_open`
succeeds, and the value of `esp_random()`. -/
structure Env where
  millis : Nat
  pjon_begin_ok : Bool
  nvs_open_ok : Bool
  esp_random : Nat
  deriving DecidableEq, Repr

/-- The data members of `class ROKOR_Mesh` (a registered callback is `true`), with the
persistent store the object reads and writes. -/
structure Mesh where
  _pjon_bus : PjonBus
  _pjon_bus_id : List Nat
  _network_name_stored : List Nat
  _esp_now_pmk : List Nat
  _is_custom_pmk_set : Bool
  _current_role : Nat
  _myPjonId : Nat
  _gatewayPjonId : Nat
  _espNowChannel : Nat
  _pjonIdForGatewayUse : Nat
  _forced_role_active : Bool
  _user_receive_cb : Bool
  _user_gateway_status_cb : Bool
  _user_node_status_cb : Bool
  _is_begun : Bool
  _fsm_state : DiscoveryFSM
  _fsm_timer_start : Nat
  _my_mac_addr : Mac
  _gateway_mac_addr : Mac
  _discovery_timeout_ms : Nat
  _gateway_contention_window_ms : Nat
  _gateway_announce_interval_ms : Nat
  _node_ping_gateway_interval_ms : Nat
  _node_max_gateway_ping_attempts : Nat
  _last_gateway_announce_time : Nat
  _current_gateway_connected_status : Bool
  _last_ack_from_gateway_time : Nat
  _next_gateway_ping_time : Nat
  _failed_gateway_pings_count : Nat
  _known_nodes : List NodeInfo
  _known_nodes_count : Nat
  _next_available_node_id_candidate : Nat
  _last_node_cleanup_time : Nat
  _contention_delay_value : Nat
  nvs : Nvs
  deriving DecidableEq, Repr

/-! ## Machine arithmetic and C strings -/

/-- Subtraction of two `uint32_t` values. -/
def sub32 (a b : Nat) : Nat := (a % 4294967296 + 4294967296 - b % 4294967296) % 4294967296

/-- Addition of two `uint32_t` values. -/
def add32 (a b : Nat) : Nat := (a + b) % 4294967296

/-- Increment of a `uint8_t`. -/
def inc8 (a : Nat) : Nat := (a + 1) % 256

/-- The C `strlen` of a character buffer: the number of bytes before the first NUL. -/
def strlen (buf : List Nat) : Nat := (buf.takeWhile (fun c => c != 0)).length

/-! ## Gateway membership table -/

/-- The loop `for (int i = start; i < count; ++i) if (p(_known_nodes[i])) return i;`
followed by `return -1`: `remaining` is `count - start`, `none` is `-1`. -/
def scanLoop (p : NodeInfo → Bool) (nodes : List NodeInfo) : (remaining : Nat) → (i : Nat) → Option Nat
  | 0, _ => none
  | remaining + 1, i =>
    if p (nodes.getD i NodeInfo.blank) then some i else scanLoop p nodes remaining (i + 1)

/-- Member `initNodeManagement`. -/
def initNodeManagement (s : Mesh) : Mesh :=
  { s with
    _known_nodes_count := 0
    _next_available_node_id_candidate := 2
    _known_nodes := List.replicate MAX_NODES_PER_GATEWAY NodeInfo.blank }

/-- Member `findNodeByMac` (`none` is `-1`). -/
def findNodeByMac (s : Mesh) (mac : Mac) : Option Nat :=
  scanLoop (fun r => r.mac_addr == mac) s._known_nodes s._known_nodes_count 0

/-- Member `findNodeById` (`none` is `-1`). -/
def findNodeById (s : Mesh) (id : Nat) : Option Nat :=
  if id = PJON_NOT_ASSIGNED then none
  else scanLoop (fun r => r.pjon_id == id) s._known_nodes s._known_nodes_count 0

/-- Member `updateNodeStatus`: the host callback, when one is registered. -/
def updateNodeStatus (s : Mesh) (nodeId : Nat) (isConnected : Bool) : List Effect :=
  if s._user_node_status_cb then [Effect.node_status_cb nodeId isConnected] else []

/-- Member `addEspNowPeer`: one peer registration, its `encrypt` flag being
`encrypt_link && strlen(_esp_now_pmk) > 0`. -/
def addEspNowPeer (s : Mesh) (mac_address : Mac) (channel : Nat) (encrypt_link : Bool) : List Effect :=
  [Effect.add_peer mac_address channel (encrypt_link && decide (strlen s._esp_now_pmk > 0))]

/-- Member `sendPjonIdAssignment`: the payload `[NODE_ID_ASSIGN, assigned_id, target_mac]`
sent to `target_mac` under the broadcast id. -/
def sendPjonIdAssignment (assigned_id : Nat) (target_mac : Mac) : List Effect :=
  [Effect.pjon_send target_mac PJON_BROADCAST_ADDRESS
    (NODE_ID_ASSIGN :: assigned_id :: target_mac)]

/-- The id search of `handleNodeIdRequest`: `for (attempt = 0; attempt < 254; ++attempt)`,
run for `attempts` more rounds from candidate `cand`. The result is the id found (if any)
and the value left in `_next_available_node_id_candidate`. -/
def searchLoop (myPjonId : Nat) (nodes : List NodeInfo) (count : Nat) :
    (attempts : Nat) → (cand : Nat) → Option Nat × Nat
  | 0, cand => (none, cand)
  | attempts + 1, cand =>
    let c := if cand = myPjonId ∨ cand = 0 ∨ cand > 254 then 2 else cand
    match scanLoop (fun r => r.pjon_id == c) nodes count 0 with
    | none => (some c, inc8 c)
    | some _ => searchLoop myPjonId nodes count attempts (inc8 c)

/-- The tail of `handleNodeIdRequest` shared by both branches: register the peer, send the
assignment, report the node as connected. -/
def answerIdRequest (s : Mesh) (request_info : PJON_Packet_Info) (mac_from_payload : Mac)
    (assigned_id_to_send : Nat) : List Effect :=
  let mac_to_add_peer :=
    if request_info.sender_ethernet_address ≠ esp_now_null_mac
    then request_info.sender_ethernet_address else mac_from_payload
  addEspNowPeer s mac_to_add_peer s._espNowChannel (decide (strlen s._esp_now_pmk > 0))
    ++ sendPjonIdAssignment assigned_id_to_send mac_to_add_peer
    ++ updateNodeStatus s assigned_id_to_send true

/-- Member `handleNodeIdRequest`, called when `millis()` is `now`, with the requester MAC
the packet body starts with. -/
def handleNodeIdRequest (s : Mesh) (now : Nat) (request_info : PJON_Packet_Info)
    (mac_from_payload : Mac) : Mesh × List Effect :=
  match scanLoop (fun r => r.mac_addr == mac_from_payload) s._known_nodes s._known_nodes_count 0 with
  | some existing_node_idx =>
    let assigned_id_to_send := (s._known_nodes.getD existing_node_idx NodeInfo.blank).pjon_id
    let s1 := { s with
      _known_nodes := s._known_nodes.set existing_node_idx
        { s._known_nodes.getD existing_node_idx NodeInfo.blank with last_seen := now } }
    (s1, answerIdRequest s1 request_info mac_from_payload assigned_id_to_send)
  | none =>
    if s._known_nodes_count ≥ MAX_NODES_PER_GATEWAY then (s, [])
    else
      match searchLoop s._myPjonId s._known_nodes s._known_nodes_count 254
          s._next_available_node_id_candidate with
      | (none, cand) => ({ s with _next_available_node_id_candidate := cand }, [])
      | (some assigned_id_to_send, cand) =>
        let s1 := { s with
          _next_available_node_id_candidate := cand
          _known_nodes := s._known_nodes.set s._known_nodes_count
            { pjon_id := assigned_id_to_send, mac_addr := mac_from_payload,
              last_seen := now, id_assigned_this_session := true }
          _known_nodes_count := inc8 s._known_nodes_count }
        (s1, answerIdRequest s1 request_info mac_from_payload assigned_id_to_send)

/-- The inner loop of `cleanupInactiveNodes`:
`for (int j = i; j < _known_nodes_count - 1; ++j) _known_nodes[j] = _known_nodes[j + 1];`
with `remaining` the number of rounds left. -/
def shiftLoop : (remaining : Nat) → (j : Nat) → List NodeInfo → List NodeInfo
  | 0, _, nodes => nodes
  | remaining + 1, j, nodes =>
    shiftLoop remaining (j + 1) (nodes.set j (nodes.getD (j + 1) NodeInfo.blank))

/-- The outer loop of `cleanupInactiveNodes` from index `i`. Every round either removes
the record at `i` (count and index both step back, so the same index is looked at again)
or moves to `i + 1`; `remaining` is `_known_nodes_count - i`, the number of rounds left.
The result is the array, the count and the effects. -/
def cleanupLoop (cb : Bool) (current_time : Nat) :
    (remaining : Nat) → (i : Nat) → List NodeInfo → (count : Nat) → List NodeInfo × Nat × List Effect
  | 0, _, nodes, count => (nodes, count, [])
  | remaining + 1, i, nodes, count =>
    let r := nodes.getD i NodeInfo.blank
    if sub32 current_time r.last_seen > NODE_INACTIVITY_THRESHOLD_MS then
      let eff := (if cb then [Effect.node_status_cb r.pjon_id false] else []) ++ [Effect.del_peer r.mac_addr]
      let rest := cleanupLoop cb current_time remaining i (shiftLoop (count - 1 - i) i nodes) (count - 1)
      (rest.1, rest.2.1, eff ++ rest.2.2)
    else cleanupLoop cb current_time remaining (i + 1) nodes count

/-- Member `cleanupInactiveNodes`, run when `millis()` is `current_time`. -/
def cleanupInactiveNodes (s : Mesh) (current_time : Nat) : Mesh × List Effect :=
  let res := cleanupLoop s._user_node_status_cb current_time s._known_nodes_count 0
    s._known_nodes s._known_nodes_count
  ({ s with _known_nodes := res.1, _known_nodes_count := res.2.1 }, res.2.2)

/-! ## Control messages sent by the coordinator -/

/-- Member `sendGatewayAnnounce`: the broadcast peer is registered and
`[GATEWAY_ANNOUNCE, _my_mac_addr]` is sent to the broadcast MAC and id. -/
def sendGatewayAnnounce (s : Mesh) : List Effect :=
  addEspNowPeer s esp_now_broadcast_mac s._espNowChannel (decide (strlen s._esp_now_pmk > 0))
    ++ [Effect.pjon_send esp_now_broadcast_mac PJON_BROADCAST_ADDRESS
          (GATEWAY_ANNOUNCE :: s._my_mac_addr)]

/-- Member `sendNodeIdRequest`: nothing is sent while the gateway id or MAC is unknown. -/
def sendNodeIdRequest (s : Mesh) : List Effect :=
  if s._gatewayPjonId = PJON_NOT_ASSIGNED ∨ s._gateway_mac_addr = esp_now_null_mac then []
  else [Effect.pjon_send s._gateway_mac_addr s._gatewayPjonId (NODE_ID_REQUEST :: s._my_mac_addr)]

/-- Member `sendNodeIdAck`: nothing is sent while the gateway id or MAC is unknown. -/
def sendNodeIdAck (s : Mesh) : List Effect :=
  if s._gatewayPjonId = PJON_NOT_ASSIGNED ∨ s._gateway_mac_addr = esp_now_null_mac then []
  else [Effect.pjon_send s._gateway_mac_addr s._gatewayPjonId [NODE_ID_ACK]]

/-! ## Persistent configuration

Once `nvs_open` has succeeded, the single-key reads and writes and `nvs_commit` are taken
to succeed whenever the key exists; a network name is the byte string before its NUL. -/

/-- Member `saveConfigToNVS`. -/
def saveConfigToNVS (s : Mesh) (env : Env) : Mesh :=
  if s._current_role = ROLE_UNINITIALIZED ∨ s._current_role = ROLE_DISCOVERING
      ∨ s._current_role = ROLE_ERROR then s
  else if env.nvs_open_ok then
    let n1 : Nvs := { s.nvs with
      net_name := some s._network_name_stored
      role := some (s._current_role % 256)
      pjon_id := some s._myPjonId
      bus_id := some s._pjon_bus_id
      channel := some s._espNowChannel }
    let n2 : Nvs :=
      if s._current_role = ROLE_NODE then
        let n := { n1 with gw_pjonid := some s._gatewayPjonId }
        if s._gateway_mac_addr ≠ esp_now_null_mac then { n with gw_mac := some s._gateway_mac_addr }
        else n
      else n1
    { s with nvs := n2 }
  else s

/-- Member `clearConfigNVS`. -/
def clearConfigNVS (s : Mesh) (env : Env) : Mesh :=
  if env.nvs_open_ok then { s with nvs := Nvs.empty } else s

/-- Member `loadConfigFromNVS`: the state with the fields read so far, and the result. -/
def loadConfigFromNVS (s : Mesh) (env : Env) : Mesh × Bool :=
  if env.nvs_open_ok then
    if s.nvs.net_name = some s._network_name_stored then
      let s1 := { s with
        _current_role := (s.nvs.role.getD ROLE_UNINITIALIZED)
        _myPjonId := (s.nvs.pjon_id.getD PJON_NOT_ASSIGNED) }
      if s.nvs.channel ≠ some s._espNowChannel then (s1, false)
      else
        let s2 :=
          if s1._current_role = ROLE_NODE then
            { s1 with
              _gatewayPjonId := (s.nvs.gw_pjonid.getD PJON_NOT_ASSIGNED)
              _gateway_mac_addr := (s.nvs.gw_mac.getD esp_now_null_mac) }
          else s1
        (s2, decide (s2._current_role = ROLE_NODE ∨ s2._current_role = ROLE_GATEWAY))
    else (s, false)
  else (s, false)

/-! ## Packet transport set-up -/

/-- The call `_pjon_bus.end()`. -/
def pjonEnd (s : Mesh) : Mesh :=
  { s with _pjon_bus := { s._pjon_bus with listening := false } }

/-- Member `initializePjonStack`. -/
def initializePjonStack (s : Mesh) (env : Env) (pjon_id : Nat) (bus_id : List Nat)
    (is_gateway : Bool) : Mesh × List Effect :=
  let s1 := if s._pjon_bus.listening then pjonEnd s else s
  let eff :=
    if is_gateway then
      addEspNowPeer s1 esp_now_broadcast_mac s1._espNowChannel (decide (strlen s1._esp_now_pmk > 0))
    else if s1._gateway_mac_addr ≠ esp_now_null_mac then
      addEspNowPeer s1 s1._gateway_mac_addr s1._espNowChannel (decide (strlen s1._esp_now_pmk > 0))
    else []
  let s2 := { s1 with
    _pjon_bus := { device_id := pjon_id, bus_id := bus_id.take 4, listening := env.pjon_begin_ok } }
  if s2._pjon_bus.listening then (s2, eff)
  else ({ s2 with _fsm_state := DiscoveryFSM.ERROR_STATE }, eff)

/-! ## Receiver and transport error handler -/

/-- The first block of `actualPjonReceiver`, taken when a `GATEWAY_ANNOUNCE` with a body of
at least 6 bytes arrives in a listening state: the body `actual_payload` starts with the
gateway MAC. -/
def receiveAnnounceWhileListening (s : Mesh) (env : Env) (actual_payload : List Nat)
    (packet_info : PJON_Packet_Info) : Mesh × List Effect :=
  let s1 := { s with
    _gatewayPjonId := packet_info.sender_id
    _gateway_mac_addr := actual_payload.take ESP_NOW_ETH_ALEN }
  let eff := addEspNowPeer s1 s1._gateway_mac_addr s1._espNowChannel (decide (strlen s1._esp_now_pmk > 0))
  if s1._current_role = ROLE_DISCOVERING ∨ (s1._forced_role_active = true ∧ s1._current_role = ROLE_NODE) then
    if s1._myPjonId = PJON_NOT_ASSIGNED ∨ s1._myPjonId = 0 then
      let s2 := { s1 with
        _fsm_state := DiscoveryFSM.REQUEST_NODE_ID
        _fsm_timer_start := env.millis }
      (s2, eff ++ sendNodeIdRequest s2)
    else
      let s2 := saveConfigToNVS { s1 with _current_role := ROLE_NODE } env
      ({ s2 with
          _fsm_state := DiscoveryFSM.OPERATIONAL_NODE
          _current_gateway_connected_status := false
          _next_gateway_ping_time := env.millis
          _failed_gateway_pings_count := 0 }, eff)
  else (s1, eff)

/-- The branch `_current_role == ROLE_GATEWAY` of `actualPjonReceiver`. -/
def receiveAsGateway (s : Mesh) (env : Env) (payload : List Nat) (msg_type : Nat)
    (actual_payload : List Nat) (packet_info : PJON_Packet_Info) : Mesh × List Effect :=
  if msg_type = NODE_ID_REQUEST ∧ actual_payload.length ≥ ESP_NOW_ETH_ALEN then
    handleNodeIdRequest s env.millis packet_info (actual_payload.take ESP_NOW_ETH_ALEN)
  else if msg_type = NODE_ID_ACK then
    match findNodeById s packet_info.sender_id with
    | some node_idx =>
      let s1 := { s with
        _known_nodes := s._known_nodes.set node_idx
          { s._known_nodes.getD node_idx NodeInfo.blank with
            id_assigned_this_session := false, last_seen := env.millis } }
      (s1, updateNodeStatus s1 packet_info.sender_id true)
    | none => (s, [])
  else if msg_type = NODE_PING_GATEWAY then
    match findNodeById s packet_info.sender_id with
    | some node_idx =>
      let s1 := { s with
        _known_nodes := s._known_nodes.set node_idx
          { s._known_nodes.getD node_idx NodeInfo.blank with last_seen := env.millis } }
      (s1, [Effect.pjon_send (s1._known_nodes.getD node_idx NodeInfo.blank).mac_addr
              packet_info.sender_id [GATEWAY_PONG_NODE]]
            ++ updateNodeStatus s1 packet_info.sender_id true)
    | none => (s, [])
  else
    (s, if s._user_receive_cb then [Effect.receive_cb packet_info.sender_id payload] else [])

/-- The branch `_current_role == ROLE_NODE` of `actualPjonReceiver`. -/
def receiveAsNode (s : Mesh) (env : Env) (payload : List Nat) (msg_type : Nat)
    (actual_payload : List Nat) (packet_info : PJON_Packet_Info) : Mesh × List Effect :=
  if packet_info.sender_id = s._gatewayPjonId then
    if msg_type = NODE_ID_ASSIGN ∧ actual_payload.length ≥ 1 + ESP_NOW_ETH_ALEN then
      let assigned_id := actual_payload.headD 0
      let target_mac := (actual_payload.drop 1).take ESP_NOW_ETH_ALEN
      if target_mac = s._my_mac_addr then
        let s1 := { s with
          _myPjonId := assigned_id
          _pjon_bus := { s._pjon_bus with device_id := assigned_id } }
        let ack := sendNodeIdAck s1
        let s2 := saveConfigToNVS { s1 with _current_role := ROLE_NODE } env
        ({ s2 with
            _fsm_state := DiscoveryFSM.OPERATIONAL_NODE
            _current_gateway_connected_status := true
            _last_ack_from_gateway_time := env.millis
            _failed_gateway_pings_count := 0
            _next_gateway_ping_time := add32 env.millis s2._node_ping_gateway_interval_ms },
          ack ++ (if s2._user_gateway_status_cb then [Effect.gateway_status_cb true] else []))
      else (s, [])
    else if msg_type = GATEWAY_PONG_NODE then
      let s1 := { s with
        _last_ack_from_gateway_time := env.millis
        _failed_gateway_pings_count := 0 }
      if s1._current_gateway_connected_status = false then
        ({ s1 with _current_gateway_connected_status := true },
          if s1._user_gateway_status_cb then [Effect.gateway_status_cb true] else [])
      else (s1, [])
    else if msg_type = GATEWAY_ANNOUNCE then
      if packet_info.sender_id = s._gatewayPjonId ∧ actual_payload.length ≥ ESP_NOW_ETH_ALEN then
        let s1 := { s with _gateway_mac_addr := actual_payload.take ESP_NOW_ETH_ALEN }
        (s1, addEspNowPeer s1 s1._gateway_mac_addr s1._espNowChannel
              (decide (strlen s1._esp_now_pmk > 0)))
      else (s, [])
    else
      (s, if s._user_receive_cb then [Effect.receive_cb packet_info.sender_id payload] else [])
  else (s, [])

/-- The second half of `actualPjonReceiver`: dispatch on the current role. -/
def receiveByRole (s : Mesh) (env : Env) (payload : List Nat) (msg_type : Nat)
    (actual_payload : List Nat) (packet_info : PJON_Packet_Info) : Mesh × List Effect :=
  if s._current_role = ROLE_GATEWAY then
    receiveAsGateway s env payload msg_type actual_payload packet_info
  else if s._current_role = ROLE_NODE then
    receiveAsNode s env payload msg_type actual_payload packet_info
  else (s, [])

/-- Member `actualPjonReceiver`; `payload` is the `length` bytes at the pointer, and a
null pointer or `length == 0` is the empty list. -/
def actualPjonReceiver (s : Mesh) (env : Env) (payload : List Nat)
    (packet_info : PJON_Packet_Info) : Mesh × List Effect :=
  match payload with
  | [] => (s, [])
  | msg_type :: actual_payload =>
    if s._fsm_state = DiscoveryFSM.LISTEN_FOR_GATEWAY
        ∨ s._fsm_state = DiscoveryFSM.GATEWAY_ELECTION_DELAY
        ∨ (s._fsm_state = DiscoveryFSM.CHECK_FORCED_ROLE ∧ s._current_role = ROLE_NODE
            ∧ (s._myPjonId = PJON_NOT_ASSIGNED ∨ s._myPjonId = 0)) then
      if msg_type = GATEWAY_ANNOUNCE ∧ actual_payload.length ≥ ESP_NOW_ETH_ALEN then
        receiveAnnounceWhileListening s env actual_payload packet_info
      else receiveByRole s env payload msg_type actual_payload packet_info
    else receiveByRole s env payload msg_type actual_payload packet_info

/-- Member `actualPjonError`; `data` is the 16-bit argument, narrowed to 8 bits where it is
passed on as a node id. -/
def actualPjonError (s : Mesh) (env : Env) (code : Nat) (data : Nat) : Mesh × List Effect :=
  if code = PJON_CONNECTION_LOST then
    if s._current_role = ROLE_NODE ∧ data = s._gatewayPjonId then
      let eff := if s._user_gateway_status_cb then [Effect.gateway_status_cb false] else []
      let s1 := pjonEnd { s with
        _current_gateway_connected_status := false
        _fsm_state := DiscoveryFSM.LISTEN_FOR_GATEWAY
        _fsm_timer_start := env.millis
        _gatewayPjonId := PJON_NOT_ASSIGNED
        _gateway_mac_addr := esp_now_null_mac }
      let r := initializePjonStack s1 env PJON_NOT_ASSIGNED s1._pjon_bus_id false
      (r.1, eff ++ r.2)
    else if s._current_role = ROLE_GATEWAY then
      match findNodeById s (data % 256) with
      | some _ => (s, updateNodeStatus s (data % 256) false)
      | none => (s, [])
    else (s, [])
  else (s, [])

/-! ## Periodic work -/

/-- The disconnection path shared by `operateAsNode`: back to `LISTEN_FOR_GATEWAY` with the
transport restarted on `PJON_NOT_ASSIGNED`. -/
def restartListening (s : Mesh) (env : Env) : Mesh × List Effect :=
  initializePjonStack (pjonEnd s) env PJON_NOT_ASSIGNED s._pjon_bus_id false

/-- Member `operateAsNode`. -/
def operateAsNode (s : Mesh) (env : Env) : Mesh × List Effect :=
  let current_time := env.millis
  if s._gatewayPjonId = PJON_NOT_ASSIGNED then
    let eff1 := if s._current_gateway_connected_status ∧ s._user_gateway_status_cb
      then [Effect.gateway_status_cb false] else []
    let s1 := { s with _current_gateway_connected_status := false }
    if s1._fsm_state = DiscoveryFSM.OPERATIONAL_NODE then
      let r := restartListening { s1 with
        _fsm_state := DiscoveryFSM.LISTEN_FOR_GATEWAY
        _fsm_timer_start := current_time } env
      (r.1, eff1 ++ r.2)
    else (s1, eff1)
  else if current_time ≥ s._next_gateway_ping_time then
    if s._failed_gateway_pings_count ≥ s._node_max_gateway_ping_attempts then
      let eff1 := if s._current_gateway_connected_status ∧ s._user_gateway_status_cb
        then [Effect.gateway_status_cb false] else []
      let r := restartListening { s with
        _current_gateway_connected_status := false
        _fsm_state := DiscoveryFSM.LISTEN_FOR_GATEWAY
        _fsm_timer_start := current_time
        _gatewayPjonId := PJON_NOT_ASSIGNED
        _gateway_mac_addr := esp_now_null_mac } env
      (r.1, eff1 ++ r.2)
    else
      ({ s with
          _failed_gateway_pings_count := inc8 s._failed_gateway_pings_count
          _next_gateway_ping_time := add32 current_time s._node_ping_gateway_interval_ms },
        [Effect.pjon_send s._gateway_mac_addr s._gatewayPjonId [NODE_PING_GATEWAY]])
  else (s, [])

/-- Member `operateAsGateway`. -/
def operateAsGateway (s : Mesh) (env : Env) : Mesh × List Effect :=
  let current_time := env.millis
  let r1 : Mesh × List Effect :=
    if sub32 current_time s._last_gateway_announce_time ≥ s._gateway_announce_interval_ms then
      ({ s with _last_gateway_announce_time := current_time }, sendGatewayAnnounce s)
    else (s, [])
  if sub32 current_time r1.1._last_node_cleanup_time ≥ NODE_CLEANUP_INTERVAL_MS then
    let r2 := cleanupInactiveNodes r1.1 current_time
    ({ r2.1 with _last_node_cleanup_time := current_time }, r1.2 ++ r2.2)
  else r1

/-! ## Discovery state machine -/

/-- The case `LOAD_NVS_CONFIG` of `runDiscoveryFSM`. -/
def fsmLoadNvsConfig (s : Mesh) (env : Env) : Mesh × List Effect :=
  let current_time := env.millis
  let l := loadConfigFromNVS s env
  if l.2 then
    let r := initializePjonStack l.1 env l.1._myPjonId l.1._pjon_bus_id
      (decide (l.1._current_role = ROLE_GATEWAY))
    let s1 := r.1
    if ¬ s1._pjon_bus.listening then
      ({ s1 with _fsm_state := DiscoveryFSM.ERROR_STATE }, r.2)
    else if s1._current_role = ROLE_NODE then
      if s1._gatewayPjonId ≠ PJON_NOT_ASSIGNED ∧ s1._gateway_mac_addr ≠ esp_now_null_mac then
        ({ s1 with
            _current_gateway_connected_status := false
            _next_gateway_ping_time := current_time
            _failed_gateway_pings_count := 0
            _fsm_state := DiscoveryFSM.OPERATIONAL_NODE
            _fsm_timer_start := current_time },
          r.2 ++ addEspNowPeer s1 s1._gateway_mac_addr s1._espNowChannel
            (decide (strlen s1._esp_now_pmk > 0)))
      else
        ({ s1 with
            _current_role := ROLE_DISCOVERING
            _myPjonId := PJON_NOT_ASSIGNED
            _fsm_state := DiscoveryFSM.LISTEN_FOR_GATEWAY
            _fsm_timer_start := current_time }, r.2)
    else
      let s2 := if s1._current_role = ROLE_GATEWAY
        then { initNodeManagement s1 with _last_gateway_announce_time := 0 } else s1
      ({ s2 with
          _fsm_state := DiscoveryFSM.OPERATIONAL_GATEWAY
          _fsm_timer_start := current_time }, r.2)
  else
    let s1 := clearConfigNVS l.1 env
    ({ s1 with
        _current_role := ROLE_UNINITIALIZED
        _myPjonId := PJON_NOT_ASSIGNED
        _gatewayPjonId := PJON_NOT_ASSIGNED
        _gateway_mac_addr := esp_now_null_mac
        _fsm_state := DiscoveryFSM.CHECK_FORCED_ROLE
        _fsm_timer_start := current_time }, [])

/-- The case `CHECK_FORCED_ROLE` of `runDiscoveryFSM`. -/
def fsmCheckForcedRole (s : Mesh) (env : Env) : Mesh × List Effect :=
  let current_time := env.millis
  if s._forced_role_active then
    if s._current_role = ROLE_GATEWAY then
      let s0 := { s with _myPjonId := s._pjonIdForGatewayUse }
      let r := initializePjonStack s0 env s0._myPjonId s0._pjon_bus_id true
      if ¬ r.1._pjon_bus.listening then
        ({ r.1 with _fsm_state := DiscoveryFSM.ERROR_STATE }, r.2)
      else
        let s1 := saveConfigToNVS { initNodeManagement r.1 with _last_gateway_announce_time := 0 } env
        ({ s1 with
            _fsm_state := DiscoveryFSM.OPERATIONAL_GATEWAY
            _fsm_timer_start := current_time }, r.2)
    else if s._current_role = ROLE_NODE then
      let r := initializePjonStack s env
        (if s._myPjonId = 0 ∨ s._myPjonId = PJON_NOT_ASSIGNED then PJON_NOT_ASSIGNED else s._myPjonId)
        s._pjon_bus_id false
      if ¬ r.1._pjon_bus.listening then
        ({ r.1 with _fsm_state := DiscoveryFSM.ERROR_STATE }, r.2)
      else
        ({ r.1 with
            _fsm_state := DiscoveryFSM.LISTEN_FOR_GATEWAY
            _fsm_timer_start := current_time }, r.2)
    else
      ({ s with
          _fsm_state := DiscoveryFSM.LISTEN_FOR_GATEWAY
          _fsm_timer_start := current_time }, [])
  else
    let r := initializePjonStack { s with _current_role := ROLE_DISCOVERING } env
      PJON_NOT_ASSIGNED s._pjon_bus_id false
    if ¬ r.1._pjon_bus.listening then
      ({ r.1 with _fsm_state := DiscoveryFSM.ERROR_STATE }, r.2)
    else
      ({ r.1 with
          _fsm_state := DiscoveryFSM.LISTEN_FOR_GATEWAY
          _fsm_timer_start := current_time }, r.2)

/-- The case `ANNOUNCE_AS_GATEWAY` of `runDiscoveryFSM`. -/
def fsmAnnounceAsGateway (s : Mesh) (env : Env) : Mesh × List Effect :=
  let current_time := env.millis
  let s0 := { s with _current_role := ROLE_GATEWAY, _myPjonId := s._pjonIdForGatewayUse }
  let r := initializePjonStack s0 env s0._myPjonId s0._pjon_bus_id true
  if ¬ r.1._pjon_bus.listening then
    ({ r.1 with _fsm_state := DiscoveryFSM.ERROR_STATE }, r.2)
  else
    let s1 := initNodeManagement r.1
    let eff := sendGatewayAnnounce s1
    let s2 := saveConfigToNVS { s1 with _last_gateway_announce_time := current_time } env
    ({ s2 with
        _fsm_state := DiscoveryFSM.OPERATIONAL_GATEWAY
        _fsm_timer_start := current_time }, r.2 ++ eff)

/-- Member `runDiscoveryFSM`. -/
def runDiscoveryFSM (s : Mesh) (env : Env) : Mesh × List Effect :=
  let current_time := env.millis
  match s._fsm_state with
  | DiscoveryFSM.INIT_STATE =>
    ({ s with _fsm_state := DiscoveryFSM.LOAD_NVS_CONFIG, _fsm_timer_start := current_time }, [])
  | DiscoveryFSM.LOAD_NVS_CONFIG => fsmLoadNvsConfig s env
  | DiscoveryFSM.CHECK_FORCED_ROLE => fsmCheckForcedRole s env
  | DiscoveryFSM.LISTEN_FOR_GATEWAY =>
    if sub32 current_time s._fsm_timer_start > s._discovery_timeout_ms then
      (pjonEnd { s with
        _fsm_state := DiscoveryFSM.GATEWAY_ELECTION_DELAY
        _fsm_timer_start := current_time }, [])
    else (s, [])
  | DiscoveryFSM.GATEWAY_ELECTION_DELAY =>
    let s1 := if s._contention_delay_value = 0
      then { s with _contention_delay_value := env.esp_random % s._gateway_contention_window_ms }
      else s
    if sub32 current_time s1._fsm_timer_start > s1._contention_delay_value then
      ({ s1 with
          _fsm_state := DiscoveryFSM.ANNOUNCE_AS_GATEWAY
          _fsm_timer_start := current_time
          _contention_delay_value := 0 }, [])
    else (s1, [])
  | DiscoveryFSM.ANNOUNCE_AS_GATEWAY => fsmAnnounceAsGateway s env
  | DiscoveryFSM.REQUEST_NODE_ID =>
    if sub32 current_time s._fsm_timer_start > NODE_ID_REQUEST_TIMEOUT_MS then
      ({ s with
          _gatewayPjonId := PJON_NOT_ASSIGNED
          _gateway_mac_addr := esp_now_null_mac
          _fsm_state := DiscoveryFSM.LISTEN_FOR_GATEWAY
          _fsm_timer_start := current_time }, [])
    else (s, [])
  | DiscoveryFSM.OPERATIONAL_NODE => (s, [])
  | DiscoveryFSM.OPERATIONAL_GATEWAY => (s, [])
  | DiscoveryFSM.ERROR_STATE => (s, [])

/-! ## Host interface -/

/-- The padding character `preparePmk` writes at position `i`: `R`, `o`, `K`, `r` by
`i % 4`. -/
def pmkPad (i : Nat) : Nat :=
  if i % 4 = 0 then 82 else if i % 4 = 1 then 111 else if i % 4 = 2 then 75 else 114

/-- Member `preparePmk`: the 17-byte buffer it leaves for the C string `input_string`
(the bytes before its NUL). -/
def preparePmk (input_string : List Nat) : List Nat :=
  let str := input_string.takeWhile (fun c => c != 0)
  if str.length = ROKOR_MESH_ESPNOW_PMK_LEN then str ++ [0]
  else
    let copied := str.take ROKOR_MESH_ESPNOW_PMK_LEN
    let input_len := copied.length
    copied ++ (List.range' input_len (ROKOR_MESH_ESPNOW_PMK_LEN - input_len)).map pmkPad ++ [0]

/-- What the platform answers during `begin`: the station MAC (`none` when
`esp_wifi_get_mac` fails), whether NVS flash initialisation ends well, the SHA-1 digest
function of mbedTLS, `millis()`, whether `WiFi.mode(WIFI_STA)` and `espNowInit()` succeed. -/
structure BeginEnv where
  wifi_mac : Option Mac
  nvs_flash_ok : Bool
  sha1 : List Nat → List Nat
  millis : Nat
  wifi_sta_ok : Bool
  esp_now_init_ok : Bool

/-- Member `hashStringToBytes`: the first `min(20, num_bytes)` bytes of the digest. -/
def hashStringToBytes (sha1 : List Nat → List Nat) (str : List Nat) (num_bytes : Nat) : List Nat :=
  (sha1 str).take (min 20 num_bytes)

/-- The object the constructor `ROKOR_Mesh::ROKOR_Mesh` builds, next to the store `nvs`. -/
def construct (nvs : Nvs) : Mesh :=
  initNodeManagement
    { _pjon_bus := { device_id := PJON_NOT_ASSIGNED, bus_id := [0, 0, 0, 0], listening := false }
      _pjon_bus_id := [0, 0, 0, 0]
      _network_name_stored := []
      _esp_now_pmk := List.replicate (ROKOR_MESH_ESPNOW_PMK_LEN + 1) 0
      _is_custom_pmk_set := false
      _current_role := ROLE_UNINITIALIZED
      _myPjonId := PJON_NOT_ASSIGNED
      _gatewayPjonId := PJON_NOT_ASSIGNED
      _espNowChannel := 1
      _pjonIdForGatewayUse := ROKOR_MESH_DEFAULT_GATEWAY_ID
      _forced_role_active := false
      _user_receive_cb := false
      _user_gateway_status_cb := false
      _user_node_status_cb := false
      _is_begun := false
      _fsm_state := DiscoveryFSM.INIT_STATE
      _fsm_timer_start := 0
      _my_mac_addr := esp_now_null_mac
      _gateway_mac_addr := esp_now_null_mac
      _discovery_timeout_ms := DEFAULT_DISCOVERY_TIMEOUT_MS
      _gateway_contention_window_ms := DEFAULT_CONTENTION_WINDOW_MS
      _gateway_announce_interval_ms := DEFAULT_GATEWAY_ANNOUNCE_INTERVAL_MS
      _node_ping_gateway_interval_ms := DEFAULT_NODE_PING_INTERVAL_MS
      _node_max_gateway_ping_attempts := DEFAULT_NODE_MAX_PING_ATTEMPTS
      _last_gateway_announce_time := 0
      _current_gateway_connected_status := false
      _last_ack_from_gateway_time := 0
      _next_gateway_ping_time := 0
      _failed_gateway_pings_count := 0
      _known_nodes := []
      _known_nodes_count := 0
      _next_available_node_id_candidate := 2
      _last_node_cleanup_time := 0
      _contention_delay_value := 0
      nvs := nvs }

/-- Member `begin`; `networkName` is `none` for a null pointer, otherwise the bytes of the
C string. The result is the new state and the returned flag. -/
def begin (s : Mesh) (benv : BeginEnv) (networkName : Option (List Nat)) (espNowChannel : Nat)
    (pjonIdForGatewayRole : Nat) : Mesh × Bool :=
  if s._is_begun then (s, false)
  else
    match networkName with
    | none => (s, false)
    | some name =>
      if strlen name = 0 ∨ strlen name > ROKOR_MESH_MAX_NETWORK_NAME_LEN then (s, false)
      else
        let id0 := if pjonIdForGatewayRole = 0 ∨ pjonIdForGatewayRole = PJON_NOT_ASSIGNED
          then ROKOR_MESH_DEFAULT_GATEWAY_ID else pjonIdForGatewayRole
        let s1 := { s with
          _network_name_stored := name.takeWhile (fun c => c != 0)
          _espNowChannel := if espNowChannel < 1 ∨ espNowChannel > 13 then 1 else espNowChannel
          _pjonIdForGatewayUse := if id0 > 254 then ROKOR_MESH_DEFAULT_GATEWAY_ID else id0 }
        match benv.wifi_mac with
        | none => (s1, false)
        | some mac =>
          let s2 := { s1 with _my_mac_addr := mac }
          let s3 := if s2._is_custom_pmk_set then s2
            else { s2 with _esp_now_pmk := preparePmk s2._network_name_stored }
          if ¬ benv.nvs_flash_ok then (s3, false)
          else
            let s4 := { s3 with
              _pjon_bus_id := hashStringToBytes benv.sha1 s3._network_name_stored 4
              _is_begun := true
              _fsm_state := DiscoveryFSM.INIT_STATE
              _fsm_timer_start := benv.millis }
            if ¬ benv.wifi_sta_ok then ({ s4 with _is_begun := false }, false)
            else if ¬ benv.esp_now_init_ok then ({ s4 with _is_begun := false }, false)
            else (s4, true)

/-- Member `end`. -/
def «end» (s : Mesh) : Mesh :=
  if ¬ s._is_begun then s
  else
    initNodeManagement { pjonEnd s with
      _is_begun := false
      _current_role := ROLE_UNINITIALIZED
      _fsm_state := DiscoveryFSM.INIT_STATE
      _myPjonId := PJON_NOT_ASSIGNED
      _gatewayPjonId := PJON_NOT_ASSIGNED
      _current_gateway_connected_status := false
      _is_custom_pmk_set := false
      _esp_now_pmk := List.replicate (ROKOR_MESH_ESPNOW_PMK_LEN + 1) 0 }

/-- Member `setEspNowPmk`; `none` is a null pointer. -/
def setEspNowPmk (s : Mesh) (pmk : Option (List Nat)) : Mesh :=
  match pmk with
  | none => s
  | some p =>
    if strlen p = 0 then s
    else { s with _esp_now_pmk := preparePmk p, _is_custom_pmk_set := true }

/-- Member `forceRoleNode`. -/
def forceRoleNode (s : Mesh) (pjonId : Nat) (gatewayToConnectPjonId : Nat) : Mesh :=
  if s._is_begun then s
  else
    { s with
      _myPjonId :=
        if pjonId > 254 ∧ pjonId ≠ 0 ∧ pjonId ≠ PJON_NOT_ASSIGNED then PJON_NOT_ASSIGNED
        else if pjonId = 0 then PJON_NOT_ASSIGNED else pjonId
      _gatewayPjonId :=
        if gatewayToConnectPjonId > 254 ∧ gatewayToConnectPjonId ≠ 0
            ∧ gatewayToConnectPjonId ≠ PJON_NOT_ASSIGNED then PJON_NOT_ASSIGNED
        else if gatewayToConnectPjonId = 0 then PJON_NOT_ASSIGNED else gatewayToConnectPjonId
      _current_role := ROLE_NODE
      _forced_role_active := true }

/-- Member `forceRoleGateway`. -/
def forceRoleGateway (s : Mesh) (pjonId : Nat) : Mesh :=
  if s._is_begun then s
  else
    let id :=
      if pjonId > 254 ∧ pjonId ≠ 0 ∧ pjonId ≠ PJON_NOT_ASSIGNED then ROKOR_MESH_DEFAULT_GATEWAY_ID
      else if pjonId = 0 ∨ pjonId = PJON_NOT_ASSIGNED then ROKOR_MESH_DEFAULT_GATEWAY_ID else pjonId
    { s with
      _myPjonId := id
      _pjonIdForGatewayUse := id
      _current_role := ROLE_GATEWAY
      _forced_role_active := true }

/-- The setters of the tunables and of the host callbacks. -/
def setDiscoveryTimeout (s : Mesh) (timeout_ms : Nat) : Mesh :=
  { s with _discovery_timeout_ms := timeout_ms }
def setGatewayContentionWindow (s : Mesh) (window_ms : Nat) : Mesh :=
  { s with _gateway_contention_window_ms := max 100 window_ms }
def setGatewayAnnounceInterval (s : Mesh) (interval_ms : Nat) : Mesh :=
  { s with _gateway_announce_interval_ms := max GATEWAY_MIN_ANNOUNCE_INTERVAL_MS interval_ms }
def setNodePingGatewayInterval (s : Mesh) (interval_ms : Nat) : Mesh :=
  { s with _node_ping_gateway_interval_ms := max 1000 interval_ms }
def setNodeMaxGatewayPingAttempts (s : Mesh) (attempts : Nat) : Mesh :=
  { s with _node_max_gateway_ping_attempts := max 1 attempts }
def setReceiveCallback (s : Mesh) (callback : Bool) : Mesh :=
  { s with _user_receive_cb := callback }
def setGatewayStatusCallback (s : Mesh) (callback : Bool) : Mesh :=
  { s with _user_gateway_status_cb := callback }
def setNodeStatusCallback (s : Mesh) (callback : Bool) : Mesh :=
  { s with _user_node_status_cb := callback }

/-- Member `sendMessage(destinationId, payload, length)`: the returned flag and what is
handed to the transport. `payload` is `none` for a null pointer, otherwise the bytes at the
pointer, of which the first `length` are sent; `response` is what `_pjon_bus.send` answers. -/
def sendMessage (s : Mesh) (response : Nat) (destinationId : Nat) (payload : Option (List Nat))
    (length : Nat) : Bool × List Effect :=
  if ¬ s._is_begun ∨ (s._current_role ≠ ROLE_NODE ∧ s._current_role ≠ ROLE_GATEWAY) then (false, [])
  else if destinationId = PJON_NOT_ASSIGNED ∨ destinationId > 254 then (false, [])
  else
    match payload with
    | none => (false, [])
    | some bytes =>
      if length = 0 then (false, [])
      else if length > ROKOR_MESH_MAX_PAYLOAD_SIZE then (false, [])
      else
        let target : Option Mac :=
          if s._current_role = ROLE_GATEWAY then
            if destinationId = PJON_BROADCAST_ADDRESS then some esp_now_broadcast_mac
            else
              match findNodeById s destinationId with
              | some node_idx => some (s._known_nodes.getD node_idx NodeInfo.blank).mac_addr
              | none => none
          else if s._current_role = ROLE_NODE then
            if destinationId = s._gatewayPjonId then
              if s._gateway_mac_addr ≠ esp_now_null_mac then some s._gateway_mac_addr else none
            else none
          else none
        match target with
        | none => (false, [])
        | some target_mac =>
          let sent := [Effect.pjon_send target_mac destinationId (bytes.take length)]
          if response = PJON_ACK then (true, sent)
          else if response = PJON_BUSY then (false, sent)
          else if response = PJON_FAIL then (false, sent)
          else (true, sent)

/-- Member `sendMessage(payload, length)`, the overload without a destination: a node
sends to its gateway. -/
def sendMessageToGateway (s : Mesh) (response : Nat) (payload : Option (List Nat))
    (length : Nat) : Bool × List Effect :=
  if s._current_role = ROLE_NODE then
    if s._gatewayPjonId = PJON_NOT_ASSIGNED ∨ ¬ s._current_gateway_connected_status then (false, [])
    else sendMessage s response s._gatewayPjonId payload length
  else (false, [])

/-- What the packet transport delivers while `update` drains it: an inbound packet handed
to the receiver, or an error handed to the error handler, each with the platform answers
of that moment. -/
inductive Inbound where
  | packet (env : Env) (payload : List Nat) (packet_info : PJON_Packet_Info)
  | error (env : Env) (code : Nat) (data : Nat)

/-- One delivery: `_staticPjonReceiver` or `_staticPjonError` on the global instance. -/
def deliver (s : Mesh) : Inbound → Mesh × List Effect
  | Inbound.packet env payload packet_info => actualPjonReceiver s env payload packet_info
  | Inbound.error env code data => actualPjonError s env code data

/-- The deliveries of one drain, in order. -/
def deliverAll : Mesh → List Inbound → Mesh × List Effect
  | s, [] => (s, [])
  | s, i :: rest =>
    let r := deliver s i
    let r2 := deliverAll r.1 rest
    (r2.1, r.2 ++ r2.2)

/-- The first two phases of `update`: `runDiscoveryFSM`, then `operateAsNode` or
`operateAsGateway` by the current role. -/
def updateTick (s : Mesh) (env : Env) : Mesh × List Effect :=
  let r1 := runDiscoveryFSM s env
  let r2 : Mesh × List Effect :=
    if r1.1._current_role = ROLE_NODE then operateAsNode r1.1 env
    else if r1.1._current_role = ROLE_GATEWAY then operateAsGateway r1.1 env
    else (r1.1, [])
  (r2.1, r1.2 ++ r2.2)

/-- Member `update`: the state machine, the periodic work of the role, then — when the bus
is listening — `_pjon_bus.update()` and `_pjon_bus.receive(...)`, which hand `inbound` to
the error handler and the receiver. -/
def update (s : Mesh) (env : Env) (inbound : List Inbound) : Mesh × List Effect :=
  if ¬ s._is_begun then (s, [])
  else
    let r := updateTick s env
    if r.1._pjon_bus.listening then
      let r3 := deliverAll r.1 inbound
      (r3.1, r.2 ++ r3.2)
    else r

/-- A call the host can make on the coordinator. -/
inductive Call where
  | begin (benv : BeginEnv) (networkName : Option (List Nat)) (espNowChannel : Nat)
      (pjonIdForGatewayRole : Nat)
  | «end»
  | setEspNowPmk (pmk : Option (List Nat))
  | forceRoleNode (pjonId : Nat) (gatewayToConnectPjonId : Nat)
  | forceRoleGateway (pjonId : Nat)
  | update (env : Env) (inbound : List Inbound)
  | setDiscoveryTimeout (timeout_ms : Nat)
  | setGatewayContentionWindow (window_ms : Nat)
  | setGatewayAnnounceInterval (interval_ms : Nat)
  | setNodePingGatewayInterval (interval_ms : Nat)
  | setNodeMaxGatewayPingAttempts (attempts : Nat)
  | setReceiveCallback (callback : Bool)
  | setGatewayStatusCallback (callback : Bool)
  | setNodeStatusCallback (callback : Bool)

/-- The state after one host call. -/
def Call.run (s : Mesh) : Call → Mesh
  | Call.begin benv networkName espNowChannel pjonIdForGatewayRole =>
    (RokorMesh.begin s benv networkName espNowChannel pjonIdForGatewayRole).1
  | Call.end => RokorMesh.end s
  | Call.setEspNowPmk pmk => RokorMesh.setEspNowPmk s pmk
  | Call.forceRoleNode pjonId gatewayToConnectPjonId =>
    RokorMesh.forceRoleNode s pjonId gatewayToConnectPjonId
  | Call.forceRoleGateway pjonId => RokorMesh.forceRoleGateway s pjonId
  | Call.update env inbound => (RokorMesh.update s env inbound).1
  | Call.setDiscoveryTimeout t => RokorMesh.setDiscoveryTimeout s t
  | Call.setGatewayContentionWindow w => RokorMesh.setGatewayContentionWindow s w
  | Call.setGatewayAnnounceInterval i => RokorMesh.setGatewayAnnounceInterval s i
  | Call.setNodePingGatewayInterval i => RokorMesh.setNodePingGatewayInterval s i
  | Call.setNodeMaxGatewayPingAttempts a => RokorMesh.setNodeMaxGatewayPingAttempts s a
  | Call.setReceiveCallback c => RokorMesh.setReceiveCallback s c
  | Call.setGatewayStatusCallback c => RokorMesh.setGatewayStatusCallback s c
  | Call.setNodeStatusCallback c => RokorMesh.setNodeStatusCallback s c

/-- The state after a sequence of host calls. -/
def runCalls (s : Mesh) (calls : List Call) : Mesh := calls.foldl Call.run s

/-! ## Vocabulary of the properties -/

/-- The records in use: the first `_known_nodes_count` slots of `_known_nodes`. -/
def activeNodes (s : Mesh) : List NodeInfo := s._known_nodes.take s._known_nodes_count

/-- No two records in use share a MAC and no two share a logical id. -/
def TableUnique (s : Mesh) : Prop :=
  ((activeNodes s).map NodeInfo.mac_addr).Nodup ∧ ((activeNodes s).map NodeInfo.pjon_id).Nodup

/-- The array has its `MAX_NODES_PER_GATEWAY` slots, the count stays within them, and the
records in use are pairwise distinct in MAC and in id. -/
def NodesInv (nodes : List NodeInfo) (count : Nat) : Prop :=
  nodes.length = MAX_NODES_PER_GATEWAY ∧ count ≤ MAX_NODES_PER_GATEWAY
    ∧ ((nodes.take count).map NodeInfo.mac_addr).Nodup
    ∧ ((nodes.take count).map NodeInfo.pjon_id).Nodup

/-- The invariant `NodesInv` of the table of a coordinator. -/
def TableInv (s : Mesh) : Prop := NodesInv s._known_nodes s._known_nodes_count

/-- The gateway-side operations that touch the membership table: an id request, any
inbound packet (among them `NODE_ID_ACK` and `NODE_PING_GATEWAY`), a transport error
(among them `PJON_CONNECTION_LOST`) and the inactivity sweep. -/
inductive TableOp where
  | nodeIdRequest (now : Nat) (request_info : PJON_Packet_Info) (mac_from_payload : Mac)
  | receive (env : Env) (payload : List Nat) (packet_info : PJON_Packet_Info)
  | error (env : Env) (code : Nat) (data : Nat)
  | cleanup (current_time : Nat)

/-- The state after one table operation. -/
def TableOp.run (s : Mesh) : TableOp → Mesh
  | TableOp.nodeIdRequest now request_info mac => (handleNodeIdRequest s now request_info mac).1
  | TableOp.receive env payload packet_info => (actualPjonReceiver s env payload packet_info).1
  | TableOp.error env code data => (actualPjonError s env code data).1
  | TableOp.cleanup current_time => (cleanupInactiveNodes s current_time).1

/-- The state after a sequence of table operations. -/
def runTableOps (s : Mesh) (ops : List TableOp) : Mesh := ops.foldl TableOp.run s

/-- The ids carried by the `NODE_ID_ASSIGN` packets among the effects. -/
def assignedIds (effects : List Effect) : List Nat :=
  effects.filterMap fun e =>
    match e with
    | Effect.pjon_send _ _ (t :: a :: _) => if t = NODE_ID_ASSIGN then some a else none
    | _ => none

/-- The two ids of a node are distinct and both lie in 1..254. -/
def GoodIds (my gw : Nat) : Prop := my ≠ gw ∧ 1 ≤ my ∧ my ≤ 254 ∧ 1 ≤ gw ∧ gw ≤ 254

instance decGoodIds (my gw : Nat) : Decidable (GoodIds my gw) := by
  unfold GoodIds; infer_instance

/-- In `OPERATIONAL_NODE` my id and the gateway id are distinct and both lie in 1..254. -/
def OperationalNodeIds (s : Mesh) : Prop :=
  s._fsm_state = DiscoveryFSM.OPERATIONAL_NODE → GoodIds s._myPjonId s._gatewayPjonId

/-- A store whose `role` and `pjon_id` are bytes and whose node record, when the stored
role is `ROLE_NODE`, holds distinct ids in 1..254 for the node and its gateway. -/
def StoreWellFormed (nvs : Nvs) : Prop :=
  nvs.role.getD 0 < 256 ∧ nvs.pjon_id.getD 0 < 256
    ∧ (nvs.role = some ROLE_NODE →
        GoodIds (nvs.pjon_id.getD PJON_NOT_ASSIGNED) (nvs.gw_pjonid.getD PJON_NOT_ASSIGNED))

instance decStoreWellFormed (nvs : Nvs) : Decidable (StoreWellFormed nvs) := by
  unfold StoreWellFormed; infer_instance

/-- What a well-behaved gateway delivers to a device in state `s`: a `NODE_ID_ASSIGN`
carries an id in 1..254 that differs from the sender id, itself in 1..254; a
`GATEWAY_ANNOUNCE` comes from a sender id in 1..254 that differs from the id the device
holds. Transport errors are unconstrained. -/
def WellBehavedInbound (s : Mesh) : Inbound → Prop
  | Inbound.packet _ payload packet_info =>
    (payload.head? = some NODE_ID_ASSIGN →
        1 ≤ payload.getD 1 0 ∧ payload.getD 1 0 ≤ 254
          ∧ 1 ≤ packet_info.sender_id ∧ packet_info.sender_id ≤ 254
          ∧ payload.getD 1 0 ≠ packet_info.sender_id)
    ∧ (payload.head? = some GATEWAY_ANNOUNCE →
        1 ≤ packet_info.sender_id ∧ packet_info.sender_id ≤ 254
          ∧ packet_info.sender_id ≠ s._myPjonId)
  | Inbound.error _ _ _ => True

/-- Every delivery of one drain is well-behaved for the state it meets. -/
def WellBehavedInbounds : Mesh → List Inbound → Prop
  | _, [] => True
  | s, i :: rest => WellBehavedInbound s i ∧ WellBehavedInbounds (deliver s i).1 rest

/-- A host call is unconstrained; for `update`, what is delivered to a begun, listening
device after the state machine and the periodic work is well-behaved. -/
def WellBehavedCall (s : Mesh) : Call → Prop
  | Call.update env inbound =>
    s._is_begun = true → (updateTick s env).1._pjon_bus.listening = true →
      WellBehavedInbounds (updateTick s env).1 inbound
  | _ => True

/-- Every call of a sequence is well-behaved for the state it meets. -/
def WellBehavedCalls : Mesh → List Call → Prop
  | _, [] => True
  | s, c :: rest => WellBehavedCall s c ∧ WellBehavedCalls (c.run s) rest

/-- The invariant behind `OperationalNodeIds`: a coordinator that is not begun is in
`INIT_STATE`, role and my id are bytes, the id kept for gateway use is at most 254, the
store is well-formed, and `OperationalNodeIds` holds. -/
def CoreInv (s : Mesh) : Prop :=
  (s._is_begun = false → s._fsm_state = DiscoveryFSM.INIT_STATE)
    ∧ s._current_role < 256 ∧ s._myPjonId < 256 ∧ s._pjonIdForGatewayUse ≤ 254
    ∧ StoreWellFormed s.nvs
    ∧ OperationalNodeIds s

instance decWellBehavedInbound (s : Mesh) (i : Inbound) : Decidable (WellBehavedInbound s i) := by
  cases i <;> unfold WellBehavedInbound <;> infer_instance

instance decWellBehavedInbounds : (s : Mesh) → (l : List Inbound) → Decidable (WellBehavedInbounds s l)
  | _, [] => isTrue trivial
  | s, i :: rest =>
    have := decWellBehavedInbounds (deliver s i).1 rest
    by unfold WellBehavedInbounds; infer_instance

instance decWellBehavedCall (s : Mesh) (c : Call) : Decidable (WellBehavedCall s c) := by
  cases c <;> unfold WellBehavedCall <;> infer_instance

instance decWellBehavedCalls : (s : Mesh) → (l : List Call) → Decidable (WellBehavedCalls s l)
  | _, [] => isTrue trivial
  | s, c :: rest =>
    have := decWellBehavedCalls (c.run s) rest
    by unfold WellBehavedCalls; infer_instance

/-- The invariant `CoreInv` of a begun coordinator. -/
def BegunInv (s : Mesh) : Prop := CoreInv s ∧ s._is_begun = true

/-- The host calls `update()` once per entry of `envs`, in order, while the transport
delivers nothing: the state reached, and what each tick handed to the collaborators. -/
def idleTicks : Mesh → List Env → Mesh × List (List Effect)
  | s, [] => (s, [])
  | s, env :: rest =>
    let r := update s env []
    let r2 := idleTicks r.1 rest
    (r2.1, r.2 :: r2.2)

/-- The (logical id, MAC) pairs of the records in use, in table order. -/
def tableKeys (s : Mesh) : List (Nat × Mac) :=
  (activeNodes s).map fun r => (r.pjon_id, r.mac_addr)

/-- The store holds the record `saveConfigToNVS` writes for the present configuration:
name, channel, role and my id, and for a node the gateway id and MAC. -/
def StoreHoldsConfig (s : Mesh) : Prop :=
  s.nvs.net_name = some s._network_name_stored
    ∧ s.nvs.channel = some s._espNowChannel
    ∧ s.nvs.role = some s._current_role
    ∧ s.nvs.pjon_id = some s._myPjonId
    ∧ (s._current_role = ROLE_NODE →
        s.nvs.gw_pjonid = some s._gatewayPjonId ∧ s.nvs.gw_mac = some s._gateway_mac_addr)

instance decStoreHoldsConfig (s : Mesh) : Decidable (StoreHoldsConfig s) := by
  unfold StoreHoldsConfig; infer_instance

/-- The host calls `end()`, then `begin(networkName, espNowChannel, pjonIdForGatewayRole)`,
then `update()` twice with nothing inbound: the states after `begin`, after the first tick
and after the second tick. -/
def rebootTrace (s : Mesh) (benv : BeginEnv) (networkName : List Nat)
    (espNowChannel pjonIdForGatewayRole : Nat) (env1 env2 : Env) : Mesh × Mesh × Mesh :=
  let b := (begin (RokorMesh.end s) benv (some networkName) espNowChannel pjonIdForGatewayRole).1
  let t1 := (update b env1 []).1
  let t2 := (update t1 env2 []).1
  (b, t1, t2)

/-- The candidate counter is at least 2 and every record in use holds an id in 2..254. -/
def IdsInRange (s : Mesh) : Prop :=
  2 ≤ s._next_available_node_id_candidate
    ∧ ∀ a ∈ (activeNodes s).map NodeInfo.pjon_id, 2 ≤ a ∧ a ≤ 254

/-- The coordinator `t` holds the settings of `s` that no tick and no delivery writes: the
two gateway tunables, the key with its custom flag, and the begun flag. -/
def SettingsKept (s t : Mesh) : Prop :=
  t._gateway_contention_window_ms = s._gateway_contention_window_ms
    ∧ t._gateway_announce_interval_ms = s._gateway_announce_interval_ms
    ∧ t._esp_now_pmk = s._esp_now_pmk
    ∧ t._is_custom_pmk_set = s._is_custom_pmk_set
    ∧ t._is_begun = s._is_begun

/-- The buffer holds a 16-byte key: 17 bytes, the first 16 not NUL, then the terminator. -/
def KeyFilled (pmk : List Nat) : Prop :=
  pmk.length = ROKOR_MESH_ESPNOW_PMK_LEN + 1
    ∧ (∀ i, i < ROKOR_MESH_ESPNOW_PMK_LEN → pmk.getD i 0 ≠ 0)
    ∧ pmk.getD ROKOR_MESH_ESPNOW_PMK_LEN 0 = 0

/-- The `encrypt` flag of a peer registration (`true` for every other effect). -/
def peerEncrypted : Effect → Bool
  | Effect.add_peer _ _ encrypt => encrypt
  | _ => true

/-- Every peer registration among the effects asks for an encrypted link. -/
def PeersEncrypted (effects : List Effect) : Prop := ∀ e ∈ effects, peerEncrypted e = true

/-- The network name `mesh`. -/
def sampleName : List Nat := [109, 101, 115, 104]
/-- The MAC of the device under study. -/
def sampleMacA : Mac := [0xAA, 0xBB, 0xCC, 0xDD, 0xEE, 0x0A]
/-- The MAC of a first peer. -/
def sampleMacB : Mac := [0xAA, 0xBB, 0xCC, 0xDD, 0xEE, 0x01]
/-- The MAC of a second peer. -/
def sampleMacC : Mac := [0xAA, 0xBB, 0xCC, 0xDD, 0xEE, 0x02]

/-- A platform on which `begin` succeeds for the device with MAC `sampleMacA`. -/
def sampleBeginEnv : BeginEnv :=
  { wifi_mac := some sampleMacA, nvs_flash_ok := true, sha1 := fun _ => List.replicate 20 0x5A,
    millis := 0, wifi_sta_ok := true, esp_now_init_ok := true }

/-- A platform on which the transport starts and the store opens, at clock value `t`. -/
def envAt (t : Nat) : Env :=
  { millis := t, pjon_begin_ok := true, nvs_open_ok := true, esp_random := 0 }

/-- An inbound `NODE_ID_REQUEST` of the device with MAC `mac`, which has no id yet. -/
def idRequestFrom (t : Nat) (mac : Mac) : Inbound :=
  Inbound.packet (envAt t) (NODE_ID_REQUEST :: mac)
    { sender_id := PJON_NOT_ASSIGNED, sender_ethernet_address := mac }

/-- A device with an empty store that is begun with gateway id `g`, hears no gateway, and
elects itself: `INIT_STATE`, `LOAD_NVS_CONFIG`, `CHECK_FORCED_ROLE`, `LISTEN_FOR_GATEWAY`
until the discovery timeout, `GATEWAY_ELECTION_DELAY`, `ANNOUNCE_AS_GATEWAY`. -/
def electedGateway (g : Nat) : Mesh :=
  runCalls (construct Nvs.empty)
    [Call.begin sampleBeginEnv (some sampleName) 1 g,
     Call.update (envAt 0) [], Call.update (envAt 1) [], Call.update (envAt 2) [],
     Call.update (envAt 5003) [], Call.update (envAt 5004) [], Call.update (envAt 5005) []]

/-- The MAC of a gateway heard on the air. -/
def sampleMacG : Mac := [0xAA, 0xBB, 0xCC, 0xDD, 0xEE, 0x99]

/-- The MAC of the `k`-th child of a gateway. -/
def childMac (k : Nat) : Mac := [0xAA, 0xBB, 0xCC, 0xDD, 0xEE, k]

/-- An inbound `GATEWAY_ANNOUNCE` of the gateway with id `g` and MAC `sampleMacG`. -/
def announceFromGateway (t : Nat) (g : Nat) : Inbound :=
  Inbound.packet (envAt t) (GATEWAY_ANNOUNCE :: sampleMacG)
    { sender_id := g, sender_ethernet_address := sampleMacG }

/-- An inbound `NODE_ID_ASSIGN` of the gateway with id `g`, carrying id `a` for the MAC
`target`. -/
def idAssignFromGateway (t : Nat) (g : Nat) (a : Nat) (target : Mac) : Inbound :=
  Inbound.packet (envAt t) (NODE_ID_ASSIGN :: a :: target)
    { sender_id := g, sender_ethernet_address := sampleMacG }

/-- A device with an empty store and no forced role after `begin` and three ticks: it
listens for a gateway in role `ROLE_DISCOVERING`. -/
def discoveringDevice : Mesh :=
  runCalls (construct Nvs.empty)
    [Call.begin sampleBeginEnv (some sampleName) 1 1,
     Call.update (envAt 0) [], Call.update (envAt 1) [], Call.update (envAt 2) []]

/-- The discovering device after it heard the announce of gateway 1 at clock value 200. -/
def requestingDevice : Mesh :=
  (update discoveringDevice (envAt 200) [announceFromGateway 200 1]).1

/-- The host calls `forceRoleGateway(7)`, then `begin` with the default gateway id on an
empty store, then `k` ticks. -/
def forcedGatewayBoot (k : Nat) : Mesh :=
  runCalls (construct Nvs.empty)
    ([Call.forceRoleGateway 7, Call.begin sampleBeginEnv (some sampleName) 1 1]
      ++ (List.range k).map (fun t => Call.update (envAt t) []))

/-- The host calls `forceRoleNode(7)`, then `begin` on an empty store, then `k` ticks. -/
def forcedNodeBoot (k : Nat) : Mesh :=
  runCalls (construct Nvs.empty)
    ([Call.forceRoleNode 7 0, Call.begin sampleBeginEnv (some sampleName) 1 1]
      ++ (List.range k).map (fun t => Call.update (envAt t) []))

/-- The elected gateway with id 1 after id requests of 30 distinct children. -/
def fullGateway : Mesh :=
  runTableOps (electedGateway 1)
    ((List.range 30).map fun k => TableOp.nodeIdRequest 6000
      { sender_id := PJON_NOT_ASSIGNED, sender_ethernet_address := childMac (k + 1) }
      (childMac (k + 1)))

/-- A store holding the record of node 5 bound to gateway 1 on network `mesh`, channel 1. -/
def persistedNodeStore : Nvs :=
  { net_name := some sampleName, role := some ROLE_NODE, pjon_id := some 5,
    bus_id := some [0x5A, 0x5A, 0x5A, 0x5A], channel := some 1, gw_pjonid := some 1,
    gw_mac := some sampleMacG }

/-- A device that boots from `persistedNodeStore`: `LOAD_NVS_CONFIG` takes it straight to
`OPERATIONAL_NODE`. -/
def persistedNode : Mesh :=
  runCalls (construct persistedNodeStore)
    [Call.begin sampleBeginEnv (some sampleName) 1 1,
     Call.update (envAt 0) [], Call.update (envAt 1) []]

/-- The persisted node after the transport reported `PJON_CONNECTION_LOST` for its gateway:
it listens for a gateway again, still in role `ROLE_NODE` with id 5. -/
def orphanedNode : Mesh :=
  (update persistedNode (envAt 2) [Inbound.error (envAt 2) PJON_CONNECTION_LOST 1]).1

/-- The boot of `persistedNode` followed by a tick in which gateway 1 assigns id 9 to the
device. -/
def sampleNodeCalls : List Call :=
  [Call.begin sampleBeginEnv (some sampleName) 1 1,
   Call.update (envAt 0) [], Call.update (envAt 1) [],
   Call.update (envAt 2) [idAssignFromGateway 2 1 9 sampleMacA]]

/-- The host registers a gateway-status callback; the device boots from
`persistedNodeStore` and pings its gateway, which never answers, at the clock values 1,
30001 and 60001. -/
def unheardNode : Mesh :=
  runCalls (construct persistedNodeStore)
    [Call.setGatewayStatusCallback true, Call.begin sampleBeginEnv (some sampleName) 1 1,
     Call.update (envAt 0) [], Call.update (envAt 1) [], Call.update (envAt 30001) [],
     Call.update (envAt 60001) []]

/-- The host registers a gateway-status callback and sets a ping interval of 1000 ms and 3
ping attempts; the device boots from `persistedNodeStore` and, still at clock value 0, is
assigned id 9 by gateway 1. -/
def adoptedNode : Mesh :=
  runCalls (construct persistedNodeStore)
    [Call.setGatewayStatusCallback true, Call.setNodePingGatewayInterval 1000,
     Call.setNodeMaxGatewayPingAttempts 3, Call.begin sampleBeginEnv (some sampleName) 1 1,
     Call.update (envAt 0) [], Call.update (envAt 0) [],
     Call.update (envAt 0) [idAssignFromGateway 0 1 9 sampleMacA]]

/-- The elected gateway with id 1 and a node-status callback, after the id requests of three
children: two at clock value 6000, one at clock value 100000. -/
def gatewayWithThree : Mesh :=
  runTableOps (setNodeStatusCallback (electedGateway 1) true)
    [TableOp.nodeIdRequest 6000
       { sender_id := PJON_NOT_ASSIGNED, sender_ethernet_address := childMac 1 } (childMac 1),
     TableOp.nodeIdRequest 6000
       { sender_id := PJON_NOT_ASSIGNED, sender_ethernet_address := childMac 2 } (childMac 2),
     TableOp.nodeIdRequest 100000
       { sender_id := PJON_NOT_ASSIGNED, sender_ethernet_address := childMac 3 } (childMac 3)]

/-- A device whose store holds `persistedNodeStore` (written on channel 1) and that is begun
on channel 6, after the tick that leaves `INIT_STATE`. -/
def mismatchedBoot : Mesh :=
  runCalls (construct persistedNodeStore)
    [Call.begin sampleBeginEnv (some sampleName) 6 1, Call.update (envAt 0) []]

/-- The discovering device after the tick at clock value 5003, which finds the discovery
timeout elapsed: it is in `GATEWAY_ELECTION_DELAY`. -/
def electingDevice : Mesh := (update discoveringDevice (envAt 5003) []).1

/-- The electing device after the tick at clock value 5004, which finds the contention delay
elapsed: it is in `ANNOUNCE_AS_GATEWAY`. -/
def announcingDevice : Mesh := (update electingDevice (envAt 5004) []).1

/-- The orphaned node after it heard, at clock value 3, a `GATEWAY_ANNOUNCE` whose sender id
is 0: it holds 0 as its gateway id, with the MAC of the announce. -/
def nodeOfGatewayZero : Mesh := (update orphanedNode (envAt 3) [announceFromGateway 3 0]).1

/-- A device that boots from `persistedNodeStore` on a platform whose transport does not
start on the tick that loads the record: `LOAD_NVS_CONFIG` leaves it in `ERROR_STATE`, in
role `ROLE_NODE`, bound to gateway 1. -/
def failedStartNode : Mesh :=
  runCalls (construct persistedNodeStore)
    [Call.begin sampleBeginEnv (some sampleName) 1 1,
     Call.update (envAt 0) [],
     Call.update { envAt 1 with pjon_begin_ok := false } []]

/-- A device whose store holds the record the elected gateway with id 1 wrote, after
`begin` and the tick that leaves `INIT_STATE` at clock value 0: it is about to load the
record. -/
def loadingGateway : Mesh :=
  runCalls (construct (electedGateway 1).nvs)
    [Call.begin sampleBeginEnv (some sampleName) 1 1, Call.update (envAt 0) []]

/-- The electing device after a tick at clock value 5003 on which `esp_random()` answers
700: the contention delay is 700. -/
def sampledElection : Mesh :=
  (update electingDevice { envAt 5003 with esp_random := 700 } []).1

/-- The device of `sampledElection` after its receiver got the announce of gateway 1 at
clock value 5004, the request for an id timed out at 10006 and the discovery timeout
elapsed again at 15008: it is in `GATEWAY_ELECTION_DELAY` for the second time. -/
def secondElection : Mesh :=
  runCalls
    (actualPjonReceiver sampledElection (envAt 5004) (GATEWAY_ANNOUNCE :: sampleMacG)
      { sender_id := 1, sender_ethernet_address := sampleMacG }).1
    [Call.update (envAt 10006) [], Call.update (envAt 15008) []]

/-- The device of `sampledElection` after the host called `end()` and `begin()` and ticks at
the clock values 6000, 6001, 6002 and 11003: it is in `GATEWAY_ELECTION_DELAY` again. -/
def restartedElection : Mesh :=
  runCalls sampledElection
    [Call.end, Call.begin sampleBeginEnv (some sampleName) 1 1,
     Call.update (envAt 6000) [], Call.update (envAt 6001) [], Call.update (envAt 6002) [],
     Call.update (envAt 11003) []]

/-- A device that boots from `persistedNodeStore` 1000 ms before the 32-bit clock wraps,
after `begin` and the tick that leaves `INIT_STATE`. -/
def lateNode : Mesh :=
  runCalls (construct persistedNodeStore)
    [Call.begin sampleBeginEnv (some sampleName) 1 1, Call.update (envAt 4294966296) []]

/-- The orphaned node after it heard the announce of gateway 1 at clock value 3: it holds
gateway id 1 and still listens, in role `ROLE_NODE`. -/
def reboundNode : Mesh := (update orphanedNode (envAt 3) [announceFromGateway 3 1]).1

/-- The host asks for a contention window of 0, then the device boots as
`discoveringDevice` does and the tick at clock value 5003 finds the discovery timeout
elapsed: it is in `GATEWAY_ELECTION_DELAY`. -/
def narrowWindowCalls : List Call :=
  [Call.setGatewayContentionWindow 0, Call.begin sampleBeginEnv (some sampleName) 1 1,
   Call.update (envAt 0) [], Call.update (envAt 1) [], Call.update (envAt 2) [],
   Call.update (envAt 5003) []]

/-- The host sets the key `key` with `setEspNowPmk`, then the device boots from
`persistedNodeStore` up to the tick that loads the record. -/
def customKeyCalls : List Call :=
  [Call.setEspNowPmk (some [107, 101, 121]), Call.begin sampleBeginEnv (some sampleName) 1 1,
   Call.update (envAt 0) []]

/-- The boot of `electedGateway 1` followed by a tick at clock value 6000 on which the id
request of a first child arrives. -/
def sampleGatewayCalls : List Call :=
  [Call.begin sampleBeginEnv (some sampleName) 1 1,
   Call.update (envAt 0) [], Call.update (envAt 1) [], Call.update (envAt 2) [],
   Call.update (envAt 5003) [], Call.update (envAt 5004) [], Call.update (envAt 5005) [],
   Call.update (envAt 6000) [idRequestFrom 6000 (childMac 1)]]

/-- Ticks at the clock values `ts`, on each of which the announce of gateway 1 is inbound. -/
def announcedTicks (ts : List Nat) : List Call :=
  ts.map fun t => Call.update (envAt t) [announceFromGateway t 1]

/-- The node of `unheardNode`, with three pings unanswered, after the host called `end()`,
`forceRoleNode(7, 3)` and `begin()` at clock value 90001. -/
def restartedForcedNode : Mesh :=
  runCalls unheardNode
    [Call.end, Call.forceRoleNode 7 3,
     Call.begin { sampleBeginEnv with millis := 90001 } (some sampleName) 1 1]

/-- A newly constructed coordinator on the same store after the same calls
`forceRoleNode(7, 3)` and `begin()` at clock value 90001. -/
def freshForcedNode : Mesh :=
  runCalls (construct persistedNodeStore)
    [Call.setGatewayStatusCallback true, Call.forceRoleNode 7 3,
     Call.begin { sampleBeginEnv with millis := 90001 } (some sampleName) 1 1]

/-! # Theorems -/

/-! ## The membership table: loops and invariant -/

theorem scanLoop_none_iff (p : NodeInfo → Bool) (nodes : List NodeInfo) (n i : Nat) :
    scanLoop p nodes n i = none ↔
      ∀ j, i ≤ j → j < i + n → p (nodes.getD j NodeInfo.blank) = false := by
  induction n generalizing i with
  | zero =>
    simp only [scanLoop, true_iff]
    intro j h1 h2; omega
  | succ n ih =>
    simp only [scanLoop]
    by_cases hp : p (nodes.getD i NodeInfo.blank) = true
    · simp only [hp, if_true]
      constructor
      · intro h; cases h
      · intro h
        have := h i (Nat.le_refl _) (by omega)
        rw [hp] at this; cases this
    · simp only [hp, if_false, Bool.false_eq_true]
      rw [ih (i + 1)]
      constructor
      · intro h j h1 h2
        by_cases hj : j = i
        · subst hj; simpa using hp
        · exact h j (by omega) (by omega)
      · intro h j h1 h2
        exact h j (by omega) (by omega)

theorem scanLoop_some (p : NodeInfo → Bool) (nodes : List NodeInfo) (n i k : Nat)
    (h : scanLoop p nodes n i = some k) :
    i ≤ k ∧ k < i + n ∧ p (nodes.getD k NodeInfo.blank) = true
      ∧ ∀ j, i ≤ j → j < k → p (nodes.getD j NodeInfo.blank) = false := by
  induction n generalizing i with
  | zero => simp [scanLoop] at h
  | succ n ih =>
    simp only [scanLoop] at h
    by_cases hp : p (nodes.getD i NodeInfo.blank) = true
    · simp only [hp, if_true, Option.some.injEq] at h
      subst h
      refine ⟨Nat.le_refl _, by omega, hp, ?_⟩
      intro j h1 h2; omega
    · simp only [hp, if_false, Bool.false_eq_true] at h
      obtain ⟨h1, h2, h3, h4⟩ := ih (i + 1) h
      refine ⟨by omega, by omega, h3, ?_⟩
      intro j hj1 hj2
      by_cases hj : j = i
      · subst hj; simpa using hp
      · exact h4 j (by omega) hj2

theorem mem_take_iff_getD (nodes : List NodeInfo) (count : Nat) (hc : count ≤ nodes.length) (r : NodeInfo) :
    r ∈ nodes.take count ↔ ∃ j, j < count ∧ nodes.getD j NodeInfo.blank = r := by
  constructor
  · intro h
    obtain ⟨j, hj, rfl⟩ := List.mem_iff_getElem.mp h
    have hj' : j < count := by
      simp only [List.length_take] at hj; omega
    refine ⟨j, hj', ?_⟩
    rw [List.getD_eq_getElem _ _ (by omega)]
    simp
  · rintro ⟨j, hj, rfl⟩
    rw [List.getD_eq_getElem _ _ (by omega)]
    apply List.mem_iff_getElem.mpr
    refine ⟨j, by simp only [List.length_take]; omega, by simp⟩

theorem scanLoop_none_take (p : NodeInfo → Bool) (nodes : List NodeInfo) (count : Nat)
    (hc : count ≤ nodes.length) :
    scanLoop p nodes count 0 = none ↔ ∀ r ∈ nodes.take count, p r = false := by
  rw [scanLoop_none_iff]
  constructor
  · intro h r hr
    obtain ⟨j, hj, rfl⟩ := (mem_take_iff_getD nodes count hc r).mp hr
    exact h j (Nat.zero_le _) (by omega)
  · intro h j _ hj
    exact h _ ((mem_take_iff_getD nodes count hc _).mpr ⟨j, by omega, rfl⟩)

theorem map_take_set_of_eq {β : Type} (f : NodeInfo → β) (nodes : List NodeInfo) (idx n : Nat)
    (v : NodeInfo) (h : f v = f (nodes.getD idx NodeInfo.blank)) :
    ((nodes.set idx v).take n).map f = (nodes.take n).map f := by
  apply List.ext_getElem?
  intro k
  simp only [List.getElem?_map, List.getElem?_take, List.getElem?_set]
  by_cases hk : k < n
  · simp only [hk, if_true]
    by_cases hik : idx = k
    · subst hik
      by_cases hl : idx < nodes.length
      · simp only [if_true, hl, Option.map_some', List.getElem?_eq_getElem]
        rw [h, List.getD_eq_getElem _ _ hl]
      · simp [hl, List.getElem?_eq_none (Nat.le_of_not_lt hl)]
    · simp [hik]
  · simp [hk]

theorem take_succ_set (nodes : List NodeInfo) (count : Nat) (v : NodeInfo)
    (h : count < nodes.length) :
    (nodes.set count v).take (count + 1) = nodes.take count ++ [v] := by
  induction nodes generalizing count with
  | nil => simp at h
  | cons x xs ih =>
    cases count with
    | zero => simp
    | succ c =>
      have hc : c < xs.length := by simpa using h
      simp [ih c hc]

theorem searchLoop_some_free (g : Nat) (nodes : List NodeInfo) (count n c a c' : Nat)
    (h : searchLoop g nodes count n c = (some a, c')) :
    scanLoop (fun r => r.pjon_id == a) nodes count 0 = none := by
  induction n generalizing c with
  | zero => simp [searchLoop] at h
  | succ n ih =>
    simp only [searchLoop] at h
    split at h
    · rename_i hnone
      simp only [Prod.mk.injEq, Option.some.injEq] at h
      rw [← h.1]; exact hnone
    · exact ih _ h

/-- From a candidate of at least 2 the id search keeps the candidate at 2 or more, and an id
it finds lies in 2..254 and is the gateway id only when that id is 2. -/
theorem searchLoop_range (g : Nat) (nodes : List NodeInfo) (count n c : Nat) (hc : 2 ≤ c) :
    2 ≤ (searchLoop g nodes count n c).2
    ∧ ∀ a, (searchLoop g nodes count n c).1 = some a →
        2 ≤ a ∧ a ≤ 254 ∧ (a = g → g = 2) := by
  induction n generalizing c with
  | zero => exact ⟨hc, fun a h => by simp [searchLoop] at h⟩
  | succ n ih =>
    have hnorm : 2 ≤ (if c = g ∨ c = 0 ∨ c > 254 then 2 else c)
        ∧ (if c = g ∨ c = 0 ∨ c > 254 then 2 else c) ≤ 254
        ∧ ((if c = g ∨ c = 0 ∨ c > 254 then 2 else c) = g → g = 2) := by
      split_ifs with h
      · exact ⟨Nat.le_refl _, by omega, fun e => e.symm⟩
      · refine ⟨hc, by omega, fun e => ?_⟩
        exact absurd (Or.inl e) h
    have hinc : 2 ≤ inc8 (if c = g ∨ c = 0 ∨ c > 254 then 2 else c) := by
      unfold inc8
      rw [Nat.mod_eq_of_lt (by omega)]
      omega
    simp only [searchLoop]
    split
    · refine ⟨hinc, fun a h => ?_⟩
      simp only [Option.some.injEq] at h
      rw [← h]; exact hnorm
    · exact ih _ hinc

theorem NodesInv_set_same (nodes : List NodeInfo) (count idx : Nat) (v : NodeInfo)
    (hm : v.mac_addr = (nodes.getD idx NodeInfo.blank).mac_addr)
    (hi : v.pjon_id = (nodes.getD idx NodeInfo.blank).pjon_id)
    (h : NodesInv nodes count) : NodesInv (nodes.set idx v) count := by
  obtain ⟨h1, h2, h3, h4⟩ := h
  refine ⟨by simpa using h1, h2, ?_, ?_⟩
  · rw [map_take_set_of_eq NodeInfo.mac_addr nodes idx count v hm]; exact h3
  · rw [map_take_set_of_eq NodeInfo.pjon_id nodes idx count v hi]; exact h4

theorem NodesInv_append (nodes : List NodeInfo) (count : Nat) (v : NodeInfo)
    (hlt : count < MAX_NODES_PER_GATEWAY)
    (hm : scanLoop (fun r => r.mac_addr == v.mac_addr) nodes count 0 = none)
    (hi : scanLoop (fun r => r.pjon_id == v.pjon_id) nodes count 0 = none)
    (h : NodesInv nodes count) : NodesInv (nodes.set count v) (inc8 count) := by
  obtain ⟨h1, h2, h3, h4⟩ := h
  have hM : MAX_NODES_PER_GATEWAY = 30 := rfl
  have hinc : inc8 count = count + 1 := by
    unfold inc8; apply Nat.mod_eq_of_lt; omega
  have hlen : count < nodes.length := by omega
  rw [hinc]
  refine ⟨by simpa using h1, by omega, ?_, ?_⟩
  · rw [take_succ_set nodes count v hlen, List.map_append, List.map_singleton]
    have hm' := (scanLoop_none_take _ nodes count (by omega)).mp hm
    rw [List.nodup_append]
    refine ⟨h3, List.nodup_singleton _, ?_⟩
    intro a ha hb
    rw [List.mem_singleton] at hb
    subst hb
    obtain ⟨r, hr, hra⟩ := List.mem_map.mp ha
    have := hm' r hr
    simp [hra] at this
  · rw [take_succ_set nodes count v hlen, List.map_append, List.map_singleton]
    have hi' := (scanLoop_none_take _ nodes count (by omega)).mp hi
    rw [List.nodup_append]
    refine ⟨h4, List.nodup_singleton _, ?_⟩
    intro a ha hb
    rw [List.mem_singleton] at hb
    subst hb
    obtain ⟨r, hr, hra⟩ := List.mem_map.mp ha
    have := hi' r hr
    simp [hra] at this

theorem handleNodeIdRequest_inv (s : Mesh) (now : Nat) (info : PJON_Packet_Info) (mac : Mac)
    (h : TableInv s) : TableInv (handleNodeIdRequest s now info mac).1 := by
  unfold handleNodeIdRequest
  split
  · exact NodesInv_set_same _ _ _ _ rfl rfl h
  · rename_i hnone
    split
    · exact h
    · rename_i hlt
      have hM : MAX_NODES_PER_GATEWAY = 30 := rfl
      split
      · exact h
      · rename_i a cand hs
        exact NodesInv_append _ _ _ (by omega) hnone (searchLoop_some_free _ _ _ _ _ _ _ hs) h

theorem shiftLoop_length (r j : Nat) (nodes : List NodeInfo) :
    (shiftLoop r j nodes).length = nodes.length := by
  induction r generalizing j nodes with
  | zero => rfl
  | succ r ih => simp [shiftLoop, ih]

theorem shiftLoop_getElem? (r j : Nat) (nodes : List NodeInfo) (h : j + r < nodes.length) (k : Nat) :
    (shiftLoop r j nodes)[k]? = if j ≤ k ∧ k < j + r then nodes[k + 1]? else nodes[k]? := by
  induction r generalizing j nodes with
  | zero =>
    have : ¬ (j ≤ k ∧ k < j + 0) := by omega
    rw [if_neg this]; rfl
  | succ r ih =>
    simp only [shiftLoop]
    rw [ih (j + 1) _ (by simp only [List.length_set]; omega)]
    have hj1 : j + 1 < nodes.length := by omega
    rw [List.getD_eq_getElem _ _ hj1]
    simp only [List.getElem?_set]
    by_cases h1 : j + 1 ≤ k ∧ k < j + 1 + r
    · have h2 : j ≤ k ∧ k < j + (r + 1) := by omega
      have h3 : ¬ j = k + 1 := by omega
      simp [h1, h2, h3]
    · by_cases h4 : j = k
      · subst h4
        have h2 : j ≤ j ∧ j < j + (r + 1) := by omega
        have h5 : j < nodes.length := by omega
        simp [h1, h2, h5, List.getElem?_eq_getElem hj1]
      · have h2 : ¬ (j ≤ k ∧ k < j + (r + 1)) := by omega
        simp [h1, h2, h4]

theorem take_shiftLoop (nodes : List NodeInfo) (count i : Nat) (hi : i < count)
    (hc : count ≤ nodes.length) :
    (shiftLoop (count - 1 - i) i nodes).take (count - 1) = (nodes.take count).eraseIdx i := by
  apply List.ext_getElem?
  intro k
  rw [List.getElem?_take, List.getElem?_eraseIdx, shiftLoop_getElem? _ _ _ (by omega)]
  simp only [List.getElem?_take]
  by_cases hk : k < count - 1
  · by_cases hki : k < i
    · have h1 : ¬ (i ≤ k ∧ k < i + (count - 1 - i)) := by omega
      have h2 : k < count := by omega
      simp [hk, hki, h1, h2]
    · have h1 : i ≤ k ∧ k < i + (count - 1 - i) := by omega
      have h2 : k + 1 < count := by omega
      simp [hk, hki, h1, h2]
  · by_cases hki : k < i
    · omega
    · have h2 : ¬ k + 1 < count := by omega
      simp [hk, hki, h2]

theorem cleanupLoop_spec (cb : Bool) (now : Nat) (remaining i : Nat) (nodes : List NodeInfo)
    (count : Nat) (hr : remaining = count - i) (hi : i ≤ count) (hc : count ≤ nodes.length) :
    (cleanupLoop cb now remaining i nodes count).1.length = nodes.length
    ∧ (cleanupLoop cb now remaining i nodes count).2.1 ≤ count
    ∧ (cleanupLoop cb now remaining i nodes count).1.take
        (cleanupLoop cb now remaining i nodes count).2.1
      = nodes.take i ++ ((nodes.take count).drop i).filter
          (fun r => decide (sub32 now r.last_seen ≤ NODE_INACTIVITY_THRESHOLD_MS)) := by
  induction remaining generalizing i nodes count with
  | zero =>
    have hic : i = count := by omega
    subst hic
    have hnil : (nodes.take i).drop i = [] := by
      apply List.drop_eq_nil_of_le; simp
    simp [cleanupLoop, hnil]
  | succ remaining ih =>
    have hlt : i < count := by omega
    have hil : i < nodes.length := by omega
    have hT : (nodes.take count).drop i = nodes[i] :: (nodes.take count).drop (i + 1) := by
      have h1 : i < (nodes.take count).length := by simp only [List.length_take]; omega
      rw [List.drop_eq_getElem_cons h1]
      simp
    simp only [cleanupLoop]
    rw [List.getD_eq_getElem _ _ hil]
    by_cases hin : sub32 now nodes[i].last_seen > NODE_INACTIVITY_THRESHOLD_MS
    · simp only [hin, if_true]
      obtain ⟨h1, h2, h3⟩ := ih i (shiftLoop (count - 1 - i) i nodes) (count - 1) (by omega) (by omega)
        (by rw [shiftLoop_length]; omega)
      refine ⟨by rw [h1, shiftLoop_length], by omega, ?_⟩
      rw [h3, take_shiftLoop nodes count i hlt hc, hT]
      have hE : (nodes.take count).eraseIdx i = nodes.take i ++ (nodes.take count).drop (i + 1) := by
        rw [List.eraseIdx_eq_take_drop_succ, List.take_take, Nat.min_eq_left (Nat.le_of_lt hlt)]
      have hlen : (nodes.take i).length = i := by simp only [List.length_take]; omega
      have hti : (shiftLoop (count - 1 - i) i nodes).take i = nodes.take i := by
        have : (shiftLoop (count - 1 - i) i nodes).take i
            = ((shiftLoop (count - 1 - i) i nodes).take (count - 1)).take i := by
          rw [List.take_take, Nat.min_eq_left (by omega)]
        rw [this, take_shiftLoop nodes count i hlt hc, hE, List.take_left' hlen]
      rw [hti, hE, List.drop_left' hlen]
      have hnot : ¬ sub32 now nodes[i].last_seen ≤ NODE_INACTIVITY_THRESHOLD_MS := by omega
      simp [List.filter_cons, hnot]
    · simp only [hin, if_false]
      obtain ⟨h1, h2, h3⟩ := ih (i + 1) nodes count (by omega) (by omega) hc
      refine ⟨h1, h2, ?_⟩
      rw [h3, hT]
      have hle : sub32 now nodes[i].last_seen ≤ NODE_INACTIVITY_THRESHOLD_MS := by omega
      rw [List.take_succ, List.getElem?_eq_getElem hil]
      simp only [List.filter_cons, hle, decide_True, if_true, Option.toList, List.append_assoc,
        List.singleton_append]

theorem cleanupLoop_inv (cb : Bool) (now : Nat) (nodes : List NodeInfo) (count : Nat)
    (h : NodesInv nodes count) :
    NodesInv (cleanupLoop cb now count 0 nodes count).1 (cleanupLoop cb now count 0 nodes count).2.1 := by
  obtain ⟨h1, h2, h3, h4⟩ := h
  obtain ⟨g1, g2, g3⟩ := cleanupLoop_spec cb now count 0 nodes count rfl (Nat.zero_le _) (by omega)
  refine ⟨by rw [g1, h1], by omega, ?_, ?_⟩
  · rw [g3]
    simp only [List.take_zero, List.nil_append, List.drop_zero]
    exact h3.sublist ((List.filter_sublist _).map _)
  · rw [g3]
    simp only [List.take_zero, List.nil_append, List.drop_zero]
    exact h4.sublist ((List.filter_sublist _).map _)

theorem cleanupInactiveNodes_inv (s : Mesh) (now : Nat) (h : TableInv s) :
    TableInv (cleanupInactiveNodes s now).1 :=
  cleanupLoop_inv _ _ _ _ h

theorem TableInv_of_eq {s s' : Mesh} (h : TableInv s)
    (h1 : s'._known_nodes = s._known_nodes)
    (h2 : s'._known_nodes_count = s._known_nodes_count) : TableInv s' := by
  unfold TableInv at *
  rw [h1, h2]; exact h

@[simp] theorem saveConfigToNVS_known_nodes (s : Mesh) (env : Env) :
    (saveConfigToNVS s env)._known_nodes = s._known_nodes := by
  unfold saveConfigToNVS; split_ifs <;> rfl

@[simp] theorem saveConfigToNVS_known_nodes_count (s : Mesh) (env : Env) :
    (saveConfigToNVS s env)._known_nodes_count = s._known_nodes_count := by
  unfold saveConfigToNVS; split_ifs <;> rfl

@[simp] theorem initializePjonStack_known_nodes (s : Mesh) (env : Env) (id : Nat) (bus : List Nat)
    (gw : Bool) : (initializePjonStack s env id bus gw).1._known_nodes = s._known_nodes := by
  unfold initializePjonStack pjonEnd; simp only []; split_ifs <;> rfl

@[simp] theorem initializePjonStack_known_nodes_count (s : Mesh) (env : Env) (id : Nat)
    (bus : List Nat) (gw : Bool) :
    (initializePjonStack s env id bus gw).1._known_nodes_count = s._known_nodes_count := by
  unfold initializePjonStack pjonEnd; simp only []; split_ifs <;> rfl

theorem receiveAnnounceWhileListening_inv (s : Mesh) (env : Env) (body : List Nat)
    (info : PJON_Packet_Info) (h : TableInv s) :
    TableInv (receiveAnnounceWhileListening s env body info).1 := by
  unfold receiveAnnounceWhileListening
  simp only []
  split_ifs
  · exact h
  · exact TableInv_of_eq h (by simp) (by simp)
  · exact h

theorem receiveAsGateway_inv (s : Mesh) (env : Env) (payload : List Nat) (t : Nat)
    (body : List Nat) (info : PJON_Packet_Info) (h : TableInv s) :
    TableInv (receiveAsGateway s env payload t body info).1 := by
  unfold receiveAsGateway
  split_ifs <;>
    first
    | exact h
    | exact handleNodeIdRequest_inv _ _ _ _ h
    | (split <;> first | exact h | exact NodesInv_set_same _ _ _ _ rfl rfl h)

theorem receiveAsNode_inv (s : Mesh) (env : Env) (payload : List Nat) (t : Nat)
    (body : List Nat) (info : PJON_Packet_Info) (h : TableInv s) :
    TableInv (receiveAsNode s env payload t body info).1 := by
  unfold receiveAsNode
  simp only []
  split_ifs <;> first | exact h | exact TableInv_of_eq h (by simp) (by simp)

theorem actualPjonReceiver_inv (s : Mesh) (env : Env) (payload : List Nat)
    (info : PJON_Packet_Info) (h : TableInv s) :
    TableInv (actualPjonReceiver s env payload info).1 := by
  unfold actualPjonReceiver receiveByRole
  split
  · exact h
  · split_ifs <;>
      first
      | exact h
      | exact receiveAnnounceWhileListening_inv _ _ _ _ h
      | exact receiveAsGateway_inv _ _ _ _ _ _ h
      | exact receiveAsNode_inv _ _ _ _ _ _ h

theorem actualPjonError_inv (s : Mesh) (env : Env) (code data : Nat) (h : TableInv s) :
    TableInv (actualPjonError s env code data).1 := by
  unfold actualPjonError
  simp only []
  split_ifs <;>
    first
    | exact h
    | exact TableInv_of_eq h (by simp [pjonEnd]) (by simp [pjonEnd])
    | (split <;> exact h)

theorem initNodeManagement_inv (s : Mesh) : TableInv (initNodeManagement s) := by
  refine ⟨by simp [initNodeManagement], Nat.zero_le _, ?_, ?_⟩ <;> simp [initNodeManagement]

theorem TableOp_run_inv (s : Mesh) (op : TableOp) (h : TableInv s) : TableInv (op.run s) := by
  cases op with
  | nodeIdRequest now info mac => exact handleNodeIdRequest_inv s now info mac h
  | receive env payload info => exact actualPjonReceiver_inv s env payload info h
  | error env code data => exact actualPjonError_inv s env code data h
  | cleanup t => exact cleanupInactiveNodes_inv s t h

theorem runTableOps_inv (ops : List TableOp) (s : Mesh) (h : TableInv s) :
    TableInv (runTableOps s ops) := by
  induction ops generalizing s with
  | nil => exact h
  | cons op rest ih => exact ih (op.run s) (TableOp_run_inv s op h)

theorem assignedIds_answerIdRequest (s : Mesh) (info : PJON_Packet_Info) (m : Mac) (a : Nat) :
    assignedIds (answerIdRequest s info m a) = [a] := by
  unfold answerIdRequest addEspNowPeer sendPjonIdAssignment updateNodeStatus assignedIds
  by_cases h : s._user_node_status_cb = true <;> simp [h, List.filterMap_cons]

theorem handleNodeIdRequest_existing (s : Mesh) (now : Nat) (info : PJON_Packet_Info) (m : Mac)
    (i : Nat) (h : findNodeByMac s m = some i) :
    handleNodeIdRequest s now info m =
      ({ s with
          _known_nodes := s._known_nodes.set i
            { s._known_nodes.getD i NodeInfo.blank with last_seen := now } },
        answerIdRequest
          { s with
            _known_nodes := s._known_nodes.set i
              { s._known_nodes.getD i NodeInfo.blank with last_seen := now } }
          info m (s._known_nodes.getD i NodeInfo.blank).pjon_id) := by
  unfold findNodeByMac at h
  unfold handleNodeIdRequest
  rw [h]

theorem handleNodeIdRequest_new (s : Mesh) (now : Nat) (info : PJON_Packet_Info) (m : Mac)
    (a c : Nat) (h : findNodeByMac s m = none) (hlt : s._known_nodes_count < MAX_NODES_PER_GATEWAY)
    (hs : searchLoop s._myPjonId s._known_nodes s._known_nodes_count 254
      s._next_available_node_id_candidate = (some a, c)) :
    handleNodeIdRequest s now info m =
      ({ s with
          _next_available_node_id_candidate := c
          _known_nodes := s._known_nodes.set s._known_nodes_count
            { pjon_id := a, mac_addr := m, last_seen := now, id_assigned_this_session := true }
          _known_nodes_count := inc8 s._known_nodes_count },
        answerIdRequest
          { s with
            _next_available_node_id_candidate := c
            _known_nodes := s._known_nodes.set s._known_nodes_count
              { pjon_id := a, mac_addr := m, last_seen := now, id_assigned_this_session := true }
            _known_nodes_count := inc8 s._known_nodes_count }
          info m a) := by
  unfold findNodeByMac at h
  unfold handleNodeIdRequest
  rw [h]
  have : ¬ s._known_nodes_count ≥ MAX_NODES_PER_GATEWAY := by omega
  simp only [this, if_false, hs]

theorem scanLoop_set_succ (p : NodeInfo → Bool) (nodes : List NodeInfo) (count : Nat) (v : NodeInfo)
    (hnone : scanLoop p nodes count 0 = none) (hv : p v = true) (hlen : count < nodes.length) :
    scanLoop p (nodes.set count v) (count + 1) 0 = some count := by
  have hget : (nodes.set count v).getD count NodeInfo.blank = v := by
    rw [List.getD_eq_getElem _ _ (by simpa using hlen)]; simp
  cases hres : scanLoop p (nodes.set count v) (count + 1) 0 with
  | none =>
    have := (scanLoop_none_iff _ _ _ _).mp hres count (Nat.zero_le _) (by omega)
    rw [hget, hv] at this; cases this
  | some k =>
    obtain ⟨_, hk, hpk, _⟩ := scanLoop_some _ _ _ _ _ hres
    by_cases hkc : k = count
    · rw [hkc]
    · exfalso
      have hk' : k < count := by omega
      have hold := (scanLoop_none_iff _ _ _ _).mp hnone k (Nat.zero_le _) (by omega)
      have hgetk : (nodes.set count v).getD k NodeInfo.blank = nodes.getD k NodeInfo.blank := by
        simp only [List.getD_eq_getElem?_getD]
        rw [List.getElem?_set_ne (by omega)]
      rw [hgetk, hold] at hpk; cases hpk

/-! ## The ids of an operational node: invariant -/

section helpers
variable (s : Mesh) (env : Env)

@[simp] theorem pjonEnd_is_begun : (pjonEnd s)._is_begun = s._is_begun := rfl
@[simp] theorem pjonEnd_fsm_state : (pjonEnd s)._fsm_state = s._fsm_state := rfl
@[simp] theorem pjonEnd_current_role : (pjonEnd s)._current_role = s._current_role := rfl
@[simp] theorem pjonEnd_myPjonId : (pjonEnd s)._myPjonId = s._myPjonId := rfl
@[simp] theorem pjonEnd_gatewayPjonId : (pjonEnd s)._gatewayPjonId = s._gatewayPjonId := rfl
@[simp] theorem pjonEnd_pjonIdForGatewayUse : (pjonEnd s)._pjonIdForGatewayUse = s._pjonIdForGatewayUse := rfl
@[simp] theorem pjonEnd_nvs : (pjonEnd s).nvs = s.nvs := rfl

@[simp] theorem initNodeManagement_is_begun : (initNodeManagement s)._is_begun = s._is_begun := rfl
@[simp] theorem initNodeManagement_fsm_state : (initNodeManagement s)._fsm_state = s._fsm_state := rfl
@[simp] theorem initNodeManagement_current_role : (initNodeManagement s)._current_role = s._current_role := rfl
@[simp] theorem initNodeManagement_myPjonId : (initNodeManagement s)._myPjonId = s._myPjonId := rfl
@[simp] theorem initNodeManagement_gatewayPjonId : (initNodeManagement s)._gatewayPjonId = s._gatewayPjonId := rfl
@[simp] theorem initNodeManagement_pjonIdForGatewayUse : (initNodeManagement s)._pjonIdForGatewayUse = s._pjonIdForGatewayUse := rfl
@[simp] theorem initNodeManagement_nvs : (initNodeManagement s).nvs = s.nvs := rfl

variable (id : Nat) (bus : List Nat) (gw : Bool)

@[simp] theorem initializePjonStack_is_begun :
    (initializePjonStack s env id bus gw).1._is_begun = s._is_begun := by
  unfold initializePjonStack pjonEnd; simp only []; split_ifs <;> rfl
@[simp] theorem initializePjonStack_current_role :
    (initializePjonStack s env id bus gw).1._current_role = s._current_role := by
  unfold initializePjonStack pjonEnd; simp only []; split_ifs <;> rfl
@[simp] theorem initializePjonStack_myPjonId :
    (initializePjonStack s env id bus gw).1._myPjonId = s._myPjonId := by
  unfold initializePjonStack pjonEnd; simp only []; split_ifs <;> rfl
@[simp] theorem initializePjonStack_gatewayPjonId :
    (initializePjonStack s env id bus gw).1._gatewayPjonId = s._gatewayPjonId := by
  unfold initializePjonStack pjonEnd; simp only []; split_ifs <;> rfl
@[simp] theorem initializePjonStack_pjonIdForGatewayUse :
    (initializePjonStack s env id bus gw).1._pjonIdForGatewayUse = s._pjonIdForGatewayUse := by
  unfold initializePjonStack pjonEnd; simp only []; split_ifs <;> rfl
@[simp] theorem initializePjonStack_nvs :
    (initializePjonStack s env id bus gw).1.nvs = s.nvs := by
  unfold initializePjonStack pjonEnd; simp only []; split_ifs <;> rfl
theorem initializePjonStack_fsm_state :
    (initializePjonStack s env id bus gw).1._fsm_state
      = if env.pjon_begin_ok = true then s._fsm_state else DiscoveryFSM.ERROR_STATE := by
  unfold initializePjonStack pjonEnd; simp only []; split_ifs <;> rfl
theorem initializePjonStack_fsm_ne_op (h : s._fsm_state ≠ DiscoveryFSM.OPERATIONAL_NODE) :
    (initializePjonStack s env id bus gw).1._fsm_state ≠ DiscoveryFSM.OPERATIONAL_NODE := by
  rw [initializePjonStack_fsm_state]; split_ifs
  · exact h
  · decide

@[simp] theorem saveConfigToNVS_is_begun : (saveConfigToNVS s env)._is_begun = s._is_begun := by
  unfold saveConfigToNVS; split_ifs <;> rfl
@[simp] theorem saveConfigToNVS_fsm_state : (saveConfigToNVS s env)._fsm_state = s._fsm_state := by
  unfold saveConfigToNVS; split_ifs <;> rfl
@[simp] theorem saveConfigToNVS_current_role : (saveConfigToNVS s env)._current_role = s._current_role := by
  unfold saveConfigToNVS; split_ifs <;> rfl
@[simp] theorem saveConfigToNVS_myPjonId : (saveConfigToNVS s env)._myPjonId = s._myPjonId := by
  unfold saveConfigToNVS; split_ifs <;> rfl
@[simp] theorem saveConfigToNVS_gatewayPjonId : (saveConfigToNVS s env)._gatewayPjonId = s._gatewayPjonId := by
  unfold saveConfigToNVS; split_ifs <;> rfl
@[simp] theorem saveConfigToNVS_pjonIdForGatewayUse :
    (saveConfigToNVS s env)._pjonIdForGatewayUse = s._pjonIdForGatewayUse := by
  unfold saveConfigToNVS; split_ifs <;> rfl

theorem saveConfigToNVS_store (hs : StoreWellFormed s.nvs) (hr : s._current_role < 256)
    (hm : s._myPjonId < 256)
    (hg : s._current_role = ROLE_NODE → GoodIds s._myPjonId s._gatewayPjonId) :
    StoreWellFormed (saveConfigToNVS s env).nvs := by
  unfold saveConfigToNVS
  have hmod : s._current_role % 256 = s._current_role := Nat.mod_eq_of_lt hr
  split_ifs with h1 h2 h3 h4
  · exact hs
  · refine ⟨by simpa [hmod] using hr, by simpa using hm, ?_⟩
    intro _
    simpa using hg h3
  · refine ⟨by simpa [hmod] using hr, by simpa using hm, ?_⟩
    intro _
    simpa using hg h3
  · refine ⟨by simpa [hmod] using hr, by simpa using hm, ?_⟩
    intro hrole
    exfalso
    simp [hmod] at hrole
    exact h3 hrole
  · exact hs

@[simp] theorem clearConfigNVS_is_begun : (clearConfigNVS s env)._is_begun = s._is_begun := by
  unfold clearConfigNVS; split_ifs <;> rfl
theorem clearConfigNVS_store (hs : StoreWellFormed s.nvs) :
    StoreWellFormed (clearConfigNVS s env).nvs := by
  unfold clearConfigNVS; split_ifs
  · show StoreWellFormed Nvs.empty
    decide
  · exact hs

end helpers

theorem CoreInv_construct (nvs : Nvs) (h : StoreWellFormed nvs) : CoreInv (construct nvs) := by
  refine ⟨fun _ => rfl, ?_, ?_, ?_, h, ?_⟩
  · show (0 : Nat) < 256; omega
  · show (255 : Nat) < 256; omega
  · show (1 : Nat) ≤ 254; omega
  · intro hf; cases hf

theorem CoreInv_of_eq {s s' : Mesh} (h : CoreInv s)
    (h1 : s'._is_begun = s._is_begun) (h2 : s'._fsm_state = s._fsm_state)
    (h3 : s'._current_role = s._current_role) (h4 : s'._myPjonId = s._myPjonId)
    (h5 : s'._gatewayPjonId = s._gatewayPjonId)
    (h6 : s'._pjonIdForGatewayUse = s._pjonIdForGatewayUse) (h7 : s'.nvs = s.nvs) :
    CoreInv s' := by
  unfold CoreInv OperationalNodeIds at *
  rw [h1, h2, h3, h4, h5, h6, h7]; exact h

theorem begin_core (s : Mesh) (benv : BeginEnv) (name : Option (List Nat)) (ch g : Nat) :
    (begin s benv name ch g).1._current_role = s._current_role
    ∧ (begin s benv name ch g).1._myPjonId = s._myPjonId
    ∧ (begin s benv name ch g).1._gatewayPjonId = s._gatewayPjonId
    ∧ (begin s benv name ch g).1.nvs = s.nvs
    ∧ (s._pjonIdForGatewayUse ≤ 254 → (begin s benv name ch g).1._pjonIdForGatewayUse ≤ 254)
    ∧ (((begin s benv name ch g).1._fsm_state = s._fsm_state
          ∧ (begin s benv name ch g).1._is_begun = s._is_begun)
        ∨ (begin s benv name ch g).1._fsm_state = DiscoveryFSM.INIT_STATE) := by
  unfold begin
  by_cases c1 : s._is_begun = true
  · simp [c1]
  · cases name with
    | none => simp [c1]
    | some nm =>
      by_cases c2 : strlen nm = 0 ∨ strlen nm > ROKOR_MESH_MAX_NETWORK_NAME_LEN
      · simp [c1, c2]
      · cases hmac : benv.wifi_mac with
        | none =>
          simp [c1, c2]
          intro _; simp only [ROKOR_MESH_DEFAULT_GATEWAY_ID, PJON_NOT_ASSIGNED]; split_ifs <;> omega
        | some mac =>
          by_cases c3 : s._is_custom_pmk_set = true <;>
          by_cases c4 : benv.nvs_flash_ok = true <;>
          by_cases c5 : benv.wifi_sta_ok = true <;>
          by_cases c6 : benv.esp_now_init_ok = true <;>
          simp [c1, c2, c3, c4, c5, c6] <;>
          (intro _; simp only [ROKOR_MESH_DEFAULT_GATEWAY_ID, PJON_NOT_ASSIGNED]; split_ifs <;> omega)

theorem CoreInv_begin (s : Mesh) (benv : BeginEnv) (name : Option (List Nat)) (ch g : Nat)
    (h : CoreInv s) : CoreInv (begin s benv name ch g).1 := by
  obtain ⟨hJ, hR, hM, hG, hK, hI⟩ := h
  obtain ⟨h1, h2, h3, h4, h5, h6⟩ := begin_core s benv name ch g
  unfold CoreInv OperationalNodeIds
  rw [h1, h2, h3, h4]
  refine ⟨?_, hR, hM, h5 hG, hK, ?_⟩
  · rcases h6 with ⟨h6a, h6b⟩ | h6
    · rw [h6a, h6b]; exact hJ
    · intro _; exact h6
  · rcases h6 with ⟨h6a, _⟩ | h6
    · rw [h6a]; exact hI
    · rw [h6]; intro hf; cases hf

theorem CoreInv_end (s : Mesh) (h : CoreInv s) : CoreInv (RokorMesh.end s) := by
  obtain ⟨hJ, hR, hM, hG, hK, hI⟩ := h
  unfold RokorMesh.end
  by_cases hb : s._is_begun = true
  · simp only [hb, not_true_eq_false, if_false]
    refine ⟨fun _ => rfl, ?_, ?_, hG, hK, fun hf => by cases hf⟩
    · show (0 : Nat) < 256; omega
    · show (255 : Nat) < 256; omega
  · simp only [hb, not_false_eq_true, if_true]
    exact ⟨hJ, hR, hM, hG, hK, hI⟩

theorem CoreInv_setEspNowPmk (s : Mesh) (pmk : Option (List Nat)) (h : CoreInv s) :
    CoreInv (setEspNowPmk s pmk) := by
  unfold setEspNowPmk
  cases pmk with
  | none => exact h
  | some p =>
    simp only []
    split_ifs
    · exact h
    · exact CoreInv_of_eq h rfl rfl rfl rfl rfl rfl rfl

theorem CoreInv_forceRoleNode (s : Mesh) (id gw : Nat) (h : CoreInv s) :
    CoreInv (forceRoleNode s id gw) := by
  obtain ⟨hJ, hR, hM, hG, hK, hI⟩ := h
  unfold forceRoleNode
  by_cases hb : s._is_begun = true
  · simp only [hb, if_true]
    exact ⟨hJ, hR, hM, hG, hK, hI⟩
  · have hb' : s._is_begun = false := by simpa using hb
    have hinit := hJ hb'
    have hI0 : s._fsm_state ≠ DiscoveryFSM.OPERATIONAL_NODE := by rw [hinit]; decide
    simp only [hb', Bool.false_eq_true, if_false]
    refine ⟨fun _ => hinit, by show (2 : Nat) < 256; omega, ?_, hG, hK, fun hf => absurd hf hI0⟩
    show (if id > 254 ∧ id ≠ 0 ∧ id ≠ PJON_NOT_ASSIGNED then PJON_NOT_ASSIGNED
      else if id = 0 then PJON_NOT_ASSIGNED else id) < 256
    simp only [PJON_NOT_ASSIGNED]
    split_ifs <;> omega

theorem CoreInv_forceRoleGateway (s : Mesh) (id : Nat) (h : CoreInv s) :
    CoreInv (forceRoleGateway s id) := by
  obtain ⟨hJ, hR, hM, hG, hK, hI⟩ := h
  unfold forceRoleGateway
  by_cases hb : s._is_begun = true
  · simp only [hb, if_true]
    exact ⟨hJ, hR, hM, hG, hK, hI⟩
  · have hb' : s._is_begun = false := by simpa using hb
    have hinit := hJ hb'
    have hI0 : s._fsm_state ≠ DiscoveryFSM.OPERATIONAL_NODE := by rw [hinit]; decide
    simp only [hb', Bool.false_eq_true, if_false]
    have hid : (if id > 254 ∧ id ≠ 0 ∧ id ≠ PJON_NOT_ASSIGNED then ROKOR_MESH_DEFAULT_GATEWAY_ID
      else if id = 0 ∨ id = PJON_NOT_ASSIGNED then ROKOR_MESH_DEFAULT_GATEWAY_ID else id) ≤ 254 := by
      simp only [ROKOR_MESH_DEFAULT_GATEWAY_ID, PJON_NOT_ASSIGNED]
      split_ifs <;> omega
    exact ⟨fun _ => hinit, by show (3 : Nat) < 256; omega, Nat.lt_of_le_of_lt hid (by omega), hid, hK,
      fun hf => absurd hf hI0⟩

theorem BegunInv_mk {s : Mesh} (hb : s._is_begun = true) (hR : s._current_role < 256)
    (hM : s._myPjonId < 256) (hG : s._pjonIdForGatewayUse ≤ 254) (hK : StoreWellFormed s.nvs)
    (hI : s._fsm_state = DiscoveryFSM.OPERATIONAL_NODE → GoodIds s._myPjonId s._gatewayPjonId) :
    BegunInv s := by
  refine ⟨?_, hb⟩
  unfold CoreInv OperationalNodeIds
  exact ⟨fun h => (by rw [hb] at h; cases h), hR, hM, hG, hK, hI⟩

theorem BegunInv_of_eq {s s' : Mesh} (h : BegunInv s)
    (h1 : s'._is_begun = s._is_begun) (h2 : s'._fsm_state = s._fsm_state)
    (h3 : s'._current_role = s._current_role) (h4 : s'._myPjonId = s._myPjonId)
    (h5 : s'._gatewayPjonId = s._gatewayPjonId)
    (h6 : s'._pjonIdForGatewayUse = s._pjonIdForGatewayUse) (h7 : s'.nvs = s.nvs) :
    BegunInv s' :=
  ⟨CoreInv_of_eq h.1 h1 h2 h3 h4 h5 h6 h7, by rw [h1]; exact h.2⟩

theorem loadConfigFromNVS_core (s : Mesh) (env : Env) :
    (loadConfigFromNVS s env).1._is_begun = s._is_begun
    ∧ (loadConfigFromNVS s env).1._fsm_state = s._fsm_state
    ∧ (loadConfigFromNVS s env).1._pjonIdForGatewayUse = s._pjonIdForGatewayUse
    ∧ (loadConfigFromNVS s env).1.nvs = s.nvs := by
  unfold loadConfigFromNVS
  simp only []
  split_ifs <;> exact ⟨rfl, rfl, rfl, rfl⟩

theorem getD_lt_of_store {o : Option Nat} (h : o.getD 0 < 256) (d : Nat) (hd : d < 256) :
    o.getD d < 256 := by
  cases o with
  | none => simpa using hd
  | some v => simpa using h

theorem loadConfigFromNVS_bytes (s : Mesh) (env : Env) (hK : StoreWellFormed s.nvs)
    (hR : s._current_role < 256) (hM : s._myPjonId < 256) :
    (loadConfigFromNVS s env).1._current_role < 256
    ∧ (loadConfigFromNVS s env).1._myPjonId < 256 := by
  have h1 := getD_lt_of_store hK.1 ROLE_UNINITIALIZED (by decide)
  have h2 := getD_lt_of_store hK.2.1 PJON_NOT_ASSIGNED (by decide)
  unfold loadConfigFromNVS
  simp only []
  split_ifs <;> first | exact ⟨hR, hM⟩ | exact ⟨h1, h2⟩

theorem loadConfigFromNVS_node (s : Mesh) (env : Env) (hK : StoreWellFormed s.nvs)
    (hok : (loadConfigFromNVS s env).2 = true)
    (hnode : (loadConfigFromNVS s env).1._current_role = ROLE_NODE) :
    GoodIds (loadConfigFromNVS s env).1._myPjonId (loadConfigFromNVS s env).1._gatewayPjonId := by
  unfold loadConfigFromNVS at hok hnode ⊢
  simp only [] at hok hnode ⊢
  split_ifs at hok hnode ⊢ with h1 h2 h3 h4
  · apply hK.2.2
    cases hr : s.nvs.role with
    | none => rw [hr] at h4; simp at h4
    | some r => rw [hr] at h4; simp at h4; rw [h4]
  · exfalso; exact h4 hnode

@[simp] theorem clearConfigNVS_pjonIdForGatewayUse (s : Mesh) (env : Env) :
    (clearConfigNVS s env)._pjonIdForGatewayUse = s._pjonIdForGatewayUse := by
  unfold clearConfigNVS; split_ifs <;> rfl

theorem GoodIds_ne_op {s : Mesh} (h : s._fsm_state ≠ DiscoveryFSM.OPERATIONAL_NODE) :
    s._fsm_state = DiscoveryFSM.OPERATIONAL_NODE → GoodIds s._myPjonId s._gatewayPjonId :=
  fun hf => absurd hf h

theorem BegunInv_fsmLoadNvsConfig (s : Mesh) (env : Env) (h : BegunInv s) :
    BegunInv (fsmLoadNvsConfig s env).1 := by
  obtain ⟨⟨hJ, hR, hM, hG, hK, hI⟩, hb⟩ := h
  obtain ⟨l1, l2, l3, l4⟩ := loadConfigFromNVS_core s env
  obtain ⟨l5, l6⟩ := loadConfigFromNVS_bytes s env hK hR hM
  have l7 := loadConfigFromNVS_node s env hK
  unfold fsmLoadNvsConfig
  simp only []
  split_ifs <;> simp only [initializePjonStack_current_role] at * <;>
    (apply BegunInv_mk <;> simp [l1, l3, l4, hb, hG, hK, l5, l6]) <;>
    first
    | exact l7 (by assumption) (by assumption)
    | (rw [← l4] at hK; exact clearConfigNVS_store _ env hK)

theorem BegunInv_fsmCheckForcedRole (s : Mesh) (env : Env) (h : BegunInv s) :
    BegunInv (fsmCheckForcedRole s env).1 := by
  obtain ⟨⟨hJ, hR, hM, hG, hK, hI⟩, hb⟩ := h
  have hG' : s._pjonIdForGatewayUse < 256 := by omega
  unfold fsmCheckForcedRole
  simp only []
  split_ifs <;>
    (apply BegunInv_mk <;>
      simp [hb, hG, hK, hR, hM, hG', ROLE_GATEWAY, ROLE_NODE, ROLE_DISCOVERING,
        ROLE_UNINITIALIZED, PJON_NOT_ASSIGNED])
  apply saveConfigToNVS_store <;>
    simp [hb, hG, hK, hR, hM, hG', ROLE_GATEWAY, ROLE_NODE, ROLE_DISCOVERING,
      ROLE_UNINITIALIZED, PJON_NOT_ASSIGNED]
  simp_all

theorem BegunInv_fsmAnnounceAsGateway (s : Mesh) (env : Env) (h : BegunInv s) :
    BegunInv (fsmAnnounceAsGateway s env).1 := by
  obtain ⟨⟨hJ, hR, hM, hG, hK, hI⟩, hb⟩ := h
  have hG' : s._pjonIdForGatewayUse < 256 := by omega
  unfold fsmAnnounceAsGateway
  simp only []
  split_ifs <;>
    (apply BegunInv_mk <;>
      simp [hb, hG, hK, hR, hM, hG', ROLE_GATEWAY, ROLE_NODE, ROLE_DISCOVERING,
        ROLE_UNINITIALIZED, PJON_NOT_ASSIGNED])
  apply saveConfigToNVS_store <;>
    simp [hb, hG, hK, hR, hM, hG', ROLE_GATEWAY, ROLE_NODE, ROLE_DISCOVERING,
      ROLE_UNINITIALIZED, PJON_NOT_ASSIGNED]

theorem BegunInv_runDiscoveryFSM (s : Mesh) (env : Env) (h : BegunInv s) :
    BegunInv (runDiscoveryFSM s env).1 := by
  unfold runDiscoveryFSM
  simp only []
  split
  · obtain ⟨⟨hJ, hR, hM, hG, hK, hI⟩, hb⟩ := h
    apply BegunInv_mk <;> simp [hb, hG, hK, hR, hM, ROLE_GATEWAY, ROLE_NODE, ROLE_DISCOVERING, ROLE_UNINITIALIZED, PJON_NOT_ASSIGNED]
  · exact BegunInv_fsmLoadNvsConfig s env h
  · exact BegunInv_fsmCheckForcedRole s env h
  · obtain ⟨⟨hJ, hR, hM, hG, hK, hI⟩, hb⟩ := h
    split_ifs
    · apply BegunInv_mk <;> simp [hb, hG, hK, hR, hM, ROLE_GATEWAY, ROLE_NODE, ROLE_DISCOVERING, ROLE_UNINITIALIZED, PJON_NOT_ASSIGNED]
    · exact BegunInv_mk hb hR hM hG hK hI
  · obtain ⟨⟨hJ, hR, hM, hG, hK, hI⟩, hb⟩ := h
    rename_i hst
    have hI' : s._fsm_state ≠ DiscoveryFSM.OPERATIONAL_NODE := by rw [hst]; decide
    split_ifs <;> apply BegunInv_mk <;> simp [hb, hG, hK, hR, hM, hst, ROLE_GATEWAY, ROLE_NODE, ROLE_DISCOVERING, ROLE_UNINITIALIZED, PJON_NOT_ASSIGNED]
  · exact BegunInv_fsmAnnounceAsGateway s env h
  · obtain ⟨⟨hJ, hR, hM, hG, hK, hI⟩, hb⟩ := h
    split_ifs
    · apply BegunInv_mk <;> simp [hb, hG, hK, hR, hM, ROLE_GATEWAY, ROLE_NODE, ROLE_DISCOVERING, ROLE_UNINITIALIZED, PJON_NOT_ASSIGNED]
    · exact BegunInv_mk hb hR hM hG hK hI
  · exact h
  · exact h
  · exact h

theorem handleNodeIdRequest_core (s : Mesh) (now : Nat) (info : PJON_Packet_Info) (m : Mac) :
    (handleNodeIdRequest s now info m).1._is_begun = s._is_begun
    ∧ (handleNodeIdRequest s now info m).1._fsm_state = s._fsm_state
    ∧ (handleNodeIdRequest s now info m).1._current_role = s._current_role
    ∧ (handleNodeIdRequest s now info m).1._myPjonId = s._myPjonId
    ∧ (handleNodeIdRequest s now info m).1._gatewayPjonId = s._gatewayPjonId
    ∧ (handleNodeIdRequest s now info m).1._pjonIdForGatewayUse = s._pjonIdForGatewayUse
    ∧ (handleNodeIdRequest s now info m).1.nvs = s.nvs := by
  unfold handleNodeIdRequest
  split
  · exact ⟨rfl, rfl, rfl, rfl, rfl, rfl, rfl⟩
  · split
    · exact ⟨rfl, rfl, rfl, rfl, rfl, rfl, rfl⟩
    · split <;> exact ⟨rfl, rfl, rfl, rfl, rfl, rfl, rfl⟩

theorem BegunInv_operateAsNode (s : Mesh) (env : Env) (h : BegunInv s) :
    BegunInv (operateAsNode s env).1 := by
  obtain ⟨⟨hJ, hR, hM, hG, hK, hI⟩, hb⟩ := h
  unfold operateAsNode restartListening
  simp only []
  split_ifs <;>
    first
    | exact BegunInv_mk hb hR hM hG hK hI
    | (apply BegunInv_mk <;>
        simp [hb, hG, hK, hR, hM, initializePjonStack_fsm_state, ROLE_GATEWAY, ROLE_NODE,
          ROLE_DISCOVERING, ROLE_UNINITIALIZED, PJON_NOT_ASSIGNED]
       first
        | exact hI
        | (intro hc; split_ifs at hc))

theorem BegunInv_operateAsGateway (s : Mesh) (env : Env) (h : BegunInv s) :
    BegunInv (operateAsGateway s env).1 := by
  unfold operateAsGateway
  simp only []
  split_ifs <;> exact BegunInv_of_eq h rfl rfl rfl rfl rfl rfl rfl

theorem BegunInv_receiveAnnounceWhileListening (s : Mesh) (env : Env) (body : List Nat)
    (info : PJON_Packet_Info) (h : BegunInv s)
    (hv : 1 ≤ info.sender_id ∧ info.sender_id ≤ 254 ∧ info.sender_id ≠ s._myPjonId) :
    BegunInv (receiveAnnounceWhileListening s env body info).1 := by
  obtain ⟨⟨hJ, hR, hM, hG, hK, hI⟩, hb⟩ := h
  obtain ⟨hv1, hv2, hv3⟩ := hv
  unfold receiveAnnounceWhileListening
  simp only []
  split_ifs with c1 c2
  · apply BegunInv_mk <;> simp [hb, hG, hK, hR, hM]
  · have hgood : GoodIds s._myPjonId info.sender_id := by
      simp only [PJON_NOT_ASSIGNED, not_or] at c2
      exact ⟨fun e => hv3 e.symm, by omega, by omega, hv1, hv2⟩
    apply BegunInv_mk <;> simp [hb, hG, hK, hR, hM, ROLE_NODE]
    · apply saveConfigToNVS_store <;> simp [hK, hM, ROLE_NODE]
      exact hgood
    · exact hgood
  · apply BegunInv_mk <;> simp [hb, hG, hK, hR, hM]
    intro hop
    have := hI hop
    exact ⟨fun e => hv3 e.symm, this.2.1, this.2.2.1, hv1, hv2⟩

theorem BegunInv_receiveAsGateway (s : Mesh) (env : Env) (payload : List Nat) (t : Nat)
    (body : List Nat) (info : PJON_Packet_Info) (h : BegunInv s) :
    BegunInv (receiveAsGateway s env payload t body info).1 := by
  unfold receiveAsGateway
  split_ifs
  · obtain ⟨h1, h2, h3, h4, h5, h6, h7⟩ := handleNodeIdRequest_core s env.millis info
      (body.take ESP_NOW_ETH_ALEN)
    exact BegunInv_of_eq h h1 h2 h3 h4 h5 h6 h7
  · split <;> exact BegunInv_of_eq h rfl rfl rfl rfl rfl rfl rfl
  · split <;> exact BegunInv_of_eq h rfl rfl rfl rfl rfl rfl rfl
  · exact h
  · exact h

theorem BegunInv_receiveAsNode (s : Mesh) (env : Env) (payload : List Nat) (t : Nat)
    (body : List Nat) (info : PJON_Packet_Info) (h : BegunInv s)
    (hv : t = NODE_ID_ASSIGN →
      1 ≤ body.headD 0 ∧ body.headD 0 ≤ 254 ∧ 1 ≤ info.sender_id ∧ info.sender_id ≤ 254
        ∧ body.headD 0 ≠ info.sender_id) :
    BegunInv (receiveAsNode s env payload t body info).1 := by
  obtain ⟨⟨hJ, hR, hM, hG, hK, hI⟩, hb⟩ := h
  unfold receiveAsNode
  simp only []
  generalize body.headD 0 = a at *
  by_cases c1 : info.sender_id = s._gatewayPjonId
  · by_cases c2 : t = NODE_ID_ASSIGN ∧ body.length ≥ 1 + ESP_NOW_ETH_ALEN
    · obtain ⟨a1, a2, a3, a4, a5⟩ := hv c2.1
      have hgood : GoodIds a s._gatewayPjonId := by
        rw [← c1]; exact ⟨a5, a1, a2, a3, a4⟩
      have ha : a < 256 := by omega
      simp only [c1, c2, and_self, if_true]
      split_ifs
      all_goals first
        | exact BegunInv_mk hb hR hM hG hK hI
        | (apply BegunInv_mk <;> simp [hb, hG, hK, hR, hM, ROLE_NODE, ha] <;>
            first
            | exact hgood
            | (apply saveConfigToNVS_store <;> simp [hK, ha, ROLE_NODE]
               exact hgood))
    · simp only [c1, c2, if_true, if_false]
      split_ifs
      all_goals exact BegunInv_mk hb hR hM hG hK hI
  · simp only [c1, if_false]
    exact BegunInv_mk hb hR hM hG hK hI

theorem BegunInv_actualPjonReceiver (s : Mesh) (env : Env) (payload : List Nat)
    (info : PJON_Packet_Info) (h : BegunInv s)
    (hv : WellBehavedInbound s (Inbound.packet env payload info)) :
    BegunInv (actualPjonReceiver s env payload info).1 := by
  unfold actualPjonReceiver
  cases payload with
  | nil => exact h
  | cons t body =>
    obtain ⟨hv1, hv2⟩ := hv
    have hassign : t = NODE_ID_ASSIGN →
        1 ≤ body.headD 0 ∧ body.headD 0 ≤ 254 ∧ 1 ≤ info.sender_id ∧ info.sender_id ≤ 254
          ∧ body.headD 0 ≠ info.sender_id := by
      intro ht
      have := hv1 (by simp [ht])
      cases body with
      | nil => simp at this
      | cons a rest => simpa using this
    have hann : t = GATEWAY_ANNOUNCE →
        1 ≤ info.sender_id ∧ info.sender_id ≤ 254 ∧ info.sender_id ≠ s._myPjonId := by
      intro ht
      exact hv2 (by simp [ht])
    have hrole : BegunInv (receiveByRole s env (t :: body) t body info).1 := by
      unfold receiveByRole
      split_ifs
      · exact BegunInv_receiveAsGateway s env _ t body info h
      · exact BegunInv_receiveAsNode s env _ t body info h hassign
      · exact h
    simp only []
    split_ifs with c1 c2
    · exact BegunInv_receiveAnnounceWhileListening s env body info h (hann c2.1)
    · exact hrole
    · exact hrole

theorem BegunInv_actualPjonError (s : Mesh) (env : Env) (code data : Nat) (h : BegunInv s) :
    BegunInv (actualPjonError s env code data).1 := by
  obtain ⟨⟨hJ, hR, hM, hG, hK, hI⟩, hb⟩ := h
  unfold actualPjonError
  simp only []
  split_ifs <;>
    first
    | exact BegunInv_mk hb hR hM hG hK hI
    | (split <;> exact BegunInv_mk hb hR hM hG hK hI)
    | (apply BegunInv_mk <;>
        simp [hb, hG, hK, hR, hM, initializePjonStack_fsm_state, PJON_NOT_ASSIGNED]
       intro hc
       split_ifs at hc)

theorem BegunInv_deliverAll (inbound : List Inbound) (s : Mesh) (h : BegunInv s)
    (hv : WellBehavedInbounds s inbound) : BegunInv (deliverAll s inbound).1 := by
  induction inbound generalizing s with
  | nil => exact h
  | cons i rest ih =>
    obtain ⟨hv1, hv2⟩ := hv
    have hstep : BegunInv (deliver s i).1 := by
      cases i with
      | packet env payload info => exact BegunInv_actualPjonReceiver s env payload info h hv1
      | error env code data => exact BegunInv_actualPjonError s env code data h
    exact ih (deliver s i).1 hstep hv2

theorem BegunInv_updateTick (s : Mesh) (env : Env) (h : BegunInv s) :
    BegunInv (updateTick s env).1 := by
  have h1 := BegunInv_runDiscoveryFSM s env h
  unfold updateTick
  simp only []
  split_ifs
  · exact BegunInv_operateAsNode _ env h1
  · exact BegunInv_operateAsGateway _ env h1
  · exact h1

theorem CoreInv_update (s : Mesh) (env : Env) (inbound : List Inbound) (h : CoreInv s)
    (hv : WellBehavedCall s (Call.update env inbound)) : CoreInv (update s env inbound).1 := by
  unfold update
  by_cases hb : s._is_begun = true
  · have h1 := BegunInv_updateTick s env ⟨h, hb⟩
    simp only [hb, not_true_eq_false, if_false]
    split_ifs with hl
    · exact (BegunInv_deliverAll inbound _ h1 (hv hb hl)).1
    · exact h1.1
  · simp only [hb, not_false_eq_true, if_true]
    exact h

theorem CoreInv_run (s : Mesh) (c : Call) (h : CoreInv s) (hv : WellBehavedCall s c) :
    CoreInv (c.run s) := by
  cases c with
  | begin benv name ch g => exact CoreInv_begin s benv name ch g h
  | «end» => exact CoreInv_end s h
  | setEspNowPmk pmk => exact CoreInv_setEspNowPmk s pmk h
  | forceRoleNode id gw => exact CoreInv_forceRoleNode s id gw h
  | forceRoleGateway id => exact CoreInv_forceRoleGateway s id h
  | update env inbound => exact CoreInv_update s env inbound h hv
  | setDiscoveryTimeout t => exact CoreInv_of_eq h rfl rfl rfl rfl rfl rfl rfl
  | setGatewayContentionWindow w => exact CoreInv_of_eq h rfl rfl rfl rfl rfl rfl rfl
  | setGatewayAnnounceInterval i => exact CoreInv_of_eq h rfl rfl rfl rfl rfl rfl rfl
  | setNodePingGatewayInterval i => exact CoreInv_of_eq h rfl rfl rfl rfl rfl rfl rfl
  | setNodeMaxGatewayPingAttempts a => exact CoreInv_of_eq h rfl rfl rfl rfl rfl rfl rfl
  | setReceiveCallback c => exact CoreInv_of_eq h rfl rfl rfl rfl rfl rfl rfl
  | setGatewayStatusCallback c => exact CoreInv_of_eq h rfl rfl rfl rfl rfl rfl rfl
  | setNodeStatusCallback c => exact CoreInv_of_eq h rfl rfl rfl rfl rfl rfl rfl

theorem CoreInv_runCalls (calls : List Call) (s : Mesh) (h : CoreInv s)
    (hv : WellBehavedCalls s calls) : CoreInv (runCalls s calls) := by
  induction calls generalizing s with
  | nil => exact h
  | cons c rest ih => exact ih (c.run s) (CoreInv_run s c h hv.1) hv.2

/-! ## Periodic work of a node: lemmas -/

theorem update_nil_of_tick (s : Mesh) (env : Env) (hb : s._is_begun = true) :
    update s env [] = updateTick s env := by
  unfold update
  simp only [hb, not_true_eq_false, if_false, deliverAll, List.append_nil]
  split_ifs <;> rfl

theorem updateTick_operational_node (s : Mesh) (env : Env)
    (hrole : s._current_role = ROLE_NODE) (hfsm : s._fsm_state = DiscoveryFSM.OPERATIONAL_NODE) :
    updateTick s env = operateAsNode s env := by
  unfold updateTick runDiscoveryFSM
  simp only [hfsm, hrole, if_true, List.nil_append]

/-- A due ping below the attempt limit: one `NODE_PING_GATEWAY`, the counter and the due
time advance. -/
theorem operateAsNode_ping (s : Mesh) (env : Env)
    (hgw : s._gatewayPjonId ≠ PJON_NOT_ASSIGNED)
    (hdue : env.millis ≥ s._next_gateway_ping_time)
    (hfail : s._failed_gateway_pings_count < s._node_max_gateway_ping_attempts) :
    operateAsNode s env
      = ({ s with
            _failed_gateway_pings_count := inc8 s._failed_gateway_pings_count
            _next_gateway_ping_time := add32 env.millis s._node_ping_gateway_interval_ms },
         [Effect.pjon_send s._gateway_mac_addr s._gatewayPjonId [NODE_PING_GATEWAY]]) := by
  unfold operateAsNode
  have : ¬ s._failed_gateway_pings_count ≥ s._node_max_gateway_ping_attempts := by omega
  simp only [hgw, if_false, hdue, if_true, this, ge_iff_le]

/-- A due ping at the attempt limit: the gateway linkage is cleared and the transport is
restarted on `PJON_NOT_ASSIGNED`; the callback fires only when the flag was set. -/
theorem operateAsNode_exhausted (s : Mesh) (env : Env)
    (hgw : s._gatewayPjonId ≠ PJON_NOT_ASSIGNED)
    (hdue : env.millis ≥ s._next_gateway_ping_time)
    (hfail : s._failed_gateway_pings_count ≥ s._node_max_gateway_ping_attempts)
    (hcb : s._user_gateway_status_cb = true)
    (hstart : env.pjon_begin_ok = true) :
    operateAsNode s env
      = ({ s with
            _current_gateway_connected_status := false
            _fsm_state := DiscoveryFSM.LISTEN_FOR_GATEWAY
            _fsm_timer_start := env.millis
            _gatewayPjonId := PJON_NOT_ASSIGNED
            _gateway_mac_addr := esp_now_null_mac
            _pjon_bus := { device_id := PJON_NOT_ASSIGNED, bus_id := s._pjon_bus_id.take 4,
                           listening := true } },
         if s._current_gateway_connected_status = true then [Effect.gateway_status_cb false]
         else []) := by
  unfold operateAsNode restartListening initializePjonStack pjonEnd
  simp only [hgw, if_false, hdue, hfail, if_true, hcb, and_true, hstart, ge_iff_le]
  by_cases hc : s._current_gateway_connected_status = true <;> simp [hc]

theorem update_disconnect (s : Mesh) (env : Env)
    (hbegun : s._is_begun = true) (hrole : s._current_role = ROLE_NODE)
    (hfsm : s._fsm_state = DiscoveryFSM.OPERATIONAL_NODE)
    (hgw : s._gatewayPjonId ≠ PJON_NOT_ASSIGNED)
    (hdue : env.millis ≥ s._next_gateway_ping_time)
    (hfail : s._failed_gateway_pings_count ≥ s._node_max_gateway_ping_attempts)
    (hcb : s._user_gateway_status_cb = true)
    (hstart : env.pjon_begin_ok = true) :
    update s env []
      = ({ s with
            _current_gateway_connected_status := false
            _fsm_state := DiscoveryFSM.LISTEN_FOR_GATEWAY
            _fsm_timer_start := env.millis
            _gatewayPjonId := PJON_NOT_ASSIGNED
            _gateway_mac_addr := esp_now_null_mac
            _pjon_bus := { device_id := PJON_NOT_ASSIGNED, bus_id := s._pjon_bus_id.take 4,
                           listening := true } },
         if s._current_gateway_connected_status = true then [Effect.gateway_status_cb false]
         else []) := by
  rw [update_nil_of_tick s env hbegun, updateTick_operational_node s env hrole hfsm,
    operateAsNode_exhausted s env hgw hdue hfail hcb hstart]

/-- With `f` failed pings and the next ping due at `t`, `n` ticks at the clock values `t`,
`t + p`, ... (`p` the ping interval), none of which reaches the attempt limit, send one
`NODE_PING_GATEWAY` each and leave `f + n` failed pings and the due time `t + n * p`. -/
theorem ping_run (n : Nat) : ∀ (s : Mesh) (e : Nat → Env) (t f : Nat),
    s._is_begun = true → s._current_role = ROLE_NODE →
    s._fsm_state = DiscoveryFSM.OPERATIONAL_NODE →
    s._gatewayPjonId ≠ PJON_NOT_ASSIGNED →
    s._failed_gateway_pings_count = f → s._next_gateway_ping_time = t →
    f + n ≤ s._node_max_gateway_ping_attempts → s._node_max_gateway_ping_attempts < 256 →
    t + n * s._node_ping_gateway_interval_ms < 4294967296 →
    (∀ k, (e k).millis = t + k * s._node_ping_gateway_interval_ms) →
    idleTicks s ((List.range n).map e)
      = ({ s with
            _failed_gateway_pings_count := f + n
            _next_gateway_ping_time := t + n * s._node_ping_gateway_interval_ms },
         List.replicate n
           [Effect.pjon_send s._gateway_mac_addr s._gatewayPjonId [NODE_PING_GATEWAY]]) := by
  induction n with
  | zero =>
    intro s e t f _ _ _ _ hf ht _ _ _ _
    subst hf; subst ht
    simp [idleTicks]
  | succ n ih =>
    intro s e t f hb hrole hfsm hgw hf ht hfm hm8 h32 he
    rw [List.range_succ_eq_map, List.map_cons, List.map_map]
    simp only [idleTicks]
    have h0 : (e 0).millis = t := by rw [he 0]; omega
    have hstep : update s (e 0) []
        = ({ s with
              _failed_gateway_pings_count := f + 1
              _next_gateway_ping_time := t + s._node_ping_gateway_interval_ms },
           [Effect.pjon_send s._gateway_mac_addr s._gatewayPjonId [NODE_PING_GATEWAY]]) := by
      rw [update_nil_of_tick s _ hb, updateTick_operational_node s _ hrole hfsm,
        operateAsNode_ping s _ hgw (by rw [h0, ht]) (by omega)]
      have hi : inc8 s._failed_gateway_pings_count = f + 1 := by
        unfold inc8; rw [hf]; apply Nat.mod_eq_of_lt; omega
      have ha : add32 (e 0).millis s._node_ping_gateway_interval_ms
          = t + s._node_ping_gateway_interval_ms := by
        unfold add32; rw [h0]; apply Nat.mod_eq_of_lt
        have : t + s._node_ping_gateway_interval_ms
            ≤ t + (n + 1) * s._node_ping_gateway_interval_ms := by
          apply Nat.add_le_add_left
          exact Nat.le_mul_of_pos_left _ (by omega)
        omega
      rw [hi, ha]
    rw [hstep]
    have hrec := ih
      { s with
        _failed_gateway_pings_count := f + 1
        _next_gateway_ping_time := t + s._node_ping_gateway_interval_ms }
      (e ∘ Nat.succ) (t + s._node_ping_gateway_interval_ms) (f + 1)
      hb hrole hfsm hgw rfl rfl (by show f + 1 + n ≤ s._node_max_gateway_ping_attempts; omega) hm8
      (by
        show t + s._node_ping_gateway_interval_ms + n * s._node_ping_gateway_interval_ms < _
        have : (n + 1) * s._node_ping_gateway_interval_ms
            = s._node_ping_gateway_interval_ms + n * s._node_ping_gateway_interval_ms := by ring
        omega)
      (by
        intro k
        show (e (k + 1)).millis = t + s._node_ping_gateway_interval_ms + k * s._node_ping_gateway_interval_ms
        rw [he (k + 1)]
        have : (k + 1) * s._node_ping_gateway_interval_ms
            = s._node_ping_gateway_interval_ms + k * s._node_ping_gateway_interval_ms := by ring
        omega)
    rw [hrec]
    have h1 : f + 1 + n = f + (n + 1) := by omega
    have h2 : t + s._node_ping_gateway_interval_ms + n * s._node_ping_gateway_interval_ms
        = t + (n + 1) * s._node_ping_gateway_interval_ms := by ring
    simp only [h1, h2, List.replicate_succ]

/-! ## Inactivity sweep and sole removal path: lemmas -/

theorem cleanupLoop_effects (cb : Bool) (now : Nat) (remaining i : Nat) (nodes : List NodeInfo)
    (count : Nat) (hr : remaining = count - i) (hi : i ≤ count) (hc : count ≤ nodes.length) :
    (cleanupLoop cb now remaining i nodes count).2.2
      = (((nodes.take count).drop i).filter
          (fun r => decide (sub32 now r.last_seen > NODE_INACTIVITY_THRESHOLD_MS))).flatMap
          (fun r => (if cb then [Effect.node_status_cb r.pjon_id false] else [])
            ++ [Effect.del_peer r.mac_addr]) := by
  induction remaining generalizing i nodes count with
  | zero =>
    have hic : i = count := by omega
    subst hic
    have hnil : (nodes.take i).drop i = [] := by
      apply List.drop_eq_nil_of_le; simp
    simp [cleanupLoop, hnil]
  | succ remaining ih =>
    have hlt : i < count := by omega
    have hil : i < nodes.length := by omega
    have hT : (nodes.take count).drop i = nodes[i] :: (nodes.take count).drop (i + 1) := by
      have h1 : i < (nodes.take count).length := by simp only [List.length_take]; omega
      rw [List.drop_eq_getElem_cons h1]
      simp
    simp only [cleanupLoop]
    rw [List.getD_eq_getElem _ _ hil]
    by_cases hin : sub32 now nodes[i].last_seen > NODE_INACTIVITY_THRESHOLD_MS
    · simp only [hin, if_true]
      have h3 := ih i (shiftLoop (count - 1 - i) i nodes) (count - 1) (by omega) (by omega)
        (by rw [shiftLoop_length]; omega)
      rw [h3, take_shiftLoop nodes count i hlt hc, hT]
      have hE : (nodes.take count).eraseIdx i = nodes.take i ++ (nodes.take count).drop (i + 1) := by
        rw [List.eraseIdx_eq_take_drop_succ, List.take_take, Nat.min_eq_left (Nat.le_of_lt hlt)]
      have hlen : (nodes.take i).length = i := by simp only [List.length_take]; omega
      rw [hE, List.drop_left' hlen]
      simp [List.filter_cons, hin, List.flatMap_cons]
    · simp only [hin, if_false]
      rw [ih (i + 1) nodes count (by omega) (by omega) hc, hT]
      simp [List.filter_cons, hin]

theorem count_status_flatMap (l : List NodeInfo) (n : Nat) (c : Bool) :
    List.count (Effect.node_status_cb n c)
        (l.flatMap fun r => [Effect.node_status_cb r.pjon_id false, Effect.del_peer r.mac_addr])
      = if c = false then List.count n (l.map NodeInfo.pjon_id) else 0 := by
  induction l with
  | nil => simp
  | cons r rs ih =>
    rw [List.flatMap_cons, List.count_append, ih]
    cases c <;> by_cases h : r.pjon_id = n <;> simp [List.count_cons, h, Nat.add_comm]

theorem findNodeById_of_mem (s : Mesh) (n : Nat) (hn : n ≠ PJON_NOT_ASSIGNED)
    (hrec : ∃ r ∈ activeNodes s, r.pjon_id = n) :
    ∃ i, findNodeById s n = some i := by
  unfold findNodeById
  rw [if_neg hn]
  cases hres : scanLoop (fun r => r.pjon_id == n) s._known_nodes s._known_nodes_count 0 with
  | some i => exact ⟨i, rfl⟩
  | none =>
    exfalso
    obtain ⟨r, hr, hrn⟩ := hrec
    obtain ⟨j, hj, rfl⟩ := List.mem_iff_getElem.mp hr
    simp only [activeNodes, List.length_take] at hj
    have := (scanLoop_none_iff _ _ _ _).mp hres j (Nat.zero_le _) (by omega)
    rw [List.getD_eq_getElem _ _ (by omega)] at this
    simp only [activeNodes, List.getElem_take] at hrn
    simp [hrn] at this

theorem tableKeys_prefix_of_set (s s' : Mesh) (idx : Nat) (v : NodeInfo)
    (h1 : s'._known_nodes = s._known_nodes.set idx v)
    (h2 : s'._known_nodes_count = s._known_nodes_count)
    (hi : v.pjon_id = (s._known_nodes.getD idx NodeInfo.blank).pjon_id)
    (hm : v.mac_addr = (s._known_nodes.getD idx NodeInfo.blank).mac_addr) :
    tableKeys s <+: tableKeys s' := by
  unfold tableKeys activeNodes
  rw [h1, h2, map_take_set_of_eq (fun r => (r.pjon_id, r.mac_addr)) s._known_nodes idx
    s._known_nodes_count v (by show (v.pjon_id, v.mac_addr) = _; rw [hi, hm])]

theorem tableKeys_handleNodeIdRequest (s : Mesh) (now : Nat) (info : PJON_Packet_Info) (mac : Mac)
    (h : TableInv s) : tableKeys s <+: tableKeys (handleNodeIdRequest s now info mac).1 := by
  unfold handleNodeIdRequest
  split
  · exact tableKeys_prefix_of_set s _ _ _ rfl rfl rfl rfl
  · split
    · exact List.prefix_refl _
    · rename_i hlt
      have hM : MAX_NODES_PER_GATEWAY = 30 := rfl
      split
      · exact List.prefix_refl _
      · rename_i a cand hs
        obtain ⟨h1, h2, _, _⟩ := h
        have hinc : inc8 s._known_nodes_count = s._known_nodes_count + 1 := by
          unfold inc8; apply Nat.mod_eq_of_lt; omega
        show tableKeys s <+: List.map _ (List.take (inc8 s._known_nodes_count) (s._known_nodes.set _ _))
        rw [hinc, take_succ_set _ _ _ (by omega), List.map_append]
        exact List.prefix_append _ _

theorem tableKeys_receiveAsGateway (s : Mesh) (env : Env) (payload : List Nat) (t : Nat)
    (body : List Nat) (info : PJON_Packet_Info) (h : TableInv s) :
    tableKeys s <+: tableKeys (receiveAsGateway s env payload t body info).1 := by
  unfold receiveAsGateway
  split_ifs <;>
    first
    | exact List.prefix_refl _
    | exact tableKeys_handleNodeIdRequest _ _ _ _ h
    | (split <;>
        first
        | exact tableKeys_prefix_of_set s _ _ _ rfl rfl rfl rfl
        | exact List.prefix_refl _)

theorem tableKeys_actualPjonReceiver (s : Mesh) (env : Env) (payload : List Nat)
    (info : PJON_Packet_Info) (hrole : s._current_role = ROLE_GATEWAY) (h : TableInv s) :
    tableKeys s <+: tableKeys (actualPjonReceiver s env payload info).1 := by
  have hnd : ¬ s._current_role = ROLE_DISCOVERING := by rw [hrole]; decide
  have hnn : ¬ s._current_role = ROLE_NODE := by rw [hrole]; decide
  unfold actualPjonReceiver receiveByRole
  split
  · exact List.prefix_refl _
  · simp only [hrole, if_true]
    split_ifs
    · unfold receiveAnnounceWhileListening
      simp only [hnd, hnn, and_false, or_self, if_false]
      exact List.prefix_refl _
    · exact tableKeys_receiveAsGateway _ _ _ _ _ _ h
    · exact tableKeys_receiveAsGateway _ _ _ _ _ _ h

/-! ## Timer-only ticks of a discovering device: lemmas -/

theorem idleTicks_not_begun (envs : List Env) (s : Mesh) (hb : s._is_begun = false) :
    (idleTicks s envs).1 = s := by
  induction envs with
  | nil => rfl
  | cons x xs ih =>
    have : update s x [] = (s, []) := by unfold update; simp [hb]
    simp only [idleTicks, this, ih]

/-- A timer-only tick of a discovering device in `LISTEN_FOR_GATEWAY`. -/
theorem update_listen (s : Mesh) (env : Env) (hb : s._is_begun = true)
    (hfsm : s._fsm_state = DiscoveryFSM.LISTEN_FOR_GATEWAY)
    (hrole : s._current_role = ROLE_DISCOVERING) :
    (update s env []).1
      = if sub32 env.millis s._fsm_timer_start > s._discovery_timeout_ms then
          pjonEnd { s with
            _fsm_state := DiscoveryFSM.GATEWAY_ELECTION_DELAY
            _fsm_timer_start := env.millis }
        else s := by
  have h1 : ¬ ROLE_DISCOVERING = ROLE_NODE := by decide
  have h2 : ¬ ROLE_DISCOVERING = ROLE_GATEWAY := by decide
  rw [update_nil_of_tick s env hb]
  unfold updateTick runDiscoveryFSM
  simp only [hfsm]
  by_cases ht : sub32 env.millis s._fsm_timer_start > s._discovery_timeout_ms
  · simp [ht, pjonEnd, hrole, h1, h2]
  · simp [ht, hrole, h1, h2]

/-- A timer-only tick of a discovering device in `REQUEST_NODE_ID`. -/
theorem update_request (s : Mesh) (env : Env) (hb : s._is_begun = true)
    (hfsm : s._fsm_state = DiscoveryFSM.REQUEST_NODE_ID)
    (hrole : s._current_role = ROLE_DISCOVERING) :
    (update s env []).1
      = if sub32 env.millis s._fsm_timer_start > NODE_ID_REQUEST_TIMEOUT_MS then
          { s with
            _gatewayPjonId := PJON_NOT_ASSIGNED
            _gateway_mac_addr := esp_now_null_mac
            _fsm_state := DiscoveryFSM.LISTEN_FOR_GATEWAY
            _fsm_timer_start := env.millis }
        else s := by
  have h1 : ¬ ROLE_DISCOVERING = ROLE_NODE := by decide
  have h2 : ¬ ROLE_DISCOVERING = ROLE_GATEWAY := by decide
  rw [update_nil_of_tick s env hb]
  unfold updateTick runDiscoveryFSM
  simp only [hfsm]
  by_cases ht : sub32 env.millis s._fsm_timer_start > NODE_ID_REQUEST_TIMEOUT_MS
  · simp [ht, hrole, h1, h2]
  · simp [ht, hrole, h1, h2]

/-- From `LISTEN_FOR_GATEWAY`, timer-only ticks reach `ANNOUNCE_AS_GATEWAY` only past a tick
that finds the discovery timeout elapsed, the device listening unchanged until then. -/
theorem listen_waits (envs : List Env) (s : Mesh) (hb : s._is_begun = true)
    (hfsm : s._fsm_state = DiscoveryFSM.LISTEN_FOR_GATEWAY)
    (hrole : s._current_role = ROLE_DISCOVERING)
    (h : (idleTicks s envs).1._fsm_state = DiscoveryFSM.ANNOUNCE_AS_GATEWAY) :
    ∃ mid eT post, envs = mid ++ eT :: post ∧ (idleTicks s mid).1 = s
      ∧ sub32 eT.millis s._fsm_timer_start > s._discovery_timeout_ms := by
  induction envs with
  | nil =>
    simp only [idleTicks] at h
    rw [hfsm] at h; cases h
  | cons x xs ih =>
    by_cases ht : sub32 x.millis s._fsm_timer_start > s._discovery_timeout_ms
    · exact ⟨[], x, xs, rfl, rfl, ht⟩
    · have hx : (update s x []).1 = s := by
        rw [update_listen s x hb hfsm hrole, if_neg ht]
      simp only [idleTicks, hx] at h
      obtain ⟨mid, eT, post, h1, h2, h3⟩ := ih h
      refine ⟨x :: mid, eT, post, by rw [h1]; rfl, ?_, h3⟩
      simp only [idleTicks, hx, h2]

/-- From `REQUEST_NODE_ID`, timer-only ticks reach `ANNOUNCE_AS_GATEWAY` only past a tick that
returns to `LISTEN_FOR_GATEWAY` and a later tick, still in `LISTEN_FOR_GATEWAY`, that finds
the discovery timeout elapsed since that return. -/
theorem request_waits (envs : List Env) (s : Mesh) (hb : s._is_begun = true)
    (hfsm : s._fsm_state = DiscoveryFSM.REQUEST_NODE_ID)
    (hrole : s._current_role = ROLE_DISCOVERING)
    (h : (idleTicks s envs).1._fsm_state = DiscoveryFSM.ANNOUNCE_AS_GATEWAY) :
    ∃ pre eL mid eT post, envs = pre ++ eL :: (mid ++ eT :: post)
      ∧ (idleTicks s pre).1._fsm_state = DiscoveryFSM.REQUEST_NODE_ID
      ∧ (idleTicks s (pre ++ [eL])).1._fsm_state = DiscoveryFSM.LISTEN_FOR_GATEWAY
      ∧ (idleTicks s (pre ++ eL :: mid)).1._fsm_state = DiscoveryFSM.LISTEN_FOR_GATEWAY
      ∧ sub32 eT.millis eL.millis > s._discovery_timeout_ms := by
  induction envs with
  | nil =>
    simp only [idleTicks] at h
    rw [hfsm] at h; cases h
  | cons x xs ih =>
    by_cases ht : sub32 x.millis s._fsm_timer_start > NODE_ID_REQUEST_TIMEOUT_MS
    · have hx : (update s x []).1
          = { s with
              _gatewayPjonId := PJON_NOT_ASSIGNED
              _gateway_mac_addr := esp_now_null_mac
              _fsm_state := DiscoveryFSM.LISTEN_FOR_GATEWAY
              _fsm_timer_start := x.millis } := by
        rw [update_request s x hb hfsm hrole, if_pos ht]
      simp only [idleTicks, hx] at h
      obtain ⟨mid, eT, post, h1, h2, h3⟩ := listen_waits xs
        { s with
          _gatewayPjonId := PJON_NOT_ASSIGNED
          _gateway_mac_addr := esp_now_null_mac
          _fsm_state := DiscoveryFSM.LISTEN_FOR_GATEWAY
          _fsm_timer_start := x.millis } hb rfl hrole h
      refine ⟨[], x, mid, eT, post, by rw [h1]; rfl, hfsm, ?_, ?_, h3⟩
      · simp only [List.nil_append, idleTicks, hx]
      · simp only [List.nil_append, idleTicks, hx, h2]
    · have hx : (update s x []).1 = s := by
        rw [update_request s x hb hfsm hrole, if_neg ht]
      simp only [idleTicks, hx] at h
      obtain ⟨pre, eL, mid, eT, post, h1, h2, h3, h4, h5⟩ := ih h
      refine ⟨x :: pre, eL, mid, eT, post, by rw [h1]; rfl, ?_, ?_, ?_, h5⟩
      · simp only [idleTicks, hx, h2]
      · simp only [List.cons_append, idleTicks, hx]
        exact h3
      · simp only [List.cons_append, idleTicks, hx]
        exact h4

/-- The state a discovering device without id is left in by a `GATEWAY_ANNOUNCE` heard in
`GATEWAY_ELECTION_DELAY`. -/
theorem receive_announce_in_election (s : Mesh) (env : Env) (body : List Nat)
    (packet_info : PJON_Packet_Info)
    (hfsm : s._fsm_state = DiscoveryFSM.GATEWAY_ELECTION_DELAY)
    (hrole : s._current_role = ROLE_DISCOVERING)
    (hid : s._myPjonId = PJON_NOT_ASSIGNED)
    (hbody : body.length ≥ ESP_NOW_ETH_ALEN) :
    (actualPjonReceiver s env (GATEWAY_ANNOUNCE :: body) packet_info).1
      = { s with
          _gatewayPjonId := packet_info.sender_id
          _gateway_mac_addr := body.take ESP_NOW_ETH_ALEN
          _fsm_state := DiscoveryFSM.REQUEST_NODE_ID
          _fsm_timer_start := env.millis } := by
  unfold actualPjonReceiver receiveAnnounceWhileListening
  simp only [hfsm, hrole, hid, hbody, true_or, or_true, and_self, if_true]

/-! ## End, begin and the boot from the store: lemmas -/

/-- What `end` followed by a successful `begin` leaves of the fields the boot reads. -/
theorem end_begin_fields (s : Mesh) (benv : BeginEnv) (name : List Nat) (ch g : Nat) (mac : Mac)
    (hb : s._is_begun = true)
    (hlen : ¬ (strlen name = 0 ∨ strlen name > ROKOR_MESH_MAX_NETWORK_NAME_LEN))
    (hmac : benv.wifi_mac = some mac) (hflash : benv.nvs_flash_ok = true)
    (hsta : benv.wifi_sta_ok = true) (hnow : benv.esp_now_init_ok = true) :
    (begin (RokorMesh.end s) benv (some name) ch g).1._is_begun = true
    ∧ (begin (RokorMesh.end s) benv (some name) ch g).1._fsm_state = DiscoveryFSM.INIT_STATE
    ∧ (begin (RokorMesh.end s) benv (some name) ch g).1._current_role = ROLE_UNINITIALIZED
    ∧ (begin (RokorMesh.end s) benv (some name) ch g).1.nvs = s.nvs
    ∧ (begin (RokorMesh.end s) benv (some name) ch g).1._network_name_stored
        = name.takeWhile (fun c => c != 0)
    ∧ (begin (RokorMesh.end s) benv (some name) ch g).1._espNowChannel
        = (if ch < 1 ∨ ch > 13 then 1 else ch)
    ∧ (begin (RokorMesh.end s) benv (some name) ch g).1._node_max_gateway_ping_attempts
        = s._node_max_gateway_ping_attempts := by
  unfold RokorMesh.end begin
  simp only [hb, not_true_eq_false, if_false, initNodeManagement, pjonEnd, Bool.false_eq_true,
    hlen, hmac, hflash, hsta, hnow]
  simp

/-- The tick that leaves `INIT_STATE` in a role without periodic work. -/
theorem update_init (s : Mesh) (env : Env) (hb : s._is_begun = true)
    (hfsm : s._fsm_state = DiscoveryFSM.INIT_STATE)
    (hrole : s._current_role = ROLE_UNINITIALIZED) :
    (update s env []).1
      = { s with _fsm_state := DiscoveryFSM.LOAD_NVS_CONFIG, _fsm_timer_start := env.millis } := by
  have h1 : ¬ ROLE_UNINITIALIZED = ROLE_NODE := by decide
  have h2 : ¬ ROLE_UNINITIALIZED = ROLE_GATEWAY := by decide
  rw [update_nil_of_tick s env hb]
  unfold updateTick runDiscoveryFSM
  simp [hfsm, hrole, h1, h2]

theorem loadConfigFromNVS_gateway (t : Mesh) (env : Env) (id : Nat)
    (hopen : env.nvs_open_ok = true)
    (hname : t.nvs.net_name = some t._network_name_stored)
    (hchan : t.nvs.channel = some t._espNowChannel)
    (hrole : t.nvs.role = some ROLE_GATEWAY) (hid : t.nvs.pjon_id = some id) :
    loadConfigFromNVS t env = ({ t with _current_role := ROLE_GATEWAY, _myPjonId := id }, true) := by
  unfold loadConfigFromNVS
  simp [hopen, hname, hchan, hrole, hid]

theorem loadConfigFromNVS_node_record (t : Mesh) (env : Env) (id gw : Nat) (gwmac : Mac)
    (hopen : env.nvs_open_ok = true)
    (hname : t.nvs.net_name = some t._network_name_stored)
    (hchan : t.nvs.channel = some t._espNowChannel)
    (hrole : t.nvs.role = some ROLE_NODE) (hid : t.nvs.pjon_id = some id)
    (hgw : t.nvs.gw_pjonid = some gw) (hgm : t.nvs.gw_mac = some gwmac) :
    loadConfigFromNVS t env
      = ({ t with
            _current_role := ROLE_NODE, _myPjonId := id
            _gatewayPjonId := gw, _gateway_mac_addr := gwmac }, true) := by
  unfold loadConfigFromNVS
  simp [hopen, hname, hchan, hrole, hid, hgw, hgm]

theorem operateAsGateway_fields (s : Mesh) (env : Env) :
    (operateAsGateway s env).1._fsm_state = s._fsm_state
    ∧ (operateAsGateway s env).1._current_role = s._current_role
    ∧ (operateAsGateway s env).1._myPjonId = s._myPjonId
    ∧ (operateAsGateway s env).1._is_begun = s._is_begun
    ∧ (operateAsGateway s env).1.nvs = s.nvs
    ∧ (operateAsGateway s env).1._network_name_stored = s._network_name_stored
    ∧ (operateAsGateway s env).1._espNowChannel = s._espNowChannel
    ∧ (s._known_nodes_count = 0 → (operateAsGateway s env).1._known_nodes_count = 0) := by
  unfold operateAsGateway cleanupInactiveNodes
  simp only []
  split_ifs
  · refine ⟨rfl, rfl, rfl, rfl, rfl, rfl, rfl, ?_⟩
    intro h0
    simp [h0, cleanupLoop]
  · refine ⟨rfl, rfl, rfl, rfl, rfl, rfl, rfl, fun h => h⟩
  · refine ⟨rfl, rfl, rfl, rfl, rfl, rfl, rfl, ?_⟩
    intro h0
    simp [h0, cleanupLoop]
  · refine ⟨rfl, rfl, rfl, rfl, rfl, rfl, rfl, fun h => h⟩

/-- The `LOAD_NVS_CONFIG` tick on a matching gateway record. -/
theorem load_tick_gateway (t : Mesh) (env : Env) (id : Nat)
    (hb : t._is_begun = true) (hfsm : t._fsm_state = DiscoveryFSM.LOAD_NVS_CONFIG)
    (hopen : env.nvs_open_ok = true) (hstart : env.pjon_begin_ok = true)
    (hname : t.nvs.net_name = some t._network_name_stored)
    (hchan : t.nvs.channel = some t._espNowChannel)
    (hrole : t.nvs.role = some ROLE_GATEWAY) (hid : t.nvs.pjon_id = some id) :
    (update t env []).1._fsm_state = DiscoveryFSM.OPERATIONAL_GATEWAY
    ∧ (update t env []).1._current_role = ROLE_GATEWAY
    ∧ (update t env []).1._myPjonId = id
    ∧ (update t env []).1._known_nodes_count = 0 := by
  have hg : ¬ ROLE_GATEWAY = ROLE_NODE := by decide
  have hfsmStep : (runDiscoveryFSM t env).1._fsm_state = DiscoveryFSM.OPERATIONAL_GATEWAY
      ∧ (runDiscoveryFSM t env).1._current_role = ROLE_GATEWAY
      ∧ (runDiscoveryFSM t env).1._myPjonId = id
      ∧ (runDiscoveryFSM t env).1._known_nodes_count = 0 := by
    unfold runDiscoveryFSM fsmLoadNvsConfig
    simp only [hfsm, loadConfigFromNVS_gateway t env id hopen hname hchan hrole hid, if_true]
    unfold initializePjonStack pjonEnd initNodeManagement
    by_cases hl : t._pjon_bus.listening = true <;> simp [hstart, hg, hl]
  obtain ⟨f1, f2, f3, f4⟩ := hfsmStep
  obtain ⟨o1, o2, o3, _, _, _, _, o8⟩ := operateAsGateway_fields (runDiscoveryFSM t env).1 env
  rw [update_nil_of_tick t env hb]
  unfold updateTick
  simp only [f2, hg, if_false, if_true]
  exact ⟨o1.trans f1, o2.trans f2, o3.trans f3, o8 f4⟩

/-- The `LOAD_NVS_CONFIG` tick on a matching node record with a known gateway. -/
theorem load_tick_node (t : Mesh) (env : Env) (id gw : Nat) (gwmac : Mac)
    (hb : t._is_begun = true) (hfsm : t._fsm_state = DiscoveryFSM.LOAD_NVS_CONFIG)
    (hopen : env.nvs_open_ok = true) (hstart : env.pjon_begin_ok = true)
    (hname : t.nvs.net_name = some t._network_name_stored)
    (hchan : t.nvs.channel = some t._espNowChannel)
    (hrole : t.nvs.role = some ROLE_NODE) (hid : t.nvs.pjon_id = some id)
    (hgw : t.nvs.gw_pjonid = some gw) (hgm : t.nvs.gw_mac = some gwmac)
    (hgwk : gw ≠ PJON_NOT_ASSIGNED) (hgmk : gwmac ≠ esp_now_null_mac)
    (hmax : 1 ≤ t._node_max_gateway_ping_attempts) :
    (update t env []).1._fsm_state = DiscoveryFSM.OPERATIONAL_NODE
    ∧ (update t env []).1._current_role = ROLE_NODE
    ∧ (update t env []).1._myPjonId = id
    ∧ (update t env []).1._gatewayPjonId = gw
    ∧ (update t env []).1._gateway_mac_addr = gwmac := by
  have hg : ¬ ROLE_NODE = ROLE_GATEWAY := by decide
  have hfsmStep : (runDiscoveryFSM t env).1
      = { t with
          _current_role := ROLE_NODE, _myPjonId := id
          _gatewayPjonId := gw, _gateway_mac_addr := gwmac
          _pjon_bus := { device_id := id, bus_id := t._pjon_bus_id.take 4, listening := true }
          _current_gateway_connected_status := false
          _next_gateway_ping_time := env.millis
          _failed_gateway_pings_count := 0
          _fsm_state := DiscoveryFSM.OPERATIONAL_NODE
          _fsm_timer_start := env.millis } := by
    unfold runDiscoveryFSM fsmLoadNvsConfig
    simp only [hfsm,
      loadConfigFromNVS_node_record t env id gw gwmac hopen hname hchan hrole hid hgw hgm, if_true]
    unfold initializePjonStack pjonEnd
    by_cases hl : t._pjon_bus.listening = true <;> simp [hstart, hg, hgwk, hgmk, hl]
  rw [update_nil_of_tick t env hb]
  simp only [updateTick, hfsmStep, if_true]
  rw [operateAsNode_ping _ env hgwk (Nat.le_refl _) (by show 0 < t._node_max_gateway_ping_attempts; omega)]
  exact ⟨rfl, rfl, rfl, rfl, rfl⟩

/-- The tick in `ANNOUNCE_AS_GATEWAY`, the transport starting and the store opening: the
device is an operational gateway and the store holds its record. -/
theorem announce_tick_fields (s0 : Mesh) (env0 : Env)
    (hb : s0._is_begun = true) (hfsm : s0._fsm_state = DiscoveryFSM.ANNOUNCE_AS_GATEWAY)
    (hstart : env0.pjon_begin_ok = true) (hopen : env0.nvs_open_ok = true) :
    (update s0 env0 []).1._is_begun = true
    ∧ (update s0 env0 []).1._fsm_state = DiscoveryFSM.OPERATIONAL_GATEWAY
    ∧ (update s0 env0 []).1._current_role = ROLE_GATEWAY
    ∧ (update s0 env0 []).1._myPjonId = s0._pjonIdForGatewayUse
    ∧ (update s0 env0 []).1._network_name_stored = s0._network_name_stored
    ∧ (update s0 env0 []).1._espNowChannel = s0._espNowChannel
    ∧ (update s0 env0 []).1.nvs.net_name = some s0._network_name_stored
    ∧ (update s0 env0 []).1.nvs.role = some ROLE_GATEWAY
    ∧ (update s0 env0 []).1.nvs.pjon_id = some s0._pjonIdForGatewayUse
    ∧ (update s0 env0 []).1.nvs.channel = some s0._espNowChannel := by
  have hg : ¬ ROLE_GATEWAY = ROLE_NODE := by decide
  have hstep : (runDiscoveryFSM s0 env0).1._is_begun = true
      ∧ (runDiscoveryFSM s0 env0).1._fsm_state = DiscoveryFSM.OPERATIONAL_GATEWAY
      ∧ (runDiscoveryFSM s0 env0).1._current_role = ROLE_GATEWAY
      ∧ (runDiscoveryFSM s0 env0).1._myPjonId = s0._pjonIdForGatewayUse
      ∧ (runDiscoveryFSM s0 env0).1._network_name_stored = s0._network_name_stored
      ∧ (runDiscoveryFSM s0 env0).1._espNowChannel = s0._espNowChannel
      ∧ (runDiscoveryFSM s0 env0).1.nvs.net_name = some s0._network_name_stored
      ∧ (runDiscoveryFSM s0 env0).1.nvs.role = some ROLE_GATEWAY
      ∧ (runDiscoveryFSM s0 env0).1.nvs.pjon_id = some s0._pjonIdForGatewayUse
      ∧ (runDiscoveryFSM s0 env0).1.nvs.channel = some s0._espNowChannel := by
    unfold runDiscoveryFSM fsmAnnounceAsGateway
    simp only [hfsm]
    unfold initializePjonStack pjonEnd initNodeManagement saveConfigToNVS
    by_cases hl : s0._pjon_bus.listening = true <;>
      simp [hstart, hopen, hl, hb, ROLE_GATEWAY, ROLE_UNINITIALIZED, ROLE_DISCOVERING, ROLE_ERROR,
        ROLE_NODE]
  obtain ⟨f1, f2, f3, f4, f5, f6, f7, f8, f9, f10⟩ := hstep
  obtain ⟨o1, o2, o3, o4, o5, o6, o7, _⟩ := operateAsGateway_fields (runDiscoveryFSM s0 env0).1 env0
  rw [update_nil_of_tick s0 env0 hb]
  unfold updateTick
  simp only [f3, hg, if_false, if_true]
  rw [o1, o2, o3, o4, o5, o6, o7]
  exact ⟨f1, f2, f3, f4, f5, f6, f7, f8, f9, f10⟩

/-- The state of a node that accepts a `NODE_ID_ASSIGN` for its own MAC, the gateway MAC
being known and the store opening. -/
theorem receive_id_assign_state (s : Mesh) (env : Env) (a : Nat) (packet_info : PJON_Packet_Info)
    (hm : s._my_mac_addr.length = ESP_NOW_ETH_ALEN)
    (hrole : s._current_role = ROLE_NODE)
    (hsender : packet_info.sender_id = s._gatewayPjonId)
    (hgm : s._gateway_mac_addr ≠ esp_now_null_mac) (hopen : env.nvs_open_ok = true) :
    (actualPjonReceiver s env (NODE_ID_ASSIGN :: a :: s._my_mac_addr) packet_info).1
      = { s with
          _myPjonId := a
          _pjon_bus := { s._pjon_bus with device_id := a }
          nvs := { s.nvs with
            net_name := some s._network_name_stored
            role := some ROLE_NODE
            pjon_id := some a
            bus_id := some s._pjon_bus_id
            channel := some s._espNowChannel
            gw_pjonid := some s._gatewayPjonId
            gw_mac := some s._gateway_mac_addr }
          _fsm_state := DiscoveryFSM.OPERATIONAL_NODE
          _current_gateway_connected_status := true
          _last_ack_from_gateway_time := env.millis
          _failed_gateway_pings_count := 0
          _next_gateway_ping_time := add32 env.millis s._node_ping_gateway_interval_ms } := by
  have hg : ¬ ROLE_NODE = ROLE_GATEWAY := by decide
  have h1 : ¬ NODE_ID_ASSIGN = GATEWAY_ANNOUNCE := by decide
  have hlen : (a :: s._my_mac_addr).length ≥ 1 + ESP_NOW_ETH_ALEN := by
    have hm6 : s._my_mac_addr.length = 6 := hm
    show s._my_mac_addr.length + 1 ≥ 1 + 6
    omega
  have htake : ((a :: s._my_mac_addr).drop 1).take ESP_NOW_ETH_ALEN = s._my_mac_addr := by
    simp only [List.drop_succ_cons, List.drop_zero]
    rw [← hm]; exact List.take_length _
  have hrecv : actualPjonReceiver s env (NODE_ID_ASSIGN :: a :: s._my_mac_addr) packet_info
      = receiveAsNode s env (NODE_ID_ASSIGN :: a :: s._my_mac_addr) NODE_ID_ASSIGN
          (a :: s._my_mac_addr) packet_info := by
    simp only [actualPjonReceiver, receiveByRole, h1, hg, hrole, false_and, if_false, if_true,
      ite_self]
  rw [hrecv]
  unfold receiveAsNode
  simp only [hsender, if_true, hlen, and_self, htake]
  simp only [saveConfigToNVS, hopen, hrole, ROLE_NODE, ROLE_UNINITIALIZED, ROLE_DISCOVERING,
    ROLE_ERROR]
  simp [hgm]

/-- After `end`, a successful `begin` and the first tick the device is in `LOAD_NVS_CONFIG`
with the store, name, channel and attempt limit of before. -/
theorem reboot_first_tick (s : Mesh) (benv : BeginEnv) (name : List Nat) (ch g : Nat) (mac : Mac)
    (env1 env2 : Env) (hb : s._is_begun = true)
    (hlen : ¬ (strlen name = 0 ∨ strlen name > ROKOR_MESH_MAX_NETWORK_NAME_LEN))
    (hmac : benv.wifi_mac = some mac) (hflash : benv.nvs_flash_ok = true)
    (hsta : benv.wifi_sta_ok = true) (hnow : benv.esp_now_init_ok = true) :
    (rebootTrace s benv name ch g env1 env2).1._fsm_state = DiscoveryFSM.INIT_STATE
    ∧ (rebootTrace s benv name ch g env1 env2).2.1._fsm_state = DiscoveryFSM.LOAD_NVS_CONFIG
    ∧ (rebootTrace s benv name ch g env1 env2).2.1._is_begun = true
    ∧ (rebootTrace s benv name ch g env1 env2).2.1.nvs = s.nvs
    ∧ (rebootTrace s benv name ch g env1 env2).2.1._network_name_stored
        = name.takeWhile (fun c => c != 0)
    ∧ (rebootTrace s benv name ch g env1 env2).2.1._espNowChannel
        = (if ch < 1 ∨ ch > 13 then 1 else ch)
    ∧ (rebootTrace s benv name ch g env1 env2).2.1._node_max_gateway_ping_attempts
        = s._node_max_gateway_ping_attempts
    ∧ (rebootTrace s benv name ch g env1 env2).2.2
        = (update (rebootTrace s benv name ch g env1 env2).2.1 env2 []).1 := by
  obtain ⟨b1, b2, b3, b4, b5, b6, b7⟩ :=
    end_begin_fields s benv name ch g mac hb hlen hmac hflash hsta hnow
  have ht1 := update_init (begin (RokorMesh.end s) benv (some name) ch g).1 env1 b1 b2 b3
  simp only [rebootTrace]
  rw [ht1]
  exact ⟨b2, rfl, b1, b4, b5, b6, b7, trivial⟩

/-- The boot of a begun device whose store holds the record of its configuration, after
`end` and a successful `begin` with the same name and channel. -/
theorem reboot_from_store (s : Mesh) (benv : BeginEnv) (name : List Nat) (ch g : Nat) (mac : Mac)
    (env1 env2 : Env)
    (hlen : ¬ (strlen name = 0 ∨ strlen name > ROKOR_MESH_MAX_NETWORK_NAME_LEN))
    (hmac : benv.wifi_mac = some mac) (hflash : benv.nvs_flash_ok = true)
    (hsta : benv.wifi_sta_ok = true) (hnow : benv.esp_now_init_ok = true)
    (hopen : env2.nvs_open_ok = true) (hstart : env2.pjon_begin_ok = true)
    (hb : s._is_begun = true) (hstore : StoreHoldsConfig s)
    (hname : name.takeWhile (fun c => c != 0) = s._network_name_stored)
    (hch : (if ch < 1 ∨ ch > 13 then 1 else ch) = s._espNowChannel) :
    (rebootTrace s benv name ch g env1 env2).1._fsm_state = DiscoveryFSM.INIT_STATE
    ∧ (rebootTrace s benv name ch g env1 env2).2.1._fsm_state = DiscoveryFSM.LOAD_NVS_CONFIG
    ∧ (s._current_role = ROLE_GATEWAY →
        (rebootTrace s benv name ch g env1 env2).2.2._fsm_state
            = DiscoveryFSM.OPERATIONAL_GATEWAY
        ∧ (rebootTrace s benv name ch g env1 env2).2.2._current_role = ROLE_GATEWAY
        ∧ (rebootTrace s benv name ch g env1 env2).2.2._myPjonId = s._myPjonId
        ∧ activeNodes (rebootTrace s benv name ch g env1 env2).2.2 = [])
    ∧ (s._current_role = ROLE_NODE → s._gatewayPjonId ≠ PJON_NOT_ASSIGNED →
        s._gateway_mac_addr ≠ esp_now_null_mac → 1 ≤ s._node_max_gateway_ping_attempts →
        (rebootTrace s benv name ch g env1 env2).2.2._fsm_state = DiscoveryFSM.OPERATIONAL_NODE
        ∧ (rebootTrace s benv name ch g env1 env2).2.2._current_role = ROLE_NODE
        ∧ (rebootTrace s benv name ch g env1 env2).2.2._myPjonId = s._myPjonId
        ∧ (rebootTrace s benv name ch g env1 env2).2.2._gatewayPjonId = s._gatewayPjonId
        ∧ (rebootTrace s benv name ch g env1 env2).2.2._gateway_mac_addr
            = s._gateway_mac_addr) := by
  obtain ⟨k1, k2, k3, k4, k5⟩ := hstore
  obtain ⟨r1, r2, r3, r4, r5, r6, r7, r8⟩ :=
    reboot_first_tick s benv name ch g mac env1 env2 hb hlen hmac hflash hsta hnow
  refine ⟨r1, r2, ?_, ?_⟩
  · intro hrole
    obtain ⟨l1, l2, l3, l4⟩ :=
      load_tick_gateway (rebootTrace s benv name ch g env1 env2).2.1 env2 s._myPjonId r3 r2 hopen
        hstart (by rw [r4, r5, k1, hname]) (by rw [r4, r6, k2, hch]) (by rw [r4, k3, hrole])
        (by rw [r4, k4])
    rw [r8]
    refine ⟨l1, l2, l3, ?_⟩
    unfold activeNodes
    rw [l4, List.take_zero]
  · intro hrole hgw hgm hmax
    obtain ⟨k6, k7⟩ := k5 hrole
    obtain ⟨l1, l2, l3, l4, l5⟩ :=
      load_tick_node (rebootTrace s benv name ch g env1 env2).2.1 env2 s._myPjonId
        s._gatewayPjonId s._gateway_mac_addr r3 r2 hopen hstart
        (by rw [r4, r5, k1, hname]) (by rw [r4, r6, k2, hch]) (by rw [r4, k3, hrole])
        (by rw [r4, k4]) (by rw [r4, k6]) (by rw [r4, k7]) hgw hgm (by rw [r7]; exact hmax)
    rw [r8]
    exact ⟨l1, l2, l3, l4, l5⟩

/-! ## Traffic of a known child: lemmas -/

/-- Within the table invariant `findNodeById` returns the index of the record holding the
id. -/
theorem findNodeById_index (s : Mesh) (n i : Nat) (hn : n ≠ PJON_NOT_ASSIGNED)
    (hinv : TableInv s) (hi : i < s._known_nodes_count)
    (hid : (s._known_nodes.getD i NodeInfo.blank).pjon_id = n) :
    findNodeById s n = some i := by
  obtain ⟨hlen, hcount, -, hnodup⟩ := hinv
  unfold findNodeById
  rw [if_neg hn]
  cases hres : scanLoop (fun r => r.pjon_id == n) s._known_nodes s._known_nodes_count 0 with
  | none =>
    exfalso
    have := (scanLoop_none_iff _ _ _ _).mp hres i (Nat.zero_le _) (by omega)
    simp only [beq_eq_false_iff_ne, ne_eq] at this
    exact this hid
  | some k =>
    obtain ⟨-, hk, hp, -⟩ := scanLoop_some _ _ _ _ _ hres
    simp only [beq_iff_eq] at hp
    have hk' : k < s._known_nodes_count := by omega
    have hlk : k < ((s._known_nodes.take s._known_nodes_count).map NodeInfo.pjon_id).length := by
      simp only [List.length_map, List.length_take]; omega
    have hli : i < ((s._known_nodes.take s._known_nodes_count).map NodeInfo.pjon_id).length := by
      simp only [List.length_map, List.length_take]; omega
    have e : ((s._known_nodes.take s._known_nodes_count).map NodeInfo.pjon_id)[k]
        = ((s._known_nodes.take s._known_nodes_count).map NodeInfo.pjon_id)[i] := by
      simp only [List.getElem_map, List.getElem_take]
      rw [List.getD_eq_getElem _ _ (by omega)] at hp hid
      rw [hp, hid]
    rw [(List.Nodup.getElem_inj_iff hnodup).mp e]

/-! ## The key made from a string: lemmas -/

/-- The buffer `preparePmk` leaves for a string without NUL: its first 16 bytes, the
padding up to 16 bytes, the terminator. -/
theorem preparePmk_closed (s : List Nat) (hs : ∀ c ∈ s, c ≠ 0) :
    preparePmk s
      = s.take 16 ++ (List.range' (min 16 s.length) (16 - min 16 s.length)).map pmkPad ++ [0] := by
  have htw : s.takeWhile (fun c => c != 0) = s := by
    rw [List.takeWhile_eq_self_iff]
    intro x hx
    simpa using hs x hx
  unfold preparePmk
  simp only [htw, ROKOR_MESH_ESPNOW_PMK_LEN, List.length_take]
  split_ifs with h
  · have : s.take 16 = s := List.take_of_length_le (by omega)
    simp [h, this]
  · rfl

theorem pmkPad_ne_zero (i : Nat) : pmkPad i ≠ 0 := by
  unfold pmkPad
  split_ifs <;> decide

/-- Byte `i < 16` of the buffer of `preparePmk` for a string without NUL. -/
theorem preparePmk_getD (s : List Nat) (hs : ∀ c ∈ s, c ≠ 0) (i : Nat) (hi : i < 16) :
    (preparePmk s).getD i 0 = if i < s.length then s.getD i 0 else pmkPad i := by
  rw [preparePmk_closed s hs, List.getD_eq_getElem?_getD, List.getD_eq_getElem?_getD]
  rw [List.append_assoc]
  by_cases h : i < s.length
  · rw [if_pos h, List.getElem?_append_left (by rw [List.length_take]; omega),
      List.getElem?_take_of_lt hi]
  · rw [if_neg h]
    have hm : min 16 s.length = s.length := by omega
    have hl : (s.take 16).length = s.length := by rw [List.length_take]; omega
    rw [List.getElem?_append_right (by omega), hl, hm,
      List.getElem?_append_left (by rw [List.length_map, List.length_range']; omega),
      List.getElem?_map, List.getElem?_range' _ _ (by omega)]
    simp only [Option.map_some', Option.getD_some]
    congr 1
    omega

/-! ## Allocation in order of arrival and the range of the ids: lemmas -/

/-- One more id request at a gateway with id 1 whose table holds, in order, the MACs `macs`
under the ids 2, 3, ... and whose candidate is the next id: the new MAC gets that id. -/
theorem sequential_step (t : Mesh) (macs : List Mac) (now : Nat) (info : PJON_Packet_Info)
    (m : Mac) (hid : t._myPjonId = 1) (hlen : t._known_nodes.length = MAX_NODES_PER_GATEWAY)
    (hcount : t._known_nodes_count = macs.length)
    (hcand : t._next_available_node_id_candidate = macs.length + 2)
    (hkeys : tableKeys t = List.zip (List.range' 2 macs.length) macs)
    (hm : m ∉ macs) (hk : macs.length < MAX_NODES_PER_GATEWAY) :
    handleNodeIdRequest t now info m =
      ({ t with
          _next_available_node_id_candidate := macs.length + 3
          _known_nodes := t._known_nodes.set t._known_nodes_count
            { pjon_id := macs.length + 2, mac_addr := m, last_seen := now,
              id_assigned_this_session := true }
          _known_nodes_count := macs.length + 1 },
        answerIdRequest
          { t with
            _next_available_node_id_candidate := macs.length + 3
            _known_nodes := t._known_nodes.set t._known_nodes_count
              { pjon_id := macs.length + 2, mac_addr := m, last_seen := now,
                id_assigned_this_session := true }
            _known_nodes_count := macs.length + 1 }
          info m (macs.length + 2)) := by
  have hM : MAX_NODES_PER_GATEWAY = 30 := rfl
  have hmacs : (t._known_nodes.take t._known_nodes_count).map NodeInfo.mac_addr = macs := by
    have := congrArg (List.map Prod.snd) hkeys
    simp only [tableKeys, activeNodes, List.map_map] at this
    rw [List.map_snd_zip _ _ (by rw [List.length_range'])] at this
    exact this
  have hids : (t._known_nodes.take t._known_nodes_count).map NodeInfo.pjon_id
      = List.range' 2 macs.length := by
    have := congrArg (List.map Prod.fst) hkeys
    simp only [tableKeys, activeNodes, List.map_map] at this
    rw [List.map_fst_zip _ _ (by rw [List.length_range'])] at this
    exact this
  have hfind : findNodeByMac t m = none := by
    unfold findNodeByMac
    rw [scanLoop_none_take _ _ _ (by omega)]
    intro r hr
    have : r.mac_addr ∈ macs := by
      rw [← hmacs]; exact List.mem_map_of_mem _ hr
    simp only [beq_eq_false_iff_ne, ne_eq]
    intro e; rw [e] at this; exact hm this
  have hfree : scanLoop (fun r => r.pjon_id == macs.length + 2) t._known_nodes
      t._known_nodes_count 0 = none := by
    rw [scanLoop_none_take _ _ _ (by omega)]
    intro r hr
    have : r.pjon_id ∈ List.range' 2 macs.length := by
      rw [← hids]; exact List.mem_map_of_mem _ hr
    rw [List.mem_range'_1] at this
    simp only [beq_eq_false_iff_ne, ne_eq]
    omega
  have hsearch : searchLoop t._myPjonId t._known_nodes t._known_nodes_count 254
      t._next_available_node_id_candidate = (some (macs.length + 2), macs.length + 3) := by
    have hc : ¬ (macs.length + 2 = 1 ∨ macs.length + 2 = 0 ∨ macs.length + 2 > 254) := by omega
    have hinc : inc8 (macs.length + 2) = macs.length + 3 := by
      unfold inc8; rw [Nat.mod_eq_of_lt (by omega)]
    rw [hid, hcand]
    simp only [searchLoop, hc, if_false, hfree, hinc]
  have hinc : inc8 t._known_nodes_count = macs.length + 1 := by
    unfold inc8; rw [hcount, Nat.mod_eq_of_lt (by omega)]
  rw [handleNodeIdRequest_new t now info m _ _ hfind (by omega) hsearch, hinc]

/-- The table of a gateway with id 1 after id requests of distinct MACs on a fresh table:
the MACs in order of arrival under the ids 2, 3, ..., the candidate one past the last. -/
theorem sequential_table (s : Mesh) (hid : s._myPjonId = 1)
    (reqs : List (Nat × PJON_Packet_Info × Mac))
    (hdistinct : (reqs.map fun r => r.2.2).Nodup)
    (hk : reqs.length ≤ MAX_NODES_PER_GATEWAY) :
    (runTableOps (initNodeManagement s)
        (reqs.map fun r => TableOp.nodeIdRequest r.1 r.2.1 r.2.2))._myPjonId = 1
    ∧ (runTableOps (initNodeManagement s)
        (reqs.map fun r => TableOp.nodeIdRequest r.1 r.2.1 r.2.2))._known_nodes.length
        = MAX_NODES_PER_GATEWAY
    ∧ (runTableOps (initNodeManagement s)
        (reqs.map fun r => TableOp.nodeIdRequest r.1 r.2.1 r.2.2))._known_nodes_count = reqs.length
    ∧ (runTableOps (initNodeManagement s)
        (reqs.map fun r => TableOp.nodeIdRequest r.1 r.2.1 r.2.2))._next_available_node_id_candidate
        = reqs.length + 2
    ∧ tableKeys (runTableOps (initNodeManagement s)
        (reqs.map fun r => TableOp.nodeIdRequest r.1 r.2.1 r.2.2))
        = List.zip (List.range' 2 reqs.length) (reqs.map fun r => r.2.2) := by
  have hM : MAX_NODES_PER_GATEWAY = 30 := rfl
  induction reqs using List.reverseRecOn with
  | nil =>
    refine ⟨hid, ?_, rfl, rfl, ?_⟩
    · simp [runTableOps, initNodeManagement]
    · simp [runTableOps, initNodeManagement, tableKeys, activeNodes]
  | append_singleton pre r ih =>
    rw [List.map_append, List.nodup_append] at hdistinct
    rw [List.length_append, List.length_singleton] at hk
    obtain ⟨h1, h2, h3, h4, h5⟩ := ih hdistinct.1 (by omega)
    have hm : r.2.2 ∉ pre.map fun r => r.2.2 := by
      intro hmem
      exact hdistinct.2.2 hmem (by simp)
    have hstep := sequential_step _ (pre.map fun r => r.2.2) r.1 r.2.1 r.2.2 h1 h2
      (by rw [h3, List.length_map]) (by rw [h4, List.length_map])
      (by rw [h5, List.length_map]) hm (by rw [List.length_map]; omega)
    have hrun : runTableOps (initNodeManagement s)
        ((pre ++ [r]).map fun r => TableOp.nodeIdRequest r.1 r.2.1 r.2.2)
        = (handleNodeIdRequest (runTableOps (initNodeManagement s)
            (pre.map fun r => TableOp.nodeIdRequest r.1 r.2.1 r.2.2)) r.1 r.2.1 r.2.2).1 := by
      simp only [runTableOps, List.map_append, List.foldl_append, List.map_cons, List.map_nil,
        List.foldl_cons, List.foldl_nil, TableOp.run]
    rw [hrun]
    generalize runTableOps (initNodeManagement s)
      (pre.map fun r => TableOp.nodeIdRequest r.1 r.2.1 r.2.2) = T at h1 h2 h3 h4 h5 hstep
    rw [hstep]
    simp only [List.length_map, List.length_append, List.length_singleton, List.length_set]
    refine ⟨h1, h2, trivial, trivial, ?_⟩
    simp only [tableKeys, activeNodes]
    rw [h3, take_succ_set _ _ _ (by omega), List.map_append, List.range'_1_concat,
      List.map_append, List.zip_append (by rw [List.length_range', List.length_map])]
    simp only [tableKeys, activeNodes, h3] at h5
    rw [h5]
    simp [Nat.add_comm]

/-- The id search from any candidate other than 1 (or at a gateway with id 1): an id it
finds lies in 2..254, and the candidate it leaves is at least 2 unless no round was run. -/
theorem searchLoop_norm_range (g : Nat) (nodes : List NodeInfo) (count n c : Nat)
    (hc : c ≠ 1 ∨ g = 1) :
    (∀ a, (searchLoop g nodes count n c).1 = some a → 2 ≤ a ∧ a ≤ 254)
    ∧ ((searchLoop g nodes count n c).2 = c ∨ 2 ≤ (searchLoop g nodes count n c).2) := by
  cases n with
  | zero => exact ⟨fun a h => by simp [searchLoop] at h, Or.inl rfl⟩
  | succ n =>
    have hnorm : 2 ≤ (if c = g ∨ c = 0 ∨ c > 254 then 2 else c) := by
      split_ifs with h
      · exact Nat.le_refl _
      · omega
    have hidem : searchLoop g nodes count (n + 1) c
        = searchLoop g nodes count (n + 1) (if c = g ∨ c = 0 ∨ c > 254 then 2 else c) := by
      by_cases h : c = g ∨ c = 0 ∨ c > 254
      · simp only [searchLoop, h, if_true]
        by_cases h2 : (2 : Nat) = g ∨ (2 : Nat) = 0 ∨ (2 : Nat) > 254 <;> simp only [h2, if_true, if_false]
      · simp only [h, if_false]
    rw [hidem]
    obtain ⟨h1, h2⟩ := searchLoop_range g nodes count (n + 1) _ hnorm
    exact ⟨fun a ha => ⟨(h2 a ha).1, (h2 a ha).2.1⟩, Or.inr h1⟩

theorem getD_set_pjon_id (nodes : List NodeInfo) (idx i : Nat) (v : NodeInfo) :
    ((nodes.set idx v).getD i NodeInfo.blank).pjon_id = (nodes.getD i NodeInfo.blank).pjon_id
    ∨ (i = idx ∧ (nodes.set idx v).getD i NodeInfo.blank = v) := by
  simp only [List.getD_eq_getElem?_getD, List.getElem?_set]
  split_ifs with h1 h2
  · right; exact ⟨h1.symm, rfl⟩
  · left
    rw [List.getElem?_eq_none (by omega)]
  · left; rfl

/-- What one id request does to the ids in the array and to the candidate. -/
theorem handleNodeIdRequest_ids (s : Mesh) (now : Nat) (info : PJON_Packet_Info) (m : Mac)
    (hc : s._next_available_node_id_candidate ≠ 1 ∨ s._myPjonId = 1) :
    (∀ i, ((handleNodeIdRequest s now info m).1._known_nodes.getD i NodeInfo.blank).pjon_id
            = (s._known_nodes.getD i NodeInfo.blank).pjon_id
          ∨ (2 ≤ ((handleNodeIdRequest s now info m).1._known_nodes.getD i NodeInfo.blank).pjon_id
              ∧ ((handleNodeIdRequest s now info m).1._known_nodes.getD i NodeInfo.blank).pjon_id
                  ≤ 254))
    ∧ ((handleNodeIdRequest s now info m).1._next_available_node_id_candidate
          = s._next_available_node_id_candidate
        ∨ 2 ≤ (handleNodeIdRequest s now info m).1._next_available_node_id_candidate)
    ∧ (handleNodeIdRequest s now info m).1._myPjonId = s._myPjonId := by
  obtain ⟨hr1, hr2⟩ := searchLoop_norm_range s._myPjonId s._known_nodes s._known_nodes_count 254
    s._next_available_node_id_candidate hc
  unfold handleNodeIdRequest
  split
  · refine ⟨fun i => ?_, Or.inl rfl, rfl⟩
    rcases getD_set_pjon_id s._known_nodes _ i _ with h | h
    · exact Or.inl h
    · left
      rw [h.2, h.1]
  · split
    · exact ⟨fun i => Or.inl rfl, Or.inl rfl, rfl⟩
    · split
      · rename_i cand hs
        refine ⟨fun i => Or.inl rfl, ?_, rfl⟩
        rw [hs] at hr2
        exact hr2
      · rename_i a cand hs
        rw [hs] at hr1 hr2
        refine ⟨fun i => ?_, hr2, rfl⟩
        rcases getD_set_pjon_id s._known_nodes s._known_nodes_count i
          { pjon_id := a, mac_addr := m, last_seen := now, id_assigned_this_session := true }
          with h | h
        · exact Or.inl h
        · right
          rw [h.2]
          exact hr1 a rfl

theorem IdsInRange_of_eq {s s' : Mesh} (h : IdsInRange s)
    (h1 : s'._known_nodes = s._known_nodes)
    (h2 : s'._known_nodes_count = s._known_nodes_count)
    (h3 : s'._next_available_node_id_candidate = s._next_available_node_id_candidate) :
    IdsInRange s' := by
  unfold IdsInRange activeNodes at *
  rw [h1, h2, h3]; exact h

theorem IdsInRange_set_same {s s' : Mesh} (idx : Nat) (v : NodeInfo) (h : IdsInRange s)
    (h1 : s'._known_nodes = s._known_nodes.set idx v)
    (hv : v.pjon_id = (s._known_nodes.getD idx NodeInfo.blank).pjon_id)
    (h2 : s'._known_nodes_count = s._known_nodes_count)
    (h3 : s'._next_available_node_id_candidate = s._next_available_node_id_candidate) :
    IdsInRange s' := by
  unfold IdsInRange activeNodes at *
  rw [h1, h2, h3, map_take_set_of_eq NodeInfo.pjon_id _ _ _ _ hv]; exact h

@[simp] theorem saveConfigToNVS_candidate (s : Mesh) (env : Env) :
    (saveConfigToNVS s env)._next_available_node_id_candidate
      = s._next_available_node_id_candidate := by
  unfold saveConfigToNVS; split_ifs <;> rfl

@[simp] theorem initializePjonStack_candidate (s : Mesh) (env : Env) (id : Nat) (bus : List Nat)
    (gw : Bool) :
    (initializePjonStack s env id bus gw).1._next_available_node_id_candidate
      = s._next_available_node_id_candidate := by
  unfold initializePjonStack pjonEnd; simp only []; split_ifs <;> rfl

theorem handleNodeIdRequest_range (s : Mesh) (now : Nat) (info : PJON_Packet_Info) (mac : Mac)
    (h : TableInv s) (hr : IdsInRange s) : IdsInRange (handleNodeIdRequest s now info mac).1 := by
  have hM : MAX_NODES_PER_GATEWAY = 30 := rfl
  obtain ⟨hs1, hs2⟩ := searchLoop_range s._myPjonId s._known_nodes s._known_nodes_count 254
    s._next_available_node_id_candidate hr.1
  unfold handleNodeIdRequest
  split
  · exact IdsInRange_set_same _ _ hr rfl rfl rfl rfl
  · split
    · exact hr
    · rename_i hlt
      split
      · rename_i cand hs
        rw [hs] at hs1
        exact ⟨hs1, hr.2⟩
      · rename_i a cand hs
        rw [hs] at hs1 hs2
        refine ⟨hs1, ?_⟩
        have hinc : inc8 s._known_nodes_count = s._known_nodes_count + 1 := by
          unfold inc8; rw [Nat.mod_eq_of_lt (by omega)]
        simp only [activeNodes]
        rw [hinc, take_succ_set _ _ _ (by have := h.1; omega), List.map_append]
        intro x hx
        rcases List.mem_append.mp hx with hx | hx
        · exact hr.2 x hx
        · simp only [List.map_cons, List.map_nil, List.mem_singleton] at hx
          rw [hx]
          exact ⟨(hs2 a rfl).1, (hs2 a rfl).2.1⟩

theorem cleanupInactiveNodes_range (s : Mesh) (now : Nat) (h : TableInv s) (hr : IdsInRange s) :
    IdsInRange (cleanupInactiveNodes s now).1 := by
  obtain ⟨h1, h2, -, -⟩ := h
  obtain ⟨-, -, g3⟩ := cleanupLoop_spec s._user_node_status_cb now s._known_nodes_count 0
    s._known_nodes s._known_nodes_count rfl (Nat.zero_le _) (by omega)
  refine ⟨hr.1, ?_⟩
  simp only [cleanupInactiveNodes, activeNodes]
  rw [g3]
  simp only [List.take_zero, List.nil_append, List.drop_zero]
  intro x hx
  exact hr.2 x (((List.filter_sublist _).map _).subset hx)

theorem receiveAnnounceWhileListening_range (s : Mesh) (env : Env) (body : List Nat)
    (info : PJON_Packet_Info) (h : IdsInRange s) :
    IdsInRange (receiveAnnounceWhileListening s env body info).1 := by
  unfold receiveAnnounceWhileListening
  simp only []
  split_ifs
  · exact h
  · exact IdsInRange_of_eq h (by simp) (by simp) (by simp)
  · exact h

theorem receiveAsGateway_range (s : Mesh) (env : Env) (payload : List Nat) (t : Nat)
    (body : List Nat) (info : PJON_Packet_Info) (h : TableInv s) (hr : IdsInRange s) :
    IdsInRange (receiveAsGateway s env payload t body info).1 := by
  unfold receiveAsGateway
  split_ifs <;>
    first
    | exact hr
    | exact handleNodeIdRequest_range _ _ _ _ h hr
    | (split <;> first | exact hr | exact IdsInRange_set_same _ _ hr rfl rfl rfl rfl)

theorem receiveAsNode_range (s : Mesh) (env : Env) (payload : List Nat) (t : Nat)
    (body : List Nat) (info : PJON_Packet_Info) (h : IdsInRange s) :
    IdsInRange (receiveAsNode s env payload t body info).1 := by
  unfold receiveAsNode
  simp only []
  split_ifs <;> first | exact h | exact IdsInRange_of_eq h (by simp) (by simp) (by simp)

theorem actualPjonReceiver_range (s : Mesh) (env : Env) (payload : List Nat)
    (info : PJON_Packet_Info) (h : TableInv s) (hr : IdsInRange s) :
    IdsInRange (actualPjonReceiver s env payload info).1 := by
  unfold actualPjonReceiver receiveByRole
  split
  · exact hr
  · split_ifs <;>
      first
      | exact hr
      | exact receiveAnnounceWhileListening_range _ _ _ _ hr
      | exact receiveAsGateway_range _ _ _ _ _ _ h hr
      | exact receiveAsNode_range _ _ _ _ _ _ hr

theorem actualPjonError_range (s : Mesh) (env : Env) (code data : Nat) (h : IdsInRange s) :
    IdsInRange (actualPjonError s env code data).1 := by
  unfold actualPjonError
  simp only []
  split_ifs <;>
    first
    | exact h
    | exact IdsInRange_of_eq h (by simp [pjonEnd]) (by simp [pjonEnd]) (by simp [pjonEnd])
    | (split <;> exact h)

theorem initNodeManagement_range (s : Mesh) : IdsInRange (initNodeManagement s) := by
  refine ⟨Nat.le_refl _, ?_⟩
  simp [initNodeManagement, activeNodes]

theorem runTableOps_range (ops : List TableOp) (s : Mesh) (h : TableInv s) (hr : IdsInRange s) :
    IdsInRange (runTableOps s ops) := by
  induction ops generalizing s with
  | nil => exact hr
  | cons op rest ih =>
    refine ih (op.run s) (TableOp_run_inv s op h) ?_
    cases op with
    | nodeIdRequest now info mac => exact handleNodeIdRequest_range s now info mac h hr
    | receive env payload info => exact actualPjonReceiver_range s env payload info h hr
    | error env code data => exact actualPjonError_range s env code data hr
    | cleanup t => exact cleanupInactiveNodes_range s t h hr

/-! ## Sending host data: lemmas -/

/-- The length check of `sendMessage`. -/
theorem sendMessage_bad_length (s : Mesh) (response dest : Nat) (payload : Option (List Nat))
    (length : Nat) (hlen : length = 0 ∨ length > ROKOR_MESH_MAX_PAYLOAD_SIZE) :
    sendMessage s response dest payload length = (false, []) := by
  unfold sendMessage
  by_cases h1 : ¬ s._is_begun = true
      ∨ (s._current_role ≠ ROLE_NODE ∧ s._current_role ≠ ROLE_GATEWAY)
  · rw [if_pos h1]
  · rw [if_neg h1]
    by_cases h2 : dest = PJON_NOT_ASSIGNED ∨ dest > 254
    · rw [if_pos h2]
    · rw [if_neg h2]
      cases payload with
      | none => rfl
      | some bytes =>
        simp only []
        by_cases h0 : length = 0
        · rw [if_pos h0]
        · rw [if_neg h0, if_pos (by omega)]

/-- The flag `sendMessage` returns once the packet is handed to the transport. -/
theorem sendMessage_flag (response : Nat) (e : List Effect) :
    (if response = PJON_ACK then (true, e)
      else if response = PJON_BUSY then (false, e)
      else if response = PJON_FAIL then (false, e) else (true, e))
    = (decide (response ≠ PJON_BUSY ∧ response ≠ PJON_FAIL), e) := by
  simp only [PJON_ACK, PJON_BUSY, PJON_FAIL]
  split_ifs with h1 h2 h3 <;> simp <;> omega

/-! ## Settings kept by the coordinator: lemmas -/

@[simp] theorem saveConfigToNVS_contention_window (s : Mesh) (env : Env) :
    (saveConfigToNVS s env)._gateway_contention_window_ms = s._gateway_contention_window_ms := by
  unfold saveConfigToNVS; split_ifs <;> rfl

@[simp] theorem saveConfigToNVS_announce_interval (s : Mesh) (env : Env) :
    (saveConfigToNVS s env)._gateway_announce_interval_ms = s._gateway_announce_interval_ms := by
  unfold saveConfigToNVS; split_ifs <;> rfl

@[simp] theorem saveConfigToNVS_esp_now_pmk (s : Mesh) (env : Env) :
    (saveConfigToNVS s env)._esp_now_pmk = s._esp_now_pmk := by
  unfold saveConfigToNVS; split_ifs <;> rfl

@[simp] theorem saveConfigToNVS_is_custom_pmk_set (s : Mesh) (env : Env) :
    (saveConfigToNVS s env)._is_custom_pmk_set = s._is_custom_pmk_set := by
  unfold saveConfigToNVS; split_ifs <;> rfl

@[simp] theorem clearConfigNVS_contention_window (s : Mesh) (env : Env) :
    (clearConfigNVS s env)._gateway_contention_window_ms = s._gateway_contention_window_ms := by
  unfold clearConfigNVS; split_ifs <;> rfl

@[simp] theorem clearConfigNVS_announce_interval (s : Mesh) (env : Env) :
    (clearConfigNVS s env)._gateway_announce_interval_ms = s._gateway_announce_interval_ms := by
  unfold clearConfigNVS; split_ifs <;> rfl

@[simp] theorem clearConfigNVS_esp_now_pmk (s : Mesh) (env : Env) :
    (clearConfigNVS s env)._esp_now_pmk = s._esp_now_pmk := by
  unfold clearConfigNVS; split_ifs <;> rfl

@[simp] theorem clearConfigNVS_is_custom_pmk_set (s : Mesh) (env : Env) :
    (clearConfigNVS s env)._is_custom_pmk_set = s._is_custom_pmk_set := by
  unfold clearConfigNVS; split_ifs <;> rfl

@[simp] theorem clearConfigNVS_known_nodes (s : Mesh) (env : Env) :
    (clearConfigNVS s env)._known_nodes = s._known_nodes := by
  unfold clearConfigNVS; split_ifs <;> rfl

@[simp] theorem clearConfigNVS_known_nodes_count (s : Mesh) (env : Env) :
    (clearConfigNVS s env)._known_nodes_count = s._known_nodes_count := by
  unfold clearConfigNVS; split_ifs <;> rfl

@[simp] theorem loadConfigFromNVS_contention_window (s : Mesh) (env : Env) :
    (loadConfigFromNVS s env).1._gateway_contention_window_ms = s._gateway_contention_window_ms := by
  unfold loadConfigFromNVS; simp only []; split_ifs <;> rfl

@[simp] theorem loadConfigFromNVS_announce_interval (s : Mesh) (env : Env) :
    (loadConfigFromNVS s env).1._gateway_announce_interval_ms = s._gateway_announce_interval_ms := by
  unfold loadConfigFromNVS; simp only []; split_ifs <;> rfl

@[simp] theorem loadConfigFromNVS_esp_now_pmk (s : Mesh) (env : Env) :
    (loadConfigFromNVS s env).1._esp_now_pmk = s._esp_now_pmk := by
  unfold loadConfigFromNVS; simp only []; split_ifs <;> rfl

@[simp] theorem loadConfigFromNVS_is_custom_pmk_set (s : Mesh) (env : Env) :
    (loadConfigFromNVS s env).1._is_custom_pmk_set = s._is_custom_pmk_set := by
  unfold loadConfigFromNVS; simp only []; split_ifs <;> rfl

@[simp] theorem loadConfigFromNVS_is_begun (s : Mesh) (env : Env) :
    (loadConfigFromNVS s env).1._is_begun = s._is_begun := by
  unfold loadConfigFromNVS; simp only []; split_ifs <;> rfl

@[simp] theorem loadConfigFromNVS_known_nodes (s : Mesh) (env : Env) :
    (loadConfigFromNVS s env).1._known_nodes = s._known_nodes := by
  unfold loadConfigFromNVS; simp only []; split_ifs <;> rfl

@[simp] theorem loadConfigFromNVS_known_nodes_count (s : Mesh) (env : Env) :
    (loadConfigFromNVS s env).1._known_nodes_count = s._known_nodes_count := by
  unfold loadConfigFromNVS; simp only []; split_ifs <;> rfl

@[simp] theorem initializePjonStack_contention_window (s : Mesh) (env : Env) (id : Nat) (bus : List Nat) (gw : Bool) :
    (initializePjonStack s env id bus gw).1._gateway_contention_window_ms = s._gateway_contention_window_ms := by
  unfold initializePjonStack pjonEnd; simp only []; split_ifs <;> rfl

@[simp] theorem initializePjonStack_announce_interval (s : Mesh) (env : Env) (id : Nat) (bus : List Nat) (gw : Bool) :
    (initializePjonStack s env id bus gw).1._gateway_announce_interval_ms = s._gateway_announce_interval_ms := by
  unfold initializePjonStack pjonEnd; simp only []; split_ifs <;> rfl

@[simp] theorem initializePjonStack_esp_now_pmk (s : Mesh) (env : Env) (id : Nat) (bus : List Nat) (gw : Bool) :
    (initializePjonStack s env id bus gw).1._esp_now_pmk = s._esp_now_pmk := by
  unfold initializePjonStack pjonEnd; simp only []; split_ifs <;> rfl

@[simp] theorem initializePjonStack_is_custom_pmk_set (s : Mesh) (env : Env) (id : Nat) (bus : List Nat) (gw : Bool) :
    (initializePjonStack s env id bus gw).1._is_custom_pmk_set = s._is_custom_pmk_set := by
  unfold initializePjonStack pjonEnd; simp only []; split_ifs <;> rfl

theorem SettingsKept_refl (s : Mesh) : SettingsKept s s := ⟨rfl, rfl, rfl, rfl, rfl⟩

theorem SettingsKept_trans {s t u : Mesh} (h1 : SettingsKept s t) (h2 : SettingsKept t u) :
    SettingsKept s u :=
  ⟨h2.1.trans h1.1, h2.2.1.trans h1.2.1, h2.2.2.1.trans h1.2.2.1, h2.2.2.2.1.trans h1.2.2.2.1,
    h2.2.2.2.2.trans h1.2.2.2.2⟩

theorem fsmLoadNvsConfig_kept (s : Mesh) (env : Env) :
    SettingsKept s (fsmLoadNvsConfig s env).1 := by
  unfold fsmLoadNvsConfig
  simp only []
  split_ifs <;> simp [SettingsKept, initNodeManagement]

theorem fsmCheckForcedRole_kept (s : Mesh) (env : Env) :
    SettingsKept s (fsmCheckForcedRole s env).1 := by
  unfold fsmCheckForcedRole
  simp only []
  split_ifs <;> simp [SettingsKept, initNodeManagement]

theorem fsmAnnounceAsGateway_kept (s : Mesh) (env : Env) :
    SettingsKept s (fsmAnnounceAsGateway s env).1 := by
  unfold fsmAnnounceAsGateway
  simp only []
  split_ifs <;> simp [SettingsKept, initNodeManagement]

theorem runDiscoveryFSM_kept (s : Mesh) (env : Env) :
    SettingsKept s (runDiscoveryFSM s env).1 := by
  unfold runDiscoveryFSM
  simp only []
  split <;>
    first
    | exact fsmLoadNvsConfig_kept s env
    | exact fsmCheckForcedRole_kept s env
    | exact fsmAnnounceAsGateway_kept s env
    | exact ⟨rfl, rfl, rfl, rfl, rfl⟩
    | (split_ifs <;> exact ⟨rfl, rfl, rfl, rfl, rfl⟩)

theorem operateAsNode_kept (s : Mesh) (env : Env) : SettingsKept s (operateAsNode s env).1 := by
  unfold operateAsNode restartListening
  simp only []
  split_ifs <;> simp [SettingsKept, pjonEnd]

theorem operateAsGateway_kept (s : Mesh) (env : Env) :
    SettingsKept s (operateAsGateway s env).1 := by
  unfold operateAsGateway cleanupInactiveNodes
  simp only []
  split_ifs <;> exact ⟨rfl, rfl, rfl, rfl, rfl⟩

theorem handleNodeIdRequest_kept (s : Mesh) (now : Nat) (info : PJON_Packet_Info) (m : Mac) :
    SettingsKept s (handleNodeIdRequest s now info m).1 := by
  unfold handleNodeIdRequest
  split
  · exact ⟨rfl, rfl, rfl, rfl, rfl⟩
  · split
    · exact ⟨rfl, rfl, rfl, rfl, rfl⟩
    · split <;> exact ⟨rfl, rfl, rfl, rfl, rfl⟩

theorem receiveAnnounceWhileListening_kept (s : Mesh) (env : Env) (body : List Nat)
    (info : PJON_Packet_Info) :
    SettingsKept s (receiveAnnounceWhileListening s env body info).1 := by
  unfold receiveAnnounceWhileListening
  simp only []
  split_ifs <;> simp [SettingsKept]

theorem receiveAsGateway_kept (s : Mesh) (env : Env) (payload : List Nat) (t : Nat)
    (body : List Nat) (info : PJON_Packet_Info) :
    SettingsKept s (receiveAsGateway s env payload t body info).1 := by
  unfold receiveAsGateway
  split_ifs <;>
    first
    | exact ⟨rfl, rfl, rfl, rfl, rfl⟩
    | exact handleNodeIdRequest_kept _ _ _ _
    | (split <;> exact ⟨rfl, rfl, rfl, rfl, rfl⟩)

theorem receiveAsNode_kept (s : Mesh) (env : Env) (payload : List Nat) (t : Nat)
    (body : List Nat) (info : PJON_Packet_Info) :
    SettingsKept s (receiveAsNode s env payload t body info).1 := by
  unfold receiveAsNode
  simp only []
  split_ifs <;> simp [SettingsKept]

theorem actualPjonReceiver_kept (s : Mesh) (env : Env) (payload : List Nat)
    (info : PJON_Packet_Info) : SettingsKept s (actualPjonReceiver s env payload info).1 := by
  unfold actualPjonReceiver receiveByRole
  split
  · exact SettingsKept_refl s
  · split_ifs <;>
      first
      | exact SettingsKept_refl s
      | exact receiveAnnounceWhileListening_kept _ _ _ _
      | exact receiveAsGateway_kept _ _ _ _ _ _
      | exact receiveAsNode_kept _ _ _ _ _ _

theorem actualPjonError_kept (s : Mesh) (env : Env) (code data : Nat) :
    SettingsKept s (actualPjonError s env code data).1 := by
  unfold actualPjonError
  simp only []
  split_ifs <;>
    first
    | exact SettingsKept_refl s
    | (simp [SettingsKept, pjonEnd]; done)
    | (split <;> exact SettingsKept_refl s)

theorem deliverAll_kept (inbound : List Inbound) (s : Mesh) :
    SettingsKept s (deliverAll s inbound).1 := by
  induction inbound generalizing s with
  | nil => exact SettingsKept_refl s
  | cons i rest ih =>
    simp only [deliverAll]
    refine SettingsKept_trans ?_ (ih _)
    cases i with
    | packet env payload info => exact actualPjonReceiver_kept s env payload info
    | error env code data => exact actualPjonError_kept s env code data

theorem updateTick_kept (s : Mesh) (env : Env) : SettingsKept s (updateTick s env).1 := by
  unfold updateTick
  simp only []
  refine SettingsKept_trans (runDiscoveryFSM_kept s env) ?_
  split_ifs
  · exact operateAsNode_kept _ env
  · exact operateAsGateway_kept _ env
  · exact SettingsKept_refl _

theorem update_kept (s : Mesh) (env : Env) (inbound : List Inbound) :
    SettingsKept s (update s env inbound).1 := by
  unfold update
  simp only []
  by_cases hb : ¬ s._is_begun = true
  · rw [if_pos hb]; exact SettingsKept_refl s
  · rw [if_neg hb]
    split_ifs
    · exact SettingsKept_trans (updateTick_kept s env) (deliverAll_kept inbound _)
    · exact updateTick_kept s env

/-- The fields `begin` leaves alone: the two gateway tunables and the membership table. -/
theorem begin_frame (s : Mesh) (benv : BeginEnv) (name : Option (List Nat)) (ch g : Nat) :
    (begin s benv name ch g).1._gateway_contention_window_ms = s._gateway_contention_window_ms
    ∧ (begin s benv name ch g).1._gateway_announce_interval_ms
        = s._gateway_announce_interval_ms
    ∧ (begin s benv name ch g).1._known_nodes = s._known_nodes
    ∧ (begin s benv name ch g).1._known_nodes_count = s._known_nodes_count
    ∧ (begin s benv name ch g).1._is_custom_pmk_set = s._is_custom_pmk_set := by
  unfold begin
  by_cases c1 : s._is_begun = true
  · simp [c1]
  · cases name with
    | none => simp [c1]
    | some nm =>
      by_cases c2 : strlen nm = 0 ∨ strlen nm > ROKOR_MESH_MAX_NETWORK_NAME_LEN
      · simp [c1, c2]
      · cases hmac : benv.wifi_mac with
        | none => simp [c1, c2]
        | some mac =>
          by_cases c3 : s._is_custom_pmk_set = true <;>
          by_cases c4 : benv.nvs_flash_ok = true <;>
          by_cases c5 : benv.wifi_sta_ok = true <;>
          by_cases c6 : benv.esp_now_init_ok = true <;>
          simp [c1, c2, c3, c4, c5, c6]

theorem end_frame (s : Mesh) :
    (RokorMesh.end s)._gateway_contention_window_ms = s._gateway_contention_window_ms
    ∧ (RokorMesh.end s)._gateway_announce_interval_ms = s._gateway_announce_interval_ms := by
  unfold RokorMesh.end
  split_ifs <;> exact ⟨rfl, rfl⟩

/-- Every host call keeps the contention window at 100 or more and the announce interval
at 2000 or more. -/
theorem Call_run_tunables (s : Mesh) (c : Call)
    (h : 100 ≤ s._gateway_contention_window_ms
      ∧ GATEWAY_MIN_ANNOUNCE_INTERVAL_MS ≤ s._gateway_announce_interval_ms) :
    100 ≤ (c.run s)._gateway_contention_window_ms
    ∧ GATEWAY_MIN_ANNOUNCE_INTERVAL_MS ≤ (c.run s)._gateway_announce_interval_ms := by
  cases c with
  | begin benv name ch g =>
    obtain ⟨h1, h2, -⟩ := begin_frame s benv name ch g
    simp only [Call.run]; rw [h1, h2]; exact h
  | «end» =>
    obtain ⟨h1, h2⟩ := end_frame s
    simp only [Call.run]; rw [h1, h2]; exact h
  | setEspNowPmk pmk =>
    simp only [Call.run, setEspNowPmk]
    cases pmk with
    | none => exact h
    | some p => simp only []; split_ifs <;> exact h
  | forceRoleNode id gw =>
    simp only [Call.run, forceRoleNode]; split_ifs <;> exact h
  | forceRoleGateway id =>
    simp only [Call.run, forceRoleGateway]; split_ifs <;> exact h
  | update env inbound =>
    obtain ⟨h1, h2, -⟩ := update_kept s env inbound
    simp only [Call.run]; rw [h1, h2]; exact h
  | setDiscoveryTimeout t => exact h
  | setGatewayContentionWindow w => exact ⟨Nat.le_max_left _ _, h.2⟩
  | setGatewayAnnounceInterval i => exact ⟨h.1, Nat.le_max_left _ _⟩
  | setNodePingGatewayInterval i => exact h
  | setNodeMaxGatewayPingAttempts a => exact h
  | setReceiveCallback c => exact h
  | setGatewayStatusCallback c => exact h
  | setNodeStatusCallback c => exact h

theorem runCalls_tunables (calls : List Call) (s : Mesh)
    (h : 100 ≤ s._gateway_contention_window_ms
      ∧ GATEWAY_MIN_ANNOUNCE_INTERVAL_MS ≤ s._gateway_announce_interval_ms) :
    100 ≤ (runCalls s calls)._gateway_contention_window_ms
    ∧ GATEWAY_MIN_ANNOUNCE_INTERVAL_MS ≤ (runCalls s calls)._gateway_announce_interval_ms := by
  induction calls generalizing s with
  | nil => exact h
  | cons c rest ih => exact ih (c.run s) (Call_run_tunables s c h)

/-! ## The table within its array: lemmas -/

theorem TableInv_fresh (t : Mesh)
    (h1 : t._known_nodes = List.replicate MAX_NODES_PER_GATEWAY NodeInfo.blank)
    (h2 : t._known_nodes_count = 0) : TableInv t := by
  unfold TableInv NodesInv
  rw [h1, h2]
  simp

theorem fsmLoadNvsConfig_inv (s : Mesh) (env : Env) (h : TableInv s) :
    TableInv (fsmLoadNvsConfig s env).1 := by
  unfold fsmLoadNvsConfig
  simp only []
  split_ifs <;>
    first
    | exact TableInv_fresh _ rfl rfl
    | (refine TableInv_of_eq h ?_ ?_ <;> simp)

theorem fsmCheckForcedRole_inv (s : Mesh) (env : Env) (h : TableInv s) :
    TableInv (fsmCheckForcedRole s env).1 := by
  unfold fsmCheckForcedRole
  simp only []
  split_ifs <;>
    first
    | exact TableInv_fresh _ rfl rfl
    | (refine TableInv_fresh _ ?_ ?_ <;>
        (simp only [saveConfigToNVS_known_nodes, saveConfigToNVS_known_nodes_count]; rfl))
    | (refine TableInv_of_eq h ?_ ?_ <;> simp)

theorem fsmAnnounceAsGateway_inv (s : Mesh) (env : Env) (h : TableInv s) :
    TableInv (fsmAnnounceAsGateway s env).1 := by
  unfold fsmAnnounceAsGateway
  simp only []
  split_ifs <;>
    first
    | exact TableInv_fresh _ rfl rfl
    | (refine TableInv_fresh _ ?_ ?_ <;>
        (simp only [saveConfigToNVS_known_nodes, saveConfigToNVS_known_nodes_count]; rfl))
    | (refine TableInv_of_eq h ?_ ?_ <;> simp)

theorem runDiscoveryFSM_inv (s : Mesh) (env : Env) (h : TableInv s) :
    TableInv (runDiscoveryFSM s env).1 := by
  unfold runDiscoveryFSM
  simp only []
  split <;>
    first
    | exact fsmLoadNvsConfig_inv s env h
    | exact fsmCheckForcedRole_inv s env h
    | exact fsmAnnounceAsGateway_inv s env h
    | exact h
    | (split_ifs <;> exact h)

theorem operateAsNode_inv (s : Mesh) (env : Env) (h : TableInv s) :
    TableInv (operateAsNode s env).1 := by
  unfold operateAsNode restartListening
  simp only []
  split_ifs <;>
    first
    | exact h
    | (refine TableInv_of_eq h ?_ ?_ <;> simp [pjonEnd])

theorem operateAsGateway_inv (s : Mesh) (env : Env) (h : TableInv s) :
    TableInv (operateAsGateway s env).1 := by
  have hc : ∀ t : Mesh, TableInv t → ∀ now, TableInv (cleanupInactiveNodes t now).1 :=
    fun t ht now => cleanupInactiveNodes_inv t now ht
  unfold operateAsGateway
  simp only []
  split_ifs
  · exact TableInv_of_eq (hc _ (TableInv_of_eq h rfl rfl) env.millis) rfl rfl
  · exact TableInv_of_eq h rfl rfl
  · exact TableInv_of_eq (hc _ h env.millis) rfl rfl
  · exact h

theorem deliverAll_inv (inbound : List Inbound) (s : Mesh) (h : TableInv s) :
    TableInv (deliverAll s inbound).1 := by
  induction inbound generalizing s with
  | nil => exact h
  | cons i rest ih =>
    simp only [deliverAll]
    apply ih
    cases i with
    | packet env payload info => exact actualPjonReceiver_inv s env payload info h
    | error env code data => exact actualPjonError_inv s env code data h

theorem updateTick_inv (s : Mesh) (env : Env) (h : TableInv s) :
    TableInv (updateTick s env).1 := by
  unfold updateTick
  simp only []
  split_ifs
  · exact operateAsNode_inv _ env (runDiscoveryFSM_inv s env h)
  · exact operateAsGateway_inv _ env (runDiscoveryFSM_inv s env h)
  · exact runDiscoveryFSM_inv s env h

theorem update_inv (s : Mesh) (env : Env) (inbound : List Inbound) (h : TableInv s) :
    TableInv (update s env inbound).1 := by
  unfold update
  simp only []
  by_cases hb : ¬ s._is_begun = true
  · rw [if_pos hb]; exact h
  · rw [if_neg hb]
    split_ifs
    · exact deliverAll_inv inbound _ (updateTick_inv s env h)
    · exact updateTick_inv s env h

/-- Every host call keeps the table within its invariant. -/
theorem Call_run_inv (s : Mesh) (c : Call) (h : TableInv s) : TableInv (c.run s) := by
  cases c with
  | begin benv name ch g =>
    obtain ⟨-, -, h3, h4, -⟩ := begin_frame s benv name ch g
    exact TableInv_of_eq h h3 h4
  | «end» =>
    simp only [Call.run]
    unfold RokorMesh.end
    split_ifs
    · exact initNodeManagement_inv _
    · exact h
  | setEspNowPmk pmk =>
    simp only [Call.run, setEspNowPmk]
    cases pmk with
    | none => exact h
    | some p => simp only []; split_ifs <;> exact h
  | forceRoleNode id gw =>
    simp only [Call.run, forceRoleNode]
    split_ifs <;> exact h
  | forceRoleGateway id =>
    simp only [Call.run, forceRoleGateway]
    split_ifs <;> exact h
  | update env inbound => exact update_inv s env inbound h
  | setDiscoveryTimeout t => exact TableInv_of_eq h rfl rfl
  | setGatewayContentionWindow w => exact TableInv_of_eq h rfl rfl
  | setGatewayAnnounceInterval i => exact TableInv_of_eq h rfl rfl
  | setNodePingGatewayInterval i => exact TableInv_of_eq h rfl rfl
  | setNodeMaxGatewayPingAttempts a => exact TableInv_of_eq h rfl rfl
  | setReceiveCallback c => exact TableInv_of_eq h rfl rfl
  | setGatewayStatusCallback c => exact TableInv_of_eq h rfl rfl
  | setNodeStatusCallback c => exact TableInv_of_eq h rfl rfl

theorem runCalls_inv (calls : List Call) (s : Mesh) (h : TableInv s) :
    TableInv (runCalls s calls) := by
  induction calls generalizing s with
  | nil => exact h
  | cons c rest ih => exact ih (c.run s) (Call_run_inv s c h)

theorem construct_inv (nvs : Nvs) : TableInv (construct nvs) := by
  unfold construct
  exact initNodeManagement_inv _

theorem PeersEncrypted_nil : PeersEncrypted [] := by
  intro e he; cases he

theorem PeersEncrypted_append (a b : List Effect) :
    PeersEncrypted (a ++ b) ↔ PeersEncrypted a ∧ PeersEncrypted b := by
  unfold PeersEncrypted
  simp only [List.mem_append]
  constructor
  · intro h; exact ⟨fun e he => h e (Or.inl he), fun e he => h e (Or.inr he)⟩
  · rintro ⟨h1, h2⟩ e (he | he)
    · exact h1 e he
    · exact h2 e he

theorem PeersEncrypted_cons (e : Effect) (l : List Effect) :
    PeersEncrypted (e :: l) ↔ peerEncrypted e = true ∧ PeersEncrypted l := by
  unfold PeersEncrypted
  simp only [List.mem_cons, forall_eq_or_imp]

theorem addEspNowPeer_encrypted (s : Mesh) (m : Mac) (c : Nat)
    (hk : 0 < strlen s._esp_now_pmk) :
    PeersEncrypted (addEspNowPeer s m c (decide (strlen s._esp_now_pmk > 0))) := by
  simp [addEspNowPeer, PeersEncrypted_cons, PeersEncrypted_nil, peerEncrypted, hk]

theorem initializePjonStack_encrypted (s : Mesh) (env : Env) (id : Nat) (bus : List Nat)
    (gw : Bool) (hk : 0 < strlen s._esp_now_pmk) :
    PeersEncrypted (initializePjonStack s env id bus gw).2 := by
  unfold initializePjonStack pjonEnd
  simp only []
  split_ifs <;>
    simp [addEspNowPeer, PeersEncrypted_cons, PeersEncrypted_nil, peerEncrypted, hk]

theorem sendGatewayAnnounce_encrypted (s : Mesh) (hk : 0 < strlen s._esp_now_pmk) :
    PeersEncrypted (sendGatewayAnnounce s) := by
  simp [sendGatewayAnnounce, addEspNowPeer, PeersEncrypted_cons, PeersEncrypted_nil,
    peerEncrypted, hk]

theorem sendNodeIdRequest_encrypted (s : Mesh) : PeersEncrypted (sendNodeIdRequest s) := by
  unfold sendNodeIdRequest
  split_ifs <;> simp [PeersEncrypted_cons, PeersEncrypted_nil, peerEncrypted]

theorem sendNodeIdAck_encrypted (s : Mesh) : PeersEncrypted (sendNodeIdAck s) := by
  unfold sendNodeIdAck
  split_ifs <;> simp [PeersEncrypted_cons, PeersEncrypted_nil, peerEncrypted]

theorem answerIdRequest_encrypted (s : Mesh) (info : PJON_Packet_Info) (m : Mac) (a : Nat)
    (hk : 0 < strlen s._esp_now_pmk) : PeersEncrypted (answerIdRequest s info m a) := by
  unfold answerIdRequest updateNodeStatus sendPjonIdAssignment addEspNowPeer
  simp only []
  split_ifs <;>
    simp [PeersEncrypted_cons, PeersEncrypted_nil, PeersEncrypted_append, peerEncrypted, hk]

theorem handleNodeIdRequest_encrypted (s : Mesh) (now : Nat) (info : PJON_Packet_Info) (m : Mac)
    (hk : 0 < strlen s._esp_now_pmk) : PeersEncrypted (handleNodeIdRequest s now info m).2 := by
  unfold handleNodeIdRequest
  split
  · exact answerIdRequest_encrypted _ info m _ hk
  · split
    · exact PeersEncrypted_nil
    · split
      · exact PeersEncrypted_nil
      · exact answerIdRequest_encrypted _ info m _ hk

theorem cleanupLoop_encrypted (cb : Bool) (now : Nat) (remaining i : Nat) (nodes : List NodeInfo)
    (count : Nat) : PeersEncrypted (cleanupLoop cb now remaining i nodes count).2.2 := by
  induction remaining generalizing i nodes count with
  | zero => simp [cleanupLoop, PeersEncrypted_nil]
  | succ n ih =>
    simp only [cleanupLoop]
    split_ifs
    · simp only [PeersEncrypted_append, PeersEncrypted_cons, peerEncrypted, true_and,
        PeersEncrypted_nil, and_true]
      exact ih _ _ _
    · simp only [PeersEncrypted_append, PeersEncrypted_cons, peerEncrypted, true_and,
        PeersEncrypted_nil, and_true]
      exact ih _ _ _
    · exact ih _ _ _

theorem fsmLoadNvsConfig_encrypted (s : Mesh) (env : Env) (hk : 0 < strlen s._esp_now_pmk) :
    PeersEncrypted (fsmLoadNvsConfig s env).2 := by
  have h1 : PeersEncrypted (initializePjonStack (loadConfigFromNVS s env).1 env
      (loadConfigFromNVS s env).1._myPjonId (loadConfigFromNVS s env).1._pjon_bus_id
      (decide ((loadConfigFromNVS s env).1._current_role = ROLE_GATEWAY))).2 :=
    initializePjonStack_encrypted _ env _ _ _ (by simpa using hk)
  unfold fsmLoadNvsConfig
  simp only []
  split_ifs <;>
    simp [PeersEncrypted_append, PeersEncrypted_cons, PeersEncrypted_nil, h1, addEspNowPeer,
      peerEncrypted, hk]

theorem fsmCheckForcedRole_encrypted (s : Mesh) (env : Env) (hk : 0 < strlen s._esp_now_pmk) :
    PeersEncrypted (fsmCheckForcedRole s env).2 := by
  unfold fsmCheckForcedRole
  simp only []
  split_ifs <;> simp [PeersEncrypted_nil, initializePjonStack_encrypted, hk]

theorem fsmAnnounceAsGateway_encrypted (s : Mesh) (env : Env)
    (hk : 0 < strlen s._esp_now_pmk) : PeersEncrypted (fsmAnnounceAsGateway s env).2 := by
  unfold fsmAnnounceAsGateway
  simp only []
  split_ifs <;>
    simp [PeersEncrypted_nil, PeersEncrypted_append, initializePjonStack_encrypted,
      sendGatewayAnnounce_encrypted, initNodeManagement, hk]

theorem runDiscoveryFSM_encrypted (s : Mesh) (env : Env) (hk : 0 < strlen s._esp_now_pmk) :
    PeersEncrypted (runDiscoveryFSM s env).2 := by
  unfold runDiscoveryFSM
  simp only []
  split <;>
    first
    | exact fsmLoadNvsConfig_encrypted s env hk
    | exact fsmCheckForcedRole_encrypted s env hk
    | exact fsmAnnounceAsGateway_encrypted s env hk
    | exact PeersEncrypted_nil
    | (split_ifs <;> exact PeersEncrypted_nil)

theorem operateAsNode_encrypted (s : Mesh) (env : Env) (hk : 0 < strlen s._esp_now_pmk) :
    PeersEncrypted (operateAsNode s env).2 := by
  unfold operateAsNode restartListening
  simp only []
  split_ifs <;>
    simp [PeersEncrypted_append, PeersEncrypted_cons, PeersEncrypted_nil, peerEncrypted,
      initializePjonStack_encrypted, pjonEnd, hk]

theorem operateAsGateway_encrypted (s : Mesh) (env : Env) (hk : 0 < strlen s._esp_now_pmk) :
    PeersEncrypted (operateAsGateway s env).2 := by
  unfold operateAsGateway cleanupInactiveNodes
  simp only []
  split_ifs <;>
    simp [PeersEncrypted_append, PeersEncrypted_nil, sendGatewayAnnounce_encrypted,
      cleanupLoop_encrypted, hk]

theorem receiveAnnounceWhileListening_encrypted (s : Mesh) (env : Env) (body : List Nat)
    (info : PJON_Packet_Info) (hk : 0 < strlen s._esp_now_pmk) :
    PeersEncrypted (receiveAnnounceWhileListening s env body info).2 := by
  unfold receiveAnnounceWhileListening
  simp only []
  split_ifs <;>
    simp [PeersEncrypted_append, PeersEncrypted_cons, PeersEncrypted_nil, peerEncrypted,
      addEspNowPeer, sendNodeIdRequest_encrypted, hk]

theorem updateNodeStatus_encrypted (s : Mesh) (n : Nat) (c : Bool) :
    PeersEncrypted (updateNodeStatus s n c) := by
  unfold updateNodeStatus
  split_ifs <;> simp [PeersEncrypted_cons, PeersEncrypted_nil, peerEncrypted]

theorem receiveAsGateway_encrypted (s : Mesh) (env : Env) (payload : List Nat) (t : Nat)
    (body : List Nat) (info : PJON_Packet_Info) (hk : 0 < strlen s._esp_now_pmk) :
    PeersEncrypted (receiveAsGateway s env payload t body info).2 := by
  unfold receiveAsGateway
  split_ifs <;>
    first
    | exact handleNodeIdRequest_encrypted _ _ _ _ hk
    | (split <;>
        simp [PeersEncrypted_append, PeersEncrypted_cons, PeersEncrypted_nil, peerEncrypted,
          updateNodeStatus_encrypted])
    | simp [PeersEncrypted_append, PeersEncrypted_cons, PeersEncrypted_nil, peerEncrypted]

theorem receiveAsNode_encrypted (s : Mesh) (env : Env) (payload : List Nat) (t : Nat)
    (body : List Nat) (info : PJON_Packet_Info) (hk : 0 < strlen s._esp_now_pmk) :
    PeersEncrypted (receiveAsNode s env payload t body info).2 := by
  unfold receiveAsNode
  simp only []
  split_ifs <;>
    simp [PeersEncrypted_append, PeersEncrypted_cons, PeersEncrypted_nil, peerEncrypted,
      addEspNowPeer, sendNodeIdAck_encrypted, hk]

theorem actualPjonReceiver_encrypted (s : Mesh) (env : Env) (payload : List Nat)
    (info : PJON_Packet_Info) (hk : 0 < strlen s._esp_now_pmk) :
    PeersEncrypted (actualPjonReceiver s env payload info).2 := by
  unfold actualPjonReceiver receiveByRole
  split
  · exact PeersEncrypted_nil
  · split_ifs <;>
      first
      | exact PeersEncrypted_nil
      | exact receiveAnnounceWhileListening_encrypted _ _ _ _ hk
      | exact receiveAsGateway_encrypted _ _ _ _ _ _ hk
      | exact receiveAsNode_encrypted _ _ _ _ _ _ hk

theorem actualPjonError_encrypted (s : Mesh) (env : Env) (code data : Nat)
    (hk : 0 < strlen s._esp_now_pmk) : PeersEncrypted (actualPjonError s env code data).2 := by
  unfold actualPjonError
  simp only []
  split_ifs <;>
    first
    | exact PeersEncrypted_nil
    | (split <;>
        simp [PeersEncrypted_cons, PeersEncrypted_nil, peerEncrypted,
          updateNodeStatus_encrypted])
    | simp [PeersEncrypted_append, PeersEncrypted_cons, PeersEncrypted_nil, peerEncrypted,
        initializePjonStack_encrypted, pjonEnd, hk]

theorem deliverAll_encrypted (inbound : List Inbound) (s : Mesh)
    (hk : 0 < strlen s._esp_now_pmk) : PeersEncrypted (deliverAll s inbound).2 := by
  induction inbound generalizing s with
  | nil => exact PeersEncrypted_nil
  | cons i rest ih =>
    simp only [deliverAll]
    rw [PeersEncrypted_append]
    cases i with
    | packet env payload info =>
      refine ⟨actualPjonReceiver_encrypted s env payload info hk, ih _ ?_⟩
      rw [show (deliver s (Inbound.packet env payload info)).1._esp_now_pmk = s._esp_now_pmk
        from (actualPjonReceiver_kept s env payload info).2.2.1]
      exact hk
    | error env code data =>
      refine ⟨actualPjonError_encrypted s env code data hk, ih _ ?_⟩
      rw [show (deliver s (Inbound.error env code data)).1._esp_now_pmk = s._esp_now_pmk
        from (actualPjonError_kept s env code data).2.2.1]
      exact hk

theorem updateTick_encrypted (s : Mesh) (env : Env) (hk : 0 < strlen s._esp_now_pmk) :
    PeersEncrypted (updateTick s env).2 := by
  have hk1 : 0 < strlen (runDiscoveryFSM s env).1._esp_now_pmk := by
    rw [(runDiscoveryFSM_kept s env).2.2.1]; exact hk
  unfold updateTick
  simp only []
  rw [PeersEncrypted_append]
  refine ⟨runDiscoveryFSM_encrypted s env hk, ?_⟩
  split_ifs
  · exact operateAsNode_encrypted _ env hk1
  · exact operateAsGateway_encrypted _ env hk1
  · exact PeersEncrypted_nil

/-- With a key in the buffer every peer registration of an `update` call asks for an
encrypted link. -/
theorem update_encrypted (s : Mesh) (env : Env) (inbound : List Inbound)
    (hk : 0 < strlen s._esp_now_pmk) : PeersEncrypted (update s env inbound).2 := by
  have hk1 : 0 < strlen (updateTick s env).1._esp_now_pmk := by
    rw [(updateTick_kept s env).2.2.1]; exact hk
  unfold update
  simp only []
  by_cases hb : ¬ s._is_begun = true
  · rw [if_pos hb]; exact PeersEncrypted_nil
  · rw [if_neg hb]
    split_ifs
    · simp only [PeersEncrypted_append]
      exact ⟨updateTick_encrypted s env hk, deliverAll_encrypted inbound _ hk1⟩
    · exact updateTick_encrypted s env hk

theorem preparePmk_takeWhile (s : List Nat) :
    preparePmk s = preparePmk (s.takeWhile (fun c => c != 0)) := by
  have h : (s.takeWhile (fun c => c != 0)).takeWhile (fun c => c != 0)
      = s.takeWhile (fun c => c != 0) := by
    rw [List.takeWhile_eq_self_iff]
    intro x hx
    have hx' := List.mem_takeWhile_imp hx
    exact hx'
  unfold preparePmk
  simp only [h]

/-- Whatever string `preparePmk` is given, it leaves a 16-byte key in the buffer. -/
theorem preparePmk_filled (s : List Nat) : KeyFilled (preparePmk s) := by
  have hs : ∀ c ∈ s.takeWhile (fun c => c != 0), c ≠ 0 := by
    intro c hc
    simpa using List.mem_takeWhile_imp hc
  rw [preparePmk_takeWhile]
  generalize s.takeWhile (fun c => c != 0) = u at hs
  refine ⟨?_, ?_, ?_⟩
  · rw [preparePmk_closed u hs]
    simp only [List.length_append, List.length_take, List.length_map, List.length_range',
      List.length_singleton, ROKOR_MESH_ESPNOW_PMK_LEN]
    omega
  · intro i hi
    rw [preparePmk_getD u hs i hi]
    split_ifs with h
    · rw [List.getD_eq_getElem _ _ h]
      exact hs _ (List.getElem_mem _)
    · exact pmkPad_ne_zero i
  · rw [preparePmk_closed u hs, List.getD_eq_getElem?_getD,
      List.getElem?_append_right (by
        simp only [List.length_append, List.length_take, List.length_map, List.length_range',
          ROKOR_MESH_ESPNOW_PMK_LEN]
        omega)]
    have : ROKOR_MESH_ESPNOW_PMK_LEN
        - (u.take 16 ++ (List.range' (min 16 u.length) (16 - min 16 u.length)).map pmkPad).length
        = 0 := by
      simp only [List.length_append, List.length_take, List.length_map, List.length_range',
        ROKOR_MESH_ESPNOW_PMK_LEN]
      omega
    rw [this]
    rfl

theorem takeWhile_length_of_prefix (p : Nat → Bool) :
    ∀ (n : Nat) (l : List Nat), n < l.length → (∀ i, i < n → p (l.getD i 0) = true) →
      p (l.getD n 0) = false → (l.takeWhile p).length = n := by
  intro n
  induction n with
  | zero =>
    intro l hl _ hn
    cases l with
    | nil => rfl
    | cons a t =>
      have : p a = false := by simpa using hn
      simp [List.takeWhile, this]
  | succ n ih =>
    intro l hl hlt hn
    cases l with
    | nil => simp at hl
    | cons a t =>
      have ha : p a = true := by simpa using hlt 0 (Nat.succ_pos _)
      simp only [List.takeWhile, ha, List.length_cons]
      rw [ih t (by simpa using hl) (fun i hi => by simpa using hlt (i + 1) (by omega))
        (by simpa using hn)]

/-- The C string in a buffer that holds a 16-byte key has length 16. -/
theorem strlen_of_filled (pmk : List Nat) (h : KeyFilled pmk) :
    strlen pmk = ROKOR_MESH_ESPNOW_PMK_LEN := by
  obtain ⟨h1, h2, h3⟩ := h
  unfold strlen
  apply takeWhile_length_of_prefix
  · omega
  · intro i hi
    simpa using h2 i hi
  · simpa using h3

theorem Call_run_key (s : Mesh) (c : Call)
    (h : s._is_custom_pmk_set = true ∨ s._is_begun = true → KeyFilled s._esp_now_pmk) :
    (c.run s)._is_custom_pmk_set = true ∨ (c.run s)._is_begun = true →
      KeyFilled (c.run s)._esp_now_pmk := by
  cases c with
  | begin benv name ch g =>
    simp only [Call.run]
    unfold begin
    by_cases c1 : s._is_begun = true
    · simpa [c1] using h
    · cases name with
      | none => simpa [c1] using h
      | some nm =>
        by_cases c2 : strlen nm = 0 ∨ strlen nm > ROKOR_MESH_MAX_NETWORK_NAME_LEN
        · simpa [c1, c2] using h
        · cases hmac : benv.wifi_mac with
          | none => simpa [c1, c2] using h
          | some mac =>
            by_cases c3 : s._is_custom_pmk_set = true
            · have hf := h (Or.inl c3)
              by_cases c4 : benv.nvs_flash_ok = true <;>
              by_cases c5 : benv.wifi_sta_ok = true <;>
              by_cases c6 : benv.esp_now_init_ok = true <;>
              simp [c1, c2, c3, c4, c5, c6, hf]
            · have hf := preparePmk_filled (nm.takeWhile (fun c => c != 0))
              by_cases c4 : benv.nvs_flash_ok = true <;>
              by_cases c5 : benv.wifi_sta_ok = true <;>
              by_cases c6 : benv.esp_now_init_ok = true <;>
              simp [c1, c2, c3, c4, c5, c6, hf]
  | «end» =>
    simp only [Call.run]
    unfold RokorMesh.end
    by_cases hb : s._is_begun = true
    · simp [hb, initNodeManagement, pjonEnd]
    · simpa [hb] using h
  | setEspNowPmk pmk =>
    simp only [Call.run, setEspNowPmk]
    cases pmk with
    | none => exact h
    | some p =>
      simp only []
      split_ifs
      · exact h
      · intro _; exact preparePmk_filled p
  | forceRoleNode id gw =>
    simp only [Call.run, forceRoleNode]; split_ifs <;> exact h
  | forceRoleGateway id =>
    simp only [Call.run, forceRoleGateway]; split_ifs <;> exact h
  | update env inbound =>
    obtain ⟨-, -, h3, h4, h5⟩ := update_kept s env inbound
    simp only [Call.run]; rw [h3, h4, h5]; exact h
  | setDiscoveryTimeout t => exact h
  | setGatewayContentionWindow w => exact h
  | setGatewayAnnounceInterval i => exact h
  | setNodePingGatewayInterval i => exact h
  | setNodeMaxGatewayPingAttempts a => exact h
  | setReceiveCallback c => exact h
  | setGatewayStatusCallback c => exact h
  | setNodeStatusCallback c => exact h

theorem runCalls_key (calls : List Call) (s : Mesh)
    (h : s._is_custom_pmk_set = true ∨ s._is_begun = true → KeyFilled s._esp_now_pmk) :
    (runCalls s calls)._is_custom_pmk_set = true ∨ (runCalls s calls)._is_begun = true →
      KeyFilled (runCalls s calls)._esp_now_pmk := by
  induction calls generalizing s with
  | nil => exact h
  | cons c rest ih => exact ih (c.run s) (Call_run_key s c h)

/-! ## Entries to the operational node state: lemmas -/

theorem fsmLoadNvsConfig_enters_node (s : Mesh) (env : Env)
    (h : (fsmLoadNvsConfig s env).1._fsm_state = DiscoveryFSM.OPERATIONAL_NODE) :
    (fsmLoadNvsConfig s env).1._failed_gateway_pings_count = 0
    ∧ (fsmLoadNvsConfig s env).1._next_gateway_ping_time = env.millis
    ∧ (fsmLoadNvsConfig s env).1._current_gateway_connected_status = false := by
  unfold fsmLoadNvsConfig at h ⊢
  simp only [] at h ⊢
  split_ifs at h ⊢
  exact ⟨rfl, rfl, rfl⟩

theorem fsmCheckForcedRole_not_node (s : Mesh) (env : Env) :
    (fsmCheckForcedRole s env).1._fsm_state ≠ DiscoveryFSM.OPERATIONAL_NODE := by
  unfold fsmCheckForcedRole
  simp only []
  split_ifs <;> simp

theorem fsmAnnounceAsGateway_not_node (s : Mesh) (env : Env) :
    (fsmAnnounceAsGateway s env).1._fsm_state ≠ DiscoveryFSM.OPERATIONAL_NODE := by
  unfold fsmAnnounceAsGateway
  simp only []
  split_ifs <;> simp

/-- The only step of the state machine that enters `OPERATIONAL_NODE` is `LOAD_NVS_CONFIG`,
and it zeroes the failure counter and makes the first ping due at once. -/
theorem runDiscoveryFSM_enters_node (s : Mesh) (env : Env)
    (hne : s._fsm_state ≠ DiscoveryFSM.OPERATIONAL_NODE)
    (h : (runDiscoveryFSM s env).1._fsm_state = DiscoveryFSM.OPERATIONAL_NODE) :
    s._fsm_state = DiscoveryFSM.LOAD_NVS_CONFIG
    ∧ (runDiscoveryFSM s env).1._failed_gateway_pings_count = 0
    ∧ (runDiscoveryFSM s env).1._next_gateway_ping_time = env.millis
    ∧ (runDiscoveryFSM s env).1._current_gateway_connected_status = false := by
  cases hst : s._fsm_state with
  | LOAD_NVS_CONFIG =>
    have e : runDiscoveryFSM s env = fsmLoadNvsConfig s env := by
      unfold runDiscoveryFSM; simp only [hst]
    rw [e] at h ⊢
    exact ⟨rfl, fsmLoadNvsConfig_enters_node s env h⟩
  | CHECK_FORCED_ROLE =>
    have e : runDiscoveryFSM s env = fsmCheckForcedRole s env := by
      unfold runDiscoveryFSM; simp only [hst]
    rw [e] at h
    exact absurd h (fsmCheckForcedRole_not_node s env)
  | ANNOUNCE_AS_GATEWAY =>
    have e : runDiscoveryFSM s env = fsmAnnounceAsGateway s env := by
      unfold runDiscoveryFSM; simp only [hst]
    rw [e] at h
    exact absurd h (fsmAnnounceAsGateway_not_node s env)
  | OPERATIONAL_NODE => exact absurd hst hne
  | INIT_STATE => unfold runDiscoveryFSM at h; simp [hst] at h
  | LISTEN_FOR_GATEWAY =>
    unfold runDiscoveryFSM at h; simp only [hst] at h
    split_ifs at h <;> simp [pjonEnd, hst] at h
  | GATEWAY_ELECTION_DELAY =>
    unfold runDiscoveryFSM at h; simp only [hst] at h
    split_ifs at h
    all_goals simp [hst] at h
  | REQUEST_NODE_ID =>
    unfold runDiscoveryFSM at h; simp only [hst] at h
    split_ifs at h
    all_goals simp [hst] at h
  | OPERATIONAL_GATEWAY => unfold runDiscoveryFSM at h; simp [hst] at h
  | ERROR_STATE => unfold runDiscoveryFSM at h; simp [hst] at h

theorem receiveAnnounceWhileListening_enters_node (s : Mesh) (env : Env) (body : List Nat)
    (info : PJON_Packet_Info) (hne : s._fsm_state ≠ DiscoveryFSM.OPERATIONAL_NODE)
    (h : (receiveAnnounceWhileListening s env body info).1._fsm_state
      = DiscoveryFSM.OPERATIONAL_NODE) :
    (receiveAnnounceWhileListening s env body info).1._failed_gateway_pings_count = 0
    ∧ (receiveAnnounceWhileListening s env body info).1._next_gateway_ping_time = env.millis
    ∧ (receiveAnnounceWhileListening s env body info).1._current_gateway_connected_status
        = false := by
  unfold receiveAnnounceWhileListening at h ⊢
  simp only [] at h ⊢
  split_ifs at h ⊢
  · exact ⟨rfl, rfl, rfl⟩
  · exact absurd h hne

theorem handleNodeIdRequest_fsm_state (s : Mesh) (now : Nat) (info : PJON_Packet_Info) (m : Mac) :
    (handleNodeIdRequest s now info m).1._fsm_state = s._fsm_state := by
  unfold handleNodeIdRequest
  split
  · rfl
  · split
    · rfl
    · split <;> rfl

theorem receiveAsGateway_fsm_state (s : Mesh) (env : Env) (payload : List Nat) (t : Nat)
    (body : List Nat) (info : PJON_Packet_Info) :
    (receiveAsGateway s env payload t body info).1._fsm_state = s._fsm_state := by
  unfold receiveAsGateway
  split_ifs <;>
    first
    | rfl
    | exact handleNodeIdRequest_fsm_state _ _ _ _
    | (split <;> rfl)

theorem receiveAsNode_enters_node (s : Mesh) (env : Env) (payload : List Nat) (t : Nat)
    (body : List Nat) (info : PJON_Packet_Info)
    (hne : s._fsm_state ≠ DiscoveryFSM.OPERATIONAL_NODE)
    (h : (receiveAsNode s env payload t body info).1._fsm_state
      = DiscoveryFSM.OPERATIONAL_NODE) :
    t = NODE_ID_ASSIGN
    ∧ (receiveAsNode s env payload t body info).1._failed_gateway_pings_count = 0
    ∧ (receiveAsNode s env payload t body info).1._next_gateway_ping_time
        = add32 env.millis s._node_ping_gateway_interval_ms
    ∧ (receiveAsNode s env payload t body info).1._current_gateway_connected_status = true := by
  have hp : ∀ x : Mesh, (saveConfigToNVS x env)._node_ping_gateway_interval_ms
      = x._node_ping_gateway_interval_ms := by
    intro x; unfold saveConfigToNVS; split_ifs <;> rfl
  unfold receiveAsNode at h ⊢
  simp only [] at h ⊢
  split_ifs at h ⊢ with h1 h2 h3
  all_goals first
    | exact absurd h hne
    | exact ⟨h2.1, rfl, by rw [hp], rfl⟩

/-- What the receiver leaves when it takes the state machine into `OPERATIONAL_NODE`: the
failure counter is 0; after an announce the first ping is due at once, after an accepted
`NODE_ID_ASSIGN` it is due one ping interval later and the connected flag is up. -/
theorem actualPjonReceiver_enters_node (s : Mesh) (env : Env) (payload : List Nat)
    (info : PJON_Packet_Info)
    (hne : s._fsm_state ≠ DiscoveryFSM.OPERATIONAL_NODE)
    (h : (actualPjonReceiver s env payload info).1._fsm_state = DiscoveryFSM.OPERATIONAL_NODE) :
    (actualPjonReceiver s env payload info).1._failed_gateway_pings_count = 0
    ∧ ((payload.head? = some GATEWAY_ANNOUNCE
        ∧ (actualPjonReceiver s env payload info).1._next_gateway_ping_time = env.millis
        ∧ (actualPjonReceiver s env payload info).1._current_gateway_connected_status = false)
      ∨ (payload.head? = some NODE_ID_ASSIGN
        ∧ (actualPjonReceiver s env payload info).1._next_gateway_ping_time
            = add32 env.millis s._node_ping_gateway_interval_ms
        ∧ (actualPjonReceiver s env payload info).1._current_gateway_connected_status = true)) := by
  cases payload with
  | nil => exact absurd h hne
  | cons t body =>
    have hrole : (receiveByRole s env (t :: body) t body info).1._fsm_state
        = DiscoveryFSM.OPERATIONAL_NODE →
        (receiveByRole s env (t :: body) t body info).1._failed_gateway_pings_count = 0
        ∧ (t = NODE_ID_ASSIGN
          ∧ (receiveByRole s env (t :: body) t body info).1._next_gateway_ping_time
              = add32 env.millis s._node_ping_gateway_interval_ms
          ∧ (receiveByRole s env (t :: body) t body info).1._current_gateway_connected_status
              = true) := by
      intro hr
      unfold receiveByRole at hr ⊢
      split_ifs at hr ⊢
      · rw [receiveAsGateway_fsm_state] at hr; exact absurd hr hne
      · obtain ⟨a, b, c, d⟩ := receiveAsNode_enters_node s env _ t body info hne hr
        exact ⟨b, a, c, d⟩
      · exact absurd hr hne
    unfold actualPjonReceiver at h ⊢
    simp only [] at h ⊢
    split_ifs at h ⊢ with c1 c2
    · obtain ⟨a, b, c⟩ := receiveAnnounceWhileListening_enters_node s env body info hne h
      exact ⟨a, Or.inl ⟨by simp [c2.1], b, c⟩⟩
    · obtain ⟨a, b, c, d⟩ := hrole h
      exact ⟨a, Or.inr ⟨by simp [b], c, d⟩⟩
    · obtain ⟨a, b, c, d⟩ := hrole h
      exact ⟨a, Or.inr ⟨by simp [b], c, d⟩⟩

/-! ## Control tags and the host callback: lemmas -/

theorem handleNodeIdRequest_no_receive_cb (s : Mesh) (now : Nat) (info : PJON_Packet_Info)
    (m : Mac) (sid : Nat) (p : List Nat) :
    Effect.receive_cb sid p ∉ (handleNodeIdRequest s now info m).2 := by
  unfold handleNodeIdRequest
  split
  · simp only [answerIdRequest, addEspNowPeer, sendPjonIdAssignment, updateNodeStatus]
    split_ifs <;> simp
  · split
    · simp
    · split
      · simp
      · simp only [answerIdRequest, addEspNowPeer, sendPjonIdAssignment, updateNodeStatus]
        split_ifs <;> simp

theorem receiveAnnounceWhileListening_no_receive_cb (s : Mesh) (env : Env) (body : List Nat)
    (info : PJON_Packet_Info) (sid : Nat) (p : List Nat) :
    Effect.receive_cb sid p ∉ (receiveAnnounceWhileListening s env body info).2 := by
  unfold receiveAnnounceWhileListening
  simp only [addEspNowPeer, sendNodeIdRequest]
  split_ifs <;> simp

/-! ## The ids within their range in every run: lemmas -/

@[simp] theorem clearConfigNVS_candidate (s : Mesh) (env : Env) :
    (clearConfigNVS s env)._next_available_node_id_candidate
      = s._next_available_node_id_candidate := by
  unfold clearConfigNVS; split_ifs <;> rfl

@[simp] theorem loadConfigFromNVS_candidate (s : Mesh) (env : Env) :
    (loadConfigFromNVS s env).1._next_available_node_id_candidate
      = s._next_available_node_id_candidate := by
  unfold loadConfigFromNVS; simp only []; split_ifs <;> rfl

theorem IdsInRange_fresh (t : Mesh)
    (h1 : t._known_nodes = List.replicate MAX_NODES_PER_GATEWAY NodeInfo.blank)
    (h2 : t._known_nodes_count = 0)
    (h3 : t._next_available_node_id_candidate = 2) : IdsInRange t := by
  unfold IdsInRange activeNodes
  rw [h1, h2, h3]
  simp

theorem fsmLoadNvsConfig_range (s : Mesh) (env : Env) (h : IdsInRange s) :
    IdsInRange (fsmLoadNvsConfig s env).1 := by
  unfold fsmLoadNvsConfig
  simp only []
  split_ifs <;>
    first
    | exact IdsInRange_fresh _ rfl rfl rfl
    | (refine IdsInRange_of_eq h ?_ ?_ ?_ <;> simp)

theorem fsmCheckForcedRole_range (s : Mesh) (env : Env) (h : IdsInRange s) :
    IdsInRange (fsmCheckForcedRole s env).1 := by
  unfold fsmCheckForcedRole
  simp only []
  split_ifs <;>
    first
    | exact IdsInRange_fresh _ rfl rfl rfl
    | (refine IdsInRange_fresh _ ?_ ?_ ?_ <;>
        (simp only [saveConfigToNVS_known_nodes, saveConfigToNVS_known_nodes_count,
          saveConfigToNVS_candidate]; rfl))
    | (refine IdsInRange_of_eq h ?_ ?_ ?_ <;> simp)

theorem fsmAnnounceAsGateway_range (s : Mesh) (env : Env) (h : IdsInRange s) :
    IdsInRange (fsmAnnounceAsGateway s env).1 := by
  unfold fsmAnnounceAsGateway
  simp only []
  split_ifs <;>
    first
    | exact IdsInRange_fresh _ rfl rfl rfl
    | (refine IdsInRange_fresh _ ?_ ?_ ?_ <;>
        (simp only [saveConfigToNVS_known_nodes, saveConfigToNVS_known_nodes_count,
          saveConfigToNVS_candidate]; rfl))
    | (refine IdsInRange_of_eq h ?_ ?_ ?_ <;> simp)

theorem runDiscoveryFSM_range (s : Mesh) (env : Env) (h : IdsInRange s) :
    IdsInRange (runDiscoveryFSM s env).1 := by
  unfold runDiscoveryFSM
  simp only []
  split <;>
    first
    | exact fsmLoadNvsConfig_range s env h
    | exact fsmCheckForcedRole_range s env h
    | exact fsmAnnounceAsGateway_range s env h
    | exact h
    | (split_ifs <;> exact h)

theorem operateAsNode_range (s : Mesh) (env : Env) (h : IdsInRange s) :
    IdsInRange (operateAsNode s env).1 := by
  unfold operateAsNode restartListening
  simp only []
  split_ifs <;>
    first
    | exact h
    | (refine IdsInRange_of_eq h ?_ ?_ ?_ <;> simp [pjonEnd])

theorem operateAsGateway_range (s : Mesh) (env : Env) (h : TableInv s) (hr : IdsInRange s) :
    IdsInRange (operateAsGateway s env).1 := by
  have hc : ∀ t : Mesh, TableInv t → IdsInRange t → ∀ now,
      IdsInRange (cleanupInactiveNodes t now).1 :=
    fun t ht htr now => cleanupInactiveNodes_range t now ht htr
  unfold operateAsGateway
  simp only []
  split_ifs
  · exact IdsInRange_of_eq
      (hc _ (TableInv_of_eq h rfl rfl) (IdsInRange_of_eq hr rfl rfl rfl) env.millis) rfl rfl rfl
  · exact IdsInRange_of_eq hr rfl rfl rfl
  · exact IdsInRange_of_eq (hc _ h hr env.millis) rfl rfl rfl
  · exact hr

theorem deliverAll_range (inbound : List Inbound) (s : Mesh) (h : TableInv s)
    (hr : IdsInRange s) : IdsInRange (deliverAll s inbound).1 := by
  induction inbound generalizing s with
  | nil => exact hr
  | cons i rest ih =>
    simp only [deliverAll]
    cases i with
    | packet env payload info =>
      exact ih _ (actualPjonReceiver_inv s env payload info h)
        (actualPjonReceiver_range s env payload info h hr)
    | error env code data =>
      exact ih _ (actualPjonError_inv s env code data h)
        (actualPjonError_range s env code data hr)

theorem updateTick_range (s : Mesh) (env : Env) (h : TableInv s) (hr : IdsInRange s) :
    IdsInRange (updateTick s env).1 := by
  unfold updateTick
  simp only []
  split_ifs
  · exact operateAsNode_range _ env (runDiscoveryFSM_range s env hr)
  · exact operateAsGateway_range _ env (runDiscoveryFSM_inv s env h)
      (runDiscoveryFSM_range s env hr)
  · exact runDiscoveryFSM_range s env hr

theorem update_range (s : Mesh) (env : Env) (inbound : List Inbound) (h : TableInv s)
    (hr : IdsInRange s) : IdsInRange (update s env inbound).1 := by
  unfold update
  simp only []
  by_cases hb : ¬ s._is_begun = true
  · rw [if_pos hb]; exact hr
  · rw [if_neg hb]
    split_ifs
    · exact deliverAll_range inbound _ (updateTick_inv s env h) (updateTick_range s env h hr)
    · exact updateTick_range s env h hr

theorem begin_candidate (s : Mesh) (benv : BeginEnv) (name : Option (List Nat)) (ch g : Nat) :
    (begin s benv name ch g).1._next_available_node_id_candidate
      = s._next_available_node_id_candidate := by
  unfold begin
  by_cases c1 : s._is_begun = true
  · simp [c1]
  · cases name with
    | none => simp [c1]
    | some nm =>
      by_cases c2 : strlen nm = 0 ∨ strlen nm > ROKOR_MESH_MAX_NETWORK_NAME_LEN
      · simp [c1, c2]
      · cases c3 : benv.wifi_mac with
        | none => simp [c1, c2]
        | some mac =>
          by_cases c4 : benv.nvs_flash_ok = true <;>
          by_cases c5 : benv.wifi_sta_ok = true <;>
          by_cases c6 : benv.esp_now_init_ok = true <;>
          by_cases c7 : s._is_custom_pmk_set = true <;>
          simp [c1, c2, c3, c4, c5, c6, c7]

/-- Every host call keeps the candidate counter at 2 or more and the ids of the records in
use in 2..254. -/
theorem Call_run_range (s : Mesh) (c : Call) (h : TableInv s) (hr : IdsInRange s) :
    IdsInRange (c.run s) := by
  cases c with
  | begin benv name ch g =>
    obtain ⟨-, -, h3, h4, -⟩ := begin_frame s benv name ch g
    exact IdsInRange_of_eq hr h3 h4 (begin_candidate s benv name ch g)
  | «end» =>
    simp only [Call.run]
    unfold RokorMesh.end
    split_ifs
    · exact initNodeManagement_range _
    · exact hr
  | setEspNowPmk pmk =>
    simp only [Call.run, setEspNowPmk]
    cases pmk with
    | none => exact hr
    | some p => simp only []; split_ifs <;> exact hr
  | forceRoleNode id gw =>
    simp only [Call.run, forceRoleNode]
    split_ifs <;> exact hr
  | forceRoleGateway id =>
    simp only [Call.run, forceRoleGateway]
    split_ifs <;> exact hr
  | update env inbound => exact update_range s env inbound h hr
  | setDiscoveryTimeout t => exact IdsInRange_of_eq hr rfl rfl rfl
  | setGatewayContentionWindow w => exact IdsInRange_of_eq hr rfl rfl rfl
  | setGatewayAnnounceInterval i => exact IdsInRange_of_eq hr rfl rfl rfl
  | setNodePingGatewayInterval i => exact IdsInRange_of_eq hr rfl rfl rfl
  | setNodeMaxGatewayPingAttempts a => exact IdsInRange_of_eq hr rfl rfl rfl
  | setReceiveCallback c => exact IdsInRange_of_eq hr rfl rfl rfl
  | setGatewayStatusCallback c => exact IdsInRange_of_eq hr rfl rfl rfl
  | setNodeStatusCallback c => exact IdsInRange_of_eq hr rfl rfl rfl

theorem runCalls_range (calls : List Call) (s : Mesh) (h : TableInv s) (hr : IdsInRange s) :
    IdsInRange (runCalls s calls) := by
  induction calls generalizing s with
  | nil => exact hr
  | cons c rest ih => exact ih (c.run s) (Call_run_inv s c h) (Call_run_range s c h hr)

theorem construct_range (nvs : Nvs) : IdsInRange (construct nvs) := by
  unfold construct
  exact initNodeManagement_range _

/-! ## The receiver while listening, and `end`: lemmas -/

/-- The receiver on an announce heard while listening. In `LISTEN_FOR_GATEWAY` or `GATEWAY_ELECTION_DELAY`, a `GATEWAY_ANNOUNCE`
with a body of at least 6 bytes sets the gateway id to the sender id and the gateway MAC to
the first 6 body bytes. The state machine then moves only when the role is
`ROLE_DISCOVERING`, or `ROLE_NODE` with a forced role active: to `REQUEST_NODE_ID` when my id
is `PJON_NOT_ASSIGNED` or 0 (the peer is registered and a `NODE_ID_REQUEST` is sent unless
the sender id is `PJON_NOT_ASSIGNED` or the MAC is all-zero), otherwise to
`OPERATIONAL_NODE` in role `ROLE_NODE` with the configuration written to the store when it
opens. In every other role the state of the machine is unchanged. -/
theorem announce_while_listening (s : Mesh) (env : Env) (body : List Nat) (packet_info : PJON_Packet_Info)
    (hstate : s._fsm_state = DiscoveryFSM.LISTEN_FOR_GATEWAY
      ∨ s._fsm_state = DiscoveryFSM.GATEWAY_ELECTION_DELAY)
    (hbody : body.length ≥ ESP_NOW_ETH_ALEN) :
    (actualPjonReceiver s env (GATEWAY_ANNOUNCE :: body) packet_info).1._gatewayPjonId
        = packet_info.sender_id
    ∧ (actualPjonReceiver s env (GATEWAY_ANNOUNCE :: body) packet_info).1._gateway_mac_addr
        = body.take ESP_NOW_ETH_ALEN
    ∧ (if s._current_role = ROLE_DISCOVERING
          ∨ (s._forced_role_active = true ∧ s._current_role = ROLE_NODE) then
        if s._myPjonId = PJON_NOT_ASSIGNED ∨ s._myPjonId = 0 then
          (actualPjonReceiver s env (GATEWAY_ANNOUNCE :: body) packet_info).1._fsm_state
              = DiscoveryFSM.REQUEST_NODE_ID
          ∧ (actualPjonReceiver s env (GATEWAY_ANNOUNCE :: body) packet_info).2
              = Effect.add_peer (body.take ESP_NOW_ETH_ALEN) s._espNowChannel
                  (decide (strlen s._esp_now_pmk > 0))
                :: (if packet_info.sender_id = PJON_NOT_ASSIGNED
                      ∨ body.take ESP_NOW_ETH_ALEN = esp_now_null_mac then []
                    else [Effect.pjon_send (body.take ESP_NOW_ETH_ALEN) packet_info.sender_id
                            (NODE_ID_REQUEST :: s._my_mac_addr)])
        else
          (actualPjonReceiver s env (GATEWAY_ANNOUNCE :: body) packet_info).1._fsm_state
              = DiscoveryFSM.OPERATIONAL_NODE
          ∧ (actualPjonReceiver s env (GATEWAY_ANNOUNCE :: body) packet_info).1._current_role
              = ROLE_NODE
          ∧ (env.nvs_open_ok = true →
              (actualPjonReceiver s env (GATEWAY_ANNOUNCE :: body) packet_info).1.nvs =
                { s.nvs with
                  net_name := some s._network_name_stored
                  role := some ROLE_NODE
                  pjon_id := some s._myPjonId
                  bus_id := some s._pjon_bus_id
                  channel := some s._espNowChannel
                  gw_pjonid := some packet_info.sender_id
                  gw_mac := if body.take ESP_NOW_ETH_ALEN ≠ esp_now_null_mac
                    then some (body.take ESP_NOW_ETH_ALEN) else s.nvs.gw_mac })
      else
        (actualPjonReceiver s env (GATEWAY_ANNOUNCE :: body) packet_info).1._fsm_state
          = s._fsm_state) := by
  have hcond : s._fsm_state = DiscoveryFSM.LISTEN_FOR_GATEWAY
        ∨ s._fsm_state = DiscoveryFSM.GATEWAY_ELECTION_DELAY
        ∨ (s._fsm_state = DiscoveryFSM.CHECK_FORCED_ROLE ∧ s._current_role = ROLE_NODE
            ∧ (s._myPjonId = PJON_NOT_ASSIGNED ∨ s._myPjonId = 0)) := by
    rcases hstate with h | h
    · exact Or.inl h
    · exact Or.inr (Or.inl h)
  have hrecv : actualPjonReceiver s env (GATEWAY_ANNOUNCE :: body) packet_info
      = receiveAnnounceWhileListening s env body packet_info := by
    simp only [actualPjonReceiver, if_pos hcond, hbody, and_self, if_true]
  rw [hrecv]
  unfold receiveAnnounceWhileListening
  by_cases hrole : s._current_role = ROLE_DISCOVERING
      ∨ (s._forced_role_active = true ∧ s._current_role = ROLE_NODE)
  · by_cases hid : s._myPjonId = PJON_NOT_ASSIGNED ∨ s._myPjonId = 0
    · simp only [hrole, hid, if_true, true_and]
      simp only [addEspNowPeer, sendNodeIdRequest]
      by_cases hs : packet_info.sender_id = PJON_NOT_ASSIGNED
          ∨ body.take ESP_NOW_ETH_ALEN = esp_now_null_mac
      · simp [hs]
      · simp [hs]
    · simp only [hrole, hid, if_true, if_false, true_and]
      refine ⟨?_, ?_, ?_, ?_⟩
      · simp only [saveConfigToNVS]; split_ifs <;> rfl
      · simp only [saveConfigToNVS]; split_ifs <;> rfl
      · simp only [saveConfigToNVS]; split_ifs <;> rfl
      · intro hopen
        simp only [saveConfigToNVS, hopen]
        split_ifs <;> first | rfl | (exfalso; simp_all)
  · simp only [hrole, if_false, and_self]

/-- The discovering device hearing gateway 1 moves to `REQUEST_NODE_ID`. -/
theorem announce_while_listening_witness :
    discoveringDevice._fsm_state = DiscoveryFSM.LISTEN_FOR_GATEWAY
    ∧ discoveringDevice._current_role = ROLE_DISCOVERING
    ∧ (actualPjonReceiver discoveringDevice (envAt 200) (GATEWAY_ANNOUNCE :: sampleMacG)
        { sender_id := 1, sender_ethernet_address := sampleMacG }).1._gatewayPjonId = 1
    ∧ (actualPjonReceiver discoveringDevice (envAt 200) (GATEWAY_ANNOUNCE :: sampleMacG)
        { sender_id := 1, sender_ethernet_address := sampleMacG }).1._fsm_state
        = DiscoveryFSM.REQUEST_NODE_ID := by
  have h := announce_while_listening discoveringDevice (envAt 200) sampleMacG
    { sender_id := 1, sender_ethernet_address := sampleMacG } (Or.inl (by decide)) (by decide)
  refine ⟨by decide, by decide, h.1, ?_⟩
  have h3 := h.2.2
  rw [if_pos (Or.inl (by decide)), if_pos (Or.inl (by decide))] at h3
  exact h3.1

/-- The receiver in an election. A discovering device without id in `GATEWAY_ELECTION_DELAY` whose receiver is
handed a `GATEWAY_ANNOUNCE` with a body of at least 6 bytes is in `REQUEST_NODE_ID`
afterwards. From there, whenever a sequence of `update` ticks with nothing inbound ends in
`ANNOUNCE_AS_GATEWAY`, the sequence holds a tick `eL` that takes the machine from
`REQUEST_NODE_ID` back to `LISTEN_FOR_GATEWAY`, and a later tick `eT`, before which the machine
is still in `LISTEN_FOR_GATEWAY`, whose clock value is more than the discovery timeout past
that of `eL` (32-bit subtraction). -/
theorem election_cancellation (s : Mesh) (env : Env) (body : List Nat)
    (packet_info : PJON_Packet_Info)
    (hfsm : s._fsm_state = DiscoveryFSM.GATEWAY_ELECTION_DELAY)
    (hrole : s._current_role = ROLE_DISCOVERING)
    (hid : s._myPjonId = PJON_NOT_ASSIGNED)
    (hbody : body.length ≥ ESP_NOW_ETH_ALEN) :
    (actualPjonReceiver s env (GATEWAY_ANNOUNCE :: body) packet_info).1._fsm_state
        = DiscoveryFSM.REQUEST_NODE_ID
    ∧ ∀ envs,
        (idleTicks (actualPjonReceiver s env (GATEWAY_ANNOUNCE :: body) packet_info).1 envs).1._fsm_state
            = DiscoveryFSM.ANNOUNCE_AS_GATEWAY →
        ∃ pre eL mid eT post, envs = pre ++ eL :: (mid ++ eT :: post)
          ∧ (idleTicks (actualPjonReceiver s env (GATEWAY_ANNOUNCE :: body) packet_info).1
                pre).1._fsm_state = DiscoveryFSM.REQUEST_NODE_ID
          ∧ (idleTicks (actualPjonReceiver s env (GATEWAY_ANNOUNCE :: body) packet_info).1
                (pre ++ [eL])).1._fsm_state = DiscoveryFSM.LISTEN_FOR_GATEWAY
          ∧ (idleTicks (actualPjonReceiver s env (GATEWAY_ANNOUNCE :: body) packet_info).1
                (pre ++ eL :: mid)).1._fsm_state = DiscoveryFSM.LISTEN_FOR_GATEWAY
          ∧ sub32 eT.millis eL.millis > s._discovery_timeout_ms := by
  rw [receive_announce_in_election s env body packet_info hfsm hrole hid hbody]
  refine ⟨rfl, ?_⟩
  intro envs h
  by_cases hb : s._is_begun = true
  · exact request_waits envs
      { s with
        _gatewayPjonId := packet_info.sender_id
        _gateway_mac_addr := body.take ESP_NOW_ETH_ALEN
        _fsm_state := DiscoveryFSM.REQUEST_NODE_ID
        _fsm_timer_start := env.millis } hb rfl hrole h
  · exfalso
    rw [idleTicks_not_begun envs _ (by simpa using hb)] at h
    cases h

/-- The receiver of the electing device is handed the announce of gateway 1 at clock value
5100, a packet no `update` call delivers in that state; the request
times out at 10101, the discovery timeout at 15102, the contention delay at 15103. -/
theorem election_cancellation_witness :
    electingDevice._fsm_state = DiscoveryFSM.GATEWAY_ELECTION_DELAY
    ∧ electingDevice._current_role = ROLE_DISCOVERING
    ∧ electingDevice._myPjonId = PJON_NOT_ASSIGNED
    ∧ electingDevice._discovery_timeout_ms = 5000
    ∧ (actualPjonReceiver electingDevice (envAt 5100) (GATEWAY_ANNOUNCE :: sampleMacG)
        { sender_id := 1, sender_ethernet_address := sampleMacG }).1._fsm_state
        = DiscoveryFSM.REQUEST_NODE_ID
    ∧ (idleTicks (actualPjonReceiver electingDevice (envAt 5100) (GATEWAY_ANNOUNCE :: sampleMacG)
          { sender_id := 1, sender_ethernet_address := sampleMacG }).1
        [envAt 10101, envAt 15102, envAt 15103]).1._fsm_state
        = DiscoveryFSM.ANNOUNCE_AS_GATEWAY
    ∧ ∃ pre eL mid eT post,
        [envAt 10101, envAt 15102, envAt 15103] = pre ++ eL :: (mid ++ eT :: post)
        ∧ sub32 eT.millis eL.millis > electingDevice._discovery_timeout_ms := by
  have h := election_cancellation electingDevice (envAt 5100) sampleMacG
    { sender_id := 1, sender_ethernet_address := sampleMacG } (by decide) (by decide)
    (by decide) (by decide)
  obtain ⟨pre, eL, mid, eT, post, h1, _, _, _, h5⟩ :=
    h.2 [envAt 10101, envAt 15102, envAt 15103] (by decide)
  exact ⟨by decide, by decide, by decide, by decide, h.1, by decide,
    pre, eL, mid, eT, post, h1, h5⟩

/-- The fields `end` resets and the fields it leaves. After `end` on a begun coordinator: not begun, role
`ROLE_UNINITIALIZED`, state `INIT_STATE`, my id and the gateway id `PJON_NOT_ASSIGNED`,
the connected flag down, the transport stopped, the key back to zero bytes and no longer
custom, the table empty (count 0, every slot blank) with candidate 2. The store is not
touched. The gateway MAC, the failure counter, the forced-role flag, the time of the next
ping and the contention delay are left as they were, not reset. A following `begin` with a
valid name, on a platform on which the initialisations succeed, returns `true` and leaves
the coordinator begun in `INIT_STATE`. -/
theorem end_resets (s : Mesh) (hb : s._is_begun = true) :
    ((RokorMesh.end s)._is_begun = false
      ∧ (RokorMesh.end s)._current_role = ROLE_UNINITIALIZED
      ∧ (RokorMesh.end s)._fsm_state = DiscoveryFSM.INIT_STATE
      ∧ (RokorMesh.end s)._myPjonId = PJON_NOT_ASSIGNED
      ∧ (RokorMesh.end s)._gatewayPjonId = PJON_NOT_ASSIGNED
      ∧ (RokorMesh.end s)._current_gateway_connected_status = false
      ∧ (RokorMesh.end s)._pjon_bus.listening = false
      ∧ (RokorMesh.end s)._esp_now_pmk = List.replicate 17 0
      ∧ (RokorMesh.end s)._is_custom_pmk_set = false)
    ∧ ((RokorMesh.end s)._known_nodes_count = 0
      ∧ (RokorMesh.end s)._known_nodes = List.replicate MAX_NODES_PER_GATEWAY NodeInfo.blank
      ∧ (RokorMesh.end s)._next_available_node_id_candidate = 2)
    ∧ (RokorMesh.end s).nvs = s.nvs
    ∧ ((RokorMesh.end s)._gateway_mac_addr = s._gateway_mac_addr
      ∧ (RokorMesh.end s)._failed_gateway_pings_count = s._failed_gateway_pings_count
      ∧ (RokorMesh.end s)._forced_role_active = s._forced_role_active
      ∧ (RokorMesh.end s)._next_gateway_ping_time = s._next_gateway_ping_time
      ∧ (RokorMesh.end s)._contention_delay_value = s._contention_delay_value)
    ∧ (∀ (benv : BeginEnv) (name : List Nat) (ch g : Nat),
        1 ≤ strlen name → strlen name ≤ ROKOR_MESH_MAX_NETWORK_NAME_LEN →
        benv.wifi_mac.isSome = true → benv.nvs_flash_ok = true → benv.wifi_sta_ok = true →
        benv.esp_now_init_ok = true →
        (begin (RokorMesh.end s) benv (some name) ch g).2 = true
        ∧ (begin (RokorMesh.end s) benv (some name) ch g).1._is_begun = true
        ∧ (begin (RokorMesh.end s) benv (some name) ch g).1._fsm_state
            = DiscoveryFSM.INIT_STATE) := by
  have he : RokorMesh.end s = initNodeManagement { pjonEnd s with
      _is_begun := false
      _current_role := ROLE_UNINITIALIZED
      _fsm_state := DiscoveryFSM.INIT_STATE
      _myPjonId := PJON_NOT_ASSIGNED
      _gatewayPjonId := PJON_NOT_ASSIGNED
      _current_gateway_connected_status := false
      _is_custom_pmk_set := false
      _esp_now_pmk := List.replicate (ROKOR_MESH_ESPNOW_PMK_LEN + 1) 0 } := by
    unfold RokorMesh.end
    simp [hb]
  refine ⟨?_, ?_, ?_, ?_, ?_⟩
  · rw [he]; exact ⟨rfl, rfl, rfl, rfl, rfl, rfl, rfl, rfl, rfl⟩
  · rw [he]; exact ⟨rfl, rfl, rfl⟩
  · rw [he]; rfl
  · rw [he]; exact ⟨rfl, rfl, rfl, rfl, rfl⟩
  · intro benv name ch g h1 h2 hmac hflash hsta hnow
    obtain ⟨mac, hmac⟩ := Option.isSome_iff_exists.mp hmac
    have hn : ¬ (strlen name = 0 ∨ strlen name > ROKOR_MESH_MAX_NETWORK_NAME_LEN) := by omega
    have hbe : (RokorMesh.end s)._is_begun = false := by rw [he]; rfl
    unfold begin
    simp only [hbe, Bool.false_eq_true, if_false, hn, hmac, hflash, hsta, hnow,
      not_true_eq_false]
    simp

/-- The elected gateway with three children is ended and begun again. -/
theorem end_resets_witness :
    gatewayWithThree._is_begun = true
    ∧ gatewayWithThree._known_nodes_count = 3
    ∧ (RokorMesh.end gatewayWithThree)._known_nodes_count = 0
    ∧ (RokorMesh.end gatewayWithThree).nvs = gatewayWithThree.nvs
    ∧ (begin (RokorMesh.end gatewayWithThree) sampleBeginEnv (some sampleName) 1 1).2 = true :=
  ⟨by decide, by decide,
    (end_resets gatewayWithThree (by decide)).2.1.1,
    (end_resets gatewayWithThree (by decide)).2.2.1,
    by decide⟩

/-! ## Claims -/

/-- C1. Starting from the table `initNodeManagement` leaves and applying any sequence of
id requests, inbound packets (`NODE_ID_ACK`, `NODE_PING_GATEWAY` and all others), transport
errors (`PJON_CONNECTION_LOST` and all others) and inactivity sweeps, the first
`_known_nodes_count` records never hold two records with the same MAC nor two with the same
logical id. -/
theorem membership_table_unique (s0 : Mesh) (ops : List TableOp) :
    TableUnique (runTableOps (initNodeManagement s0) ops) := by
  obtain ⟨_, _, h3, h4⟩ := runTableOps_inv ops _ (initNodeManagement_inv s0)
  exact ⟨h3, h4⟩

/-- C2 (the code at the failing input). A device begun with gateway id 2 that elects itself
is a gateway with id 2, and it answers the first `NODE_ID_REQUEST` with a `NODE_ID_ASSIGN`
that carries id 2, its own id, which it also stores in the new record. -/
theorem gateway_with_id_two_assigns_its_own_id :
    (electedGateway 2)._fsm_state = DiscoveryFSM.OPERATIONAL_GATEWAY
    ∧ (electedGateway 2)._current_role = ROLE_GATEWAY
    ∧ (electedGateway 2)._myPjonId = 2
    ∧ (update (electedGateway 2) (envAt 5006) [idRequestFrom 5006 sampleMacB]).2
        = [Effect.add_peer sampleMacB 1 true,
           Effect.pjon_send sampleMacB PJON_BROADCAST_ADDRESS (NODE_ID_ASSIGN :: 2 :: sampleMacB)]
    ∧ activeNodes (update (electedGateway 2) (envAt 5006) [idRequestFrom 5006 sampleMacB]).1
        = [{ pjon_id := 2, mac_addr := sampleMacB, last_seen := 5006,
             id_assigned_this_session := true }] := by
  decide

/-- C3 (the code at the failing input). A discovering device that heard the announce of
gateway 1 is in `REQUEST_NODE_ID` with role `ROLE_DISCOVERING` and no id; the `NODE_ID_ASSIGN`
of gateway 1 for its own MAC with id 2, delivered 100 ms later, changes nothing: it stays in
`REQUEST_NODE_ID` without an id, and nothing is sent or reported. -/
theorem discovering_device_ignores_id_assign :
    requestingDevice._fsm_state = DiscoveryFSM.REQUEST_NODE_ID
    ∧ requestingDevice._current_role = ROLE_DISCOVERING
    ∧ requestingDevice._myPjonId = PJON_NOT_ASSIGNED
    ∧ requestingDevice._gatewayPjonId = 1
    ∧ requestingDevice._my_mac_addr = sampleMacA
    ∧ update requestingDevice (envAt 300) [idAssignFromGateway 300 1 2 sampleMacA]
        = (requestingDevice, []) := by
  decide

/-- C4. A node with id 5 that lost its gateway (`PJON_CONNECTION_LOST`) listens in
`LISTEN_FOR_GATEWAY`, in role `ROLE_NODE` without a forced role, with the transport
listening. The announce of gateway 1 sets its gateway id and gateway MAC but leaves it in
`LISTEN_FOR_GATEWAY` instead of moving it to `OPERATIONAL_NODE`. With the announce inbound
on every tick it is still in `LISTEN_FOR_GATEWAY` at clock value 4000, finds the discovery
timeout elapsed at 5003 and ends in `OPERATIONAL_GATEWAY` in role `ROLE_GATEWAY` at 5005:
it elects itself while the gateway announces. -/
theorem announce_ignored_by_unforced_node :
    orphanedNode._fsm_state = DiscoveryFSM.LISTEN_FOR_GATEWAY
    ∧ orphanedNode._current_role = ROLE_NODE
    ∧ orphanedNode._forced_role_active = false
    ∧ orphanedNode._myPjonId = 5
    ∧ orphanedNode._pjon_bus.listening = true
    ∧ (actualPjonReceiver orphanedNode (envAt 3) (GATEWAY_ANNOUNCE :: sampleMacG)
        { sender_id := 1, sender_ethernet_address := sampleMacG }).1._gatewayPjonId = 1
    ∧ (actualPjonReceiver orphanedNode (envAt 3) (GATEWAY_ANNOUNCE :: sampleMacG)
        { sender_id := 1, sender_ethernet_address := sampleMacG }).1._gateway_mac_addr
        = sampleMacG
    ∧ (actualPjonReceiver orphanedNode (envAt 3) (GATEWAY_ANNOUNCE :: sampleMacG)
        { sender_id := 1, sender_ethernet_address := sampleMacG }).1._fsm_state
        = DiscoveryFSM.LISTEN_FOR_GATEWAY
    ∧ (runCalls orphanedNode (announcedTicks [3, 1000, 2500, 4000]))._fsm_state
        = DiscoveryFSM.LISTEN_FOR_GATEWAY
    ∧ (runCalls orphanedNode (announcedTicks [3, 1000, 2500, 4000, 5003]))._fsm_state
        = DiscoveryFSM.GATEWAY_ELECTION_DELAY
    ∧ (runCalls orphanedNode
        (announcedTicks [3, 1000, 2500, 4000, 5003, 5004, 5005]))._fsm_state
        = DiscoveryFSM.OPERATIONAL_GATEWAY
    ∧ (runCalls orphanedNode
        (announcedTicks [3, 1000, 2500, 4000, 5003, 5004, 5005]))._current_role
        = ROLE_GATEWAY := by
  decide

/-- C5 (counterexample). A node that booted from a well-formed store into
`OPERATIONAL_NODE`, bound to gateway 1, receives from gateway 1 a `NODE_ID_ASSIGN` for its
own MAC that carries id 1: it adopts the id and is in `OPERATIONAL_NODE` with my id equal to
the gateway id. -/
theorem node_adopts_gateway_id :
    StoreWellFormed persistedNodeStore
    ∧ persistedNode._fsm_state = DiscoveryFSM.OPERATIONAL_NODE
    ∧ persistedNode._gatewayPjonId = 1
    ∧ persistedNode._my_mac_addr = sampleMacA
    ∧ (update persistedNode (envAt 2) [idAssignFromGateway 2 1 1 sampleMacA]).1._fsm_state
        = DiscoveryFSM.OPERATIONAL_NODE
    ∧ (update persistedNode (envAt 2) [idAssignFromGateway 2 1 1 sampleMacA]).1._myPjonId
        = (update persistedNode (envAt 2) [idAssignFromGateway 2 1 1 sampleMacA]).1._gatewayPjonId := by
  decide

/-- C5 (amended). Take a constructed coordinator whose store is well-formed and any
sequence of host calls (`begin`, `end`, the force and set calls, `update` with inbound
packets and transport errors) in which every delivered `NODE_ID_ASSIGN` carries an id in
1..254 different from its sender id in 1..254, and every delivered `GATEWAY_ANNOUNCE` comes
from a sender id in 1..254 different from the id the device holds. Then in every state
reached in `OPERATIONAL_NODE`, my id differs from the gateway id and both lie in 1..254. -/
theorem operational_node_ids (nvs : Nvs) (calls : List Call) (hstore : StoreWellFormed nvs)
    (hcalls : WellBehavedCalls (construct nvs) calls) :
    (runCalls (construct nvs) calls)._fsm_state = DiscoveryFSM.OPERATIONAL_NODE →
      (runCalls (construct nvs) calls)._myPjonId ≠ (runCalls (construct nvs) calls)._gatewayPjonId
      ∧ 1 ≤ (runCalls (construct nvs) calls)._myPjonId
      ∧ (runCalls (construct nvs) calls)._myPjonId ≤ 254
      ∧ 1 ≤ (runCalls (construct nvs) calls)._gatewayPjonId
      ∧ (runCalls (construct nvs) calls)._gatewayPjonId ≤ 254 :=
  (CoreInv_runCalls calls _ (CoreInv_construct nvs hstore) hcalls).2.2.2.2.2

/-- C5 (witness): the boot from `persistedNodeStore` followed by the assignment of id 9. -/
theorem operational_node_ids_witness :
    StoreWellFormed persistedNodeStore
    ∧ WellBehavedCalls (construct persistedNodeStore) sampleNodeCalls
    ∧ (runCalls (construct persistedNodeStore) sampleNodeCalls)._fsm_state
        = DiscoveryFSM.OPERATIONAL_NODE
    ∧ (runCalls (construct persistedNodeStore) sampleNodeCalls)._myPjonId = 9
    ∧ (runCalls (construct persistedNodeStore) sampleNodeCalls)._myPjonId
        ≠ (runCalls (construct persistedNodeStore) sampleNodeCalls)._gatewayPjonId :=
  ⟨by decide, by decide, by decide, by decide,
    (operational_node_ids persistedNodeStore sampleNodeCalls (by decide) (by decide) (by decide)).1⟩

/-- C6. When the MAC `m` is in the table at index `i`, `handleNodeIdRequest` for `m` changes
nothing but the `last_seen` of that record (count, every id and MAC and the candidate
counter stay) and sends one `NODE_ID_ASSIGN`, carrying the id of that record. Consequently,
when the request of a MAC that is not in the table is answered with id `a`, its next request
is answered with `a` again, the count has grown by one only, and exactly one record in use
holds that MAC. -/
theorem idempotent_rerequest (s : Mesh) (now now' : Nat) (info info' : PJON_Packet_Info) (m : Mac) :
    (∀ i, findNodeByMac s m = some i →
      (handleNodeIdRequest s now info m).1 =
        { s with
          _known_nodes := s._known_nodes.set i
            { s._known_nodes.getD i NodeInfo.blank with last_seen := now } }
      ∧ assignedIds (handleNodeIdRequest s now info m).2
          = [(s._known_nodes.getD i NodeInfo.blank).pjon_id])
    ∧ (findNodeByMac s m = none → s._known_nodes.length = MAX_NODES_PER_GATEWAY →
        ∀ a, assignedIds (handleNodeIdRequest s now info m).2 = [a] →
          assignedIds (handleNodeIdRequest (handleNodeIdRequest s now info m).1 now' info' m).2 = [a]
          ∧ (handleNodeIdRequest (handleNodeIdRequest s now info m).1 now' info' m).1._known_nodes_count
              = s._known_nodes_count + 1
          ∧ ((activeNodes (handleNodeIdRequest (handleNodeIdRequest s now info m).1 now' info' m).1).map
              NodeInfo.mac_addr).count m = 1) := by
  constructor
  · intro i hi
    rw [handleNodeIdRequest_existing s now info m i hi]
    exact ⟨rfl, assignedIds_answerIdRequest _ _ _ _⟩
  · intro hnew hlen a ha
    have hM : MAX_NODES_PER_GATEWAY = 30 := rfl
    have hscan : scanLoop (fun r => r.mac_addr == m) s._known_nodes s._known_nodes_count 0 = none := hnew
    -- the first request was answered, so it took the allocation branch
    by_cases hfull : s._known_nodes_count ≥ MAX_NODES_PER_GATEWAY
    · exfalso
      unfold handleNodeIdRequest at ha
      rw [hscan] at ha
      simp [hfull, assignedIds] at ha
    · cases hs : searchLoop s._myPjonId s._known_nodes s._known_nodes_count 254
          s._next_available_node_id_candidate with
      | mk found c =>
        cases found with
        | none =>
          exfalso
          unfold handleNodeIdRequest at ha
          rw [hscan] at ha
          simp [hfull, hs, assignedIds] at ha
        | some a' =>
          have hlt : s._known_nodes_count < MAX_NODES_PER_GATEWAY := by omega
          rw [handleNodeIdRequest_new s now info m a' c hnew hlt hs] at ha ⊢
          rw [assignedIds_answerIdRequest] at ha
          have haa : a' = a := by simpa using ha
          subst haa
          have hinc : inc8 s._known_nodes_count = s._known_nodes_count + 1 := by
            unfold inc8; apply Nat.mod_eq_of_lt; omega
          have hcl : s._known_nodes_count < s._known_nodes.length := by omega
          simp only [hinc]
          have hfind : findNodeByMac
              { s with
                _next_available_node_id_candidate := c
                _known_nodes := s._known_nodes.set s._known_nodes_count
                  { pjon_id := a', mac_addr := m, last_seen := now, id_assigned_this_session := true }
                _known_nodes_count := s._known_nodes_count + 1 } m = some s._known_nodes_count :=
            scanLoop_set_succ _ _ _ _ hscan (by simp) hcl
          rw [handleNodeIdRequest_existing _ now' info' m _ hfind]
          have hget : (s._known_nodes.set s._known_nodes_count
              { pjon_id := a', mac_addr := m, last_seen := now, id_assigned_this_session := true }).getD
                s._known_nodes_count NodeInfo.blank
              = { pjon_id := a', mac_addr := m, last_seen := now, id_assigned_this_session := true } := by
            rw [List.getD_eq_getElem _ _ (by simpa using hcl)]; simp
          refine ⟨?_, rfl, ?_⟩
          · rw [assignedIds_answerIdRequest]; simp only [hget]
          · simp only [activeNodes, hget, List.set_set]
            rw [take_succ_set _ _ _ hcl, List.map_append, List.count_append]
            have hzero : List.count m (List.map NodeInfo.mac_addr (List.take s._known_nodes_count s._known_nodes)) = 0 := by
              rw [List.count_eq_zero]
              intro hmem
              obtain ⟨r, hr, hrm⟩ := List.mem_map.mp hmem
              have := (scanLoop_none_take _ _ _ (by omega)).mp hscan r hr
              simp [hrm] at this
            rw [hzero]
            simp

/-- C6 (witness): the gateway with id 1 and the MAC `sampleMacB`, known and new. -/
theorem idempotent_rerequest_witness :
    findNodeByMac (handleNodeIdRequest (electedGateway 1) 6000
        { sender_id := PJON_NOT_ASSIGNED, sender_ethernet_address := sampleMacB } sampleMacB).1
      sampleMacB = some 0
    ∧ assignedIds (handleNodeIdRequest (handleNodeIdRequest (electedGateway 1) 6000
        { sender_id := PJON_NOT_ASSIGNED, sender_ethernet_address := sampleMacB } sampleMacB).1
        7000 { sender_id := PJON_NOT_ASSIGNED, sender_ethernet_address := sampleMacB }
        sampleMacB).2 = [2]
    ∧ ((activeNodes (handleNodeIdRequest (handleNodeIdRequest (electedGateway 1) 6000
        { sender_id := PJON_NOT_ASSIGNED, sender_ethernet_address := sampleMacB } sampleMacB).1
        7000 { sender_id := PJON_NOT_ASSIGNED, sender_ethernet_address := sampleMacB }
        sampleMacB).1).map NodeInfo.mac_addr).count sampleMacB = 1 := by
  have h := idempotent_rerequest (electedGateway 1) 6000 7000
    { sender_id := PJON_NOT_ASSIGNED, sender_ethernet_address := sampleMacB }
    { sender_id := PJON_NOT_ASSIGNED, sender_ethernet_address := sampleMacB } sampleMacB
  have h2 := h.2 (by decide) (by decide) 2 (by decide)
  exact ⟨by decide, h2.1, h2.2.2⟩

/-- C7 (the code at the failing input). The elected gateway with id 3 gives its first child
id 2. The request of a second, unknown MAC is then dropped: nothing is sent and the table
still holds that one record, although 29 slots and the ids 4..254 are free. -/
theorem gateway_with_id_three_drops_second_request :
    (electedGateway 3)._myPjonId = 3
    ∧ activeNodes (update (electedGateway 3) (envAt 5006) [idRequestFrom 5006 sampleMacB]).1
        = [{ pjon_id := 2, mac_addr := sampleMacB, last_seen := 5006,
             id_assigned_this_session := true }]
    ∧ (update (update (electedGateway 3) (envAt 5006) [idRequestFrom 5006 sampleMacB]).1
          (envAt 5007) [idRequestFrom 5007 sampleMacC]).2 = []
    ∧ activeNodes (update (update (electedGateway 3) (envAt 5006) [idRequestFrom 5006 sampleMacB]).1
          (envAt 5007) [idRequestFrom 5007 sampleMacC]).1
        = [{ pjon_id := 2, mac_addr := sampleMacB, last_seen := 5006,
             id_assigned_this_session := true }] := by
  decide

/-- C8. When the table holds `MAX_NODES_PER_GATEWAY` records, `handleNodeIdRequest` for a MAC
that is not in the table returns the state as it was (count, records, candidate counter)
and hands nothing to the transport or the host: no `NODE_ID_ASSIGN`, no callback. -/
theorem full_table_drops_request (s : Mesh) (now : Nat) (request_info : PJON_Packet_Info)
    (m : Mac) (hfull : s._known_nodes_count = MAX_NODES_PER_GATEWAY)
    (hnew : findNodeByMac s m = none) :
    handleNodeIdRequest s now request_info m = (s, []) := by
  unfold findNodeByMac at hnew
  unfold handleNodeIdRequest
  rw [hnew]
  simp [hfull]

/-- C8 (witness): the gateway with id 1 and 30 children, asked by a 31st MAC. -/
theorem full_table_drops_request_witness :
    fullGateway._known_nodes_count = MAX_NODES_PER_GATEWAY
    ∧ findNodeByMac fullGateway (childMac 31) = none
    ∧ handleNodeIdRequest fullGateway 7000
        { sender_id := PJON_NOT_ASSIGNED, sender_ethernet_address := childMac 31 } (childMac 31)
        = (fullGateway, []) :=
  ⟨by decide, by decide, full_table_drops_request _ _ _ _ (by decide) (by decide)⟩

/-- C9 (the code at the failing input). After `forceRoleGateway(7)` and a successful `begin`
on an empty store the role is `ROLE_GATEWAY` and forced; the three ticks take the machine
through `LOAD_NVS_CONFIG` and `CHECK_FORCED_ROLE` into `LISTEN_FOR_GATEWAY`, with the role
reset to `ROLE_UNINITIALIZED` and nothing written to the store. -/
theorem forced_gateway_enters_listen :
    (forcedGatewayBoot 0)._current_role = ROLE_GATEWAY
    ∧ (forcedGatewayBoot 0)._forced_role_active = true
    ∧ (forcedGatewayBoot 0)._is_begun = true
    ∧ (forcedGatewayBoot 1)._fsm_state = DiscoveryFSM.LOAD_NVS_CONFIG
    ∧ (forcedGatewayBoot 2)._fsm_state = DiscoveryFSM.CHECK_FORCED_ROLE
    ∧ (forcedGatewayBoot 3)._fsm_state = DiscoveryFSM.LISTEN_FOR_GATEWAY
    ∧ (forcedGatewayBoot 3)._current_role = ROLE_UNINITIALIZED
    ∧ (forcedGatewayBoot 3).nvs = Nvs.empty := by
  decide

/-- C10 (the code at the failing input). After `forceRoleNode(7)` and a successful `begin`
on an empty store the role is `ROLE_NODE` with id 7; after the three ticks the machine is in
`LISTEN_FOR_GATEWAY`, but the role is `ROLE_UNINITIALIZED`, my id is `PJON_NOT_ASSIGNED`, and
the packet transport has not been started. -/
theorem forced_node_loses_role_and_id :
    (forcedNodeBoot 0)._current_role = ROLE_NODE
    ∧ (forcedNodeBoot 0)._myPjonId = 7
    ∧ (forcedNodeBoot 0)._is_begun = true
    ∧ (forcedNodeBoot 3)._fsm_state = DiscoveryFSM.LISTEN_FOR_GATEWAY
    ∧ (forcedNodeBoot 3)._current_role = ROLE_UNINITIALIZED
    ∧ (forcedNodeBoot 3)._myPjonId = PJON_NOT_ASSIGNED
    ∧ (forcedNodeBoot 3)._pjon_bus.listening = false
    ∧ (forcedNodeBoot 3)._pjon_bus.device_id = PJON_NOT_ASSIGNED := by
  decide

/-- C11. A begun node in `OPERATIONAL_NODE` with a known gateway id, connected, with no
failed ping and the next ping due at `t0 + p` (`p` the ping interval, `m` the attempt limit,
any values; the setters keep `p ≥ 1000` and `m ≥ 1`), a gateway-status callback registered,
and the 32-bit clock not wrapping before `t0 + (m + 1) * p`: with no inbound traffic, the
`update` ticks at `t0 + p`, ..., `t0 + m * p` each send exactly one `NODE_PING_GATEWAY`
to the gateway, and the tick at `t0 + (m + 1) * p`, on which the transport restarts, sends
no ping, calls the gateway-status callback once with `false`, moves the machine to
`LISTEN_FOR_GATEWAY` and resets the gateway id to `PJON_NOT_ASSIGNED` and the gateway MAC
to zero. -/
theorem ping_failure_disconnect (s : Mesh) (t0 p m : Nat) (e : Nat → Env) (last : Env)
    (hbegun : s._is_begun = true) (hrole : s._current_role = ROLE_NODE)
    (hfsm : s._fsm_state = DiscoveryFSM.OPERATIONAL_NODE)
    (hgw : s._gatewayPjonId ≠ PJON_NOT_ASSIGNED)
    (hconn : s._current_gateway_connected_status = true)
    (hcb : s._user_gateway_status_cb = true)
    (hfail : s._failed_gateway_pings_count = 0)
    (hnext : s._next_gateway_ping_time = t0 + p)
    (hp : s._node_ping_gateway_interval_ms = p)
    (hm : s._node_max_gateway_ping_attempts = m) (hm8 : m < 256)
    (h32 : t0 + (m + 1) * p < 4294967296)
    (he : ∀ k, (e k).millis = t0 + (k + 1) * p)
    (hlast : last.millis = t0 + (m + 1) * p) (hstart : last.pjon_begin_ok = true) :
    (idleTicks s ((List.range m).map e)).2
      = List.replicate m
          [Effect.pjon_send s._gateway_mac_addr s._gatewayPjonId [NODE_PING_GATEWAY]]
    ∧ (update (idleTicks s ((List.range m).map e)).1 last []).2 = [Effect.gateway_status_cb false]
    ∧ (update (idleTicks s ((List.range m).map e)).1 last []).1._fsm_state
        = DiscoveryFSM.LISTEN_FOR_GATEWAY
    ∧ (update (idleTicks s ((List.range m).map e)).1 last []).1._gatewayPjonId = PJON_NOT_ASSIGNED
    ∧ (update (idleTicks s ((List.range m).map e)).1 last []).1._gateway_mac_addr
        = esp_now_null_mac := by
  have hmul : (m + 1) * p = p + m * p := by ring
  have hrun := ping_run m s e (t0 + p) 0 hbegun hrole hfsm hgw hfail hnext
    (by rw [hm]; omega) (by rw [hm]; exact hm8) (by rw [hp]; omega)
    (by intro k; rw [he k, hp]
        have : (k + 1) * p = p + k * p := by ring
        omega)
  have hd := update_disconnect
    { s with
      _failed_gateway_pings_count := 0 + m
      _next_gateway_ping_time := t0 + p + m * s._node_ping_gateway_interval_ms } last
    hbegun hrole hfsm hgw
    (by show last.millis ≥ t0 + p + m * s._node_ping_gateway_interval_ms
        rw [hlast, hp]; omega)
    (by show 0 + m ≥ s._node_max_gateway_ping_attempts
        rw [hm]; omega) hcb hstart
  simp only [hrun]
  rw [hd]
  simp only [hconn, if_true, and_self]

/-- C11 (witness): 3 attempts, interval 1000, id adopted at clock value 0; pings at 1000,
2000 and 3000, disconnection at 4000. -/
theorem ping_failure_disconnect_witness :
    adoptedNode._fsm_state = DiscoveryFSM.OPERATIONAL_NODE
    ∧ adoptedNode._current_gateway_connected_status = true
    ∧ adoptedNode._failed_gateway_pings_count = 0
    ∧ adoptedNode._next_gateway_ping_time = 0 + 1000
    ∧ (idleTicks adoptedNode ((List.range 3).map fun k => envAt ((k + 1) * 1000))).2
        = List.replicate 3 [Effect.pjon_send sampleMacG 1 [NODE_PING_GATEWAY]]
    ∧ (update (idleTicks adoptedNode ((List.range 3).map fun k => envAt ((k + 1) * 1000))).1
          (envAt 4000) []).2 = [Effect.gateway_status_cb false]
    ∧ (update (idleTicks adoptedNode ((List.range 3).map fun k => envAt ((k + 1) * 1000))).1
          (envAt 4000) []).1._fsm_state = DiscoveryFSM.LISTEN_FOR_GATEWAY := by
  have h := ping_failure_disconnect adoptedNode 0 1000 3 (fun k => envAt ((k + 1) * 1000))
    (envAt 4000) (by decide) (by decide) (by decide) (by decide) (by decide) (by decide)
    (by decide) (by decide) (by decide) (by decide) (by decide) (by decide)
    (fun k => by simp [envAt]) (by decide) (by decide)
  exact ⟨by decide, by decide, by decide, by decide, h.1, h.2.1, h.2.2.1⟩

/-- C12 (counterexample). A node restored from the persisted record, with a gateway-status
callback registered, pings its gateway three times without ever hearing it: the connected
flag is still `false`. At the next due ping the limit of 3 attempts is reached and the node
goes back to `LISTEN_FOR_GATEWAY` with the gateway id cleared, but the callback is not
called, neither by `operateAsNode` nor by the whole `update` tick. -/
theorem silent_disconnect_of_unheard_gateway :
    unheardNode._fsm_state = DiscoveryFSM.OPERATIONAL_NODE
    ∧ unheardNode._current_role = ROLE_NODE
    ∧ unheardNode._user_gateway_status_cb = true
    ∧ unheardNode._gatewayPjonId = 1
    ∧ unheardNode._current_gateway_connected_status = false
    ∧ unheardNode._failed_gateway_pings_count = 3
    ∧ unheardNode._node_max_gateway_ping_attempts = 3
    ∧ unheardNode._next_gateway_ping_time = 90001
    ∧ (operateAsNode unheardNode (envAt 90001)).1._fsm_state = DiscoveryFSM.LISTEN_FOR_GATEWAY
    ∧ (operateAsNode unheardNode (envAt 90001)).1._gatewayPjonId = PJON_NOT_ASSIGNED
    ∧ Effect.gateway_status_cb false ∉ (operateAsNode unheardNode (envAt 90001)).2
    ∧ Effect.gateway_status_cb false ∉ (update unheardNode (envAt 90001) []).2 := by
  decide

/-- C12 (amended). In every node state with a known gateway id in which a ping is due and
the failed pings have reached the attempt limit, `operateAsNode` (a gateway-status callback
being registered and the transport restarting) clears the gateway id and MAC, sets the
connected flag to `false`, restarts the transport on `PJON_NOT_ASSIGNED` and moves the
machine to `LISTEN_FOR_GATEWAY`; the callback is called with `false` exactly when the
connected flag was `true` before, and not at all when it was already `false`. -/
theorem ping_budget_exhausted (s : Mesh) (env : Env)
    (hgw : s._gatewayPjonId ≠ PJON_NOT_ASSIGNED)
    (hdue : env.millis ≥ s._next_gateway_ping_time)
    (hfail : s._failed_gateway_pings_count ≥ s._node_max_gateway_ping_attempts)
    (hcb : s._user_gateway_status_cb = true)
    (hstart : env.pjon_begin_ok = true) :
    operateAsNode s env
      = ({ s with
            _current_gateway_connected_status := false
            _fsm_state := DiscoveryFSM.LISTEN_FOR_GATEWAY
            _fsm_timer_start := env.millis
            _gatewayPjonId := PJON_NOT_ASSIGNED
            _gateway_mac_addr := esp_now_null_mac
            _pjon_bus := { device_id := PJON_NOT_ASSIGNED, bus_id := s._pjon_bus_id.take 4,
                           listening := true } },
         if s._current_gateway_connected_status = true then [Effect.gateway_status_cb false]
         else []) :=
  operateAsNode_exhausted s env hgw hdue hfail hcb hstart

/-- C12 (witness): the restored node that never heard its gateway, at clock value 90001. -/
theorem ping_budget_exhausted_witness :
    unheardNode._gatewayPjonId ≠ PJON_NOT_ASSIGNED
    ∧ unheardNode._current_gateway_connected_status = false
    ∧ operateAsNode unheardNode (envAt 90001)
        = ({ unheardNode with
              _current_gateway_connected_status := false
              _fsm_state := DiscoveryFSM.LISTEN_FOR_GATEWAY
              _fsm_timer_start := 90001
              _gatewayPjonId := PJON_NOT_ASSIGNED
              _gateway_mac_addr := esp_now_null_mac
              _pjon_bus := { device_id := PJON_NOT_ASSIGNED, bus_id := [0x5A, 0x5A, 0x5A, 0x5A],
                             listening := true } }, []) := by
  have h := ping_budget_exhausted unheardNode (envAt 90001) (by decide) (by decide) (by decide)
    (by decide) (by decide)
  exact ⟨by decide, by decide, h⟩

/-- C13. Take a platform on which `begin(name, ch, g)` succeeds and a `LOAD_NVS_CONFIG`
tick on which the store opens and the transport starts, `name` and `ch` being the name and
channel the device runs on. (1) A begun device whose tick in `ANNOUNCE_AS_GATEWAY` starts the
transport and writes the store is in `OPERATIONAL_GATEWAY`; after `end`, `begin` and two
ticks with nothing inbound the machine has passed `INIT_STATE` and `LOAD_NVS_CONFIG` and is in
`OPERATIONAL_GATEWAY` with the same role and my id, and no record in the table. (2) A begun
node with a known gateway id and MAC (and an attempt limit of at least 1, as the setter
keeps it) that accepts a `NODE_ID_ASSIGN` for its own MAC, the store opening, is in
`OPERATIONAL_NODE`; after `end`, `begin` and two ticks the machine has passed `INIT_STATE`
and `LOAD_NVS_CONFIG` and is in `OPERATIONAL_NODE` in role `ROLE_NODE` with the assigned id
and the same gateway id and MAC. (3) The same holds for every begun device whose store holds
the record of its present configuration (`StoreHoldsConfig`), in role `ROLE_GATEWAY`, or in
role `ROLE_NODE` with a known gateway id and MAC. No step of these boots is in
`LISTEN_FOR_GATEWAY`, `GATEWAY_ELECTION_DELAY` or `REQUEST_NODE_ID`. -/
theorem persistence_recovery (benv : BeginEnv) (name : List Nat) (ch g : Nat) (mac : Mac)
    (env1 env2 : Env)
    (hlen : ¬ (strlen name = 0 ∨ strlen name > ROKOR_MESH_MAX_NETWORK_NAME_LEN))
    (hmac : benv.wifi_mac = some mac) (hflash : benv.nvs_flash_ok = true)
    (hsta : benv.wifi_sta_ok = true) (hnow : benv.esp_now_init_ok = true)
    (hopen : env2.nvs_open_ok = true) (hstart : env2.pjon_begin_ok = true) :
    (∀ s0 env0, s0._is_begun = true → s0._fsm_state = DiscoveryFSM.ANNOUNCE_AS_GATEWAY →
        env0.pjon_begin_ok = true → env0.nvs_open_ok = true →
        name.takeWhile (fun c => c != 0) = s0._network_name_stored →
        (if ch < 1 ∨ ch > 13 then 1 else ch) = s0._espNowChannel →
        (update s0 env0 []).1._fsm_state = DiscoveryFSM.OPERATIONAL_GATEWAY
        ∧ (rebootTrace (update s0 env0 []).1 benv name ch g env1 env2).1._fsm_state
            = DiscoveryFSM.INIT_STATE
        ∧ (rebootTrace (update s0 env0 []).1 benv name ch g env1 env2).2.1._fsm_state
            = DiscoveryFSM.LOAD_NVS_CONFIG
        ∧ (rebootTrace (update s0 env0 []).1 benv name ch g env1 env2).2.2._fsm_state
            = DiscoveryFSM.OPERATIONAL_GATEWAY
        ∧ (rebootTrace (update s0 env0 []).1 benv name ch g env1 env2).2.2._current_role
            = (update s0 env0 []).1._current_role
        ∧ (rebootTrace (update s0 env0 []).1 benv name ch g env1 env2).2.2._myPjonId
            = (update s0 env0 []).1._myPjonId
        ∧ activeNodes (rebootTrace (update s0 env0 []).1 benv name ch g env1 env2).2.2 = [])
    ∧ (∀ s0 env0 a packet_info, s0._is_begun = true → s0._current_role = ROLE_NODE →
        packet_info.sender_id = s0._gatewayPjonId →
        s0._gatewayPjonId ≠ PJON_NOT_ASSIGNED → s0._gateway_mac_addr ≠ esp_now_null_mac →
        s0._my_mac_addr.length = ESP_NOW_ETH_ALEN → 1 ≤ s0._node_max_gateway_ping_attempts →
        env0.nvs_open_ok = true →
        name.takeWhile (fun c => c != 0) = s0._network_name_stored →
        (if ch < 1 ∨ ch > 13 then 1 else ch) = s0._espNowChannel →
        (actualPjonReceiver s0 env0 (NODE_ID_ASSIGN :: a :: s0._my_mac_addr)
            packet_info).1._fsm_state = DiscoveryFSM.OPERATIONAL_NODE
        ∧ (rebootTrace (actualPjonReceiver s0 env0 (NODE_ID_ASSIGN :: a :: s0._my_mac_addr)
              packet_info).1 benv name ch g env1 env2).1._fsm_state = DiscoveryFSM.INIT_STATE
        ∧ (rebootTrace (actualPjonReceiver s0 env0 (NODE_ID_ASSIGN :: a :: s0._my_mac_addr)
              packet_info).1 benv name ch g env1 env2).2.1._fsm_state
            = DiscoveryFSM.LOAD_NVS_CONFIG
        ∧ (rebootTrace (actualPjonReceiver s0 env0 (NODE_ID_ASSIGN :: a :: s0._my_mac_addr)
              packet_info).1 benv name ch g env1 env2).2.2._fsm_state
            = DiscoveryFSM.OPERATIONAL_NODE
        ∧ (rebootTrace (actualPjonReceiver s0 env0 (NODE_ID_ASSIGN :: a :: s0._my_mac_addr)
              packet_info).1 benv name ch g env1 env2).2.2._current_role = ROLE_NODE
        ∧ (rebootTrace (actualPjonReceiver s0 env0 (NODE_ID_ASSIGN :: a :: s0._my_mac_addr)
              packet_info).1 benv name ch g env1 env2).2.2._myPjonId = a
        ∧ (rebootTrace (actualPjonReceiver s0 env0 (NODE_ID_ASSIGN :: a :: s0._my_mac_addr)
              packet_info).1 benv name ch g env1 env2).2.2._gatewayPjonId = s0._gatewayPjonId
        ∧ (rebootTrace (actualPjonReceiver s0 env0 (NODE_ID_ASSIGN :: a :: s0._my_mac_addr)
              packet_info).1 benv name ch g env1 env2).2.2._gateway_mac_addr
            = s0._gateway_mac_addr)
    ∧ (∀ s, s._is_begun = true → StoreHoldsConfig s →
        name.takeWhile (fun c => c != 0) = s._network_name_stored →
        (if ch < 1 ∨ ch > 13 then 1 else ch) = s._espNowChannel →
        (rebootTrace s benv name ch g env1 env2).1._fsm_state = DiscoveryFSM.INIT_STATE
        ∧ (rebootTrace s benv name ch g env1 env2).2.1._fsm_state
            = DiscoveryFSM.LOAD_NVS_CONFIG
        ∧ (s._current_role = ROLE_GATEWAY →
            (rebootTrace s benv name ch g env1 env2).2.2._fsm_state
                = DiscoveryFSM.OPERATIONAL_GATEWAY
            ∧ (rebootTrace s benv name ch g env1 env2).2.2._current_role = ROLE_GATEWAY
            ∧ (rebootTrace s benv name ch g env1 env2).2.2._myPjonId = s._myPjonId
            ∧ activeNodes (rebootTrace s benv name ch g env1 env2).2.2 = [])
        ∧ (s._current_role = ROLE_NODE → s._gatewayPjonId ≠ PJON_NOT_ASSIGNED →
            s._gateway_mac_addr ≠ esp_now_null_mac → 1 ≤ s._node_max_gateway_ping_attempts →
            (rebootTrace s benv name ch g env1 env2).2.2._fsm_state
                = DiscoveryFSM.OPERATIONAL_NODE
            ∧ (rebootTrace s benv name ch g env1 env2).2.2._current_role = ROLE_NODE
            ∧ (rebootTrace s benv name ch g env1 env2).2.2._myPjonId = s._myPjonId
            ∧ (rebootTrace s benv name ch g env1 env2).2.2._gatewayPjonId = s._gatewayPjonId
            ∧ (rebootTrace s benv name ch g env1 env2).2.2._gateway_mac_addr
                = s._gateway_mac_addr)) := by
  refine ⟨?_, ?_, ?_⟩
  · intro s0 env0 hb hfsm hstart0 hopen0 hname hch
    obtain ⟨a1, a2, a3, a4, a5, a6, a7, a8, a9, a10⟩ :=
      announce_tick_fields s0 env0 hb hfsm hstart0 hopen0
    obtain ⟨r1, r2, r3, r4, r5, r6, _, r8⟩ :=
      reboot_first_tick (update s0 env0 []).1 benv name ch g mac env1 env2 a1 hlen hmac hflash
        hsta hnow
    obtain ⟨l1, l2, l3, l4⟩ :=
      load_tick_gateway (rebootTrace (update s0 env0 []).1 benv name ch g env1 env2).2.1 env2
        s0._pjonIdForGatewayUse r3 r2 hopen hstart
        (by rw [r4, r5, a7, hname]) (by rw [r4, r6, a10, hch]) (by rw [r4, a8])
        (by rw [r4, a9])
    rw [r8]
    refine ⟨a2, r1, r2, l1, by rw [l2, a3], by rw [l3, a4], ?_⟩
    unfold activeNodes
    rw [l4, List.take_zero]
  · intro s0 env0 a packet_info hb hrole hsender hgw hgm hm hmax hopen0 hname hch
    have hst := receive_id_assign_state s0 env0 a packet_info hm hrole hsender hgm hopen0
    rw [hst]
    obtain ⟨r1, r2, r3, r4, r5, r6, r7, r8⟩ :=
      reboot_first_tick
        { s0 with
          _myPjonId := a
          _pjon_bus := { s0._pjon_bus with device_id := a }
          nvs := { s0.nvs with
            net_name := some s0._network_name_stored
            role := some ROLE_NODE
            pjon_id := some a
            bus_id := some s0._pjon_bus_id
            channel := some s0._espNowChannel
            gw_pjonid := some s0._gatewayPjonId
            gw_mac := some s0._gateway_mac_addr }
          _fsm_state := DiscoveryFSM.OPERATIONAL_NODE
          _current_gateway_connected_status := true
          _last_ack_from_gateway_time := env0.millis
          _failed_gateway_pings_count := 0
          _next_gateway_ping_time := add32 env0.millis s0._node_ping_gateway_interval_ms }
        benv name ch g mac env1 env2 hb hlen hmac hflash hsta hnow
    obtain ⟨l1, l2, l3, l4, l5⟩ :=
      load_tick_node _ env2 a s0._gatewayPjonId s0._gateway_mac_addr r3 r2 hopen hstart
        (by rw [r4, r5, hname]) (by rw [r4, r6, hch]) (by rw [r4]) (by rw [r4]) (by rw [r4])
        (by rw [r4]) hgw hgm (by rw [r7]; exact hmax)
    rw [r8]
    exact ⟨rfl, r1, r2, l1, l2, l3, l4, l5⟩
  · intro s hb hstore hname hch
    exact reboot_from_store s benv name ch g mac env1 env2 hlen hmac hflash hsta hnow hopen
      hstart hb hstore hname hch

/-- C13 (witness): the device that elected itself gateway with id 1, the node that was
assigned id 9 by gateway 1, and the gateway with three children, rebooted at clock values
7000 and 7001. -/
theorem persistence_recovery_witness :
    announcingDevice._fsm_state = DiscoveryFSM.ANNOUNCE_AS_GATEWAY
    ∧ (update announcingDevice (envAt 5005) []).1._fsm_state = DiscoveryFSM.OPERATIONAL_GATEWAY
    ∧ (rebootTrace (update announcingDevice (envAt 5005) []).1 sampleBeginEnv sampleName 1 1
          (envAt 7000) (envAt 7001)).2.2._fsm_state = DiscoveryFSM.OPERATIONAL_GATEWAY
    ∧ (rebootTrace (update announcingDevice (envAt 5005) []).1 sampleBeginEnv sampleName 1 1
          (envAt 7000) (envAt 7001)).2.2._myPjonId = 1
    ∧ (rebootTrace (actualPjonReceiver persistedNode (envAt 2)
          (NODE_ID_ASSIGN :: 9 :: persistedNode._my_mac_addr)
          { sender_id := 1, sender_ethernet_address := sampleMacG }).1 sampleBeginEnv sampleName
          1 1 (envAt 7000) (envAt 7001)).2.2._fsm_state = DiscoveryFSM.OPERATIONAL_NODE
    ∧ (rebootTrace (actualPjonReceiver persistedNode (envAt 2)
          (NODE_ID_ASSIGN :: 9 :: persistedNode._my_mac_addr)
          { sender_id := 1, sender_ethernet_address := sampleMacG }).1 sampleBeginEnv sampleName
          1 1 (envAt 7000) (envAt 7001)).2.2._myPjonId = 9
    ∧ (rebootTrace (actualPjonReceiver persistedNode (envAt 2)
          (NODE_ID_ASSIGN :: 9 :: persistedNode._my_mac_addr)
          { sender_id := 1, sender_ethernet_address := sampleMacG }).1 sampleBeginEnv sampleName
          1 1 (envAt 7000) (envAt 7001)).2.2._gatewayPjonId = 1
    ∧ StoreHoldsConfig gatewayWithThree
    ∧ (rebootTrace gatewayWithThree sampleBeginEnv sampleName 1 1 (envAt 7000)
          (envAt 7001)).2.2._fsm_state = DiscoveryFSM.OPERATIONAL_GATEWAY
    ∧ activeNodes (rebootTrace gatewayWithThree sampleBeginEnv sampleName 1 1 (envAt 7000)
          (envAt 7001)).2.2 = [] := by
  have h := persistence_recovery sampleBeginEnv sampleName 1 1 sampleMacA (envAt 7000)
    (envAt 7001) (by decide) (by decide) (by decide) (by decide) (by decide) (by decide)
    (by decide)
  have hg := h.1 announcingDevice (envAt 5005) (by decide) (by decide) (by decide) (by decide)
    (by decide) (by decide)
  have hn := h.2.1 persistedNode (envAt 2) 9 { sender_id := 1, sender_ethernet_address := sampleMacG }
    (by decide) (by decide) (by decide) (by decide) (by decide) (by decide) (by decide)
    (by decide) (by decide) (by decide)
  have hs := (h.2.2 gatewayWithThree (by decide) (by decide) (by decide) (by decide)).2.2.1
    (by decide)
  refine ⟨by decide, hg.1, hg.2.2.2.1, ?_, hn.2.2.2.1, hn.2.2.2.2.2.1, ?_, by decide, hs.1,
    hs.2.2.2⟩
  · rw [hg.2.2.2.2.2.1]; decide
  · rw [hn.2.2.2.2.2.2.1]; decide

/-- C14. `loadConfigFromNVS` returns `true` exactly when the store opens and holds a
record whose `net_name` equals the current network name, whose `channel` equals the current
channel and whose `role` is `ROLE_NODE` or `ROLE_GATEWAY`. In every other case the
`LOAD_NVS_CONFIG` step erases every key (whenever the store opens for the erasure), resets
the role to `ROLE_UNINITIALIZED`, my id and the gateway id to `PJON_NOT_ASSIGNED` and the
gateway MAC to zero, moves to `CHECK_FORCED_ROLE`, and changes nothing else but the timer. -/
theorem load_config_success_iff (s : Mesh) (env : Env) :
    ((loadConfigFromNVS s env).2 = true ↔
        env.nvs_open_ok = true
        ∧ s.nvs.net_name = some s._network_name_stored
        ∧ s.nvs.channel = some s._espNowChannel
        ∧ (s.nvs.role = some ROLE_NODE ∨ s.nvs.role = some ROLE_GATEWAY))
    ∧ ((loadConfigFromNVS s env).2 = false →
        fsmLoadNvsConfig s env
          = ({ s with
                nvs := if env.nvs_open_ok = true then Nvs.empty else s.nvs
                _current_role := ROLE_UNINITIALIZED
                _myPjonId := PJON_NOT_ASSIGNED
                _gatewayPjonId := PJON_NOT_ASSIGNED
                _gateway_mac_addr := esp_now_null_mac
                _fsm_state := DiscoveryFSM.CHECK_FORCED_ROLE
                _fsm_timer_start := env.millis }, [])) := by
  constructor
  · unfold loadConfigFromNVS
    by_cases ho : env.nvs_open_ok = true
    · by_cases hn : s.nvs.net_name = some s._network_name_stored
      · by_cases hc : s.nvs.channel = some s._espNowChannel
        · simp only [ho, hn, hc, if_true, ne_eq, not_true_eq_false, if_false, true_and]
          cases hr : s.nvs.role with
          | none => simp [ROLE_UNINITIALIZED, ROLE_NODE, ROLE_GATEWAY]
          | some r =>
            by_cases h2 : r = ROLE_NODE
            · simp [h2]
            · simp [h2]
        · simp [ho, hn, hc]
      · simp [ho, hn]
    · simp [ho]
  · intro hfail
    unfold fsmLoadNvsConfig
    simp only [hfail, Bool.false_eq_true, if_false]
    unfold loadConfigFromNVS clearConfigNVS
    by_cases ho : env.nvs_open_ok = true
    · by_cases hn : s.nvs.net_name = some s._network_name_stored
      · by_cases hc : s.nvs.channel = some s._espNowChannel
        · simp only [ho, hn, hc, if_true, ne_eq, not_true_eq_false, if_false]
          split_ifs <;> rfl
        · simp [ho, hn, hc]
      · simp [ho, hn]
    · simp [ho]

/-- C14 (witness): the record written on channel 1 met by a device begun on channel 6. -/
theorem load_config_success_iff_witness :
    mismatchedBoot._fsm_state = DiscoveryFSM.LOAD_NVS_CONFIG
    ∧ mismatchedBoot.nvs = persistedNodeStore
    ∧ mismatchedBoot._espNowChannel = 6
    ∧ (loadConfigFromNVS mismatchedBoot (envAt 1)).2 = false
    ∧ (fsmLoadNvsConfig mismatchedBoot (envAt 1)).1.nvs = Nvs.empty
    ∧ (fsmLoadNvsConfig mismatchedBoot (envAt 1)).1._fsm_state = DiscoveryFSM.CHECK_FORCED_ROLE
    ∧ (fsmLoadNvsConfig mismatchedBoot (envAt 1)).1._current_role = ROLE_UNINITIALIZED := by
  have h := (load_config_success_iff mismatchedBoot (envAt 1)).2 (by decide)
  rw [h]
  exact ⟨by decide, by decide, by decide, by decide, rfl, rfl, rfl⟩

/-- C15. A discovering device without id enters `GATEWAY_ELECTION_DELAY` on the tick that
finds the discovery timeout elapsed, and that tick stops the transport: the device is not
listening. `update` hands inbound packets to the receiver only while the transport
listens, so a tick on which the announce of gateway 1 is inbound does what a tick with
nothing inbound does. With a sampled delay of 700 ms and the announce inbound on every
tick, the device is still in `GATEWAY_ELECTION_DELAY` at clock value 5400, moves to
`ANNOUNCE_AS_GATEWAY` at 5704 and is in `OPERATIONAL_GATEWAY` in role `ROLE_GATEWAY` at
5705: the election is not cancelled. -/
theorem election_hears_no_announce :
    electingDevice._is_begun = true
    ∧ electingDevice._fsm_state = DiscoveryFSM.GATEWAY_ELECTION_DELAY
    ∧ electingDevice._current_role = ROLE_DISCOVERING
    ∧ electingDevice._myPjonId = PJON_NOT_ASSIGNED
    ∧ discoveringDevice._pjon_bus.listening = true
    ∧ electingDevice._pjon_bus.listening = false
    ∧ update electingDevice (envAt 5004) [announceFromGateway 5004 1]
        = update electingDevice (envAt 5004) []
    ∧ sampledElection._contention_delay_value = 700
    ∧ sampledElection._pjon_bus.listening = false
    ∧ (runCalls sampledElection (announcedTicks [5400]))._fsm_state
        = DiscoveryFSM.GATEWAY_ELECTION_DELAY
    ∧ (runCalls sampledElection (announcedTicks [5400, 5704]))._fsm_state
        = DiscoveryFSM.ANNOUNCE_AS_GATEWAY
    ∧ (runCalls sampledElection (announcedTicks [5400, 5704, 5705]))._fsm_state
        = DiscoveryFSM.OPERATIONAL_GATEWAY
    ∧ (runCalls sampledElection (announcedTicks [5400, 5704, 5705]))._current_role
        = ROLE_GATEWAY := by
  decide

/-- C16. A device in role `ROLE_NODE` with a receive callback registered gets a non-empty
packet from the sender id it holds as gateway id, whose first byte is none of
`0xD1`..`0xD6`: the receive callback is called exactly once, with that sender id and the
whole payload (first byte included, so with the whole length), and no field of the state
changes. -/
theorem tag_passthrough (s : Mesh) (env : Env) (t : Nat) (rest : List Nat)
    (packet_info : PJON_Packet_Info)
    (hrole : s._current_role = ROLE_NODE)
    (hsender : packet_info.sender_id = s._gatewayPjonId)
    (hcb : s._user_receive_cb = true)
    (htag : t < 0xD1 ∨ 0xD6 < t) :
    actualPjonReceiver s env (t :: rest) packet_info
      = (s, [Effect.receive_cb s._gatewayPjonId (t :: rest)]) := by
  have h1 : t ≠ GATEWAY_ANNOUNCE := by simp only [GATEWAY_ANNOUNCE]; omega
  have h3 : t ≠ NODE_ID_ASSIGN := by simp only [NODE_ID_ASSIGN]; omega
  have h6 : t ≠ GATEWAY_PONG_NODE := by simp only [GATEWAY_PONG_NODE]; omega
  have hg : ¬ ROLE_NODE = ROLE_GATEWAY := by decide
  simp only [actualPjonReceiver, receiveByRole, receiveAsNode, h1, h3, h6, hg, hrole, hsender, hcb,
    false_and, if_false, if_true, ite_self]

/-- C16 (witness): the payload `[0x10, 1, 2, 3]` from gateway 1. -/
theorem tag_passthrough_witness :
    (setReceiveCallback persistedNode true)._current_role = ROLE_NODE
    ∧ (setReceiveCallback persistedNode true)._gatewayPjonId = 1
    ∧ actualPjonReceiver (setReceiveCallback persistedNode true) (envAt 2) [0x10, 1, 2, 3]
        { sender_id := 1, sender_ethernet_address := sampleMacG }
      = (setReceiveCallback persistedNode true, [Effect.receive_cb 1 [0x10, 1, 2, 3]]) :=
  ⟨by decide, by decide,
    tag_passthrough (setReceiveCallback persistedNode true) (envAt 2) 0x10 [1, 2, 3]
      { sender_id := 1, sender_ethernet_address := sampleMacG } (by decide) (by decide)
      (by decide) (by decide)⟩

/-- C17. `sendPjonIdAssignment a m` sends the payload `[0xD3, a, m]`. A device in role
`ROLE_NODE` that receives this payload (`m` of 6 bytes) from the sender id it holds as
gateway id: when its own MAC is `m` (the gateway id and MAC being known, a gateway-status
callback registered and the store opening) it takes `a` as my id and as transport id, sends
one `NODE_ID_ACK` to the gateway, writes the node record to the store, is connected in
`OPERATIONAL_NODE` with no failed ping and the next ping one interval ahead, and calls the
callback with `true`; when its own MAC differs from `m`, the state is unchanged and nothing
is sent or called. -/
theorem id_assign_round_trip (s : Mesh) (env : Env) (a : Nat) (m : Mac)
    (packet_info : PJON_Packet_Info)
    (hm : m.length = ESP_NOW_ETH_ALEN)
    (hrole : s._current_role = ROLE_NODE)
    (hsender : packet_info.sender_id = s._gatewayPjonId) :
    sendPjonIdAssignment a m = [Effect.pjon_send m PJON_BROADCAST_ADDRESS (0xD3 :: a :: m)]
    ∧ (s._my_mac_addr = m →
        s._gatewayPjonId ≠ PJON_NOT_ASSIGNED → s._gateway_mac_addr ≠ esp_now_null_mac →
        s._user_gateway_status_cb = true → env.nvs_open_ok = true →
        actualPjonReceiver s env (0xD3 :: a :: m) packet_info
          = ({ s with
                _myPjonId := a
                _pjon_bus := { s._pjon_bus with device_id := a }
                nvs := { s.nvs with
                  net_name := some s._network_name_stored
                  role := some ROLE_NODE
                  pjon_id := some a
                  bus_id := some s._pjon_bus_id
                  channel := some s._espNowChannel
                  gw_pjonid := some s._gatewayPjonId
                  gw_mac := some s._gateway_mac_addr }
                _fsm_state := DiscoveryFSM.OPERATIONAL_NODE
                _current_gateway_connected_status := true
                _last_ack_from_gateway_time := env.millis
                _failed_gateway_pings_count := 0
                _next_gateway_ping_time := add32 env.millis s._node_ping_gateway_interval_ms },
             [Effect.pjon_send s._gateway_mac_addr s._gatewayPjonId [NODE_ID_ACK],
              Effect.gateway_status_cb true]))
    ∧ (s._my_mac_addr ≠ m →
        actualPjonReceiver s env (0xD3 :: a :: m) packet_info = (s, [])) := by
  have hg : ¬ ROLE_NODE = ROLE_GATEWAY := by decide
  have h1 : ¬ (0xD3 : Nat) = GATEWAY_ANNOUNCE := by decide
  have hlen : (a :: m).length ≥ 1 + ESP_NOW_ETH_ALEN := by
    have hm6 : m.length = 6 := hm
    show m.length + 1 ≥ 1 + 6
    omega
  have htake : ((a :: m).drop 1).take ESP_NOW_ETH_ALEN = m := by
    simp only [List.drop_succ_cons, List.drop_zero]
    rw [← hm]; exact List.take_length m
  have hrecv : actualPjonReceiver s env (0xD3 :: a :: m) packet_info
      = receiveAsNode s env (0xD3 :: a :: m) 0xD3 (a :: m) packet_info := by
    simp only [actualPjonReceiver, receiveByRole, h1, hg, hrole, false_and, if_false, if_true,
      ite_self]
  refine ⟨rfl, ?_, ?_⟩
  · intro hmac hgw hgm hcb hopen
    rw [hrecv]
    unfold receiveAsNode
    simp only [hsender, if_true, NODE_ID_ASSIGN, hlen, and_self, htake, hmac]
    simp only [saveConfigToNVS, sendNodeIdAck, hgw, hgm, hcb, hopen, hrole, ROLE_NODE,
      ROLE_UNINITIALIZED, ROLE_DISCOVERING, ROLE_ERROR]
    simp [hgm]
  · intro hmac
    rw [hrecv]
    unfold receiveAsNode
    simp only [hsender, if_true, NODE_ID_ASSIGN, hlen, and_self, htake]
    rw [if_neg (fun h => hmac h.symm)]

/-- C17 (witness): gateway 1 assigns id 9 to `sampleMacA`, then to `sampleMacB`, at the
node with MAC `sampleMacA`. -/
theorem id_assign_round_trip_witness :
    (setGatewayStatusCallback persistedNode true)._my_mac_addr = sampleMacA
    ∧ (actualPjonReceiver (setGatewayStatusCallback persistedNode true) (envAt 2)
        (0xD3 :: 9 :: sampleMacA) { sender_id := 1, sender_ethernet_address := sampleMacG }).2
      = [Effect.pjon_send sampleMacG 1 [NODE_ID_ACK], Effect.gateway_status_cb true]
    ∧ (actualPjonReceiver (setGatewayStatusCallback persistedNode true) (envAt 2)
        (0xD3 :: 9 :: sampleMacA)
        { sender_id := 1, sender_ethernet_address := sampleMacG }).1._myPjonId = 9
    ∧ actualPjonReceiver (setGatewayStatusCallback persistedNode true) (envAt 2)
        (0xD3 :: 9 :: sampleMacB) { sender_id := 1, sender_ethernet_address := sampleMacG }
      = (setGatewayStatusCallback persistedNode true, []) := by
  have h := id_assign_round_trip (setGatewayStatusCallback persistedNode true) (envAt 2) 9
    sampleMacA { sender_id := 1, sender_ethernet_address := sampleMacG } (by decide) (by decide)
    (by decide)
  have h' := id_assign_round_trip (setGatewayStatusCallback persistedNode true) (envAt 2) 9
    sampleMacB { sender_id := 1, sender_ethernet_address := sampleMacG } (by decide) (by decide)
    (by decide)
  have h1 := h.2.1 (by decide) (by decide) (by decide) (by decide) (by decide)
  refine ⟨by decide, ?_, ?_, h'.2.2 (by decide)⟩
  · rw [h1]; rfl
  · rw [h1]

/-- C18. A device in role `ROLE_NODE` in `OPERATIONAL_NODE` drops every packet (any
payload, the empty one included) whose sender id differs from its gateway id: the state is
unchanged, nothing is sent, no callback is called. -/
theorem node_drops_other_senders (s : Mesh) (env : Env) (payload : List Nat)
    (packet_info : PJON_Packet_Info)
    (hrole : s._current_role = ROLE_NODE)
    (hfsm : s._fsm_state = DiscoveryFSM.OPERATIONAL_NODE)
    (hsender : packet_info.sender_id ≠ s._gatewayPjonId) :
    actualPjonReceiver s env payload packet_info = (s, []) := by
  have hg : ¬ s._current_role = ROLE_GATEWAY := by rw [hrole]; decide
  cases payload with
  | nil => rfl
  | cons t rest =>
    simp [actualPjonReceiver, receiveByRole, receiveAsNode, hfsm, hg, hrole, hsender]

/-- C18 (witness): a `NODE_ID_ASSIGN` for the node itself, sent by id 7 instead of gateway 1. -/
theorem node_drops_other_senders_witness :
    persistedNode._fsm_state = DiscoveryFSM.OPERATIONAL_NODE
    ∧ persistedNode._gatewayPjonId = 1
    ∧ actualPjonReceiver persistedNode (envAt 2) (NODE_ID_ASSIGN :: 9 :: sampleMacA)
        { sender_id := 7, sender_ethernet_address := sampleMacG } = (persistedNode, []) :=
  ⟨by decide, by decide,
    node_drops_other_senders persistedNode (envAt 2) (NODE_ID_ASSIGN :: 9 :: sampleMacA)
      { sender_id := 7, sender_ethernet_address := sampleMacG } (by decide) (by decide)
      (by decide)⟩

/-- C19. For a table within its invariant and a node-status callback registered,
`cleanupInactiveNodes` at clock value `now` keeps exactly the records in use with
`now - last_seen ≤ NODE_INACTIVITY_THRESHOLD_MS` (32-bit subtraction), in their order and
unchanged; the count is their number; for every removed record, in table order, the
callback is called with its id and `false` and the peer is removed, so each callback value
`(n, false)` occurs once when `n` is the id of a removed record and never otherwise, and
`(n, true)` never; no other field of the state changes. -/
theorem cleanup_is_filter (s : Mesh) (now : Nat) (hinv : TableInv s)
    (hcb : s._user_node_status_cb = true) :
    activeNodes (cleanupInactiveNodes s now).1
        = (activeNodes s).filter
            (fun r => decide (sub32 now r.last_seen ≤ NODE_INACTIVITY_THRESHOLD_MS))
    ∧ (cleanupInactiveNodes s now).1._known_nodes_count
        = ((activeNodes s).filter
            (fun r => decide (sub32 now r.last_seen ≤ NODE_INACTIVITY_THRESHOLD_MS))).length
    ∧ (cleanupInactiveNodes s now).2
        = ((activeNodes s).filter
            (fun r => decide (sub32 now r.last_seen > NODE_INACTIVITY_THRESHOLD_MS))).flatMap
            (fun r => [Effect.node_status_cb r.pjon_id false, Effect.del_peer r.mac_addr])
    ∧ (∀ n c, List.count (Effect.node_status_cb n c) (cleanupInactiveNodes s now).2
        = if c = false ∧ ∃ r ∈ activeNodes s, r.pjon_id = n
              ∧ sub32 now r.last_seen > NODE_INACTIVITY_THRESHOLD_MS then 1 else 0)
    ∧ (cleanupInactiveNodes s now).1
        = { s with
            _known_nodes := (cleanupInactiveNodes s now).1._known_nodes
            _known_nodes_count := (cleanupInactiveNodes s now).1._known_nodes_count } := by
  obtain ⟨h1, h2, _, h4⟩ := hinv
  have hM : MAX_NODES_PER_GATEWAY = 30 := rfl
  have hc : s._known_nodes_count ≤ s._known_nodes.length := by omega
  obtain ⟨g1, g2, g3⟩ := cleanupLoop_spec s._user_node_status_cb now s._known_nodes_count 0
    s._known_nodes s._known_nodes_count rfl (Nat.zero_le _) hc
  have g4 := cleanupLoop_effects s._user_node_status_cb now s._known_nodes_count 0
    s._known_nodes s._known_nodes_count rfl (Nat.zero_le _) hc
  simp only [List.take_zero, List.nil_append, List.drop_zero] at g3 g4
  have hact : activeNodes (cleanupInactiveNodes s now).1
      = (activeNodes s).filter
          (fun r => decide (sub32 now r.last_seen ≤ NODE_INACTIVITY_THRESHOLD_MS)) := g3
  have heff : (cleanupInactiveNodes s now).2
      = ((activeNodes s).filter
          (fun r => decide (sub32 now r.last_seen > NODE_INACTIVITY_THRESHOLD_MS))).flatMap
          (fun r => [Effect.node_status_cb r.pjon_id false, Effect.del_peer r.mac_addr]) := by
    show (cleanupLoop s._user_node_status_cb now s._known_nodes_count 0 s._known_nodes
      s._known_nodes_count).2.2 = _
    rw [g4, hcb]
    rfl
  refine ⟨hact, ?_, heff, ?_, rfl⟩
  · rw [← hact]
    show (cleanupLoop s._user_node_status_cb now s._known_nodes_count 0 s._known_nodes
      s._known_nodes_count).2.1
      = (List.take (cleanupLoop s._user_node_status_cb now s._known_nodes_count 0 s._known_nodes
          s._known_nodes_count).2.1
        (cleanupLoop s._user_node_status_cb now s._known_nodes_count 0 s._known_nodes
          s._known_nodes_count).1).length
    rw [List.length_take, g1]
    omega
  · intro n c
    rw [heff, count_status_flatMap]
    have hnd : (((activeNodes s).filter
        (fun r => decide (sub32 now r.last_seen > NODE_INACTIVITY_THRESHOLD_MS))).map
          NodeInfo.pjon_id).Nodup :=
      h4.sublist ((List.filter_sublist _).map _)
    cases c with
    | true => simp
    | false =>
      simp only [if_true, true_and]
      by_cases hex : ∃ r ∈ activeNodes s, r.pjon_id = n
          ∧ sub32 now r.last_seen > NODE_INACTIVITY_THRESHOLD_MS
      · rw [if_pos hex]
        obtain ⟨r, hr, hrn, hexp⟩ := hex
        apply List.count_eq_one_of_mem hnd
        rw [List.mem_map]
        exact ⟨r, List.mem_filter.mpr ⟨hr, by simpa using hexp⟩, hrn⟩
      · rw [if_neg hex]
        apply List.count_eq_zero_of_not_mem
        intro hmem
        rw [List.mem_map] at hmem
        obtain ⟨r, hr, hrn⟩ := hmem
        rw [List.mem_filter] at hr
        exact hex ⟨r, hr.1, hrn, by simpa using hr.2⟩

/-- C19 (witness): two adjacent records expire in the sweep at 130000, the third stays. -/
theorem cleanup_is_filter_witness :
    (activeNodes gatewayWithThree).map (fun r => (r.pjon_id, r.last_seen))
        = [(2, 6000), (3, 6000), (4, 100000)]
    ∧ activeNodes (cleanupInactiveNodes gatewayWithThree 130000).1
        = [{ pjon_id := 4, mac_addr := childMac 3, last_seen := 100000,
             id_assigned_this_session := true }]
    ∧ (cleanupInactiveNodes gatewayWithThree 130000).1._known_nodes_count = 1
    ∧ (cleanupInactiveNodes gatewayWithThree 130000).2
        = [Effect.node_status_cb 2 false, Effect.del_peer (childMac 1),
           Effect.node_status_cb 3 false, Effect.del_peer (childMac 2)] := by
  have h := cleanup_is_filter gatewayWithThree 130000
    (by unfold TableInv NodesInv; decide) (by decide)
  refine ⟨by decide, ?_, ?_, ?_⟩
  · rw [h.1]; decide
  · rw [h.2.1]; decide
  · rw [h.2.2.1]; decide

/-- C20. At a gateway whose table (within its invariant) holds a record with id `n`, with
a node-status callback registered, `PJON_CONNECTION_LOST` for `n` calls the callback with
`(n, false)` and leaves the whole state, table and machine state included, as it was. No
transport error changes the state of a gateway; no inbound packet removes a record (the
id and MAC pairs in use stay, in order, new ones are only appended); and a tick in
`OPERATIONAL_GATEWAY` on which the sweep is not due leaves the table as it was: records
leave the table of an operational gateway only in `cleanupInactiveNodes`. -/
theorem connection_lost_keeps_record (s : Mesh) (env : Env) (n : Nat)
    (hrole : s._current_role = ROLE_GATEWAY)
    (hn : n < PJON_NOT_ASSIGNED)
    (hrec : ∃ r ∈ activeNodes s, r.pjon_id = n)
    (hcb : s._user_node_status_cb = true)
    (hinv : TableInv s) :
    actualPjonError s env PJON_CONNECTION_LOST n = (s, [Effect.node_status_cb n false])
    ∧ (∀ env' code data, (actualPjonError s env' code data).1 = s)
    ∧ (∀ env' payload packet_info,
        tableKeys s <+: tableKeys (actualPjonReceiver s env' payload packet_info).1)
    ∧ (∀ env', s._fsm_state = DiscoveryFSM.OPERATIONAL_GATEWAY →
        sub32 env'.millis s._last_node_cleanup_time < NODE_CLEANUP_INTERVAL_MS →
        (updateTick s env').1._known_nodes = s._known_nodes
        ∧ (updateTick s env').1._known_nodes_count = s._known_nodes_count) := by
  have hnn : ¬ ROLE_GATEWAY = ROLE_NODE := by decide
  have h255 : PJON_NOT_ASSIGNED = 255 := rfl
  refine ⟨?_, ?_, ?_, ?_⟩
  · obtain ⟨i, hi⟩ := findNodeById_of_mem s n (by omega) hrec
    have hmod : n % 256 = n := Nat.mod_eq_of_lt (by omega)
    unfold actualPjonError updateNodeStatus
    simp only [hrole, hnn, false_and, if_false, if_true, hmod, hi, hcb]
  · intro env' code data
    unfold actualPjonError
    simp only [hrole, hnn, false_and, if_false, if_true]
    split_ifs
    · split <;> rfl
    · rfl
  · intro env' payload packet_info
    exact tableKeys_actualPjonReceiver s env' payload packet_info hrole hinv
  · intro env' hfsm hnot
    have hnot' : ¬ sub32 env'.millis s._last_node_cleanup_time ≥ NODE_CLEANUP_INTERVAL_MS := by
      omega
    unfold updateTick runDiscoveryFSM operateAsGateway
    simp only [hfsm, hrole, hnn, if_false, if_true]
    split_ifs <;> simp_all

/-- C20 (witness): the gateway with three children loses the connection to node 3. -/
theorem connection_lost_keeps_record_witness :
    gatewayWithThree._current_role = ROLE_GATEWAY
    ∧ tableKeys gatewayWithThree = [(2, childMac 1), (3, childMac 2), (4, childMac 3)]
    ∧ actualPjonError gatewayWithThree (envAt 100001) PJON_CONNECTION_LOST 3
        = (gatewayWithThree, [Effect.node_status_cb 3 false]) :=
  ⟨by decide, by decide,
    (connection_lost_keeps_record gatewayWithThree (envAt 100001) 3 (by decide) (by decide)
      (by decide) (by decide) (by unfold TableInv NodesInv; decide)).1⟩

/-- C21 (counterexample). A node bound to gateway 1 with three unanswered pings, a
registered gateway-status callback and the connected flag down gets a host-data packet
`[0x10, 1]` and then a `GATEWAY_ANNOUNCE` from gateway 1: the failure counter is still 3,
the connected flag is still down and no gateway-status callback is invoked. -/
theorem gateway_traffic_without_pong :
    unheardNode._current_role = ROLE_NODE ∧ unheardNode._gatewayPjonId = 1
    ∧ unheardNode._fsm_state = DiscoveryFSM.OPERATIONAL_NODE
    ∧ unheardNode._user_gateway_status_cb = true
    ∧ unheardNode._failed_gateway_pings_count = 3
    ∧ unheardNode._current_gateway_connected_status = false
    ∧ actualPjonReceiver unheardNode (envAt 60005) [0x10, 1]
        { sender_id := 1, sender_ethernet_address := sampleMacG } = (unheardNode, [])
    ∧ (actualPjonReceiver unheardNode (envAt 60005) (GATEWAY_ANNOUNCE :: sampleMacG)
        { sender_id := 1, sender_ethernet_address := sampleMacG }).1._failed_gateway_pings_count = 3
    ∧ (actualPjonReceiver unheardNode (envAt 60005) (GATEWAY_ANNOUNCE :: sampleMacG)
        { sender_id := 1, sender_ethernet_address := sampleMacG }).1._current_gateway_connected_status
        = false
    ∧ (actualPjonReceiver unheardNode (envAt 60005) (GATEWAY_ANNOUNCE :: sampleMacG)
        { sender_id := 1, sender_ethernet_address := sampleMacG }).2
        = [Effect.add_peer sampleMacG 1 true] := by
  decide

/-- C21 (amended). A device in role `ROLE_NODE` gets a non-empty packet from the sender id
it holds as gateway id. A `GATEWAY_PONG_NODE` sets the failure counter to 0, the time of the
last answer to now and the connected flag, and the registered gateway-status callback is
invoked with `true` exactly when the flag was down. A `GATEWAY_ANNOUNCE` in
`OPERATIONAL_NODE` leaves the failure counter and the connected flag as they were and
invokes no gateway-status callback: only the gateway MAC is refreshed, when the body has
6 bytes. A packet whose first byte is none of `0xD1`..`0xD6` changes no field: it is handed
to the receive callback, when one is registered. -/
theorem gateway_traffic_liveness (s : Mesh) (env : Env) (rest : List Nat)
    (packet_info : PJON_Packet_Info)
    (hrole : s._current_role = ROLE_NODE)
    (hsender : packet_info.sender_id = s._gatewayPjonId) :
    actualPjonReceiver s env (GATEWAY_PONG_NODE :: rest) packet_info
      = ({ s with
            _last_ack_from_gateway_time := env.millis
            _failed_gateway_pings_count := 0
            _current_gateway_connected_status := true },
          if s._current_gateway_connected_status = false ∧ s._user_gateway_status_cb = true
          then [Effect.gateway_status_cb true] else [])
    ∧ (s._fsm_state = DiscoveryFSM.OPERATIONAL_NODE →
        actualPjonReceiver s env (GATEWAY_ANNOUNCE :: rest) packet_info
          = if rest.length ≥ ESP_NOW_ETH_ALEN then
              ({ s with _gateway_mac_addr := rest.take ESP_NOW_ETH_ALEN },
                [Effect.add_peer (rest.take ESP_NOW_ETH_ALEN) s._espNowChannel
                  (decide (strlen s._esp_now_pmk > 0))])
            else (s, []))
    ∧ (∀ t, t < 0xD1 ∨ 0xD6 < t →
        actualPjonReceiver s env (t :: rest) packet_info
          = (s, if s._user_receive_cb = true
                then [Effect.receive_cb s._gatewayPjonId (t :: rest)] else [])) := by
  have hg : ¬ ROLE_NODE = ROLE_GATEWAY := by decide
  refine ⟨?_, ?_, ?_⟩
  · have h1 : ¬ GATEWAY_PONG_NODE = GATEWAY_ANNOUNCE := by decide
    have h3 : ¬ GATEWAY_PONG_NODE = NODE_ID_ASSIGN := by decide
    simp only [actualPjonReceiver, receiveByRole, receiveAsNode, h1, h3, hg, hrole, hsender,
      false_and, if_false, if_true, ite_self]
    cases hc : s._current_gateway_connected_status
    · cases hcb : s._user_gateway_status_cb <;> simp
    · simp only [Bool.true_eq_false, if_false, false_and]
  · intro hfsm
    have h3 : ¬ GATEWAY_ANNOUNCE = NODE_ID_ASSIGN := by decide
    have h6 : ¬ GATEWAY_ANNOUNCE = GATEWAY_PONG_NODE := by decide
    simp only [actualPjonReceiver, receiveByRole, receiveAsNode, h3, h6, hg, hrole, hsender, hfsm,
      false_and, if_false, if_true, ite_self, true_and, addEspNowPeer]
    simp
  · intro t htag
    have h1 : t ≠ GATEWAY_ANNOUNCE := by simp only [GATEWAY_ANNOUNCE]; omega
    have h3 : t ≠ NODE_ID_ASSIGN := by simp only [NODE_ID_ASSIGN]; omega
    have h6 : t ≠ GATEWAY_PONG_NODE := by simp only [GATEWAY_PONG_NODE]; omega
    simp only [actualPjonReceiver, receiveByRole, receiveAsNode, h1, h3, h6, hg, hrole, hsender,
      false_and, if_false, if_true, ite_self]

/-- C21 (witness): gateway 1 answers the node that pinged three times in vain. -/
theorem gateway_traffic_liveness_witness :
    unheardNode._current_role = ROLE_NODE ∧ unheardNode._gatewayPjonId = 1
    ∧ actualPjonReceiver unheardNode (envAt 60005) [GATEWAY_PONG_NODE]
        { sender_id := 1, sender_ethernet_address := sampleMacG }
      = ({ unheardNode with
            _last_ack_from_gateway_time := 60005
            _failed_gateway_pings_count := 0
            _current_gateway_connected_status := true },
          [Effect.gateway_status_cb true]) :=
  ⟨by decide, by decide,
    (gateway_traffic_liveness unheardNode (envAt 60005) []
      { sender_id := 1, sender_ethernet_address := sampleMacG } (by decide) (by decide)).1⟩

/-- C22 (counterexample). The gateway with children 2, 3 and 4, which heard child 2 last
at clock value 6000, gets the host-data packet `[0x10, 1]` from sender id 2 at clock
value 100005: no field changes, the record of child 2 still has `last_seen = 6000`. -/
theorem host_data_leaves_last_seen :
    gatewayWithThree._current_role = ROLE_GATEWAY
    ∧ (activeNodes gatewayWithThree).map (fun r => (r.pjon_id, r.last_seen))
        = [(2, 6000), (3, 6000), (4, 100000)]
    ∧ actualPjonReceiver gatewayWithThree (envAt 100005) [0x10, 1]
        { sender_id := 2, sender_ethernet_address := childMac 1 } = (gatewayWithThree, []) := by
  decide

/-- C22 (amended). A gateway whose table (within its invariant) holds at index `i` the
record with id `n` gets a packet from sender id `n`. A `NODE_ID_ACK` sets `last_seen` of
that record to now (and clears its session flag); a `NODE_PING_GATEWAY` sets `last_seen`
of that record to now and hands the transport exactly one packet, `[0xD6]` for id `n` at
the MAC of that record; both report the node as connected when a node-status callback is
registered, and nothing else changes. A packet whose first byte is none of `0xD1`..`0xD6`
changes no field, `last_seen` included: it is handed to the receive callback, when one is
registered. -/
theorem child_traffic_liveness (s : Mesh) (env : Env) (rest : List Nat)
    (packet_info : PJON_Packet_Info) (i : Nat)
    (hrole : s._current_role = ROLE_GATEWAY)
    (hinv : TableInv s)
    (hi : i < s._known_nodes_count)
    (hid : (s._known_nodes.getD i NodeInfo.blank).pjon_id = packet_info.sender_id)
    (hn : packet_info.sender_id ≠ PJON_NOT_ASSIGNED) :
    actualPjonReceiver s env (NODE_ID_ACK :: rest) packet_info
      = ({ s with
            _known_nodes := s._known_nodes.set i
              { s._known_nodes.getD i NodeInfo.blank with
                id_assigned_this_session := false, last_seen := env.millis } },
          if s._user_node_status_cb = true
          then [Effect.node_status_cb packet_info.sender_id true] else [])
    ∧ actualPjonReceiver s env (NODE_PING_GATEWAY :: rest) packet_info
      = ({ s with
            _known_nodes := s._known_nodes.set i
              { s._known_nodes.getD i NodeInfo.blank with last_seen := env.millis } },
          Effect.pjon_send (s._known_nodes.getD i NodeInfo.blank).mac_addr packet_info.sender_id
              [GATEWAY_PONG_NODE]
            :: (if s._user_node_status_cb = true
                then [Effect.node_status_cb packet_info.sender_id true] else []))
    ∧ (∀ t, t < 0xD1 ∨ 0xD6 < t →
        actualPjonReceiver s env (t :: rest) packet_info
          = (s, if s._user_receive_cb = true
                then [Effect.receive_cb packet_info.sender_id (t :: rest)] else [])) := by
  have hfind := findNodeById_index s packet_info.sender_id i hn hinv hi hid
  have hlen : i < s._known_nodes.length := by
    have h1 := hinv.1
    have h2 := hinv.2.1
    omega
  refine ⟨?_, ?_, ?_⟩
  · have h1 : ¬ NODE_ID_ACK = GATEWAY_ANNOUNCE := by decide
    have h2 : ¬ NODE_ID_ACK = NODE_ID_REQUEST := by decide
    simp only [actualPjonReceiver, receiveByRole, receiveAsGateway, updateNodeStatus, h1, h2,
      hrole, hfind, false_and, if_false, if_true, ite_self]
  · have h1 : ¬ NODE_PING_GATEWAY = GATEWAY_ANNOUNCE := by decide
    have h2 : ¬ NODE_PING_GATEWAY = NODE_ID_REQUEST := by decide
    have h4 : ¬ NODE_PING_GATEWAY = NODE_ID_ACK := by decide
    have hget : ∀ v, (s._known_nodes.set i v).getD i NodeInfo.blank = v := by
      intro v
      rw [List.getD_eq_getElem _ _ (by rw [List.length_set]; exact hlen), List.getElem_set_self]
    simp only [actualPjonReceiver, receiveByRole, receiveAsGateway, updateNodeStatus, h1, h2, h4,
      hrole, hfind, hget, false_and, if_false, if_true, ite_self, List.singleton_append]
  · intro t htag
    have h1 : t ≠ GATEWAY_ANNOUNCE := by simp only [GATEWAY_ANNOUNCE]; omega
    have h2 : t ≠ NODE_ID_REQUEST := by simp only [NODE_ID_REQUEST]; omega
    have h4 : t ≠ NODE_ID_ACK := by simp only [NODE_ID_ACK]; omega
    have h5 : t ≠ NODE_PING_GATEWAY := by simp only [NODE_PING_GATEWAY]; omega
    simp only [actualPjonReceiver, receiveByRole, receiveAsGateway, h1, h2, h4, h5, hrole,
      false_and, if_false, if_true, ite_self]

/-- C22 (witness): child 2 of the gateway with three children pings at clock value
100005. -/
theorem child_traffic_liveness_witness :
    gatewayWithThree._current_role = ROLE_GATEWAY
    ∧ (gatewayWithThree._known_nodes.getD 0 NodeInfo.blank).pjon_id = 2
    ∧ (activeNodes (actualPjonReceiver gatewayWithThree (envAt 100005) [NODE_PING_GATEWAY]
          { sender_id := 2, sender_ethernet_address := childMac 1 }).1).map
          (fun r => (r.pjon_id, r.last_seen)) = [(2, 100005), (3, 6000), (4, 100000)]
    ∧ (actualPjonReceiver gatewayWithThree (envAt 100005) [NODE_PING_GATEWAY]
          { sender_id := 2, sender_ethernet_address := childMac 1 }).2
        = [Effect.pjon_send (childMac 1) 2 [GATEWAY_PONG_NODE], Effect.node_status_cb 2 true] := by
  have h := (child_traffic_liveness gatewayWithThree (envAt 100005) []
    { sender_id := 2, sender_ethernet_address := childMac 1 } 0 (by decide)
    (by unfold TableInv NodesInv; decide) (by decide) (by decide) (by decide)).2.1
  refine ⟨by decide, by decide, ?_, ?_⟩
  · rw [h]; decide
  · rw [h]; decide

/-- C23. For every string `s` without NUL, `preparePmk` leaves 17 bytes: 16 bytes that are
not NUL, then the terminator. Byte `i` is `s[i]` for `i < min(len(s), 16)`; for
`len(s) <= i < 16` it is `R`, `o`, `K`, `r` by `i % 4 = 0, 1, 2, 3`; a string of more than
16 bytes is cut to its first 16 bytes. -/
theorem pmk_from_string (s : List Nat) (hs : ∀ c ∈ s, c ≠ 0) :
    (preparePmk s).length = 17
    ∧ (∀ i, i < 16 → (preparePmk s).getD i 0 ≠ 0)
    ∧ (preparePmk s).getD 16 0 = 0
    ∧ (∀ i, i < min s.length 16 → (preparePmk s).getD i 0 = s.getD i 0)
    ∧ (∀ i, s.length ≤ i → i < 16 →
        (preparePmk s).getD i 0
          = (if i % 4 = 0 then 'R' else if i % 4 = 1 then 'o'
              else if i % 4 = 2 then 'K' else 'r').toNat)
    ∧ (16 < s.length → preparePmk s = s.take 16 ++ [0]) := by
  have hlen : (preparePmk s).length = 17 := by
    rw [preparePmk_closed s hs]
    simp only [List.length_append, List.length_take, List.length_map, List.length_range',
      List.length_singleton]
    omega
  refine ⟨hlen, ?_, ?_, ?_, ?_, ?_⟩
  · intro i hi
    rw [preparePmk_getD s hs i hi]
    split_ifs with h
    · rw [List.getD_eq_getElem _ _ h]
      exact hs _ (List.getElem_mem _)
    · exact pmkPad_ne_zero i
  · rw [preparePmk_closed s hs, List.getD_eq_getElem?_getD,
      List.getElem?_append_right (by
        simp only [List.length_append, List.length_take, List.length_map, List.length_range']
        omega)]
    have : 16 - (s.take 16 ++ (List.range' (min 16 s.length) (16 - min 16 s.length)).map pmkPad).length
        = 0 := by
      simp only [List.length_append, List.length_take, List.length_map, List.length_range']
      omega
    rw [this]
    rfl
  · intro i hi
    rw [preparePmk_getD s hs i (by omega), if_pos (by omega)]
  · intro i h1 h2
    rw [preparePmk_getD s hs i h2, if_neg (by omega)]
    unfold pmkPad
    split_ifs <;> rfl
  · intro h
    rw [preparePmk_closed s hs]
    have : 16 - min 16 s.length = 0 := by omega
    rw [this]
    simp [List.range']

/-- C23 (witness): the name `mesh` gives `meshRoKrRoKrRoKr`. -/
theorem pmk_from_string_witness :
    (∀ c ∈ sampleName, c ≠ 0)
    ∧ preparePmk sampleName
        = [109, 101, 115, 104, 82, 111, 75, 114, 82, 111, 75, 114, 82, 111, 75, 114, 0]
    ∧ (preparePmk sampleName).length = 17 :=
  ⟨by decide, by decide, (pmk_from_string sampleName (by decide)).1⟩

/-- C24. A gateway with id 1 starts from a fresh table and gets id requests of distinct
MACs, nothing being removed in between. After the requests `pre` the next request, of a
MAC `m` not seen before, is request number `k = pre.length + 1 <= 30`: the one
`NODE_ID_ASSIGN` sent carries the id `k + 1`, the record written at index `k - 1` holds id
`k + 1` with MAC `m`, the table then holds the MACs in order of arrival under the ids
2, 3, ..., `k + 1`, and the candidate is `k + 2`, one past the id just given. -/
theorem sequential_allocation (s : Mesh) (pre : List (Nat × PJON_Packet_Info × Mac))
    (now : Nat) (info : PJON_Packet_Info) (m : Mac)
    (hid : s._myPjonId = 1)
    (hdistinct : ((pre.map fun r => r.2.2) ++ [m]).Nodup)
    (hk : pre.length < MAX_NODES_PER_GATEWAY) :
    assignedIds (handleNodeIdRequest (runTableOps (initNodeManagement s)
        (pre.map fun r => TableOp.nodeIdRequest r.1 r.2.1 r.2.2)) now info m).2
      = [pre.length + 2]
    ∧ (handleNodeIdRequest (runTableOps (initNodeManagement s)
        (pre.map fun r => TableOp.nodeIdRequest r.1 r.2.1 r.2.2)) now info m).1._known_nodes.getD
          pre.length NodeInfo.blank
      = { pjon_id := pre.length + 2, mac_addr := m, last_seen := now,
          id_assigned_this_session := true }
    ∧ (handleNodeIdRequest (runTableOps (initNodeManagement s)
        (pre.map fun r => TableOp.nodeIdRequest r.1 r.2.1 r.2.2)) now info m).1._known_nodes_count
      = pre.length + 1
    ∧ (handleNodeIdRequest (runTableOps (initNodeManagement s)
        (pre.map fun r => TableOp.nodeIdRequest r.1 r.2.1 r.2.2)) now info
          m).1._next_available_node_id_candidate
      = pre.length + 3
    ∧ tableKeys (handleNodeIdRequest (runTableOps (initNodeManagement s)
        (pre.map fun r => TableOp.nodeIdRequest r.1 r.2.1 r.2.2)) now info m).1
      = List.zip (List.range' 2 (pre.length + 1)) ((pre.map fun r => r.2.2) ++ [m]) := by
  have hM : MAX_NODES_PER_GATEWAY = 30 := rfl
  have hd := List.nodup_append.mp hdistinct
  have hm : m ∉ pre.map fun r => r.2.2 := fun hmem => hd.2.2 hmem (by simp)
  obtain ⟨h1, h2, h3, h4, h5⟩ := sequential_table s hid pre hd.1 (by omega)
  have hstep := sequential_step _ (pre.map fun r => r.2.2) now info m h1 h2
    (by rw [h3, List.length_map]) (by rw [h4, List.length_map])
    (by rw [h5, List.length_map]) hm (by rw [List.length_map]; omega)
  have hall := sequential_table s hid (pre ++ [(now, info, m)])
    (by rw [List.map_append]; exact hdistinct)
    (by rw [List.length_append, List.length_singleton]; omega)
  have hrun : runTableOps (initNodeManagement s)
      ((pre ++ [(now, info, m)]).map fun r => TableOp.nodeIdRequest r.1 r.2.1 r.2.2)
      = (handleNodeIdRequest (runTableOps (initNodeManagement s)
          (pre.map fun r => TableOp.nodeIdRequest r.1 r.2.1 r.2.2)) now info m).1 := by
    simp only [runTableOps, List.map_append, List.foldl_append, List.map_cons, List.map_nil,
      List.foldl_cons, List.foldl_nil, TableOp.run]
  rw [hrun] at hall
  refine ⟨?_, ?_, ?_, ?_, ?_⟩
  · rw [hstep, List.length_map]
    exact assignedIds_answerIdRequest _ _ _ _
  · rw [hstep]
    simp only [List.length_map]
    rw [h3, List.getD_eq_getElem _ _ (by rw [List.length_set]; omega), List.getElem_set_self]
  · rw [hall.2.2.1, List.length_append, List.length_singleton]
  · rw [hall.2.2.2.1, List.length_append, List.length_singleton]
  · rw [hall.2.2.2.2, List.length_append, List.length_singleton, List.map_append]
    rfl

/-- C24 (witness): the first child of the elected gateway with id 1 gets id 2, the
candidate moves to 3. -/
theorem sequential_allocation_witness :
    (electedGateway 1)._myPjonId = 1
    ∧ initNodeManagement (electedGateway 1) = electedGateway 1
    ∧ assignedIds (handleNodeIdRequest (runTableOps (initNodeManagement (electedGateway 1))
        (([] : List (Nat × PJON_Packet_Info × Mac)).map
          fun r => TableOp.nodeIdRequest r.1 r.2.1 r.2.2)) 6000
        { sender_id := PJON_NOT_ASSIGNED, sender_ethernet_address := childMac 1 } (childMac 1)).2
      = [2]
    ∧ tableKeys fullGateway
        = List.zip (List.range' 2 30) ((List.range 30).map fun k => childMac (k + 1)) :=
  ⟨by decide, by decide,
    (sequential_allocation (electedGateway 1) [] 6000
      { sender_id := PJON_NOT_ASSIGNED, sender_ethernet_address := childMac 1 } (childMac 1)
      (by decide) (by decide) (by decide)).1, by decide⟩

/-- C25. In every state reached from construction by any sequence of host calls, the
candidate counter is at least 2 and every record in use holds an id in 2..254; after
`handleNodeIdRequest` on such a state, for every request, every record in use still holds
an id in 2..254. At the level of the function, for every gateway id, every table content
and every value of the candidate counter other than 1 (0 and 255, the values next to the
wrap, among them; any value at all when the gateway id is 1), the id in each slot after
`handleNodeIdRequest` is the id that was there or lies in 2..254, and the counter it leaves
is the old one or at least 2. The value 1 is one the counter never holds: it starts at 2
and every call keeps it at 2 or more. -/
theorem stored_ids_in_range (nvs : Nvs) (calls : List Call) (now : Nat)
    (info : PJON_Packet_Info) (m : Mac) :
    2 ≤ (runCalls (construct nvs) calls)._next_available_node_id_candidate
    ∧ (∀ r ∈ activeNodes (runCalls (construct nvs) calls), 2 ≤ r.pjon_id ∧ r.pjon_id ≤ 254)
    ∧ (∀ r ∈ activeNodes (handleNodeIdRequest (runCalls (construct nvs) calls) now info m).1,
        2 ≤ r.pjon_id ∧ r.pjon_id ≤ 254)
    ∧ 2 ≤ (handleNodeIdRequest (runCalls (construct nvs) calls) now info
          m).1._next_available_node_id_candidate
    ∧ (∀ s : Mesh, s._next_available_node_id_candidate ≠ 1 ∨ s._myPjonId = 1 →
        (∀ i, ((handleNodeIdRequest s now info m).1._known_nodes.getD i NodeInfo.blank).pjon_id
              = (s._known_nodes.getD i NodeInfo.blank).pjon_id
            ∨ (2 ≤ ((handleNodeIdRequest s now info m).1._known_nodes.getD i
                  NodeInfo.blank).pjon_id
                ∧ ((handleNodeIdRequest s now info m).1._known_nodes.getD i
                  NodeInfo.blank).pjon_id ≤ 254))
        ∧ ((handleNodeIdRequest s now info m).1._next_available_node_id_candidate
              = s._next_available_node_id_candidate
            ∨ 2 ≤ (handleNodeIdRequest s now info m).1._next_available_node_id_candidate)) := by
  have hinv : TableInv (runCalls (construct nvs) calls) :=
    runCalls_inv calls _ (construct_inv nvs)
  have hr : IdsInRange (runCalls (construct nvs) calls) :=
    runCalls_range calls _ (construct_inv nvs) (construct_range nvs)
  generalize runCalls (construct nvs) calls = t at hinv hr
  have hr' := handleNodeIdRequest_range t now info m hinv hr
  refine ⟨hr.1, fun r hmem => hr.2 r.pjon_id (List.mem_map_of_mem _ hmem),
    fun r hmem => hr'.2 r.pjon_id (List.mem_map_of_mem _ hmem), hr'.1, ?_⟩
  intro s hc
  obtain ⟨h1, h2, -⟩ := handleNodeIdRequest_ids s now info m hc
  exact ⟨h1, h2⟩

/-- C25 (witness): the gateway elected with id 1 that gave id 2 to a first child holds the
counter 3; the request of a second child stores id 3 and leaves the counter at 4. -/
theorem stored_ids_in_range_witness :
    (runCalls (construct Nvs.empty) sampleGatewayCalls)._next_available_node_id_candidate = 3
    ∧ tableKeys (handleNodeIdRequest (runCalls (construct Nvs.empty) sampleGatewayCalls) 7000
          { sender_id := PJON_NOT_ASSIGNED, sender_ethernet_address := childMac 2 }
          (childMac 2)).1
        = [(2, childMac 1), (3, childMac 2)]
    ∧ (∀ r ∈ activeNodes (handleNodeIdRequest
          (runCalls (construct Nvs.empty) sampleGatewayCalls) 7000
          { sender_id := PJON_NOT_ASSIGNED, sender_ethernet_address := childMac 2 }
          (childMac 2)).1, 2 ≤ r.pjon_id ∧ r.pjon_id ≤ 254)
    ∧ ((handleNodeIdRequest (runCalls (construct Nvs.empty) sampleGatewayCalls) 7000
          { sender_id := PJON_NOT_ASSIGNED, sender_ethernet_address := childMac 2 }
          (childMac 2)).1._next_available_node_id_candidate
        = (runCalls (construct Nvs.empty) sampleGatewayCalls)._next_available_node_id_candidate
      ∨ 2 ≤ (handleNodeIdRequest (runCalls (construct Nvs.empty) sampleGatewayCalls) 7000
          { sender_id := PJON_NOT_ASSIGNED, sender_ethernet_address := childMac 2 }
          (childMac 2)).1._next_available_node_id_candidate) :=
  ⟨by decide, by decide,
    (stored_ids_in_range Nvs.empty sampleGatewayCalls 7000
      { sender_id := PJON_NOT_ASSIGNED, sender_ethernet_address := childMac 2 }
      (childMac 2)).2.2.1,
    ((stored_ids_in_range Nvs.empty sampleGatewayCalls 7000
      { sender_id := PJON_NOT_ASSIGNED, sender_ethernet_address := childMac 2 }
      (childMac 2)).2.2.2.2 (runCalls (construct Nvs.empty) sampleGatewayCalls)
      (Or.inl (by decide))).2⟩

/-- C26. On a coordinator that is not begun, `begin` with a null, empty or over-long
(more than 32 bytes) network name returns `false` and leaves every field as it was, so the
coordinator is still not begun. On a begun coordinator `begin` returns `false` and leaves
every field as it was, whatever its arguments. A channel outside 1..13 is no error: with a
valid name the stored channel is 1 however `begin` ends, and on a platform on which the
initialisations succeed `begin` returns `true` with the coordinator begun. -/
theorem begin_argument_checks (s : Mesh) (benv : BeginEnv) (ch g : Nat) :
    (s._is_begun = false →
      begin s benv none ch g = (s, false)
      ∧ ∀ name, strlen name = 0 ∨ strlen name > ROKOR_MESH_MAX_NETWORK_NAME_LEN →
          begin s benv (some name) ch g = (s, false))
    ∧ (s._is_begun = true → ∀ name, begin s benv name ch g = (s, false))
    ∧ (s._is_begun = false → ch < 1 ∨ ch > 13 →
        ∀ name, 1 ≤ strlen name → strlen name ≤ ROKOR_MESH_MAX_NETWORK_NAME_LEN →
          (begin s benv (some name) ch g).1._espNowChannel = 1
          ∧ (benv.wifi_mac.isSome = true → benv.nvs_flash_ok = true → benv.wifi_sta_ok = true
              → benv.esp_now_init_ok = true →
              (begin s benv (some name) ch g).2 = true
              ∧ (begin s benv (some name) ch g).1._is_begun = true)) := by
  refine ⟨?_, ?_, ?_⟩
  · intro hb
    refine ⟨?_, ?_⟩
    · unfold begin; simp [hb]
    · intro name hname
      unfold begin; simp only [hb, Bool.false_eq_true, if_false, hname, if_true]
  · intro hb name
    unfold begin; simp [hb]
  · intro hb hch name h1 h2
    have hname : ¬ (strlen name = 0 ∨ strlen name > ROKOR_MESH_MAX_NETWORK_NAME_LEN) := by omega
    refine ⟨?_, ?_⟩
    · unfold begin
      simp only [hb, Bool.false_eq_true, if_false, hname, hch, if_true]
      cases benv.wifi_mac with
      | none => rfl
      | some mac =>
        simp only []
        split_ifs <;> rfl
    · intro hmac hflash hsta hnow
      obtain ⟨mac, hmac⟩ := Option.isSome_iff_exists.mp hmac
      unfold begin
      simp only [hb, Bool.false_eq_true, if_false, hname, hch, if_true, hmac, hflash, hsta, hnow,
        not_true_eq_false]
      simp

/-- C26 (witness): a constructed coordinator refuses the empty name and a name of 33 bytes
and accepts channel 14 as channel 1; the begun coordinator refuses a second `begin`. -/
theorem begin_argument_checks_witness :
    (construct Nvs.empty)._is_begun = false
    ∧ begin (construct Nvs.empty) sampleBeginEnv (some []) 1 1 = (construct Nvs.empty, false)
    ∧ begin (construct Nvs.empty) sampleBeginEnv (some (List.replicate 33 97)) 1 1
        = (construct Nvs.empty, false)
    ∧ (begin (construct Nvs.empty) sampleBeginEnv (some sampleName) 14 1).1._espNowChannel = 1
    ∧ (begin (construct Nvs.empty) sampleBeginEnv (some sampleName) 14 1).2 = true
    ∧ discoveringDevice._is_begun = true
    ∧ begin discoveringDevice sampleBeginEnv (some sampleName) 1 1 = (discoveringDevice, false) :=
  ⟨by decide,
    ((begin_argument_checks (construct Nvs.empty) sampleBeginEnv 1 1).1 (by decide)).2 []
      (by decide),
    by decide, by decide, by decide, by decide, by decide⟩

/-- C27. On a coordinator that is not begun, a `begin` with a valid name that gets as far
as the radio and finds `WiFi.mode(WIFI_STA)` or `espNowInit()` failing returns `false` and
leaves the coordinator not begun; every sequence of `update` calls after it, whatever the
clock and whatever the transport holds, leaves every field as it was. So does `update` on
any coordinator that is not begun: the state is returned as it is and nothing is handed
to the transport, the radio or a callback. -/
theorem radio_failure_then_idle (s : Mesh) (benv : BeginEnv) (name : List Nat) (ch g : Nat)
    (mac : Mac)
    (hb : s._is_begun = false)
    (hname : 1 ≤ strlen name ∧ strlen name ≤ ROKOR_MESH_MAX_NETWORK_NAME_LEN)
    (hmac : benv.wifi_mac = some mac) (hflash : benv.nvs_flash_ok = true)
    (hradio : benv.wifi_sta_ok = false ∨ benv.esp_now_init_ok = false) :
    (begin s benv (some name) ch g).2 = false
    ∧ (begin s benv (some name) ch g).1._is_begun = false
    ∧ (∀ ticks : List (Env × List Inbound),
        runCalls (begin s benv (some name) ch g).1 (ticks.map fun t => Call.update t.1 t.2)
          = (begin s benv (some name) ch g).1)
    ∧ (∀ (t : Mesh) (env : Env) (inbound : List Inbound),
        t._is_begun = false → update t env inbound = (t, [])) := by
  have hidle : ∀ (t : Mesh) (env : Env) (inbound : List Inbound),
      t._is_begun = false → update t env inbound = (t, []) := by
    intro t env inbound ht
    unfold update; simp [ht]
  have hn : ¬ (strlen name = 0 ∨ strlen name > ROKOR_MESH_MAX_NETWORK_NAME_LEN) := by omega
  have hres : (begin s benv (some name) ch g).2 = false
      ∧ (begin s benv (some name) ch g).1._is_begun = false := by
    unfold begin
    simp only [hb, Bool.false_eq_true, if_false, hn, hmac, hflash, not_true_eq_false]
    rcases hradio with h | h
    · simp [h]
    · cases hsta : benv.wifi_sta_ok <;> simp [h]
  refine ⟨hres.1, hres.2, ?_, hidle⟩
  intro ticks
  generalize (begin s benv (some name) ch g).1 = b at hres
  induction ticks with
  | nil => rfl
  | cons t rest ih =>
    simp only [List.map_cons, runCalls, List.foldl_cons, Call.run, hidle b t.1 t.2 hres.2]
    exact ih

/-- C27 (witness): `espNowInit()` fails for a constructed coordinator; two later `update`
calls, the second with an announce waiting in the transport, change nothing. -/
theorem radio_failure_then_idle_witness :
    (construct Nvs.empty)._is_begun = false
    ∧ (begin (construct Nvs.empty) { sampleBeginEnv with esp_now_init_ok := false }
        (some sampleName) 1 1).2 = false
    ∧ runCalls (begin (construct Nvs.empty) { sampleBeginEnv with esp_now_init_ok := false }
        (some sampleName) 1 1).1
        ([(envAt 0, []), (envAt 1, [announceFromGateway 1 1])].map
          fun t => Call.update t.1 t.2)
      = (begin (construct Nvs.empty) { sampleBeginEnv with esp_now_init_ok := false }
        (some sampleName) 1 1).1 :=
  ⟨by decide, by decide,
    (radio_failure_then_idle (construct Nvs.empty) { sampleBeginEnv with esp_now_init_ok := false }
      sampleName 1 1 sampleMacA (by decide) (by decide) rfl rfl (Or.inr rfl)).2.2.1
      [(envAt 0, []), (envAt 1, [announceFromGateway 1 1])]⟩

/-- C28. In every state and for every destination, payload pointer and transport answer,
`sendMessage` with `length = 0` or `length > 200` returns `false` and hands nothing to the
transport, and so does the overload without a destination. A payload of exactly 200 bytes
passes the length check: a begun gateway sends it to the MAC of the record `findNodeById`
finds for a destination in 1..254, a begun node sends it to its gateway when the
destination is the gateway id (in 1..254) and the gateway MAC is known; the flag returned
is then `false` only when the transport answers `PJON_BUSY` or `PJON_FAIL`. -/
theorem send_length_check (s : Mesh) (response dest : Nat) (payload : Option (List Nat))
    (length : Nat) :
    (length = 0 ∨ length > ROKOR_MESH_MAX_PAYLOAD_SIZE →
      sendMessage s response dest payload length = (false, [])
      ∧ sendMessageToGateway s response payload length = (false, []))
    ∧ (∀ bytes : List Nat, bytes.length = ROKOR_MESH_MAX_PAYLOAD_SIZE →
        s._is_begun = true → 1 ≤ dest → dest ≤ 254 →
        (∀ i, s._current_role = ROLE_GATEWAY → findNodeById s dest = some i →
          sendMessage s response dest (some bytes) ROKOR_MESH_MAX_PAYLOAD_SIZE
            = (decide (response ≠ PJON_BUSY ∧ response ≠ PJON_FAIL),
               [Effect.pjon_send (s._known_nodes.getD i NodeInfo.blank).mac_addr dest bytes]))
        ∧ (s._current_role = ROLE_NODE → dest = s._gatewayPjonId →
            s._gateway_mac_addr ≠ esp_now_null_mac →
            sendMessage s response dest (some bytes) ROKOR_MESH_MAX_PAYLOAD_SIZE
              = (decide (response ≠ PJON_BUSY ∧ response ≠ PJON_FAIL),
                 [Effect.pjon_send s._gateway_mac_addr dest bytes]))) := by
  refine ⟨?_, ?_⟩
  · intro hlen
    refine ⟨sendMessage_bad_length s response dest payload length hlen, ?_⟩
    unfold sendMessageToGateway
    split_ifs
    · rfl
    · exact sendMessage_bad_length s response _ payload length hlen
    · rfl
  · intro bytes hbytes hb h1 h254
    have hd : ¬ (dest = PJON_NOT_ASSIGNED ∨ dest > 254) := by
      simp only [PJON_NOT_ASSIGNED]; omega
    have hbc : ¬ dest = PJON_BROADCAST_ADDRESS := by
      simp only [PJON_BROADCAST_ADDRESS]; omega
    have htake : bytes.take ROKOR_MESH_MAX_PAYLOAD_SIZE = bytes :=
      List.take_of_length_le (by omega)
    have h200 : ¬ ROKOR_MESH_MAX_PAYLOAD_SIZE = 0 := by decide
    have hgt : ¬ ROKOR_MESH_MAX_PAYLOAD_SIZE > ROKOR_MESH_MAX_PAYLOAD_SIZE := by decide
    have hng : ¬ ROLE_NODE = ROLE_GATEWAY := by decide
    refine ⟨?_, ?_⟩
    · intro i hrole hfind
      have hr : ¬ (¬ s._is_begun = true
          ∨ (s._current_role ≠ ROLE_NODE ∧ s._current_role ≠ ROLE_GATEWAY)) := by
        simp [hb, hrole]
      unfold sendMessage
      rw [if_neg hr, if_neg hd]
      simp only [if_neg h200, if_neg hgt, if_pos hrole, if_neg hbc, hfind, htake,
        sendMessage_flag]
    · intro hrole hdest hmac
      have hr : ¬ (¬ s._is_begun = true
          ∨ (s._current_role ≠ ROLE_NODE ∧ s._current_role ≠ ROLE_GATEWAY)) := by
        simp [hb, hrole]
      have hrg : ¬ s._current_role = ROLE_GATEWAY := by rw [hrole]; exact hng
      unfold sendMessage
      rw [if_neg hr, if_neg hd]
      simp only [if_neg h200, if_neg hgt, if_neg hrg, if_pos hrole, if_pos hdest, if_pos hmac,
        htake, sendMessage_flag]

/-- C28 (witness): the gateway with three children is asked to send 201 bytes, then 200
bytes, to child 2, the record at index 0; the transport answers `PJON_ACK`. -/
theorem send_length_check_witness :
    (201 = 0 ∨ 201 > ROKOR_MESH_MAX_PAYLOAD_SIZE)
    ∧ sendMessage gatewayWithThree PJON_ACK 2 (some (List.replicate 201 7)) 201 = (false, [])
    ∧ findNodeById gatewayWithThree 2 = some 0
    ∧ (gatewayWithThree._known_nodes.getD 0 NodeInfo.blank).mac_addr = childMac 1
    ∧ decide (PJON_ACK ≠ PJON_BUSY ∧ PJON_ACK ≠ PJON_FAIL) = true
    ∧ sendMessage gatewayWithThree PJON_ACK 2 (some (List.replicate 200 7))
          ROKOR_MESH_MAX_PAYLOAD_SIZE
        = (decide (PJON_ACK ≠ PJON_BUSY ∧ PJON_ACK ≠ PJON_FAIL),
           [Effect.pjon_send (gatewayWithThree._known_nodes.getD 0 NodeInfo.blank).mac_addr 2
              (List.replicate 200 7)]) :=
  ⟨by decide,
    ((send_length_check gatewayWithThree PJON_ACK 2 (some (List.replicate 201 7)) 201).1
      (by decide)).1,
    by decide, by decide, by decide,
    ((send_length_check gatewayWithThree PJON_ACK 2 none 0).2 (List.replicate 200 7)
      (List.length_replicate _ _) (by decide) (by decide) (by decide)).1 0 (by decide)
      (by decide)⟩

/-- C29 (counterexample). A begun device in role `ROLE_NODE` that holds 0 as its gateway id
(it heard an announce from sender id 0 while listening) is asked to send one byte to
destination 0: the packet is handed to the transport and `sendMessage` returns `true`. -/
theorem destination_zero_is_sent :
    nodeOfGatewayZero._is_begun = true
    ∧ nodeOfGatewayZero._current_role = ROLE_NODE
    ∧ nodeOfGatewayZero._gatewayPjonId = 0
    ∧ sendMessage nodeOfGatewayZero PJON_ACK 0 (some [0x10]) 1
        = (true, [Effect.pjon_send sampleMacG 0 [0x10]]) := by
  decide

/-- C29 (amended). In every role and state `sendMessage` to destination 255 returns `false`
and hands nothing to the transport. Destination 0 is not checked: `sendMessage` to 0
returns `false` and hands nothing to the transport whenever the gateway id the device
holds is not 0 and no record in use has id 0. No record in use of a table that started
fresh has id 0, whatever id requests, packets, errors and sweeps followed. -/
theorem reserved_destinations (s : Mesh) (response : Nat) (payload : Option (List Nat))
    (length : Nat) :
    sendMessage s response 255 payload length = (false, [])
    ∧ (s._gatewayPjonId ≠ 0 →
        (∀ j, j < s._known_nodes_count → (s._known_nodes.getD j NodeInfo.blank).pjon_id ≠ 0) →
        sendMessage s response 0 payload length = (false, []))
    ∧ (∀ (s0 : Mesh) (ops : List TableOp) (j : Nat),
        j < (runTableOps (initNodeManagement s0) ops)._known_nodes_count →
        ((runTableOps (initNodeManagement s0) ops)._known_nodes.getD j NodeInfo.blank).pjon_id
          ≠ 0) := by
  refine ⟨?_, ?_, ?_⟩
  · unfold sendMessage
    have h : (255 : Nat) = PJON_NOT_ASSIGNED ∨ (255 : Nat) > 254 := Or.inl rfl
    rw [if_pos h]
    split_ifs <;> rfl
  · intro hgw htab
    have hfind : findNodeById s 0 = none := by
      unfold findNodeById
      rw [if_neg (by decide)]
      rw [scanLoop_none_iff]
      intro j _ hj
      simp only [beq_eq_false_iff_ne, ne_eq]
      exact htab j (by omega)
    have hbc : ¬ (0 : Nat) = PJON_BROADCAST_ADDRESS := by decide
    have hg : ¬ (0 : Nat) = s._gatewayPjonId := fun e => hgw e.symm
    unfold sendMessage
    by_cases h1 : ¬ s._is_begun = true
        ∨ (s._current_role ≠ ROLE_NODE ∧ s._current_role ≠ ROLE_GATEWAY)
    · rw [if_pos h1]
    · rw [if_neg h1, if_neg (by decide)]
      cases payload with
      | none => rfl
      | some bytes =>
        simp only [hfind, if_neg hbc, if_neg hg, ite_self]
  · intro s0 ops j hj
    have hinv := runTableOps_inv ops (initNodeManagement s0) (initNodeManagement_inv s0)
    have hr := runTableOps_range ops (initNodeManagement s0) (initNodeManagement_inv s0)
      (initNodeManagement_range s0)
    have hlen := hinv.1
    have hcount := hinv.2.1
    have hmem : ((runTableOps (initNodeManagement s0) ops)._known_nodes.getD j
        NodeInfo.blank).pjon_id
        ∈ (activeNodes (runTableOps (initNodeManagement s0) ops)).map NodeInfo.pjon_id := by
      apply List.mem_map_of_mem
      unfold activeNodes
      rw [mem_take_iff_getD _ _ (by omega)]
      exact ⟨j, hj, rfl⟩
    have := hr.2 _ hmem
    omega

/-- C29 (witness): the gateway with children 2, 3 and 4 refuses destination 0 and
destination 255. -/
theorem reserved_destinations_witness :
    gatewayWithThree._gatewayPjonId ≠ 0
    ∧ (activeNodes gatewayWithThree).map NodeInfo.pjon_id = [2, 3, 4]
    ∧ sendMessage gatewayWithThree PJON_ACK 0 (some [0x10]) 1 = (false, [])
    ∧ sendMessage gatewayWithThree PJON_ACK 255 (some [0x10]) 1 = (false, []) :=
  ⟨by decide, by decide,
    (reserved_destinations gatewayWithThree PJON_ACK (some [0x10]) 1).2.1 (by decide)
      (fun j hj => by
        have h3 : gatewayWithThree._known_nodes_count = 3 := by decide
        rw [h3] at hj
        interval_cases j <;> decide),
    by decide⟩

/-- C30. The node restored from the store, bound to the gateway with MAC `sampleMacG` and
with one ping unanswered, is ended: the gateway id is `PJON_NOT_ASSIGNED`, but the gateway
MAC is still `sampleMacG` and the failure counter is still 1. The values left behind are
read again: the node with three pings unanswered is ended, forced to node 7 of gateway 3
and begun, and its first tick finds the ping budget used up and goes from `INIT_STATE` to
`LISTEN_FOR_GATEWAY` with the forced gateway id dropped, where a newly constructed
coordinator after the same calls goes to `LOAD_NVS_CONFIG` and keeps gateway id 3. -/
theorem end_keeps_gateway_mac_and_failures :
    persistedNode._is_begun = true
    ∧ (RokorMesh.end persistedNode)._is_begun = false
    ∧ (RokorMesh.end persistedNode)._gatewayPjonId = PJON_NOT_ASSIGNED
    ∧ (RokorMesh.end persistedNode)._gateway_mac_addr = sampleMacG
    ∧ (RokorMesh.end persistedNode)._gateway_mac_addr ≠ esp_now_null_mac
    ∧ (RokorMesh.end persistedNode)._failed_gateway_pings_count = 1
    ∧ unheardNode._is_begun = true
    ∧ (RokorMesh.end unheardNode)._failed_gateway_pings_count = 3
    ∧ (RokorMesh.end unheardNode)._gateway_mac_addr = sampleMacG
    ∧ restartedForcedNode._is_begun = true
    ∧ restartedForcedNode._fsm_state = DiscoveryFSM.INIT_STATE
    ∧ restartedForcedNode._gatewayPjonId = 3
    ∧ (update restartedForcedNode (envAt 90002) []).1._fsm_state
        = DiscoveryFSM.LISTEN_FOR_GATEWAY
    ∧ (update restartedForcedNode (envAt 90002) []).1._gatewayPjonId = PJON_NOT_ASSIGNED
    ∧ freshForcedNode._fsm_state = DiscoveryFSM.INIT_STATE
    ∧ freshForcedNode._failed_gateway_pings_count = 0
    ∧ (update freshForcedNode (envAt 90002) []).1._fsm_state = DiscoveryFSM.LOAD_NVS_CONFIG
    ∧ (update freshForcedNode (envAt 90002) []).1._gatewayPjonId = 3 := by
  decide

/-- C31. A node restored from the store whose transport does not start on the tick that
loads the record is in `ERROR_STATE`, begun, in role `ROLE_NODE`, with the transport not
listening. `update` keeps running `operateAsNode` for it: the ticks at the clock values
30001 and 60001 each hand a `NODE_PING_GATEWAY` to the transport with the state still
`ERROR_STATE`, and the tick at 90001 finds the ping budget used up, restarts the transport
and leaves the state machine in `LISTEN_FOR_GATEWAY`, without any `end()`. -/
theorem error_state_left_by_ping_budget :
    failedStartNode._is_begun = true
    ∧ failedStartNode._fsm_state = DiscoveryFSM.ERROR_STATE
    ∧ failedStartNode._current_role = ROLE_NODE
    ∧ failedStartNode._pjon_bus.listening = false
    ∧ (update failedStartNode (envAt 30001) []).2
        = [Effect.pjon_send sampleMacG 1 [NODE_PING_GATEWAY]]
    ∧ (runCalls failedStartNode
        [Call.update (envAt 30001) [], Call.update (envAt 60001) []])._fsm_state
        = DiscoveryFSM.ERROR_STATE
    ∧ (runCalls failedStartNode
        [Call.update (envAt 30001) [], Call.update (envAt 60001) [],
         Call.update (envAt 90001) []])._fsm_state
        = DiscoveryFSM.LISTEN_FOR_GATEWAY
    ∧ (runCalls failedStartNode
        [Call.update (envAt 30001) [], Call.update (envAt 60001) [],
         Call.update (envAt 90001) []])._is_begun = true := by
  decide

/-- C32. The two setters store `max(100, argument)` and `max(2000, argument)`. In every
state reached from construction by any sequence of host calls — the setters, and also
`begin`, `end`, the force calls and `update` with whatever the transport delivers — the
contention window is at least 100 and the announce interval at least 2000. So the window
is never 0, and the delay sampled in `GATEWAY_ELECTION_DELAY`, `esp_random() % window`, is
a remainder below the window. -/
theorem tunable_minimums (nvs : Nvs) (calls : List Call) :
    (∀ (s : Mesh) (w : Nat),
      (setGatewayContentionWindow s w)._gateway_contention_window_ms = max 100 w)
    ∧ (∀ (s : Mesh) (i : Nat),
      (setGatewayAnnounceInterval s i)._gateway_announce_interval_ms = max 2000 i)
    ∧ 100 ≤ (runCalls (construct nvs) calls)._gateway_contention_window_ms
    ∧ 2000 ≤ (runCalls (construct nvs) calls)._gateway_announce_interval_ms
    ∧ (runCalls (construct nvs) calls)._gateway_contention_window_ms ≠ 0
    ∧ (∀ env : Env,
        env.esp_random % (runCalls (construct nvs) calls)._gateway_contention_window_ms
          < (runCalls (construct nvs) calls)._gateway_contention_window_ms)
    ∧ (∀ env : Env,
        (runCalls (construct nvs) calls)._fsm_state = DiscoveryFSM.GATEWAY_ELECTION_DELAY →
        (runDiscoveryFSM (runCalls (construct nvs) calls) env).1._contention_delay_value
            = (runCalls (construct nvs) calls)._contention_delay_value
          ∨ (runDiscoveryFSM (runCalls (construct nvs) calls) env).1._contention_delay_value
            < (runCalls (construct nvs) calls)._gateway_contention_window_ms) := by
  have h0 : 100 ≤ (construct nvs)._gateway_contention_window_ms
      ∧ GATEWAY_MIN_ANNOUNCE_INTERVAL_MS ≤ (construct nvs)._gateway_announce_interval_ms := by
    constructor
    · show (100 : Nat) ≤ 1500; omega
    · show (2000 : Nat) ≤ 10000; omega
  obtain ⟨h1, h2⟩ := runCalls_tunables calls (construct nvs) h0
  have h2' : 2000 ≤ (runCalls (construct nvs) calls)._gateway_announce_interval_ms := h2
  refine ⟨fun s w => rfl, fun s i => rfl, h1, h2', by omega, fun env => Nat.mod_lt _ (by omega),
    ?_⟩
  intro env hfsm
  generalize runCalls (construct nvs) calls = t at h1 hfsm
  unfold runDiscoveryFSM
  simp only [hfsm]
  by_cases hz : t._contention_delay_value = 0
  · simp only [hz, if_true]
    split_ifs
    · right; show (0 : Nat) < _; omega
    · right; exact Nat.mod_lt _ (by omega)
  · simp only [hz, if_false]
    split_ifs
    · right; show (0 : Nat) < _; omega
    · left; rfl

/-- The host asks for a window of 0 and the device reaches `GATEWAY_ELECTION_DELAY` with a
window of 100; the delay sampled from `esp_random() = 250` is below 100. -/
theorem tunable_minimums_witness :
    (runCalls (construct Nvs.empty) narrowWindowCalls)._fsm_state
        = DiscoveryFSM.GATEWAY_ELECTION_DELAY
    ∧ (runCalls (construct Nvs.empty) narrowWindowCalls)._gateway_contention_window_ms = 100
    ∧ ((runDiscoveryFSM (runCalls (construct Nvs.empty) narrowWindowCalls)
          { envAt 5004 with esp_random := 250 }).1._contention_delay_value
          = (runCalls (construct Nvs.empty) narrowWindowCalls)._contention_delay_value
        ∨ (runDiscoveryFSM (runCalls (construct Nvs.empty) narrowWindowCalls)
          { envAt 5004 with esp_random := 250 }).1._contention_delay_value
          < (runCalls (construct Nvs.empty) narrowWindowCalls)._gateway_contention_window_ms) :=
  ⟨by decide, by decide,
    (tunable_minimums Nvs.empty narrowWindowCalls).2.2.2.2.2.2
      { envAt 5004 with esp_random := 250 } (by decide)⟩

/-- C33 (counterexample). A node that lost its gateway and heard the announce of gateway 1
listens, in role `ROLE_NODE`, with a ping interval of 30000 ms. At clock value 4 it accepts
`NODE_ID_ASSIGN` with id 9 and enters `OPERATIONAL_NODE`: the failure counter is 0, but the
next ping is due at 30004, not at 4. The ticks at 5 and at 30003 send nothing; the first
`NODE_PING_GATEWAY` leaves on the tick at 30004. -/
theorem assigned_node_pings_an_interval_later :
    reboundNode._fsm_state = DiscoveryFSM.LISTEN_FOR_GATEWAY
    ∧ reboundNode._current_role = ROLE_NODE
    ∧ reboundNode._node_ping_gateway_interval_ms = 30000
    ∧ (update reboundNode (envAt 4) [idAssignFromGateway 4 1 9 sampleMacA]).1._fsm_state
        = DiscoveryFSM.OPERATIONAL_NODE
    ∧ (update reboundNode (envAt 4)
        [idAssignFromGateway 4 1 9 sampleMacA]).1._failed_gateway_pings_count = 0
    ∧ (update reboundNode (envAt 4)
        [idAssignFromGateway 4 1 9 sampleMacA]).1._next_gateway_ping_time = 30004
    ∧ (update (update reboundNode (envAt 4) [idAssignFromGateway 4 1 9 sampleMacA]).1
        (envAt 5) []).2 = []
    ∧ (update (update reboundNode (envAt 4) [idAssignFromGateway 4 1 9 sampleMacA]).1
        (envAt 30003) []).2 = []
    ∧ (update (update reboundNode (envAt 4) [idAssignFromGateway 4 1 9 sampleMacA]).1
        (envAt 30004) []).2 = [Effect.pjon_send sampleMacG 1 [NODE_PING_GATEWAY]] := by
  decide

/-- C33 (amended). The state machine enters `OPERATIONAL_NODE` in three places and nowhere
else. The step `LOAD_NVS_CONFIG` and a `GATEWAY_ANNOUNCE` heard with an id already held
leave the failure counter at 0, the connected flag down and the first ping due at the
current time. An accepted `NODE_ID_ASSIGN` leaves the failure counter at 0 and the connected
flag up, and the first ping due one ping interval after the current time. A tick in
`OPERATIONAL_NODE` with a gateway id and pings left sends a `NODE_PING_GATEWAY` when the
clock has reached the time the ping is due, and nothing before. -/
theorem entry_to_operational_node (s : Mesh) (env : Env)
    (hne : s._fsm_state ≠ DiscoveryFSM.OPERATIONAL_NODE) :
    ((runDiscoveryFSM s env).1._fsm_state = DiscoveryFSM.OPERATIONAL_NODE →
      s._fsm_state = DiscoveryFSM.LOAD_NVS_CONFIG
      ∧ (runDiscoveryFSM s env).1._failed_gateway_pings_count = 0
      ∧ (runDiscoveryFSM s env).1._next_gateway_ping_time = env.millis
      ∧ (runDiscoveryFSM s env).1._current_gateway_connected_status = false)
    ∧ (∀ payload info,
        (actualPjonReceiver s env payload info).1._fsm_state = DiscoveryFSM.OPERATIONAL_NODE →
        (actualPjonReceiver s env payload info).1._failed_gateway_pings_count = 0
        ∧ ((payload.head? = some GATEWAY_ANNOUNCE
            ∧ (actualPjonReceiver s env payload info).1._next_gateway_ping_time = env.millis
            ∧ (actualPjonReceiver s env payload info).1._current_gateway_connected_status
                = false)
          ∨ (payload.head? = some NODE_ID_ASSIGN
            ∧ (actualPjonReceiver s env payload info).1._next_gateway_ping_time
                = add32 env.millis s._node_ping_gateway_interval_ms
            ∧ (actualPjonReceiver s env payload info).1._current_gateway_connected_status
                = true)))
    ∧ ((operateAsNode s env).1._fsm_state ≠ DiscoveryFSM.OPERATIONAL_NODE
      ∧ (operateAsGateway s env).1._fsm_state ≠ DiscoveryFSM.OPERATIONAL_NODE
      ∧ ∀ code data, (actualPjonError s env code data).1._fsm_state
          ≠ DiscoveryFSM.OPERATIONAL_NODE)
    ∧ (∀ (t : Mesh) (env' : Env), t._current_role = ROLE_NODE →
        t._fsm_state = DiscoveryFSM.OPERATIONAL_NODE →
        t._gatewayPjonId ≠ PJON_NOT_ASSIGNED →
        t._failed_gateway_pings_count < t._node_max_gateway_ping_attempts →
        updateTick t env'
          = if env'.millis ≥ t._next_gateway_ping_time then
              ({ t with
                  _failed_gateway_pings_count := inc8 t._failed_gateway_pings_count
                  _next_gateway_ping_time :=
                    add32 env'.millis t._node_ping_gateway_interval_ms },
                [Effect.pjon_send t._gateway_mac_addr t._gatewayPjonId [NODE_PING_GATEWAY]])
            else (t, [])) := by
  refine ⟨runDiscoveryFSM_enters_node s env hne,
    fun payload info => actualPjonReceiver_enters_node s env payload info hne, ⟨?_, ?_, ?_⟩, ?_⟩
  · unfold operateAsNode restartListening
    simp only []
    split_ifs <;>
      first
      | exact hne
      | (rw [initializePjonStack_fsm_state]; split_ifs <;> simp [pjonEnd])
  · unfold operateAsGateway cleanupInactiveNodes
    simp only []
    split_ifs <;> exact hne
  · intro code data
    unfold actualPjonError
    simp only []
    split_ifs <;>
      first
      | exact hne
      | (rw [initializePjonStack_fsm_state]; split_ifs <;> simp [pjonEnd])
      | (split <;> exact hne)
  · intro t env' hrole hfsm hgw hfail
    rw [updateTick_operational_node t env' hrole hfsm]
    by_cases hdue : env'.millis ≥ t._next_gateway_ping_time
    · rw [if_pos hdue]
      exact operateAsNode_ping t env' hgw hdue hfail
    · rw [if_neg hdue]
      unfold operateAsNode
      simp only [hgw, if_false, hdue]

/-- C33 (witness): the node that boots from the store enters `OPERATIONAL_NODE` from
`LOAD_NVS_CONFIG` with the first ping due at once; the listening node enters it by an
accepted `NODE_ID_ASSIGN` with the failure counter at 0. -/
theorem entry_to_operational_node_witness :
    lateNode._fsm_state ≠ DiscoveryFSM.OPERATIONAL_NODE
    ∧ (runDiscoveryFSM lateNode (envAt 4294966296)).1._fsm_state
        = DiscoveryFSM.OPERATIONAL_NODE
    ∧ (lateNode._fsm_state = DiscoveryFSM.LOAD_NVS_CONFIG
      ∧ (runDiscoveryFSM lateNode (envAt 4294966296)).1._failed_gateway_pings_count = 0
      ∧ (runDiscoveryFSM lateNode (envAt 4294966296)).1._next_gateway_ping_time
          = (envAt 4294966296).millis
      ∧ (runDiscoveryFSM lateNode (envAt 4294966296)).1._current_gateway_connected_status
          = false)
    ∧ reboundNode._fsm_state ≠ DiscoveryFSM.OPERATIONAL_NODE
    ∧ (actualPjonReceiver reboundNode (envAt 4) (NODE_ID_ASSIGN :: 9 :: sampleMacA)
        { sender_id := 1, sender_ethernet_address := sampleMacG }).1._failed_gateway_pings_count
        = 0 :=
  ⟨by decide, by decide,
    (entry_to_operational_node lateNode (envAt 4294966296) (by decide)).1 (by decide),
    by decide,
    ((entry_to_operational_node reboundNode (envAt 4) (by decide)).2.1
      (NODE_ID_ASSIGN :: 9 :: sampleMacA)
      { sender_id := 1, sender_ethernet_address := sampleMacG } (by decide)).1⟩

/-- C34. A device whose store holds the record of gateway 1 is begun at clock value 0. The
tick at clock value 1 loads the record and enters `OPERATIONAL_GATEWAY` with the time of
the last announce set to 0; it registers the broadcast peer and sends nothing. The ticks
at the clock values 2 and 9999, spent in `OPERATIONAL_GATEWAY`, hand nothing to the
transport: the first `GATEWAY_ANNOUNCE` leaves on the tick at clock value 10000, when the
clock has reached the announce interval. -/
theorem reloaded_gateway_announces_late :
    loadingGateway._fsm_state = DiscoveryFSM.LOAD_NVS_CONFIG
    ∧ (update loadingGateway (envAt 1) []).1._fsm_state = DiscoveryFSM.OPERATIONAL_GATEWAY
    ∧ (update loadingGateway (envAt 1) []).1._last_gateway_announce_time = 0
    ∧ (update loadingGateway (envAt 1) []).1._gateway_announce_interval_ms = 10000
    ∧ (update loadingGateway (envAt 1) []).2 = [Effect.add_peer esp_now_broadcast_mac 1 true]
    ∧ (update (update loadingGateway (envAt 1) []).1 (envAt 2) []).2 = []
    ∧ (update (update loadingGateway (envAt 1) []).1 (envAt 9999) []).2 = []
    ∧ (update (update loadingGateway (envAt 1) []).1 (envAt 10000) []).2
        = [Effect.add_peer esp_now_broadcast_mac 1 true,
           Effect.pjon_send esp_now_broadcast_mac PJON_BROADCAST_ADDRESS
             (GATEWAY_ANNOUNCE :: sampleMacA)] := by
  decide

/-- C35. A discovering device enters `GATEWAY_ELECTION_DELAY` at clock value 5003 and
samples the delay 700. Its election is cancelled — by the announce of gateway 1 handed to
the receiver, or by `end()` and `begin()` — and it enters `GATEWAY_ELECTION_DELAY` again,
at 15008 resp. 11003, with the delay 700 still stored. On the tick 10 ms after that entry
`esp_random()` answers 5: no new delay is sampled, the stored 700 is waited for, and the
device stays in `GATEWAY_ELECTION_DELAY` although 10 ms exceed `5 % 1500`. -/
theorem stale_contention_delay :
    electingDevice._fsm_state = DiscoveryFSM.GATEWAY_ELECTION_DELAY
    ∧ electingDevice._contention_delay_value = 0
    ∧ sampledElection._contention_delay_value = 700
    ∧ (secondElection._fsm_state = DiscoveryFSM.GATEWAY_ELECTION_DELAY
      ∧ secondElection._fsm_timer_start = 15008
      ∧ secondElection._contention_delay_value = 700
      ∧ secondElection._gateway_contention_window_ms = 1500
      ∧ (update secondElection { envAt 15018 with esp_random := 5 } []).1._fsm_state
          = DiscoveryFSM.GATEWAY_ELECTION_DELAY
      ∧ (update secondElection { envAt 15018 with esp_random := 5 } []).1._contention_delay_value
          = 700)
    ∧ (restartedElection._fsm_state = DiscoveryFSM.GATEWAY_ELECTION_DELAY
      ∧ restartedElection._fsm_timer_start = 11003
      ∧ restartedElection._contention_delay_value = 700
      ∧ (update restartedElection { envAt 11013 with esp_random := 5 } []).1._fsm_state
          = DiscoveryFSM.GATEWAY_ELECTION_DELAY
      ∧ (update restartedElection { envAt 11013 with esp_random := 5 } []).1._contention_delay_value
          = 700) := by
  decide

/-- C36 (counterexample). The gateway with three children, with a receive callback
registered, gets the `GATEWAY_ANNOUNCE` of another gateway (sender id 7): the whole packet,
tag `0xD1` included, is handed to the receive callback. The node restored from the store,
with a receive callback registered, gets `[0xD5]` from its gateway: it is handed to the
receive callback. -/
theorem control_tags_reach_the_host :
    (setReceiveCallback gatewayWithThree true)._current_role = ROLE_GATEWAY
    ∧ (setReceiveCallback gatewayWithThree true)._fsm_state = DiscoveryFSM.OPERATIONAL_GATEWAY
    ∧ (actualPjonReceiver (setReceiveCallback gatewayWithThree true) (envAt 100001)
        (GATEWAY_ANNOUNCE :: sampleMacG)
        { sender_id := 7, sender_ethernet_address := sampleMacG }).2
      = [Effect.receive_cb 7 (GATEWAY_ANNOUNCE :: sampleMacG)]
    ∧ (setReceiveCallback persistedNode true)._current_role = ROLE_NODE
    ∧ (actualPjonReceiver (setReceiveCallback persistedNode true) (envAt 2)
        [NODE_PING_GATEWAY] { sender_id := 1, sender_ethernet_address := sampleMacG }).2
      = [Effect.receive_cb 1 [NODE_PING_GATEWAY]] := by
  decide

/-- C36 (amended). The receive callback is never called for a packet with tag `0xD4`,
`0xD5` or a `0xD2` with a body of 6 bytes or more at a gateway; never for a packet with tag
`0xD1`, `0xD6` or a `0xD3` with a body of 7 bytes or more at a node; never at all in a role
other than gateway and node, nor at a node for a sender other than its gateway. Every other
packet is handed over, control tag or not: an operational gateway hands every packet with
another first byte (`0xD1`, `0xD3`, `0xD6` and a short `0xD2` among them) to a registered
receive callback, and an operational node does so for every packet of its gateway with
another first byte (`0xD2`, `0xD4`, `0xD5` and a short `0xD3` among them). -/
theorem control_tags_kept_internal (s : Mesh) (env : Env) (t : Nat) (body : List Nat)
    (info : PJON_Packet_Info) :
    (s._current_role = ROLE_GATEWAY →
      t = NODE_ID_ACK ∨ t = NODE_PING_GATEWAY
        ∨ (t = NODE_ID_REQUEST ∧ body.length ≥ ESP_NOW_ETH_ALEN) →
      ∀ sid p, Effect.receive_cb sid p ∉ (actualPjonReceiver s env (t :: body) info).2)
    ∧ (s._current_role = ROLE_NODE →
        t = GATEWAY_PONG_NODE ∨ t = GATEWAY_ANNOUNCE
          ∨ (t = NODE_ID_ASSIGN ∧ body.length ≥ 1 + ESP_NOW_ETH_ALEN) →
        ∀ sid p, Effect.receive_cb sid p ∉ (actualPjonReceiver s env (t :: body) info).2)
    ∧ ((s._current_role ≠ ROLE_GATEWAY ∧ s._current_role ≠ ROLE_NODE)
          ∨ (s._current_role = ROLE_NODE ∧ info.sender_id ≠ s._gatewayPjonId) →
        ∀ sid p, Effect.receive_cb sid p ∉ (actualPjonReceiver s env (t :: body) info).2)
    ∧ (s._current_role = ROLE_GATEWAY → s._fsm_state = DiscoveryFSM.OPERATIONAL_GATEWAY →
        t ≠ NODE_ID_ACK → t ≠ NODE_PING_GATEWAY →
        ¬ (t = NODE_ID_REQUEST ∧ body.length ≥ ESP_NOW_ETH_ALEN) →
        actualPjonReceiver s env (t :: body) info
          = (s, if s._user_receive_cb = true
                then [Effect.receive_cb info.sender_id (t :: body)] else []))
    ∧ (s._current_role = ROLE_NODE → s._fsm_state = DiscoveryFSM.OPERATIONAL_NODE →
        info.sender_id = s._gatewayPjonId →
        t ≠ GATEWAY_PONG_NODE → t ≠ GATEWAY_ANNOUNCE →
        ¬ (t = NODE_ID_ASSIGN ∧ body.length ≥ 1 + ESP_NOW_ETH_ALEN) →
        actualPjonReceiver s env (t :: body) info
          = (s, if s._user_receive_cb = true
                then [Effect.receive_cb info.sender_id (t :: body)] else [])) := by
  have hgn : ¬ ROLE_GATEWAY = ROLE_NODE := by decide
  have hng : ¬ ROLE_NODE = ROLE_GATEWAY := by decide
  refine ⟨?_, ?_, ?_, ?_, ?_⟩
  · intro hrole ht sid p
    have hna : ¬ t = GATEWAY_ANNOUNCE := by
      rcases ht with h | h | h
      · rw [h]; decide
      · rw [h]; decide
      · rw [h.1]; decide
    simp only [actualPjonReceiver, receiveByRole, hrole, hna, false_and, if_false, if_true,
      ite_self]
    unfold receiveAsGateway
    rcases ht with h | h | h
    · have h2 : ¬ NODE_ID_ACK = NODE_ID_REQUEST := by decide
      simp only [h, h2, false_and, if_false, if_true, updateNodeStatus]
      split <;> (try split_ifs) <;> simp
    · have h2 : ¬ NODE_PING_GATEWAY = NODE_ID_REQUEST := by decide
      have h4 : ¬ NODE_PING_GATEWAY = NODE_ID_ACK := by decide
      simp only [h, h2, h4, false_and, if_false, if_true, updateNodeStatus]
      split <;> (try split_ifs) <;> simp
    · simp only [h.1, h.2, and_self, if_true]
      exact handleNodeIdRequest_no_receive_cb _ _ _ _ _ _
  · intro hrole ht sid p
    unfold actualPjonReceiver
    simp only []
    split_ifs with c1 c2
    · exact receiveAnnounceWhileListening_no_receive_cb _ _ _ _ _ _
    all_goals
      simp only [receiveByRole, hrole, hng, if_false, if_true]
      unfold receiveAsNode
      simp only [sendNodeIdAck]
      rcases ht with h | h | h
      · have h3 : ¬ GATEWAY_PONG_NODE = NODE_ID_ASSIGN := by decide
        simp only [h, h3, false_and, if_false, if_true]
        split_ifs <;> simp
      · have h3 : ¬ GATEWAY_ANNOUNCE = NODE_ID_ASSIGN := by decide
        have h6 : ¬ GATEWAY_ANNOUNCE = GATEWAY_PONG_NODE := by decide
        simp only [h, h3, h6, false_and, if_false, if_true, addEspNowPeer]
        split_ifs <;> simp
      · simp only [h.1, h.2, and_self, if_true]
        split_ifs <;> simp
  · intro hrole sid p
    unfold actualPjonReceiver
    simp only []
    split_ifs with c1 c2
    · exact receiveAnnounceWhileListening_no_receive_cb _ _ _ _ _ _
    all_goals
      rcases hrole with ⟨h1, h2⟩ | ⟨h1, h2⟩
      · simp [receiveByRole, h1, h2]
      · simp [receiveByRole, receiveAsNode, h1, h2, hng]
  · intro hrole hfsm h4 h5 h2
    simp only [actualPjonReceiver, receiveByRole, receiveAsGateway, hrole, hfsm, h4, h5, h2,
      if_false, if_true]
    simp
  · intro hrole hfsm hsender h6 h1 h3
    simp only [actualPjonReceiver, receiveByRole, receiveAsNode, hrole, hfsm, hsender, h6, h1,
      h3, hng, if_false, if_true]
    simp

/-- C36 (witness): the ping of child 2 is answered by the gateway and not handed to its
receive callback. -/
theorem control_tags_kept_internal_witness :
    (setReceiveCallback gatewayWithThree true)._current_role = ROLE_GATEWAY
    ∧ (actualPjonReceiver (setReceiveCallback gatewayWithThree true) (envAt 100005)
        [NODE_PING_GATEWAY] { sender_id := 2, sender_ethernet_address := childMac 1 }).2
      = [Effect.pjon_send (childMac 1) 2 [GATEWAY_PONG_NODE], Effect.node_status_cb 2 true]
    ∧ Effect.receive_cb 2 [NODE_PING_GATEWAY]
        ∉ (actualPjonReceiver (setReceiveCallback gatewayWithThree true) (envAt 100005)
            [NODE_PING_GATEWAY] { sender_id := 2, sender_ethernet_address := childMac 1 }).2 :=
  ⟨by decide, by decide,
    (control_tags_kept_internal (setReceiveCallback gatewayWithThree true) (envAt 100005)
      NODE_PING_GATEWAY [] { sender_id := 2, sender_ethernet_address := childMac 1 }).1
      (by decide) (Or.inr (Or.inl rfl)) 2 [NODE_PING_GATEWAY]⟩

/-- C37 (counterexample). The elected gateway with id 1 gets a `NODE_ID_REQUEST` whose body
carries the MAC `childMac 1` while the transport reports the source MAC `sampleMacC`: the
record is stored with `childMac 1`, the `NODE_ID_ASSIGN` is sent to `sampleMacC` and carries
`sampleMacC` as its target MAC. -/
theorem assign_names_transport_mac :
    tableKeys (handleNodeIdRequest (electedGateway 1) 6000
        { sender_id := PJON_NOT_ASSIGNED, sender_ethernet_address := sampleMacC }
        (childMac 1)).1
      = [(2, childMac 1)]
    ∧ (handleNodeIdRequest (electedGateway 1) 6000
        { sender_id := PJON_NOT_ASSIGNED, sender_ethernet_address := sampleMacC }
        (childMac 1)).2
      = [Effect.add_peer sampleMacC 1 true,
         Effect.pjon_send sampleMacC PJON_BROADCAST_ADDRESS (NODE_ID_ASSIGN :: 2 :: sampleMacC)]
    ∧ sampleMacC ≠ childMac 1 := by
  decide

/-- C37 (amended). Whenever `handleNodeIdRequest` answers, it hands the transport exactly
one packet, `[0xD3, a, target]` sent to the MAC `target`, where `target` is the source MAC
the transport reported when that is not all zero, and the requester MAC of the request body
otherwise; the record of id `a` holds the requester MAC of the body. So the target MAC of
the `NODE_ID_ASSIGN` is the MAC of the record when the transport reports no source MAC or
reports the MAC of the body. -/
theorem assign_target_mac (s : Mesh) (now : Nat) (info : PJON_Packet_Info) (m : Mac)
    (hinv : TableInv s) :
    (handleNodeIdRequest s now info m).2 = []
    ∨ ∃ a i,
        (handleNodeIdRequest s now info m).2
          = [Effect.add_peer
                (if info.sender_ethernet_address ≠ esp_now_null_mac
                  then info.sender_ethernet_address else m)
                s._espNowChannel (decide (strlen s._esp_now_pmk > 0)),
             Effect.pjon_send
                (if info.sender_ethernet_address ≠ esp_now_null_mac
                  then info.sender_ethernet_address else m)
                PJON_BROADCAST_ADDRESS
                (NODE_ID_ASSIGN :: a ::
                  (if info.sender_ethernet_address ≠ esp_now_null_mac
                    then info.sender_ethernet_address else m))]
            ++ (if s._user_node_status_cb = true then [Effect.node_status_cb a true] else [])
        ∧ i < (handleNodeIdRequest s now info m).1._known_nodes_count
        ∧ ((handleNodeIdRequest s now info m).1._known_nodes.getD i NodeInfo.blank).pjon_id = a
        ∧ ((handleNodeIdRequest s now info m).1._known_nodes.getD i NodeInfo.blank).mac_addr
            = m := by
  have hM : MAX_NODES_PER_GATEWAY = 30 := rfl
  obtain ⟨hlen, hcount, -, -⟩ := hinv
  have hans : ∀ (s' : Mesh) (a : Nat), s'._espNowChannel = s._espNowChannel →
      s'._esp_now_pmk = s._esp_now_pmk → s'._user_node_status_cb = s._user_node_status_cb →
      answerIdRequest s' info m a
        = [Effect.add_peer
              (if info.sender_ethernet_address ≠ esp_now_null_mac
                then info.sender_ethernet_address else m)
              s._espNowChannel (decide (strlen s._esp_now_pmk > 0)),
           Effect.pjon_send
              (if info.sender_ethernet_address ≠ esp_now_null_mac
                then info.sender_ethernet_address else m)
              PJON_BROADCAST_ADDRESS
              (NODE_ID_ASSIGN :: a ::
                (if info.sender_ethernet_address ≠ esp_now_null_mac
                  then info.sender_ethernet_address else m))]
          ++ (if s._user_node_status_cb = true then [Effect.node_status_cb a true] else []) := by
    intro s' a h1 h2 h3
    simp only [answerIdRequest, addEspNowPeer, sendPjonIdAssignment, updateNodeStatus, h1, h2, h3,
      Bool.and_self, List.singleton_append, List.cons_append, List.nil_append]
  unfold handleNodeIdRequest
  split
  · rename_i idx hidx
    obtain ⟨-, hk, hp, -⟩ := scanLoop_some _ _ _ _ _ hidx
    simp only [beq_iff_eq] at hp
    right
    refine ⟨_, idx, hans _ _ rfl rfl rfl, by simpa using hk, ?_, ?_⟩
    · simp only []
      rw [List.getD_eq_getElem _ _ (by rw [List.length_set]; omega), List.getElem_set_self]
    · simp only []
      rw [List.getD_eq_getElem _ _ (by rw [List.length_set]; omega), List.getElem_set_self]
      exact hp
  · split
    · left; rfl
    · rename_i hlt
      split
      · left; rfl
      · rename_i a cand hs
        right
        have hinc : inc8 s._known_nodes_count = s._known_nodes_count + 1 := by
          unfold inc8; rw [Nat.mod_eq_of_lt (by omega)]
        refine ⟨a, s._known_nodes_count, hans _ _ rfl rfl rfl, ?_, ?_, ?_⟩
        · simp only [hinc]; omega
        · simp only []
          rw [List.getD_eq_getElem _ _ (by rw [List.length_set]; omega), List.getElem_set_self]
        · simp only []
          rw [List.getD_eq_getElem _ _ (by rw [List.length_set]; omega), List.getElem_set_self]

/-- C37 (witness): the first child of the elected gateway, heard from the MAC its request
names. -/
theorem assign_target_mac_witness :
    TableInv (electedGateway 1)
    ∧ (handleNodeIdRequest (electedGateway 1) 6000
        { sender_id := PJON_NOT_ASSIGNED, sender_ethernet_address := childMac 1 }
        (childMac 1)).2
      = [Effect.add_peer (childMac 1) 1 true,
         Effect.pjon_send (childMac 1) PJON_BROADCAST_ADDRESS
           (NODE_ID_ASSIGN :: 2 :: childMac 1)]
    ∧ ((handleNodeIdRequest (electedGateway 1) 6000
          { sender_id := PJON_NOT_ASSIGNED, sender_ethernet_address := childMac 1 }
          (childMac 1)).2 = []
      ∨ ∃ a i,
        (handleNodeIdRequest (electedGateway 1) 6000
          { sender_id := PJON_NOT_ASSIGNED, sender_ethernet_address := childMac 1 }
          (childMac 1)).2
          = [Effect.add_peer
                (if childMac 1 ≠ esp_now_null_mac then childMac 1 else childMac 1)
                (electedGateway 1)._espNowChannel
                (decide (strlen (electedGateway 1)._esp_now_pmk > 0)),
             Effect.pjon_send
                (if childMac 1 ≠ esp_now_null_mac then childMac 1 else childMac 1)
                PJON_BROADCAST_ADDRESS
                (NODE_ID_ASSIGN :: a ::
                  (if childMac 1 ≠ esp_now_null_mac then childMac 1 else childMac 1))]
            ++ (if (electedGateway 1)._user_node_status_cb = true
                then [Effect.node_status_cb a true] else [])
        ∧ i < (handleNodeIdRequest (electedGateway 1) 6000
            { sender_id := PJON_NOT_ASSIGNED, sender_ethernet_address := childMac 1 }
            (childMac 1)).1._known_nodes_count
        ∧ ((handleNodeIdRequest (electedGateway 1) 6000
            { sender_id := PJON_NOT_ASSIGNED, sender_ethernet_address := childMac 1 }
            (childMac 1)).1._known_nodes.getD i NodeInfo.blank).pjon_id = a
        ∧ ((handleNodeIdRequest (electedGateway 1) 6000
            { sender_id := PJON_NOT_ASSIGNED, sender_ethernet_address := childMac 1 }
            (childMac 1)).1._known_nodes.getD i NodeInfo.blank).mac_addr = childMac 1) :=
  ⟨by unfold TableInv NodesInv; decide, by decide,
    assign_target_mac (electedGateway 1) 6000
      { sender_id := PJON_NOT_ASSIGNED, sender_ethernet_address := childMac 1 } (childMac 1)
      (by unfold TableInv NodesInv; decide)⟩

/-- C39. In every state with `_is_begun = true` reached from construction by any sequence
of host calls (with or without `setEspNowPmk` among them), the key buffer holds 16 bytes
other than NUL followed by a NUL, so `strlen` of it is 16 and the flag
`strlen(_esp_now_pmk) > 0` is true; `addEspNowPeer` registers the peer with the flag it is
given, and every peer registration of an `update()` call is encrypted. -/
theorem key_of_begun_coordinator (nvs : Nvs) (calls : List Call)
    (hb : (runCalls (construct nvs) calls)._is_begun = true) :
    KeyFilled (runCalls (construct nvs) calls)._esp_now_pmk
    ∧ strlen (runCalls (construct nvs) calls)._esp_now_pmk = ROKOR_MESH_ESPNOW_PMK_LEN
    ∧ decide (strlen (runCalls (construct nvs) calls)._esp_now_pmk > 0) = true
    ∧ (∀ (mac : Mac) (channel : Nat) (link : Bool),
        addEspNowPeer (runCalls (construct nvs) calls) mac channel link
          = [Effect.add_peer mac channel link])
    ∧ (∀ (env : Env) (inbound : List Inbound) (mac : Mac) (channel : Nat) (encrypt : Bool),
        Effect.add_peer mac channel encrypt
            ∈ (update (runCalls (construct nvs) calls) env inbound).2 →
          encrypt = true) := by
  have hkey : KeyFilled (runCalls (construct nvs) calls)._esp_now_pmk :=
    runCalls_key calls (construct nvs)
      (by intro h; rcases h with h | h <;> exact absurd (show false = true from h) (by decide)) (Or.inr hb)
  generalize runCalls (construct nvs) calls = t at hkey
  have hlen : strlen t._esp_now_pmk = ROKOR_MESH_ESPNOW_PMK_LEN := strlen_of_filled _ hkey
  have hpos : 0 < strlen t._esp_now_pmk := by
    rw [hlen]; decide
  refine ⟨hkey, hlen, decide_eq_true hpos, ?_, ?_⟩
  · intro mac channel link
    unfold addEspNowPeer
    rw [decide_eq_true hpos, Bool.and_true]
  · intro env inbound mac channel encrypt hmem
    exact update_encrypted t env inbound hpos _ hmem

/-- The host sets the three-byte key `key` and begins: the buffer holds a 16-byte key. -/
theorem key_of_begun_coordinator_witness :
    (runCalls (construct persistedNodeStore) customKeyCalls)._is_begun = true
    ∧ strlen (runCalls (construct persistedNodeStore) customKeyCalls)._esp_now_pmk
        = ROKOR_MESH_ESPNOW_PMK_LEN :=
  ⟨by decide, (key_of_begun_coordinator persistedNodeStore customKeyCalls (by decide)).2.1⟩

/-- C40. A node restored from the store enters `OPERATIONAL_NODE` at clock value
`2^32 - 1000` with a ping interval of 30000 ms and pings at once: the time of the next
ping is `(2^32 - 1000 + 30000) mod 2^32 = 29000`. The test `current_time >= next` then
holds on the very next millisecond: the tick at `2^32 - 999` sends the second ping, 1 ms
after the first. -/
theorem ping_spacing_lost_at_wrap :
    lateNode._node_ping_gateway_interval_ms = 30000
    ∧ (update lateNode (envAt 4294966296) []).1._fsm_state = DiscoveryFSM.OPERATIONAL_NODE
    ∧ (update lateNode (envAt 4294966296) []).2
        = [Effect.add_peer sampleMacG 1 true, Effect.add_peer sampleMacG 1 true,
           Effect.pjon_send sampleMacG 1 [NODE_PING_GATEWAY]]
    ∧ (update lateNode (envAt 4294966296) []).1._next_gateway_ping_time = 29000
    ∧ (update (update lateNode (envAt 4294966296) []).1 (envAt 4294966297) []).2
        = [Effect.pjon_send sampleMacG 1 [NODE_PING_GATEWAY]]
    ∧ (update (update lateNode (envAt 4294966296) []).1 (envAt 4294966297) []).1._fsm_state
        = DiscoveryFSM.OPERATIONAL_NODE
    ∧ 4294966297 - 4294966296 < lateNode._node_ping_gateway_interval_ms := by
  decide

end RokorMesh
